import Mathlib

/-!
# H.265 encoder control plane (gstvaapiencoder_h265.c)

A shallow embedding of `gst-libs/gst/vaapi/gstvaapiencoder_h265.c`: the reorder
engine, the reference picture store, the selection of tier and level, the
partition into slices, the slice parameters with the slice QP, the bit writers
of the packed headers, of the parameter sets and of the inline reference
picture set, the codec configuration record, the configuration of the profile,
the rounding of the HRD parameters and the sequence parameter record, with the
properties proved about them.

Conventions of the embedding:

* `guint` / `guint32` values are natural numbers; every C operation that can
  wrap is written with an explicit `% 2 ^ 32`.
* A `GQueue` is a `List`, head first: `g_queue_push_tail` appends,
  `g_queue_pop_head` takes the first element, `g_queue_pop_tail` the last.
* `g_return_if_fail (c)` returns from the function when `c` is false,
  `g_return_val_if_fail (c, v)` returns `v`.
* A failed `g_assert` stops the process; a call that ends this way is an
  `Outcome.abort`, carrying the encoder state at that point.
* The C operator `%` is `Nat.mod`; its divisors (`max_pic_order_cnt`,
  the keyframe period) are non-zero in a configured encoder.
* The presentation time stamp and the sync-point flag of a
  `GstVideoCodecFrame`, which the functions below also touch, are left out.
-/

namespace GstVaapiEncoderH265

/-! ## Data model -/

/-- Picture types (`GstVaapiPictureType`); `NONE` is a picture not yet typed. -/
inductive GstVaapiPictureType where
  | NONE
  | I
  | P
  | B
  deriving DecidableEq, Repr

/-- The part of a `GstVideoCodecFrame` the reorder engine reads: the identity
of the frame and its force-keyframe flag. -/
structure GstVideoCodecFrame where
  id : Nat := 0
  force_keyframe : Bool := false
  deriving DecidableEq, Repr

/-- An encode-order picture (`GstVaapiEncPicture`): the frame it owns, its
picture order count, its type and the `GST_VAAPI_ENC_PICTURE_FLAG_IDR` flag. -/
structure GstVaapiEncPicture where
  frame : GstVideoCodecFrame := {}
  poc : Nat := 0
  type : GstVaapiPictureType := GstVaapiPictureType.NONE
  idr : Bool := false
  deriving DecidableEq, Repr

/-- An entry of the reference store (`GstVaapiEncoderH265Ref`): the handle of
the reconstructed surface and the POC of the picture. -/
structure GstVaapiEncoderH265Ref where
  pic : Nat := 0
  poc : Nat := 0
  deriving DecidableEq, Repr

/-- States of the reorder engine (`GstVaapiEncH265ReorderState`). -/
inductive GstVaapiEncH265ReorderState where
  | REORD_NONE
  | REORD_DUMP_FRAMES
  | REORD_WAIT_FRAMES
  deriving DecidableEq, Repr

/-- The reference pool (`GstVaapiH265RefPool`); `ref_list` is oldest first. -/
structure GstVaapiH265RefPool where
  ref_list : List GstVaapiEncoderH265Ref := []
  max_ref_frames : Nat := 0
  max_reflist0_count : Nat := 0
  max_reflist1_count : Nat := 0
  deriving DecidableEq, Repr

/-- The reorder pool (`GstVaapiH265ReorderPool`). -/
structure GstVaapiH265ReorderPool where
  reorder_frame_list : List GstVaapiEncPicture := []
  reorder_state : GstVaapiEncH265ReorderState := GstVaapiEncH265ReorderState.REORD_NONE
  frame_index : Nat := 0
  cur_present_index : Nat := 0
  deriving DecidableEq, Repr

/-- Tiers (`GstVaapiTierH265`). -/
inductive GstVaapiTierH265 where
  | UNKNOWN
  | MAIN
  | HIGH
  deriving DecidableEq, Repr

/-- Profiles (`GstVaapiProfile`): `UNKNOWN` (the value 0), the H.265 profiles
that the functions below tell apart, and `OTHER` for every other value. -/
inductive GstVaapiProfile where
  | UNKNOWN
  | H265_MAIN
  | H265_MAIN10
  | H265_MAIN_STILL_PICTURE
  | H265_MAIN_444
  | H265_MAIN_444_10
  | H265_MAIN_422_10
  | OTHER
  deriving DecidableEq, Repr

/-- Entry points (`GstVaapiEntrypoint`): `INVALID` and the two encoding entry
points. -/
inductive GstVaapiEntrypoint where
  | INVALID
  | SLICE_ENCODE
  | SLICE_ENCODE_LP
  deriving DecidableEq, Repr

/-- Video formats (`GstVideoFormat`): those `ensure_profile` tells apart, and
`OTHER` for every other format (NV12, I420 and so on). -/
inductive GstVideoFormat where
  | P010_10LE
  | VUYA
  | Y410
  | Y210
  | YUY2
  | OTHER
  deriving DecidableEq, Repr

/-- Rate control modes (`GstVaapiRateControl`): those the functions below tell
apart, and `OTHER` for every other mode. -/
inductive GstVaapiRateControl where
  | CQP
  | CBR
  | VBR
  | QVBR
  | OTHER
  deriving DecidableEq, Repr

/-- Tuning options (`GstVaapiEncoderTune`): high compression, and `OTHER` for
every other option. -/
inductive GstVaapiEncoderTune where
  | HIGH_COMPRESSION
  | OTHER
  deriving DecidableEq, Repr

/-- The fields of `struct _GstVaapiEncoderH265` that the functions below use,
with those of the base encoder they read: `keyframe_period`, `bitrate` (in
kbps), the frame rate `fps_n / fps_d`, the video format, the rate control
mode and the tuning option. A stored parameter set (`vps_data`, `sps_data`,
`pps_data`) is the list of its bytes. The fields `qp_ip` and `qp_ib` are `guint32`
fields that hold a signed property value: a negative value `-v` is stored as
`2 ^ 32 - v`. -/
structure Encoder where
  keyframe_period : Nat := 0
  idr_period : Nat := 0
  init_qp : Nat := 0
  min_qp : Nat := 0
  max_qp : Nat := 0
  qp_i : Nat := 0
  num_bframes : Nat := 0
  max_dec_pic_buffering : Nat := 0
  max_num_reorder_pics : Nat := 0
  max_pic_order_cnt : Nat := 0
  log2_max_pic_order_cnt : Nat := 0
  idr_num : Nat := 0
  num_ref_frames : Nat := 0
  ref_pool : GstVaapiH265RefPool := {}
  reorder_pool : GstVaapiH265ReorderPool := {}
  tier : GstVaapiTierH265 := GstVaapiTierH265.UNKNOWN
  level : Nat := 0
  level_idc : Nat := 0
  bitrate : Nat := 0
  fps_n : Nat := 0
  fps_d : Nat := 0
  luma_width : Nat := 0
  luma_height : Nat := 0
  ctu_width : Nat := 0
  ctu_height : Nat := 0
  num_slices : Nat := 0
  num_tile_cols : Nat := 0
  num_tile_rows : Nat := 0
  first_slice_segment_in_pic_flag : Bool := false
  vps_data : Option (List Nat) := none
  sps_data : Option (List Nat) := none
  pps_data : Option (List Nat) := none
  profile : GstVaapiProfile := GstVaapiProfile.UNKNOWN
  entrypoint : GstVaapiEntrypoint := GstVaapiEntrypoint.INVALID
  profile_idc : Nat := 0
  max_profile_idc : Nat := 0
  hw_max_profile_idc : Nat := 0
  config_changed : Bool := false
  format : GstVideoFormat := GstVideoFormat.OTHER
  rate_control : GstVaapiRateControl := GstVaapiRateControl.CQP
  tune : GstVaapiEncoderTune := GstVaapiEncoderTune.OTHER
  bitrate_bits : Nat := 0
  cpb_length : Nat := 0
  cpb_length_bits : Nat := 0
  conformance_window_flag : Bool := false
  conf_win_left_offset : Nat := 0
  conf_win_right_offset : Nat := 0
  conf_win_top_offset : Nat := 0
  conf_win_bottom_offset : Nat := 0
  qp_ip : Nat := 0
  qp_ib : Nat := 0
  low_delay_b : Bool := false
  deriving DecidableEq, Repr

/-- Return statuses (`GstVaapiEncoderStatus`): those the functions below
return. -/
inductive GstVaapiEncoderStatus where
  | SUCCESS
  | NO_SURFACE
  | ERROR_UNKNOWN
  | ERROR_ALLOCATION_FAILED
  | ERROR_OPERATION_FAILED
  | ERROR_UNSUPPORTED_PROFILE
  | ERROR_INVALID_HEADER
  deriving DecidableEq, Repr

/-- How a call ends: it returns a value and leaves an encoder state, or a
`g_assert` fails and the process stops in the given encoder state. -/
inductive Outcome (α : Type) where
  | ret (value : α) (enc : Encoder)
  | abort (enc : Encoder)
  deriving DecidableEq, Repr

/-- The encoder state a call leaves (at its return or at the failed assertion). -/
def Outcome.enc {α : Type} : Outcome α → Encoder
  | Outcome.ret _ e => e
  | Outcome.abort e => e

/-- Whether the call returned (no `g_assert` failed). -/
def Outcome.returned {α : Type} : Outcome α → Bool
  | Outcome.ret _ _ => true
  | Outcome.abort _ => false

/-! ## POC arithmetic -/

/-- Modular POC comparison:
`((poc1 - poc2) & (max_poc - 1)) < max_poc / 2` on 32-bit unsigned values. -/
def _poc_greater_than (poc1 poc2 max_poc : Nat) : Bool :=
  decide ((((poc1 % 2 ^ 32 + 2 ^ 32 - poc2 % 2 ^ 32) % 2 ^ 32)
      &&& ((max_poc % 2 ^ 32 + 2 ^ 32 - 1) % 2 ^ 32))
    < max_poc % 2 ^ 32 / 2)

/-- The loop `while (num) { ++ret; num >>= 1; }`; a 32-bit `num` is zero after
at most 32 rounds, which is the fuel the caller gives. -/
def h265_count_bits : Nat → Nat → Nat → Nat
  | 0, _, ret => ret
  | fuel + 1, num, ret => if num ≠ 0 then h265_count_bits fuel (num >>> 1) (ret + 1) else ret

/-- The value of `log2_max_pic_order_cnt`: the bit length of `num`, clamped to 4..16. -/
def h265_get_log2_max_pic_order_cnt (num : Nat) : Nat :=
  let ret := h265_count_bits 32 num 0
  if ret ≤ 4 then 4 else if ret > 16 then 16 else ret

/-! ## Picture marking -/

/-- Handle a new GOP start. -/
def reset_gop_start (encoder : Encoder) : Encoder :=
  { encoder with
    reorder_pool := { encoder.reorder_pool with frame_index := 1, cur_present_index := 0 }
    idr_num := (encoder.idr_num + 1) % 2 ^ 32 }

/-- Mark the picture as a B-frame (only a picture not yet typed is changed). -/
def set_b_frame (pic : GstVaapiEncPicture) : GstVaapiEncPicture :=
  if pic.type = GstVaapiPictureType.NONE then { pic with type := GstVaapiPictureType.B } else pic

/-- Mark the picture as a P-frame (only a picture not yet typed is changed). -/
def set_p_frame (pic : GstVaapiEncPicture) : GstVaapiEncPicture :=
  if pic.type = GstVaapiPictureType.NONE then { pic with type := GstVaapiPictureType.P } else pic

/-- Mark the picture as an I-frame (only a picture not yet typed is changed). -/
def set_i_frame (pic : GstVaapiEncPicture) : GstVaapiEncPicture :=
  if pic.type = GstVaapiPictureType.NONE then { pic with type := GstVaapiPictureType.I } else pic

/-- Mark the picture as an IDR frame: type I, POC 0 and the IDR flag
(only a picture not yet typed is changed). -/
def set_idr_frame (pic : GstVaapiEncPicture) : GstVaapiEncPicture :=
  if pic.type = GstVaapiPictureType.NONE then
    { pic with type := GstVaapiPictureType.I, poc := 0, idr := true }
  else pic

/-- Mark the picture as a key frame; an IDR first resets the GOP counters. -/
def set_key_frame (picture : GstVaapiEncPicture) (encoder : Encoder) (is_idr : Bool) :
    GstVaapiEncPicture × Encoder :=
  if is_idr then (set_idr_frame picture, reset_gop_start encoder)
  else (set_i_frame picture, encoder)

/-! ## Reorder engine -/

/-- The function `gst_vaapi_encoder_h265_reordering`: `frame = none` is the call with
a NULL frame. The value returned is the status and the picture stored in
`*output`. Creating the picture of a new frame is taken to succeed. -/
def gst_vaapi_encoder_h265_reordering (encoder : Encoder) (frame : Option GstVideoCodecFrame) :
    Outcome (GstVaapiEncoderStatus × Option GstVaapiEncPicture) :=
  let reorder_pool := encoder.reorder_pool
  match frame with
  | none =>
    if reorder_pool.reorder_state ≠ GstVaapiEncH265ReorderState.REORD_DUMP_FRAMES then
      Outcome.ret (GstVaapiEncoderStatus.NO_SURFACE, none) encoder
    else if ¬ (encoder.num_bframes > 0) then
      Outcome.abort encoder
    else
      match reorder_pool.reorder_frame_list with
      | [] => Outcome.ret (GstVaapiEncoderStatus.ERROR_UNKNOWN, none) encoder
      | picture :: rest =>
        let state :=
          if rest.isEmpty then GstVaapiEncH265ReorderState.REORD_WAIT_FRAMES
          else reorder_pool.reorder_state
        Outcome.ret (GstVaapiEncoderStatus.SUCCESS, some picture)
          { encoder with
            reorder_pool :=
              { reorder_pool with reorder_frame_list := rest, reorder_state := state } }
  | some frame =>
    let cur_present_index := (reorder_pool.cur_present_index + 1) % 2 ^ 32
    let picture : GstVaapiEncPicture :=
      { frame := frame, poc := cur_present_index % encoder.max_pic_order_cnt,
        type := GstVaapiPictureType.NONE, idr := false }
    let is_idr : Bool :=
      reorder_pool.frame_index == 0 || decide (reorder_pool.frame_index ≥ encoder.idr_period)
    if is_idr || frame.force_keyframe
        || reorder_pool.frame_index % encoder.keyframe_period == 0 then
      let encoder1 : Encoder :=
        { encoder with
          reorder_pool :=
            { reorder_pool with
              cur_present_index := cur_present_index
              frame_index := (reorder_pool.frame_index + 1) % 2 ^ 32 } }
      if encoder.num_bframes ≠ 0 ∧ reorder_pool.reorder_frame_list ≠ [] then
        let p_pic := set_p_frame (reorder_pool.reorder_frame_list.getLast?.getD picture)
        let marked := reorder_pool.reorder_frame_list.dropLast.map set_b_frame
        let key := set_key_frame picture encoder1 is_idr
        Outcome.ret (GstVaapiEncoderStatus.SUCCESS, some p_pic)
          { key.2 with
            reorder_pool :=
              { key.2.reorder_pool with
                reorder_frame_list := marked ++ [key.1]
                reorder_state := GstVaapiEncH265ReorderState.REORD_DUMP_FRAMES } }
      else
        let key := set_key_frame picture encoder1 is_idr
        if key.2.reorder_pool.reorder_frame_list ≠ [] then
          Outcome.abort key.2
        else if encoder.num_bframes ≠ 0 then
          Outcome.ret (GstVaapiEncoderStatus.SUCCESS, some key.1)
            { key.2 with
              reorder_pool :=
                { key.2.reorder_pool with
                  reorder_state := GstVaapiEncH265ReorderState.REORD_WAIT_FRAMES } }
        else
          Outcome.ret (GstVaapiEncoderStatus.SUCCESS, some key.1) key.2
    else
      let pool1 : GstVaapiH265ReorderPool :=
        { reorder_pool with
          cur_present_index := cur_present_index
          frame_index := (reorder_pool.frame_index + 1) % 2 ^ 32 }
      if reorder_pool.reorder_state = GstVaapiEncH265ReorderState.REORD_WAIT_FRAMES
          ∧ reorder_pool.reorder_frame_list.length < encoder.num_bframes then
        Outcome.ret (GstVaapiEncoderStatus.NO_SURFACE, none)
          { encoder with
            reorder_pool :=
              { pool1 with reorder_frame_list := reorder_pool.reorder_frame_list ++ [picture] } }
      else
        let p_picture := set_p_frame picture
        if reorder_pool.reorder_state = GstVaapiEncH265ReorderState.REORD_WAIT_FRAMES then
          let pool2 : GstVaapiH265ReorderPool :=
            { pool1 with
              reorder_frame_list := reorder_pool.reorder_frame_list.map set_b_frame
              reorder_state := GstVaapiEncH265ReorderState.REORD_DUMP_FRAMES }
          if pool2.reorder_frame_list = [] then
            Outcome.abort { encoder with reorder_pool := pool2 }
          else
            Outcome.ret (GstVaapiEncoderStatus.SUCCESS, some p_picture)
              { encoder with reorder_pool := pool2 }
        else
          Outcome.ret (GstVaapiEncoderStatus.SUCCESS, some p_picture)
            { encoder with reorder_pool := pool1 }

/-- Iterator state of `gst_vaapi_encoder_h265_get_pending_reordered`
(`struct _PendingIterState`). -/
structure PendingIterState where
  pic_type : GstVaapiPictureType
  deriving DecidableEq, Repr

/-- The function `gst_vaapi_encoder_h265_get_pending_reordered`: `state = none`
is a NULL `*state`, for which the iterator is created with `pic_type = P`.
Returns the boolean result, `*picture`, the encoder and the iterator. -/
def gst_vaapi_encoder_h265_get_pending_reordered (encoder : Encoder)
    (state : Option PendingIterState) :
    Bool × Option GstVaapiEncPicture × Encoder × PendingIterState :=
  let iter : PendingIterState :=
    match state with
    | none => { pic_type := GstVaapiPictureType.P }
    | some it => it
  let reorder_pool := encoder.reorder_pool
  match reorder_pool.reorder_frame_list.getLast? with
  | none => (false, none, encoder, iter)
  | some pic =>
    let encoder1 : Encoder :=
      { encoder with
        reorder_pool :=
          { reorder_pool with
            reorder_frame_list := reorder_pool.reorder_frame_list.dropLast } }
    if iter.pic_type = GstVaapiPictureType.P then
      (true, some (set_p_frame pic), encoder1, { pic_type := GstVaapiPictureType.B })
    else if iter.pic_type = GstVaapiPictureType.B then
      (true, some (set_b_frame pic), encoder1, iter)
    else
      (true, some pic, encoder1, iter)

/-! ## Configuration -/

/-- The function `gst_vaapi_encoder_h265_init`: the encoder fields are those the
properties give; the function initialises the two pools. -/
def gst_vaapi_encoder_h265_init (encoder : Encoder) : Encoder :=
  { encoder with
    reorder_pool :=
      { reorder_frame_list := []
        reorder_state := GstVaapiEncH265ReorderState.REORD_NONE
        frame_index := 0
        cur_present_index := 0 }
    ref_pool :=
      { ref_list := [], max_ref_frames := 0, max_reflist0_count := 1, max_reflist1_count := 1 } }

/-- The function `reset_properties`. The two numbers are what
`gst_vaapi_encoder_ensure_max_num_ref_frames` (base encoder, not in these
sources) stores in `max_num_ref_frames_0` and `max_num_ref_frames_1`. The
slice count and `cts_offset` are left out. Of the two `g_assert`s, the first
checks the result of the external `gst_vaapi_encoder_ensure_num_slices`, taken
to succeed; the second, `log2_max_pic_order_cnt >= 4`, holds for every value
`h265_get_log2_max_pic_order_cnt` returns. -/
def reset_properties (encoder : Encoder) (max_num_ref_frames_0 max_num_ref_frames_1 : Nat) :
    Encoder :=
  let idr_period :=
    if encoder.idr_period < encoder.keyframe_period then encoder.keyframe_period
    else encoder.idr_period
  let min_qp := if encoder.min_qp > encoder.init_qp then encoder.init_qp else encoder.min_qp
  let max_qp := if encoder.max_qp < encoder.init_qp then encoder.init_qp else encoder.max_qp
  let num_bframes0 :=
    if max_num_ref_frames_1 < 1 ∧ encoder.num_bframes > 0 then 0 else encoder.num_bframes
  let num_ref_frames :=
    if encoder.num_ref_frames > max_num_ref_frames_0 then max_num_ref_frames_0
    else encoder.num_ref_frames
  let half_period := (encoder.keyframe_period + 1) % 2 ^ 32 / 2
  let num_bframes := if num_bframes0 > half_period then half_period else num_bframes0
  let log2_max_pic_order_cnt := h265_get_log2_max_pic_order_cnt idr_period
  let max_reflist0_count := num_ref_frames
  let max_reflist1_count := if num_bframes > 0 then 1 else 0
  { encoder with
    idr_period := idr_period
    min_qp := min_qp
    max_qp := max_qp
    qp_i := encoder.init_qp
    num_bframes := num_bframes
    num_ref_frames := num_ref_frames
    log2_max_pic_order_cnt := log2_max_pic_order_cnt
    max_pic_order_cnt := 1 <<< log2_max_pic_order_cnt
    idr_num := 0
    max_dec_pic_buffering :=
      if num_bframes ≠ 0 then (num_ref_frames + 2) % 2 ^ 32 else (num_ref_frames + 1) % 2 ^ 32
    max_num_reorder_pics := if num_bframes ≠ 0 then 1 else 0
    ref_pool :=
      { encoder.ref_pool with
        max_reflist0_count := max_reflist0_count
        max_reflist1_count := max_reflist1_count
        max_ref_frames := (max_reflist0_count + max_reflist1_count) % 2 ^ 32 }
    reorder_pool := { encoder.reorder_pool with frame_index := 0 } }

/-! ## Reference picture store -/

/-- The loop `while (!g_queue_is_empty (q)) reference_pic_free (g_queue_pop_head (q));`
of `reference_list_update`: the queue it leaves. -/
def pop_all_refs : List GstVaapiEncoderH265Ref → List GstVaapiEncoderH265Ref
  | [] => []
  | _ :: rest => pop_all_refs rest

/-- The function `reference_pic_create`: the entry for the picture and its surface. -/
def reference_pic_create (picture : GstVaapiEncPicture) (surface : Nat) :
    GstVaapiEncoderH265Ref :=
  { pic := surface, poc := picture.poc }

/-- The function `reference_list_update`. The value is the boolean returned; the
call aborts when the `g_assert` on the store length fails, after the store
has been written. -/
def reference_list_update (encoder : Encoder) (picture : GstVaapiEncPicture) (surface : Nat) :
    Outcome Bool :=
  let ref_pool := encoder.ref_pool
  if picture.type = GstVaapiPictureType.B then
    Outcome.ret true encoder
  else
    let kept :=
      if picture.idr then pop_all_refs ref_pool.ref_list
      else if ref_pool.ref_list.length ≥ ref_pool.max_ref_frames then ref_pool.ref_list.tail
      else ref_pool.ref_list
    let encoder1 : Encoder :=
      { encoder with
        ref_pool := { ref_pool with ref_list := kept ++ [reference_pic_create picture surface] } }
    if encoder1.ref_pool.ref_list.length ≤ ref_pool.max_ref_frames then
      Outcome.ret true encoder1
    else
      Outcome.abort encoder1

/-- How the first loop of `reference_list_init` ends. -/
inductive RefScan where
  | assert_failed
  | not_found
  | found (list_0 : List GstVaapiEncoderH265Ref) (list_1 : List GstVaapiEncoderH265Ref)
  deriving DecidableEq, Repr

/-- The first loop of `reference_list_init`, walking from the tail link towards
the head. The first list is the part of the queue still to visit, most recent
entry first; the second holds the entries already passed, in queue order. At
the first entry the picture is greater than, the loop stops: `list_0_start`
is that link (the entries from it towards the head) and `list_1_start` the
link after it (the entries from there towards the tail). An entry with the
POC of the picture fails the `g_assert`. -/
def reference_list_scan (poc max_poc : Nat) :
    List GstVaapiEncoderH265Ref → List GstVaapiEncoderH265Ref → RefScan
  | [], _ => RefScan.not_found
  | tmp :: previous, passed =>
    if tmp.poc = poc then RefScan.assert_failed
    else if _poc_greater_than poc tmp.poc max_poc then RefScan.found (tmp :: previous) passed
    else reference_list_scan poc max_poc previous (tmp :: passed)

/-- The function `reference_list_init`: the value is `reflist_0` and `reflist_1`
(the counts are the lengths). The C arrays have 15 slots. The call aborts
when an entry has the POC of the picture or when no entry is found for
`list_0_start`. -/
def reference_list_init (encoder : Encoder) (picture : GstVaapiEncPicture) :
    Outcome (List GstVaapiEncoderH265Ref × List GstVaapiEncoderH265Ref) :=
  if picture.type = GstVaapiPictureType.I then
    Outcome.ret ([], []) encoder
  else
    match reference_list_scan picture.poc encoder.max_pic_order_cnt
        encoder.ref_pool.ref_list.reverse [] with
    | RefScan.assert_failed => Outcome.abort encoder
    | RefScan.not_found => Outcome.abort encoder
    | RefScan.found list_0 list_1 =>
      if picture.type ≠ GstVaapiPictureType.B then Outcome.ret (list_0, []) encoder
      else Outcome.ret (list_0, list_1) encoder

/-- The function `ensure_slices` up to its call of `add_slice_headers`: the value
is the two reference lists, cut to their counts, that are handed to
`add_slice_headers` (which is taken to succeed). The call aborts when
`reflist_0_count + reflist_1_count <= max_ref_frames` fails. -/
def ensure_slices (encoder : Encoder) (picture : GstVaapiEncPicture) :
    Outcome (List GstVaapiEncoderH265Ref × List GstVaapiEncoderH265Ref) :=
  let lists :=
    if picture.type ≠ GstVaapiPictureType.I then reference_list_init encoder picture
    else Outcome.ret ([], []) encoder
  match lists with
  | Outcome.abort e => Outcome.abort e
  | Outcome.ret (reflist_0, reflist_1) e =>
    if (reflist_0.length + reflist_1.length) % 2 ^ 32 ≤ e.ref_pool.max_ref_frames then
      Outcome.ret
        (reflist_0.take e.ref_pool.max_reflist0_count,
          reflist_1.take e.ref_pool.max_reflist1_count) e
    else Outcome.abort e

/-- The function `gst_vaapi_encoder_h265_encode`, reduced to `ensure_slices` and
`reference_list_update`; the other steps (parameter buffers, the hardware
call) are taken to succeed. `reconstruct` is the surface the call creates.
The value is the reference lists of the picture. -/
def gst_vaapi_encoder_h265_encode (encoder : Encoder) (picture : GstVaapiEncPicture)
    (reconstruct : Nat) :
    Outcome (List GstVaapiEncoderH265Ref × List GstVaapiEncoderH265Ref) :=
  match ensure_slices encoder picture with
  | Outcome.abort e => Outcome.abort e
  | Outcome.ret lists encoder1 =>
    match reference_list_update encoder1 picture reconstruct with
    | Outcome.abort e => Outcome.abort e
    | Outcome.ret _ encoder2 => Outcome.ret lists encoder2

/-! ## The caller's protocol -/

/-- What a run of the caller's protocol yields: the pictures received, in the
order received, the encoder state left, and whether the protocol ran to its
regular end (every drain loop ended on `NO_SURFACE`, no call failed). -/
structure Emitted where
  pictures : List GstVaapiEncPicture
  encoder : Encoder
  complete : Bool
  deriving DecidableEq, Repr

/-- Modelled from the spec: the drain loop of the caller (the base encoder, which
is not part of these sources). It calls `gst_vaapi_encoder_h265_reordering` with a
NULL frame and collects the picture returned, until a call does not return
`SUCCESS`; it is complete when that last call returned `NO_SURFACE`. The
first argument bounds the number of calls. -/
def drain : Nat → Encoder → Emitted
  | 0, encoder => { pictures := [], encoder := encoder, complete := false }
  | fuel + 1, encoder =>
    match gst_vaapi_encoder_h265_reordering encoder none with
    | Outcome.ret (GstVaapiEncoderStatus.SUCCESS, some picture) encoder1 =>
      let rest := drain fuel encoder1
      { rest with pictures := picture :: rest.pictures }
    | Outcome.ret (GstVaapiEncoderStatus.NO_SURFACE, _) encoder1 =>
      { pictures := [], encoder := encoder1, complete := true }
    | other => { pictures := [], encoder := other.enc, complete := false }

/-- Modelled from the spec: one frame submitted under the drain protocol. When
the call with the frame returns a picture, the caller drains; each draining
call takes one picture from the reorder buffer, so one call more than the
buffer holds is enough. -/
def put_frame (encoder : Encoder) (frame : GstVideoCodecFrame) : Emitted :=
  match gst_vaapi_encoder_h265_reordering encoder (some frame) with
  | Outcome.ret (GstVaapiEncoderStatus.SUCCESS, some picture) encoder1 =>
    let rest := drain (encoder1.reorder_pool.reorder_frame_list.length + 1) encoder1
    { rest with pictures := picture :: rest.pictures }
  | Outcome.ret (GstVaapiEncoderStatus.NO_SURFACE, _) encoder1 =>
    { pictures := [], encoder := encoder1, complete := true }
  | other => { pictures := [], encoder := other.enc, complete := false }

/-- Modelled from the spec: a sequence of frames submitted one after the other
under the drain protocol. -/
def put_frames (encoder : Encoder) : List GstVideoCodecFrame → Emitted
  | [] => { pictures := [], encoder := encoder, complete := true }
  | frame :: frames =>
    let first := put_frame encoder frame
    let rest := put_frames first.encoder frames
    { pictures := first.pictures ++ rest.pictures, encoder := rest.encoder,
      complete := first.complete && rest.complete }

/-- Modelled from the spec: the end-of-stream loop of the caller. It calls
`gst_vaapi_encoder_h265_get_pending_reordered` with one iterator state until
the call returns FALSE. The first argument bounds the number of calls. -/
def get_pending : Nat → Encoder → Option PendingIterState → Emitted
  | 0, encoder, _ => { pictures := [], encoder := encoder, complete := false }
  | fuel + 1, encoder, state =>
    match gst_vaapi_encoder_h265_get_pending_reordered encoder state with
    | (true, some picture, encoder1, iter) =>
      let rest := get_pending fuel encoder1 (some iter)
      { rest with pictures := picture :: rest.pictures }
    | (false, _, encoder1, _) => { pictures := [], encoder := encoder1, complete := true }
    | (_, _, encoder1, _) => { pictures := [], encoder := encoder1, complete := false }

/-- Modelled from the spec: a whole session. The frames are submitted under the
drain protocol, then the pending pictures are fetched with a fresh iterator. -/
def encode_session (encoder : Encoder) (frames : List GstVideoCodecFrame) : Emitted :=
  let submitted := put_frames encoder frames
  let pending :=
    get_pending (submitted.encoder.reorder_pool.reorder_frame_list.length + 1)
      submitted.encoder none
  { pictures := submitted.pictures ++ pending.pictures, encoder := pending.encoder,
    complete := submitted.complete && pending.complete }

/-- Modelled from the spec: the encode driver applied to the pictures the reorder
engine emitted, in that order: each picture is encoded (its reference lists
are built, then the store is updated) with the surface of the given number.
The result pairs every picture with its reference lists; it is `none` when
a call aborted. -/
def encode_pictures (encoder : Encoder) :
    List GstVaapiEncPicture →
      Option (List (GstVaapiEncPicture ×
        List GstVaapiEncoderH265Ref × List GstVaapiEncoderH265Ref))
  | [] => some []
  | picture :: pictures =>
    match gst_vaapi_encoder_h265_encode encoder picture picture.frame.id with
    | Outcome.abort _ => none
    | Outcome.ret lists encoder1 =>
      match encode_pictures encoder1 pictures with
      | none => none
      | some rest => some ((picture, lists) :: rest)

/-- Modelled from the spec: a sequence of `reference_list_update` calls, each
with a picture and its surface; `none` when a call aborted. -/
def reference_list_updates (encoder : Encoder) :
    List (GstVaapiEncPicture × Nat) → Option Encoder
  | [] => some encoder
  | (picture, surface) :: rest =>
    match reference_list_update encoder picture surface with
    | Outcome.abort _ => none
    | Outcome.ret _ encoder1 => reference_list_updates encoder1 rest

/-! ## Tier and level -/

/-- A row of the level-limits table (`GstVaapiH265LevelLimits`, declared in
gstvaapiutils_h265_priv.h, which is not in these sources): the fields that
`ensure_tier_level` reads. -/
structure GstVaapiH265LevelLimits where
  level : Nat := 0
  level_idc : Nat := 0
  MaxLumaPs : Nat := 0
  MaxLumaSr : Nat := 0
  MaxTileRows : Nat := 0
  MaxTileColumns : Nat := 0
  MaxBRTierMain : Nat := 0
  MaxBRTierHigh : Nat := 0
  deriving DecidableEq, Repr

/-- The function `gst_util_uint64_scale` of GStreamer: `val * num / denom`, rounded
down, on 64-bit unsigned values; `G_MAXUINT64` on overflow and for a zero
denominator. -/
def gst_util_uint64_scale (val num denom : Nat) : Nat :=
  if denom = 0 then 2 ^ 64 - 1 else min (val * num / denom) (2 ^ 64 - 1)

/-- The function `h265_is_tile_enabled`. -/
def h265_is_tile_enabled (encoder : Encoder) : Bool :=
  decide ((encoder.num_tile_cols * encoder.num_tile_rows) % 2 ^ 32 > 1)

/-- The local `PicSizeInSamplesY` of `ensure_tier_level`. -/
def PicSizeInSamplesY (encoder : Encoder) : Nat :=
  (encoder.luma_width * encoder.luma_height) % 2 ^ 32

/-- The local `LumaSr` of `ensure_tier_level`: the 64-bit result of the scaling,
stored in a `guint`. -/
def LumaSr (encoder : Encoder) : Nat :=
  gst_util_uint64_scale (PicSizeInSamplesY encoder) encoder.fps_n encoder.fps_d % 2 ^ 32

/-- The test of the first loop of `ensure_tier_level`: luma picture size and
luma sample rate are within the limits of the row. -/
def luma_fits (encoder : Encoder) (limits : GstVaapiH265LevelLimits) : Bool :=
  decide (PicSizeInSamplesY encoder ≤ limits.MaxLumaPs) &&
    decide (LumaSr encoder ≤ limits.MaxLumaSr)

/-- The test of the second loop of `ensure_tier_level`: the tile counts are
within the limits of the row. -/
def tiles_fit (encoder : Encoder) (limits : GstVaapiH265LevelLimits) : Bool :=
  decide (encoder.num_tile_cols ≤ limits.MaxTileColumns) &&
    decide (encoder.num_tile_rows ≤ limits.MaxTileRows)

/-- A loop `for (; i < num_limits; i++) { if (test (limits_table[i])) break; }`:
the value of `i` after the loop. The list is the table from index `i` on;
the result is `num_limits` when no row passes the test. -/
def level_scan (test : GstVaapiH265LevelLimits → Bool) :
    List GstVaapiH265LevelLimits → Nat → Nat
  | [], i => i
  | limits :: rest, i => if test limits then i else level_scan test rest (i + 1)

/-- The two loops of `ensure_tier_level`: the value of `i` with which the tier
and level are set, or `none` when the function leaves by one of its error
labels. -/
def tier_level_index (encoder : Encoder) (limits_table : List GstVaapiH265LevelLimits) :
    Option Nat :=
  let num_limits := limits_table.length
  let i := level_scan (luma_fits encoder) limits_table 0
  if i = num_limits then none
  else if h265_is_tile_enabled encoder then
    let j := level_scan (tiles_fit encoder) (limits_table.drop i) i
    if j = num_limits then none else some j
  else some i

/-- The function `ensure_tier_level`; the table is what
`gst_vaapi_utils_h265_get_level_limits_table` returns (not in these sources).
The value is the boolean returned and the encoder left. -/
def ensure_tier_level (encoder : Encoder) (limits_table : List GstVaapiH265LevelLimits) :
    Bool × Encoder :=
  match tier_level_index encoder limits_table with
  | none => (false, encoder)
  | some i =>
    let limits := limits_table.getD i {}
    (true,
      { encoder with
        tier :=
          if encoder.bitrate ≤ limits.MaxBRTierMain then GstVaapiTierH265.MAIN
          else GstVaapiTierH265.HIGH
        level := limits.level
        level_idc := limits.level_idc })

/-! ## Slices -/

/-- NAL unit types (`GstH265NalUnitType` of the GStreamer codec parsers, the
values of H.265 Table 7-1). -/
def GST_H265_NAL_SLICE_TRAIL_N : Nat := 0

/-- NAL unit type of a trailing picture used for reference. -/
def GST_H265_NAL_SLICE_TRAIL_R : Nat := 1

/-- NAL unit type of an IDR picture. -/
def GST_H265_NAL_SLICE_IDR_W_RADL : Nat := 19

/-- NAL unit type of a video parameter set. -/
def GST_H265_NAL_VPS : Nat := 32

/-- NAL unit type of a sequence parameter set. -/
def GST_H265_NAL_SPS : Nat := 33

/-- NAL unit type of a picture parameter set. -/
def GST_H265_NAL_PPS : Nat := 34

/-- The function `get_nal_unit_type`: `none` is the return value FALSE. -/
def get_nal_unit_type (picture : GstVaapiEncPicture) : Option Nat :=
  match picture.type with
  | GstVaapiPictureType.I =>
    if picture.idr then some GST_H265_NAL_SLICE_IDR_W_RADL else some GST_H265_NAL_SLICE_TRAIL_R
  | GstVaapiPictureType.P => some GST_H265_NAL_SLICE_TRAIL_R
  | GstVaapiPictureType.B => some GST_H265_NAL_SLICE_TRAIL_N
  | GstVaapiPictureType.NONE => none

/-- A slice added to the picture: the fields of its
`VAEncSliceParameterBufferHEVC` that `add_slice_headers` sets, and the value
of `encoder->first_slice_segment_in_pic_flag` when the slice is built. -/
structure GstVaapiEncSlice where
  slice_segment_address : Nat := 0
  num_ctu_in_slice : Nat := 0
  last_slice_of_pic_flag : Bool := false
  first_slice_segment_in_pic_flag : Bool := false
  deriving DecidableEq, Repr

/-- State of the loop of `add_slice_headers` when it is left: whether it was
left by `goto error_create_packed_slice_hdr`, the slices added to the picture,
and the values of `i_slice`, `last_ctu_index` and
`encoder->first_slice_segment_in_pic_flag`. -/
structure SliceLoop where
  failed : Bool
  slices : List GstVaapiEncSlice
  i_slice : Nat
  last_ctu_index : Nat
  first_slice_segment_in_pic_flag : Bool
  deriving DecidableEq, Repr

/-- The value of `cur_slice_ctus` with which a round of the loop of
`add_slice_headers` fills its slice: the share of the slice, one more while
`slice_mod_ctus` is not used up, plus `ctu_width_round_factor`, and what is left
up to `ctu_size` when that passes the end of the picture. -/
def cur_slice_ctus (encoder : Encoder)
    (ctu_size slice_of_ctus slice_mod_ctus last_ctu_index : Nat) : Nat :=
  let cur_slice_ctus0 :=
    if slice_mod_ctus ≠ 0 then (slice_of_ctus + 1) % 2 ^ 32 else slice_of_ctus
  let ctu_width_round_factor :=
    (encoder.ctu_width + 2 ^ 32 - cur_slice_ctus0 % encoder.ctu_width) % 2 ^ 32
  let cur_slice_ctus1 := (cur_slice_ctus0 + ctu_width_round_factor) % 2 ^ 32
  if (last_ctu_index + cur_slice_ctus1) % 2 ^ 32 > ctu_size then
    (ctu_size + 2 ^ 32 - last_ctu_index) % 2 ^ 32
  else cur_slice_ctus1

/-- The loop of `add_slice_headers`. The first number is `num_slices - i_slice`,
the rounds the condition `i_slice < num_slices` still allows. `header_ok`
tells that no packed slice header is asked for or that
`add_packed_slice_header` succeeds. The reference lists and the other fields
that `create_and_fill_one_slice` fills are left out. -/
def add_slice_headers_loop (encoder : Encoder) (ctu_size slice_of_ctus : Nat) (header_ok : Bool) :
    Nat → Nat → Nat → Nat → Bool → SliceLoop
  | 0, i_slice, _, last_ctu_index, flag =>
    { failed := false, slices := [], i_slice := i_slice, last_ctu_index := last_ctu_index,
      first_slice_segment_in_pic_flag := flag }
  | rounds + 1, i_slice, slice_mod_ctus, last_ctu_index, flag =>
    if last_ctu_index < ctu_size then
      let cur := cur_slice_ctus encoder ctu_size slice_of_ctus slice_mod_ctus last_ctu_index
      let slice_mod_ctus1 := if slice_mod_ctus ≠ 0 then slice_mod_ctus - 1 else slice_mod_ctus
      let last_ctu_index1 := (last_ctu_index + cur) % 2 ^ 32
      let slice : GstVaapiEncSlice :=
        { slice_segment_address := if i_slice = 0 then 0 else last_ctu_index
          num_ctu_in_slice := cur
          last_slice_of_pic_flag :=
            decide (i_slice = (encoder.num_slices + 2 ^ 32 - 1) % 2 ^ 32) ||
              decide (last_ctu_index1 = ctu_size)
          first_slice_segment_in_pic_flag := decide (i_slice = 0) }
      if header_ok then
        let rest :=
          add_slice_headers_loop encoder ctu_size slice_of_ctus header_ok rounds (i_slice + 1)
            slice_mod_ctus1 last_ctu_index1 (decide (i_slice = 0))
        { rest with slices := slice :: rest.slices }
      else
        { failed := true, slices := [], i_slice := i_slice, last_ctu_index := last_ctu_index1,
          first_slice_segment_in_pic_flag := decide (i_slice = 0) }
    else
      { failed := false, slices := [], i_slice := i_slice, last_ctu_index := last_ctu_index,
        first_slice_segment_in_pic_flag := flag }

/-- The function `add_slice_headers`. `packed_headers_slice` is the bit
`VA_ENC_PACKED_HEADER_SLICE` of the packed headers of the base encoder; with
it set, a slice header is packed by `add_packed_slice_header`, which fails
exactly when `get_nal_unit_type` does. The value is the boolean returned and
the slices added to the picture. The call aborts when one of the two
`g_assert`s on `ctu_size` fails. -/
def add_slice_headers (encoder : Encoder) (picture : GstVaapiEncPicture)
    (packed_headers_slice : Bool) : Outcome (Bool × List GstVaapiEncSlice) :=
  let ctu_size := (encoder.ctu_width * encoder.ctu_height) % 2 ^ 32
  if ¬ (encoder.num_slices ≠ 0 ∧ encoder.num_slices < ctu_size) then
    Outcome.abort encoder
  else
    let header_ok := !packed_headers_slice || (get_nal_unit_type picture).isSome
    let loop :=
      add_slice_headers_loop encoder ctu_size (ctu_size / encoder.num_slices) header_ok
        encoder.num_slices 0 (ctu_size % encoder.num_slices) 0
        encoder.first_slice_segment_in_pic_flag
    let encoder1 : Encoder :=
      { encoder with first_slice_segment_in_pic_flag := loop.first_slice_segment_in_pic_flag }
    if loop.failed then Outcome.ret (false, loop.slices) encoder1
    else if loop.last_ctu_index = ctu_size then Outcome.ret (true, loop.slices) encoder1
    else Outcome.abort encoder1

/-! ## Bit writer and packed headers

A `GstBitWriter` is the list of the bits written so far. Every writer of the
file is created by `gst_bit_writer_init_with_size (&bs, 128, FALSE)`, so it grows
as needed. A function that writes with `WRITE_UINT32` and leaves by `bs_error`
on a failed write is a value of `Except`: `ok bs` is the return value TRUE
with the writer `bs`, `error bs` the return value FALSE with the writer as
the failed write found it. -/

/-- The `nbits` low-order bits of `value`, the most significant first. -/
def uint_bits (value : Nat) : Nat → List Bool
  | 0 => []
  | nbits + 1 => value.testBit nbits :: uint_bits value nbits

/-- The number a list of bits stands for, the most significant bit first. -/
def bits_value (bits : List Bool) : Nat :=
  bits.foldl (fun acc b => 2 * acc + (if b then 1 else 0)) 0

/-- The function `gst_bit_writer_put_bits_uint32` of GStreamer on a growing
writer: it appends the `nbits` low-order bits of `value`, the most significant
first; it writes nothing and returns FALSE (`none`) when `nbits` is 0 or
above 32. -/
def gst_bit_writer_put_bits_uint32 (bs : List Bool) (value nbits : Nat) : Option (List Bool) :=
  if nbits = 0 ∨ 32 < nbits then none else some (bs ++ uint_bits value nbits)

/-- Modelled from the spec: the macro `WRITE_UINT32` (gstvaapiutils_h26x_priv.h,
not in these sources), a checked write that jumps to `bs_error` when
`gst_bit_writer_put_bits_uint32` fails. -/
def WRITE_UINT32 (bs : List Bool) (val nbits : Nat) : Except (List Bool) (List Bool) :=
  match gst_bit_writer_put_bits_uint32 bs val nbits with
  | some bs1 => Except.ok bs1
  | none => Except.error bs

/-- The writer a writing function leaves, whatever it returns. -/
def writer_of : Except (List Bool) (List Bool) → List Bool
  | Except.ok bs => bs
  | Except.error bs => bs

/-- Whether a writing function returned TRUE. -/
def write_ok : Except (List Bool) (List Bool) → Bool
  | Except.ok _ => true
  | Except.error _ => false

/-- The byte that up to eight bits fill from its most significant bit; the
bits not written are 0. -/
def byte_of_bits (bits : List Bool) : Nat :=
  bits_value ((bits ++ List.replicate 8 false).take 8)

/-- The first `n` bytes of the memory of a writer. -/
def bit_writer_bytes : Nat → List Bool → List Nat
  | 0, _ => []
  | n + 1, bits => byte_of_bits bits :: bit_writer_bytes n (bits.drop 8)

/-- The data of a writer (`GST_BIT_WRITER_DATA`) up to its last bit:
`(bit_size + 7) / 8` bytes. -/
def GST_BIT_WRITER_DATA (bs : List Bool) : List Nat :=
  bit_writer_bytes ((bs.length + 7) / 8) bs

/-- The function `bs_write_nal_header`. -/
def bs_write_nal_header (bs : List Bool) (nal_unit_type : Nat) :
    Except (List Bool) (List Bool) := do
  let nuh_layer_id := 0
  let nuh_temporal_id_plus1 := 1
  let bs ← WRITE_UINT32 bs 0 1
  let bs ← WRITE_UINT32 bs nal_unit_type 6
  let bs ← WRITE_UINT32 bs nuh_layer_id 6
  let bs ← WRITE_UINT32 bs nuh_temporal_id_plus1 3
  Except.ok bs

/-- The fields of `VAEncSequenceParameterBufferHEVC` (va/va_enc_hevc.h) that the
bitstream writers read; the fields of `seq_fields.bits` and `vui_fields.bits`
are given by their own names. -/
structure VAEncSequenceParameterBufferHEVC where
  general_profile_idc : Nat := 0
  general_level_idc : Nat := 0
  general_tier_flag : Nat := 0
  bits_per_second : Nat := 0
  pic_width_in_luma_samples : Nat := 0
  pic_height_in_luma_samples : Nat := 0
  chroma_format_idc : Nat := 0
  bit_depth_luma_minus8 : Nat := 0
  bit_depth_chroma_minus8 : Nat := 0
  scaling_list_enabled_flag : Nat := 0
  amp_enabled_flag : Nat := 0
  sample_adaptive_offset_enabled_flag : Nat := 0
  pcm_enabled_flag : Nat := 0
  sps_temporal_mvp_enabled_flag : Nat := 0
  strong_intra_smoothing_enabled_flag : Nat := 0
  log2_min_luma_coding_block_size_minus3 : Nat := 0
  log2_diff_max_min_luma_coding_block_size : Nat := 0
  log2_min_transform_block_size_minus2 : Nat := 0
  log2_diff_max_min_transform_block_size : Nat := 0
  max_transform_hierarchy_depth_inter : Nat := 0
  max_transform_hierarchy_depth_intra : Nat := 0
  vui_parameters_present_flag : Nat := 0
  aspect_ratio_info_present_flag : Nat := 0
  neutral_chroma_indication_flag : Nat := 0
  field_seq_flag : Nat := 0
  vui_timing_info_present_flag : Nat := 0
  bitstream_restriction_flag : Nat := 0
  aspect_ratio_idc : Nat := 0
  sar_width : Nat := 0
  sar_height : Nat := 0
  vui_num_units_in_tick : Nat := 0
  vui_time_scale : Nat := 0
  deriving DecidableEq, Repr

/-- A loop `for (i = 0; i < n; i++) WRITE_UINT32 (bs, 0, 1);`. -/
def write_zero_bits : Nat → List Bool → Except (List Bool) (List Bool)
  | 0, bs => Except.ok bs
  | n + 1, bs => do
    let bs ← WRITE_UINT32 bs 0 1
    write_zero_bits n bs

/-- The nine range-extension constraint flags that `bs_write_profile_tier_level`
writes for a profile, in the order written (`max_12bit`, `max_10bit`,
`max_8bit`, `max_422chroma`, `max_420chroma`, `max_monochrome`, `intra`,
`one_picture_only`, `lower_bit_rate`); `none` for the `default` case of the
switch. -/
def range_extension_flags : GstVaapiProfile → Option (List Nat)
  | GstVaapiProfile.H265_MAIN_444 => some [1, 1, 1, 0, 0, 0, 0, 0, 1]
  | GstVaapiProfile.H265_MAIN_444_10 => some [1, 1, 0, 0, 0, 0, 0, 0, 1]
  | GstVaapiProfile.H265_MAIN_422_10 => some [1, 1, 0, 1, 0, 0, 0, 0, 1]
  | _ => none

/-- A sequence of writes `WRITE_UINT32 (bs, v, 1)`, one for each value. -/
def write_flags : List Nat → List Bool → Except (List Bool) (List Bool)
  | [], bs => Except.ok bs
  | v :: rest, bs => do
    let bs ← WRITE_UINT32 bs v 1
    write_flags rest bs

/-- The function `bs_write_profile_tier_level`. -/
def bs_write_profile_tier_level (bs : List Bool) (seq_param : VAEncSequenceParameterBufferHEVC)
    (profile : GstVaapiProfile) : Except (List Bool) (List Bool) := do
  let bs ← WRITE_UINT32 bs 0 2
  let bs ← WRITE_UINT32 bs seq_param.general_tier_flag 1
  let bs ← WRITE_UINT32 bs seq_param.general_profile_idc 5
  let bs ← WRITE_UINT32 bs 0 1
  let bs ←
    (if seq_param.general_profile_idc = 1 ∨ seq_param.general_profile_idc = 3 then
      WRITE_UINT32 bs 1 1
    else WRITE_UINT32 bs 0 1)
  let bs ←
    (if seq_param.general_profile_idc = 1 ∨ seq_param.general_profile_idc = 2
        ∨ seq_param.general_profile_idc = 3 then
      WRITE_UINT32 bs 1 1
    else WRITE_UINT32 bs 0 1)
  let bs ←
    (if seq_param.general_profile_idc = 3 then WRITE_UINT32 bs 1 1 else WRITE_UINT32 bs 0 1)
  let bs ←
    (if seq_param.general_profile_idc = 4 then WRITE_UINT32 bs 1 1 else WRITE_UINT32 bs 0 1)
  let bs ← WRITE_UINT32 bs 0 27
  let bs ← WRITE_UINT32 bs 1 1
  let bs ← WRITE_UINT32 bs 0 1
  let bs ← WRITE_UINT32 bs 0 1
  let bs ← WRITE_UINT32 bs 1 1
  let bs ←
    (if seq_param.general_profile_idc = 4 then
      (match range_extension_flags profile with
      | some flags => write_flags flags bs >>= write_zero_bits 34
      | none => Except.error bs)
    else write_zero_bits 43 bs)
  let bs ← WRITE_UINT32 bs 0 1
  let bs ← WRITE_UINT32 bs seq_param.general_level_idc 8
  Except.ok bs

/-- The function `_check_vps_sps_pps_status`: `nal` is the `size` bytes passed.
The call aborts when `size` is 0. -/
def _check_vps_sps_pps_status (encoder : Encoder) (nal : List Nat) : Outcome Unit :=
  if nal.length = 0 then Outcome.abort encoder
  else if encoder.vps_data.isSome ∧ encoder.sps_data.isSome ∧ encoder.pps_data.isSome then
    Outcome.ret () encoder
  else
    let nal_type := ((nal.headD 0) &&& 0x7E) >>> 1
    if nal_type = GST_H265_NAL_VPS then Outcome.ret () { encoder with vps_data := some nal }
    else if nal_type = GST_H265_NAL_SPS then Outcome.ret () { encoder with sps_data := some nal }
    else if nal_type = GST_H265_NAL_PPS then Outcome.ret () { encoder with pps_data := some nal }
    else Outcome.ret () encoder

/-- The common body of `add_packed_vps_header`, `add_packed_sequence_header` and
`add_packed_picture_header`, which differ in the NAL unit type and in the
function that writes the parameter set. `body` is the bits that this
function (`bs_write_vps`, `bs_write_sps`, `bs_write_pps`), whose result is not
looked at, appends to the writer. The value is the boolean returned and,
when a packed header is added to the picture, its data. The call aborts when
the writer does not end on a byte boundary. -/
def add_packed_parameter_set_header (encoder : Encoder) (nal_unit_type : Nat)
    (body : List Bool) : Outcome (Bool × Option (List Nat)) :=
  match WRITE_UINT32 [] 0x00000001 32 with
  | Except.error _ => Outcome.ret (false, none) encoder
  | Except.ok bs0 =>
    let bs1 := writer_of (bs_write_nal_header bs0 nal_unit_type)
    let bs := bs1 ++ body
    if bs.length % 8 ≠ 0 then Outcome.abort encoder
    else
      let data_bit_size := bs.length % 2 ^ 32
      let data := bit_writer_bytes ((data_bit_size + 7) / 8) bs
      match _check_vps_sps_pps_status encoder
          ((data.drop 4).take ((data_bit_size / 8 + 2 ^ 32 - 4) % 2 ^ 32)) with
      | Outcome.abort e => Outcome.abort e
      | Outcome.ret _ encoder1 => Outcome.ret (true, some data) encoder1

/-- The function `add_packed_vps_header`; `body` is what `bs_write_vps` appends. -/
def add_packed_vps_header (encoder : Encoder) (body : List Bool) :
    Outcome (Bool × Option (List Nat)) :=
  add_packed_parameter_set_header encoder GST_H265_NAL_VPS body

/-- The function `add_packed_sequence_header`; `body` is what `bs_write_sps` appends. -/
def add_packed_sequence_header (encoder : Encoder) (body : List Bool) :
    Outcome (Bool × Option (List Nat)) :=
  add_packed_parameter_set_header encoder GST_H265_NAL_SPS body

/-- The function `add_packed_picture_header`; `body` is what `bs_write_pps` appends. -/
def add_packed_picture_header (encoder : Encoder) (body : List Bool) :
    Outcome (Bool × Option (List Nat)) :=
  add_packed_parameter_set_header encoder GST_H265_NAL_PPS body

/-- The function `add_packed_slice_header`; `body` is the bits that
`bs_write_slice`, whose result is not looked at, appends to the writer. The
value is the boolean returned and, when a packed header is added to the
slice, its data. -/
def add_packed_slice_header (encoder : Encoder) (picture : GstVaapiEncPicture)
    (body : List Bool) : Outcome (Bool × Option (List Nat)) :=
  match WRITE_UINT32 [] 0x00000001 32 with
  | Except.error _ => Outcome.ret (false, none) encoder
  | Except.ok bs0 =>
    match get_nal_unit_type picture with
    | none => Outcome.ret (false, none) encoder
    | some nal_unit_type =>
      let bs1 := writer_of (bs_write_nal_header bs0 nal_unit_type)
      let bs := bs1 ++ body
      let data_bit_size := bs.length % 2 ^ 32
      Outcome.ret (true, some (bit_writer_bytes ((data_bit_size + 7) / 8) bs)) encoder

/-- The 32 bits `general_profile_compatibility_flag[0..31]` among the bits that
`bs_write_profile_tier_level` wrote to a writer that held `bit_size` bits: they
follow the 8 bits of `general_profile_space`, `general_tier_flag` and
`general_profile_idc`. -/
def general_profile_compatibility_flags (bit_size : Nat) (writer : List Bool) : List Bool :=
  (writer.drop (bit_size + 8)).take 32

/-! ## Parameter sets

The writers of the VPS and of the SPS are sequences of checked writes, each
leaving by `bs_error` when it fails. Such a sequence is the list of its
syntax elements, in the order of the source: `SyntaxElement.u value nbits` is
`WRITE_UINT32 (bs, value, nbits)` and `SyntaxElement.ue value` is
`WRITE_UE (bs, value)`; a write under an `if` is a list that is empty when the
condition fails. -/

/-- Modelled from the spec: the function `bs_write_ue` behind the macro
`WRITE_UE` (gstvaapiutils_h26x.c and gstvaapiutils_h26x_priv.h, not in these
sources), the Exp-Golomb code ue(v) of a 32-bit value: with `size_in_bits` the
bit length of `value + 1`, it writes `size_in_bits - 1` zero bits and then the
`size_in_bits` bits of `value + 1`. For `value = 2 ^ 32 - 1` the sum wraps to 0,
no bit is to be written, and the write fails (`none`). -/
def bs_write_ue (bs : List Bool) (value : Nat) : Option (List Bool) :=
  let value1 := (value + 1) % 2 ^ 32
  let size_in_bits := h265_count_bits 32 value1 0
  match (if size_in_bits > 1 then gst_bit_writer_put_bits_uint32 bs 0 (size_in_bits - 1)
      else some bs) with
  | none => none
  | some bs1 => gst_bit_writer_put_bits_uint32 bs1 value1 size_in_bits

/-- Modelled from the spec: the macro `WRITE_UE` (gstvaapiutils_h26x_priv.h, not
in these sources), which jumps to `bs_error` when `bs_write_ue` fails. -/
def WRITE_UE (bs : List Bool) (val : Nat) : Except (List Bool) (List Bool) :=
  match bs_write_ue bs val with
  | some bs1 => Except.ok bs1
  | none => Except.error bs

/-- A checked write of a syntax element. -/
inductive SyntaxElement where
  | u (value nbits : Nat)
  | ue (value : Nat)
  deriving DecidableEq, Repr

/-- The write of one syntax element. -/
def write_element (bs : List Bool) : SyntaxElement → Except (List Bool) (List Bool)
  | SyntaxElement.u value nbits => WRITE_UINT32 bs value nbits
  | SyntaxElement.ue value => WRITE_UE bs value

/-- A sequence of checked writes: the first write that fails ends it. -/
def write_elements : List SyntaxElement → List Bool → Except (List Bool) (List Bool)
  | [], bs => Except.ok bs
  | element :: rest, bs =>
    match write_element bs element with
    | Except.ok bs1 => write_elements rest bs1
    | Except.error bs1 => Except.error bs1

/-- Modelled from the spec: the constant `SX_BITRATE` (a header that is not in
these sources), the scale of the HRD bit rate; `bs_write_sps_data` writes
`SX_BITRATE - 6` as `bit_rate_scale` and `ensure_bitrate_hrd` asserts
`SX_BITRATE >= 6`. -/
def SX_BITRATE : Nat := 6

/-- Modelled from the spec: the constant `SX_CPB_SIZE` (a header that is not in
these sources), the scale of the HRD CPB size; `bs_write_sps_data` writes
`SX_CPB_SIZE - 4` as `cpb_size_scale` and `ensure_bitrate_hrd` asserts
`SX_CPB_SIZE >= 4`. -/
def SX_CPB_SIZE : Nat := 4

/-- The function `bs_write_trailing_bits`: a 1 bit, then
`gst_bit_writer_align_bytes_unchecked (bs, 0)`, which fills the last byte with
zero bits. The value is the boolean returned and the writer. -/
def bs_write_trailing_bits (bs : List Bool) : Bool × List Bool :=
  match gst_bit_writer_put_bits_uint32 bs 1 1 with
  | none => (false, bs)
  | some bs1 => (true, bs1 ++ List.replicate ((8 - bs1.length % 8) % 8) false)

/-- The function `bs_write_vps_data`. The result of `bs_write_profile_tier_level`
is not looked at: the writer goes on from where that call left it. -/
def bs_write_vps_data (bs : List Bool) (encoder : Encoder)
    (seq_param : VAEncSequenceParameterBufferHEVC) (profile : GstVaapiProfile) :
    Except (List Bool) (List Bool) :=
  let video_parameter_set_id := 0
  let vps_max_layers_minus1 := 0
  let vps_max_sub_layers_minus1 := 0
  let vps_temporal_id_nesting_flag := 1
  let vps_sub_layer_ordering_info_present_flag := 0
  let vps_max_latency_increase_plus1 := 0
  let vps_max_layer_id := 0
  let vps_num_layer_sets_minus1 := 0
  let vps_timing_info_present_flag := 0
  let vps_extension_flag := 0
  let vps_base_layer_internal_flag := 1
  let vps_base_layer_available_flag := 1
  match write_elements
      [SyntaxElement.u video_parameter_set_id 4,
       SyntaxElement.u vps_base_layer_internal_flag 1,
       SyntaxElement.u vps_base_layer_available_flag 1,
       SyntaxElement.u vps_max_layers_minus1 6,
       SyntaxElement.u vps_max_sub_layers_minus1 3,
       SyntaxElement.u vps_temporal_id_nesting_flag 1,
       SyntaxElement.u 0xffff 16] bs with
  | Except.error bs1 => Except.error bs1
  | Except.ok bs1 =>
    let bs2 := writer_of (bs_write_profile_tier_level bs1 seq_param profile)
    write_elements
      [SyntaxElement.u vps_sub_layer_ordering_info_present_flag 1,
       SyntaxElement.ue ((encoder.max_dec_pic_buffering + 2 ^ 32 - 1) % 2 ^ 32),
       SyntaxElement.ue encoder.max_num_reorder_pics,
       SyntaxElement.ue vps_max_latency_increase_plus1,
       SyntaxElement.u vps_max_layer_id 6,
       SyntaxElement.ue vps_num_layer_sets_minus1,
       SyntaxElement.u vps_timing_info_present_flag 1,
       SyntaxElement.u vps_extension_flag 1] bs2

/-- The function `bs_write_vps`: the value is the boolean returned, which is
FALSE also after the trailing bits are written, and the writer. -/
def bs_write_vps (bs : List Bool) (encoder : Encoder)
    (seq_param : VAEncSequenceParameterBufferHEVC) (profile : GstVaapiProfile) :
    Bool × List Bool :=
  if write_ok (bs_write_vps_data bs encoder seq_param profile) = false then
    (false, writer_of (bs_write_vps_data bs encoder seq_param profile))
  else
    (false,
      (bs_write_trailing_bits (writer_of (bs_write_vps_data bs encoder seq_param profile))).2)

/-- The syntax elements of the VUI that `bs_write_sps_data` writes when
`vui_parameters_present_flag` is set; `buffer_size` is that of the HRD
parameters. -/
def sps_vui_elements (seq_param : VAEncSequenceParameterBufferHEVC)
    (rate_control : GstVaapiRateControl) (buffer_size : Nat) : List SyntaxElement :=
  let maxNumSubLayers := 1
  let cbr_flag := if rate_control = GstVaapiRateControl.CBR then 1 else 0
  let vui_hrd_parameters_present_flag := if seq_param.bits_per_second > 0 then 1 else 0
  let nal_hrd_parameters_present_flag := 1
  [SyntaxElement.u seq_param.aspect_ratio_info_present_flag 1]
  ++ (if seq_param.aspect_ratio_info_present_flag ≠ 0 then
      [SyntaxElement.u seq_param.aspect_ratio_idc 8]
      ++ (if seq_param.aspect_ratio_idc = 0xFF then
          [SyntaxElement.u seq_param.sar_width 16, SyntaxElement.u seq_param.sar_height 16]
        else [])
    else [])
  ++ [SyntaxElement.u 0 1,
      SyntaxElement.u 0 1,
      SyntaxElement.u 0 1,
      SyntaxElement.u seq_param.neutral_chroma_indication_flag 1,
      SyntaxElement.u seq_param.field_seq_flag 1,
      SyntaxElement.u 0 1,
      SyntaxElement.u 0 1,
      SyntaxElement.u seq_param.vui_timing_info_present_flag 1]
  ++ (if seq_param.vui_timing_info_present_flag ≠ 0 then
      [SyntaxElement.u seq_param.vui_num_units_in_tick 32,
       SyntaxElement.u seq_param.vui_time_scale 32,
       SyntaxElement.u 0 1,
       SyntaxElement.u vui_hrd_parameters_present_flag 1]
      ++ (if vui_hrd_parameters_present_flag ≠ 0 then
          [SyntaxElement.u nal_hrd_parameters_present_flag 1,
           SyntaxElement.u 0 1,
           SyntaxElement.u 0 1,
           SyntaxElement.u (SX_BITRATE - 6) 4,
           SyntaxElement.u (SX_CPB_SIZE - 4) 4,
           SyntaxElement.u 23 5,
           SyntaxElement.u 23 5,
           SyntaxElement.u 23 5]
          ++ (List.replicate maxNumSubLayers
            [SyntaxElement.u 0 1,
             SyntaxElement.u 0 1,
             SyntaxElement.u 1 1,
             SyntaxElement.ue
               (((seq_param.bits_per_second >>> SX_BITRATE) + 2 ^ 32 - 1) % 2 ^ 32),
             SyntaxElement.ue (((buffer_size >>> SX_CPB_SIZE) + 2 ^ 32 - 1) % 2 ^ 32),
             SyntaxElement.u cbr_flag 1]).flatten
        else [])
    else [])
  ++ [SyntaxElement.u seq_param.bitstream_restriction_flag 1]

/-- The syntax elements that `bs_write_sps_data` writes after the call of
`bs_write_profile_tier_level`. -/
def sps_elements (encoder : Encoder) (seq_param : VAEncSequenceParameterBufferHEVC)
    (rate_control : GstVaapiRateControl) (buffer_size : Nat) : List SyntaxElement :=
  let separate_colour_plane_flag := 0
  let seq_parameter_set_id := 0
  let sps_sub_layer_ordering_info_present_flag := 0
  let sps_max_latency_increase_plus1 := 0
  let num_short_term_ref_pic_sets := 0
  let long_term_ref_pics_present_flag := 0
  let sps_extension_flag := 0
  [SyntaxElement.ue seq_parameter_set_id,
   SyntaxElement.ue seq_param.chroma_format_idc]
  ++ (if seq_param.chroma_format_idc = 3 then [SyntaxElement.u separate_colour_plane_flag 1]
    else [])
  ++ [SyntaxElement.ue seq_param.pic_width_in_luma_samples,
      SyntaxElement.ue seq_param.pic_height_in_luma_samples,
      SyntaxElement.u (if encoder.conformance_window_flag then 1 else 0) 1]
  ++ (if encoder.conformance_window_flag then
      [SyntaxElement.ue encoder.conf_win_left_offset,
       SyntaxElement.ue encoder.conf_win_right_offset,
       SyntaxElement.ue encoder.conf_win_top_offset,
       SyntaxElement.ue encoder.conf_win_bottom_offset]
    else [])
  ++ [SyntaxElement.ue seq_param.bit_depth_luma_minus8,
      SyntaxElement.ue seq_param.bit_depth_chroma_minus8,
      SyntaxElement.ue ((encoder.log2_max_pic_order_cnt + 2 ^ 32 - 4) % 2 ^ 32),
      SyntaxElement.u sps_sub_layer_ordering_info_present_flag 1,
      SyntaxElement.ue ((encoder.max_dec_pic_buffering + 2 ^ 32 - 1) % 2 ^ 32),
      SyntaxElement.ue encoder.max_num_reorder_pics,
      SyntaxElement.ue sps_max_latency_increase_plus1,
      SyntaxElement.ue seq_param.log2_min_luma_coding_block_size_minus3,
      SyntaxElement.ue seq_param.log2_diff_max_min_luma_coding_block_size,
      SyntaxElement.ue seq_param.log2_min_transform_block_size_minus2,
      SyntaxElement.ue seq_param.log2_diff_max_min_transform_block_size,
      SyntaxElement.ue seq_param.max_transform_hierarchy_depth_inter,
      SyntaxElement.ue seq_param.max_transform_hierarchy_depth_intra,
      SyntaxElement.u seq_param.scaling_list_enabled_flag 1,
      SyntaxElement.u seq_param.amp_enabled_flag 1,
      SyntaxElement.u seq_param.sample_adaptive_offset_enabled_flag 1,
      SyntaxElement.u seq_param.pcm_enabled_flag 1,
      SyntaxElement.ue num_short_term_ref_pic_sets,
      SyntaxElement.u long_term_ref_pics_present_flag 1,
      SyntaxElement.u seq_param.sps_temporal_mvp_enabled_flag 1,
      SyntaxElement.u seq_param.strong_intra_smoothing_enabled_flag 1,
      SyntaxElement.u seq_param.vui_parameters_present_flag 1]
  ++ (if seq_param.vui_parameters_present_flag ≠ 0 then
      sps_vui_elements seq_param rate_control buffer_size
    else [])
  ++ [SyntaxElement.u sps_extension_flag 1]

/-- The function `bs_write_sps_data`; `buffer_size` is `hrd_params->buffer_size`.
The result of `bs_write_profile_tier_level` is not looked at: the writer goes
on from where that call left it. -/
def bs_write_sps_data (bs : List Bool) (encoder : Encoder)
    (seq_param : VAEncSequenceParameterBufferHEVC) (profile : GstVaapiProfile)
    (rate_control : GstVaapiRateControl) (buffer_size : Nat) :
    Except (List Bool) (List Bool) :=
  let video_parameter_set_id := 0
  let max_sub_layers_minus1 := 0
  let temporal_id_nesting_flag := 1
  match write_elements
      [SyntaxElement.u video_parameter_set_id 4,
       SyntaxElement.u max_sub_layers_minus1 3,
       SyntaxElement.u temporal_id_nesting_flag 1] bs with
  | Except.error bs1 => Except.error bs1
  | Except.ok bs1 =>
    let bs2 := writer_of (bs_write_profile_tier_level bs1 seq_param profile)
    write_elements (sps_elements encoder seq_param rate_control buffer_size) bs2

/-- The function `bs_write_sps`: the value is the boolean returned, which is
FALSE also after the trailing bits are written, and the writer. -/
def bs_write_sps (bs : List Bool) (encoder : Encoder)
    (seq_param : VAEncSequenceParameterBufferHEVC) (profile : GstVaapiProfile)
    (rate_control : GstVaapiRateControl) (buffer_size : Nat) : Bool × List Bool :=
  if write_ok (bs_write_sps_data bs encoder seq_param profile rate_control buffer_size)
      = false then
    (false, writer_of (bs_write_sps_data bs encoder seq_param profile rate_control buffer_size))
  else
    (false,
      (bs_write_trailing_bits
        (writer_of
          (bs_write_sps_data bs encoder seq_param profile rate_control buffer_size))).2)

/-- The writer of a packed header when its body writer is called: the start
code and the NAL header. -/
def packed_header_writer (nal_unit_type : Nat) : List Bool :=
  writer_of (bs_write_nal_header (writer_of (WRITE_UINT32 [] 0x00000001 32)) nal_unit_type)

/-- The bits that `bs_write_vps` appends in `add_packed_vps_header`, which passes
`encoder->profile`. -/
def packed_vps_body (encoder : Encoder) (seq_param : VAEncSequenceParameterBufferHEVC) :
    List Bool :=
  (bs_write_vps (packed_header_writer GST_H265_NAL_VPS) encoder seq_param encoder.profile).2.drop
    (packed_header_writer GST_H265_NAL_VPS).length

/-- The bits that `bs_write_sps` appends in `add_packed_sequence_header`, which
passes `encoder->profile`, the rate control of the base encoder and the HRD
parameters of `fill_hrd_params`, of which `buffer_size` is read. -/
def packed_sps_body (encoder : Encoder) (seq_param : VAEncSequenceParameterBufferHEVC)
    (buffer_size : Nat) : List Bool :=
  (bs_write_sps (packed_header_writer GST_H265_NAL_SPS) encoder seq_param encoder.profile
    encoder.rate_control buffer_size).2.drop (packed_header_writer GST_H265_NAL_SPS).length

/-! ## Codec configuration record -/

/-- The byte `data[i]` of a mapped buffer; the functions below read it only
within the buffer, and outside it the value is taken as 0. -/
def buffer_byte (data : List Nat) (i : Nat) : Nat :=
  data.getD i 0

/-- Bytes put into a writer (`gst_bit_writer_put_bytes`): eight bits each. -/
def bytes_bits (bytes : List Nat) : List Bool :=
  (bytes.map (fun byte => uint_bits byte 8)).flatten

/-- The header of the codec configuration record that
`gst_vaapi_encoder_h265_get_codec_data` writes, from the configuration version
to `numOfArrays`, each write a `WRITE_UINT32`; `sps` is the mapped SPS buffer. -/
def codec_data_header_elements (sps : List Nat) : List SyntaxElement :=
  let configuration_version := 0x01
  let nal_length_size := 4
  let min_spatial_segmentation_idc := 0
  let num_arrays := 3
  [SyntaxElement.u configuration_version 8,
   SyntaxElement.u (buffer_byte sps 4) 8,
   SyntaxElement.u (buffer_byte sps 5) 32,
   SyntaxElement.u (buffer_byte sps 9) 32,
   SyntaxElement.u (buffer_byte sps 13) 16,
   SyntaxElement.u (buffer_byte sps 15) 8,
   SyntaxElement.u 0x0f 4,
   SyntaxElement.u min_spatial_segmentation_idc 12,
   SyntaxElement.u 0x3f 6,
   SyntaxElement.u 0x00 2,
   SyntaxElement.u 0x3f 6,
   SyntaxElement.u 0x01 2,
   SyntaxElement.u 0x1f 5,
   SyntaxElement.u 0x01 3,
   SyntaxElement.u 0x1f 5,
   SyntaxElement.u 0x01 3,
   SyntaxElement.u 0x00 16,
   SyntaxElement.u 0x00 2,
   SyntaxElement.u 0x00 3,
   SyntaxElement.u 0x00 1,
   SyntaxElement.u (nal_length_size - 1) 2,
   SyntaxElement.u 0x00 8,
   SyntaxElement.u num_arrays 8]

/-- The head of an array of the codec configuration record:
`array_completeness`, a reserved zero bit, the NAL unit type and the number
of NAL units, 1. -/
def codec_data_array_head_elements (nal_unit_type : Nat) : List SyntaxElement :=
  [SyntaxElement.u 0x00 1,
   SyntaxElement.u 0x00 1,
   SyntaxElement.u nal_unit_type 6,
   SyntaxElement.u 0x01 16]

/-- The function `gst_vaapi_encoder_h265_get_codec_data`. The value is the status
and the bytes of the buffer stored in `*out_buffer_ptr`, if any. The function
`gst_vaapi_utils_h26x_write_nal_unit` is not in these sources:
`write_nal_unit nal` is the bytes it appends to the writer for the NAL unit
`nal`, or `none` when it fails. Mapping the three buffers and allocating the
result are taken to succeed. The call aborts when the writer is not on a
byte boundary at one of the two `g_assert`s. -/
def gst_vaapi_encoder_h265_get_codec_data (encoder : Encoder)
    (write_nal_unit : List Nat → Option (List Nat)) :
    Outcome (GstVaapiEncoderStatus × Option (List Nat)) :=
  match encoder.vps_data, encoder.sps_data, encoder.pps_data with
  | some vps, some sps, some pps =>
    if sps.length < 4 then
      Outcome.ret (GstVaapiEncoderStatus.ERROR_INVALID_HEADER, none) encoder
    else
      match write_elements
          (codec_data_header_elements sps ++ codec_data_array_head_elements GST_H265_NAL_VPS)
          [] with
      | Except.error _ => Outcome.ret (GstVaapiEncoderStatus.ERROR_OPERATION_FAILED, none) encoder
      | Except.ok bs1 =>
        if bs1.length % 8 ≠ 0 then Outcome.abort encoder
        else
          match write_nal_unit vps with
          | none => Outcome.ret (GstVaapiEncoderStatus.ERROR_OPERATION_FAILED, none) encoder
          | some vps_bytes =>
            match write_elements (codec_data_array_head_elements GST_H265_NAL_SPS)
                (bs1 ++ bytes_bits vps_bytes) with
            | Except.error _ =>
              Outcome.ret (GstVaapiEncoderStatus.ERROR_OPERATION_FAILED, none) encoder
            | Except.ok bs2 =>
              if bs2.length % 8 ≠ 0 then Outcome.abort encoder
              else
                match write_nal_unit sps with
                | none =>
                  Outcome.ret (GstVaapiEncoderStatus.ERROR_OPERATION_FAILED, none) encoder
                | some sps_bytes =>
                  match write_elements (codec_data_array_head_elements GST_H265_NAL_PPS)
                      (bs2 ++ bytes_bits sps_bytes) with
                  | Except.error _ =>
                    Outcome.ret (GstVaapiEncoderStatus.ERROR_OPERATION_FAILED, none) encoder
                  | Except.ok bs3 =>
                    match write_nal_unit pps with
                    | none =>
                      Outcome.ret (GstVaapiEncoderStatus.ERROR_OPERATION_FAILED, none) encoder
                    | some pps_bytes =>
                      Outcome.ret
                        (GstVaapiEncoderStatus.SUCCESS,
                          some (GST_BIT_WRITER_DATA (bs3 ++ bytes_bits pps_bytes))) encoder
  | _, _, _ => Outcome.ret (GstVaapiEncoderStatus.ERROR_INVALID_HEADER, none) encoder

/-! ## Reference reader of the SPS -/

/-- Reference definition: the fixed-length code u(n) of H.265 (7.2): the next
`n` bits as a number, the most significant bit first, and the bits left. -/
def read_u_spec (n : Nat) (bits : List Bool) : Option (Nat × List Bool) :=
  if n ≤ bits.length then some (bits_value (bits.take n), bits.drop n) else none

/-- Reference definition: the Exp-Golomb code ue(v) of H.265 (9.2), after
`leadingZeroBits` zero bits have been read: further zero bits are counted up
to the first 1 bit, and the value is
`2 ^ leadingZeroBits - 1 + read_bits (leadingZeroBits)`. -/
def read_ue_zeros_spec : Nat → List Bool → Option (Nat × List Bool)
  | _, [] => none
  | leadingZeroBits, true :: rest =>
    match read_u_spec leadingZeroBits rest with
    | some (value, rest1) => some (2 ^ leadingZeroBits - 1 + value, rest1)
    | none => none
  | leadingZeroBits, false :: rest => read_ue_zeros_spec (leadingZeroBits + 1) rest

/-- Reference definition: the Exp-Golomb code ue(v) of H.265 (9.2). -/
def read_ue_spec (bits : List Bool) : Option (Nat × List Bool) :=
  read_ue_zeros_spec 0 bits

/-- The conformance window that the reference reader takes from an SPS. -/
structure ConformanceWindowSpec where
  conformance_window_flag : Nat
  conf_win_left_offset : Nat
  conf_win_right_offset : Nat
  conf_win_top_offset : Nat
  conf_win_bottom_offset : Nat
  deriving DecidableEq, Repr

/-- The fields that the reference reader takes from an SPS. -/
structure SpsFieldsSpec where
  chroma_format_idc : Nat
  pic_width_in_luma_samples : Nat
  pic_height_in_luma_samples : Nat
  conformance_window : ConformanceWindowSpec
  bit_depth_luma_minus8 : Nat
  bit_depth_chroma_minus8 : Nat
  log2_max_pic_order_cnt_lsb_minus4 : Nat
  deriving DecidableEq, Repr

/-- Reference definition: the start of an SPS (H.265 7.3.2.2) up to the end of
`profile_tier_level` (7.3.3), for a stream without sub-layers
(`sps_max_sub_layers_minus1` 0), for which `profile_tier_level` is 88 bits
followed by the 8 bits of `general_level_idc`: the bits left after it. -/
def read_sps_profile_tier_level_spec (bits : List Bool) : Option (List Bool) :=
  match read_u_spec 4 bits with
  | none => none
  | some (_, bits1) =>
    match read_u_spec 3 bits1 with
    | none => none
    | some (sps_max_sub_layers_minus1, bits2) =>
      if sps_max_sub_layers_minus1 ≠ 0 then none
      else
        match read_u_spec 1 bits2 with
        | none => none
        | some (_, bits3) =>
          match read_u_spec 88 bits3 with
          | none => none
          | some (_, bits4) =>
            match read_u_spec 8 bits4 with
            | none => none
            | some (_, bits5) => some bits5

/-- Reference definition: the four offsets of a conformance window, each ue(v). -/
def read_conf_win_offsets_spec (bits : List Bool) : Option (ConformanceWindowSpec × List Bool) :=
  match read_ue_spec bits with
  | none => none
  | some (conf_win_left_offset, bits1) =>
    match read_ue_spec bits1 with
    | none => none
    | some (conf_win_right_offset, bits2) =>
      match read_ue_spec bits2 with
      | none => none
      | some (conf_win_top_offset, bits3) =>
        match read_ue_spec bits3 with
        | none => none
        | some (conf_win_bottom_offset, bits4) =>
          some
            ({ conformance_window_flag := 1
               conf_win_left_offset := conf_win_left_offset
               conf_win_right_offset := conf_win_right_offset
               conf_win_top_offset := conf_win_top_offset
               conf_win_bottom_offset := conf_win_bottom_offset }, bits4)

/-- Reference definition: `conformance_window_flag`, u(1), and the offsets that
follow it when it is 1; the offsets of an absent window are 0. -/
def read_conformance_window_spec (bits : List Bool) :
    Option (ConformanceWindowSpec × List Bool) :=
  match read_u_spec 1 bits with
  | none => none
  | some (conformance_window_flag, bits1) =>
    if conformance_window_flag = 1 then read_conf_win_offsets_spec bits1
    else
      some
        ({ conformance_window_flag := 0
           conf_win_left_offset := 0
           conf_win_right_offset := 0
           conf_win_top_offset := 0
           conf_win_bottom_offset := 0 }, bits1)

/-- Reference definition: `chroma_format_idc`, ue(v), and the
`separate_colour_plane_flag`, u(1), that follows it when it is 3; the value
is `chroma_format_idc`. -/
def read_chroma_format_spec (bits : List Bool) : Option (Nat × List Bool) :=
  match read_ue_spec bits with
  | none => none
  | some (chroma_format_idc, bits1) =>
    if chroma_format_idc = 3 then
      match read_u_spec 1 bits1 with
      | none => none
      | some (_, bits2) => some (chroma_format_idc, bits2)
    else some (chroma_format_idc, bits1)

/-- Reference definition: the three ue(v) fields `bit_depth_luma_minus8`,
`bit_depth_chroma_minus8` and `log2_max_pic_order_cnt_lsb_minus4`. -/
def read_bit_depths_spec (bits : List Bool) : Option (Nat × Nat × Nat) :=
  match read_ue_spec bits with
  | none => none
  | some (bit_depth_luma_minus8, bits1) =>
    match read_ue_spec bits1 with
    | none => none
    | some (bit_depth_chroma_minus8, bits2) =>
      match read_ue_spec bits2 with
      | none => none
      | some (log2_max_pic_order_cnt_lsb_minus4, _) =>
        some (bit_depth_luma_minus8, bit_depth_chroma_minus8, log2_max_pic_order_cnt_lsb_minus4)

/-- Reference definition: a reader of the SPS (H.265 7.3.2.2), written from the
syntax table, up to `log2_max_pic_order_cnt_lsb_minus4`: after
`profile_tier_level` come `sps_seq_parameter_set_id`, the chroma format, the
picture width and height, the conformance window, the two bit depths and the
POC width. -/
def read_sps_spec (bits : List Bool) : Option SpsFieldsSpec :=
  match read_sps_profile_tier_level_spec bits with
  | none => none
  | some bits1 =>
    match read_ue_spec bits1 with
    | none => none
    | some (_, bits2) =>
      match read_chroma_format_spec bits2 with
      | none => none
      | some (chroma_format_idc, bits3) =>
        match read_ue_spec bits3 with
        | none => none
        | some (pic_width_in_luma_samples, bits4) =>
          match read_ue_spec bits4 with
          | none => none
          | some (pic_height_in_luma_samples, bits5) =>
            match read_conformance_window_spec bits5 with
            | none => none
            | some (conformance_window, bits6) =>
              match read_bit_depths_spec bits6 with
              | none => none
              | some (bit_depth_luma_minus8, bit_depth_chroma_minus8,
                  log2_max_pic_order_cnt_lsb_minus4) =>
                some
                  { chroma_format_idc := chroma_format_idc
                    pic_width_in_luma_samples := pic_width_in_luma_samples
                    pic_height_in_luma_samples := pic_height_in_luma_samples
                    conformance_window := conformance_window
                    bit_depth_luma_minus8 := bit_depth_luma_minus8
                    bit_depth_chroma_minus8 := bit_depth_chroma_minus8
                    log2_max_pic_order_cnt_lsb_minus4 := log2_max_pic_order_cnt_lsb_minus4 }

/-! ## Profile, tier and level of the encoder -/

/-- The functions and tables of the library and of the display that the
configuration reads and that are not in these sources:
`gst_vaapi_utils_h265_get_profile_idc`, whether `gst_vaapi_profile_get_codec`
gives `GST_VAAPI_CODEC_H265`, `gst_vaapi_encoder_get_entrypoint`, the array of
`gst_vaapi_display_get_encode_profiles` (`none` is NULL) and the table of
`gst_vaapi_utils_h265_get_level_limits_table`. -/
structure Backend where
  get_profile_idc : GstVaapiProfile → Nat
  is_h265 : GstVaapiProfile → Bool
  get_entrypoint : GstVaapiProfile → GstVaapiEntrypoint
  encode_profiles : Option (List GstVaapiProfile)
  limits_table : List GstVaapiH265LevelLimits

/-- Modelled from the spec: the values of the enumerators of `GstVaapiTierH265`
(gstvaapiutils_h265.h, not in these sources): `GST_VAAPI_TIER_H265_MAIN` is 0,
the `general_tier_flag` of the Main tier, which `fill_sequence` sets by
`seq_param->general_tier_flag = encoder->tier`; `GST_VAAPI_TIER_H265_HIGH` is 1
and `GST_VAAPI_TIER_H265_UNKNOWN` is -1. -/
def GstVaapiTierH265.value : GstVaapiTierH265 → Int
  | GstVaapiTierH265.MAIN => 0
  | GstVaapiTierH265.HIGH => 1
  | GstVaapiTierH265.UNKNOWN => -1

/-- The function `ensure_hw_profile_limits`: the value is the boolean returned
and the encoder left; `hw_max_profile_idc` is a `guint8`. -/
def ensure_hw_profile_limits (encoder : Encoder) (backend : Backend) : Bool × Encoder :=
  if encoder.hw_max_profile_idc ≠ 0 then (true, encoder)
  else
    match backend.encode_profiles with
    | none => (false, encoder)
    | some profiles =>
      let max_profile_idc :=
        profiles.foldl
          (fun max_profile_idc profile =>
            let profile_idc := backend.get_profile_idc profile
            if profile_idc = 0 then max_profile_idc
            else if max_profile_idc < profile_idc then profile_idc
            else max_profile_idc) 0
      (true, { encoder with hw_max_profile_idc := max_profile_idc % 2 ^ 8 })

/-- The function `ensure_tuning_high_compression`. -/
def ensure_tuning_high_compression (encoder : Encoder) (backend : Backend) : Bool × Encoder :=
  match ensure_hw_profile_limits encoder backend with
  | (false, encoder1) => (false, encoder1)
  | (true, encoder1) =>
    (true, if encoder1.num_bframes = 0 then { encoder1 with num_bframes := 3 } else encoder1)

/-- The function `ensure_tuning`. -/
def ensure_tuning (encoder : Encoder) (backend : Backend) : Bool × Encoder :=
  match encoder.tune with
  | GstVaapiEncoderTune.HIGH_COMPRESSION => ensure_tuning_high_compression encoder backend
  | GstVaapiEncoderTune.OTHER => (true, encoder)

/-- The function `ensure_profile`: the minimal profile for the video format. It
returns TRUE; the value is the encoder left. -/
def ensure_profile (encoder : Encoder) (backend : Backend) : Encoder :=
  let profile :=
    if encoder.format = GstVideoFormat.P010_10LE then GstVaapiProfile.H265_MAIN10
    else if encoder.format = GstVideoFormat.VUYA then GstVaapiProfile.H265_MAIN_444
    else if encoder.format = GstVideoFormat.Y410 then GstVaapiProfile.H265_MAIN_444_10
    else if encoder.format = GstVideoFormat.Y210 ∨ encoder.format = GstVideoFormat.YUY2 then
      GstVaapiProfile.H265_MAIN_422_10
    else GstVaapiProfile.H265_MAIN
  { encoder with profile := profile, profile_idc := backend.get_profile_idc profile % 2 ^ 8 }

/-- The function `ensure_profile_limits`. It returns TRUE on both of its paths;
the value is the encoder left. -/
def ensure_profile_limits (encoder : Encoder) (backend : Backend) : Encoder :=
  if encoder.max_profile_idc = 0 ∨ encoder.profile_idc ≤ encoder.max_profile_idc then encoder
  else
    { encoder with
      profile := GstVaapiProfile.H265_MAIN
      profile_idc := backend.get_profile_idc GstVaapiProfile.H265_MAIN % 2 ^ 8 }

/-- The function `ensure_bitrate_hrd`; its two `g_assert`s, on the constants
`SX_BITRATE` and `SX_CPB_SIZE`, hold. -/
def ensure_bitrate_hrd (encoder : Encoder) : Encoder :=
  if encoder.bitrate = 0 then { encoder with bitrate_bits := 0 }
  else
    let bitrate := ((encoder.bitrate * 1000) % 2 ^ 32) &&& (2 ^ 32 - 1 - (2 ^ SX_BITRATE - 1))
    let encoder1 : Encoder :=
      if bitrate ≠ encoder.bitrate_bits then
        { encoder with bitrate_bits := bitrate, config_changed := true }
      else encoder
    let cpb_size :=
      gst_util_uint64_scale bitrate encoder1.cpb_length 1000
        &&& (2 ^ 32 - 1 - (2 ^ SX_CPB_SIZE - 1))
    if cpb_size ≠ encoder1.cpb_length_bits then
      { encoder1 with cpb_length_bits := cpb_size, config_changed := true }
    else encoder1

/-- The function `ensure_bitrate`. -/
def ensure_bitrate (encoder : Encoder) : Encoder :=
  let encoder1 : Encoder :=
    if encoder.rate_control = GstVaapiRateControl.CBR
        ∨ encoder.rate_control = GstVaapiRateControl.VBR
        ∨ encoder.rate_control = GstVaapiRateControl.QVBR then
      if encoder.bitrate = 0 then
        let factor := (encoder.luma_width * encoder.luma_height * 12) % 2 ^ 64 / 6
        { encoder with
          bitrate :=
            (gst_util_uint64_scale factor encoder.fps_n encoder.fps_d / 1000) % 2 ^ 32 }
      else encoder
    else { encoder with bitrate := 0 }
  ensure_bitrate_hrd encoder1

/-- The function `ensure_profile_tier_level`: the value is the status returned and
the encoder left. -/
def ensure_profile_tier_level (encoder : Encoder) (backend : Backend) :
    GstVaapiEncoderStatus × Encoder :=
  let profile := encoder.profile
  let tier := encoder.tier
  let level := encoder.level
  let encoder1 := (ensure_tuning encoder backend).2
  let encoder2 := ensure_profile_limits (ensure_profile encoder1 backend) backend
  let encoder3 : Encoder :=
    { encoder2 with entrypoint := backend.get_entrypoint encoder2.profile }
  if encoder3.entrypoint = GstVaapiEntrypoint.INVALID then
    (GstVaapiEncoderStatus.ERROR_UNSUPPORTED_PROFILE, encoder3)
  else
    match ensure_hw_profile_limits encoder3 backend with
    | (false, encoder4) => (GstVaapiEncoderStatus.ERROR_UNSUPPORTED_PROFILE, encoder4)
    | (true, encoder4) =>
      if encoder4.profile_idc > encoder4.hw_max_profile_idc then
        (GstVaapiEncoderStatus.ERROR_UNSUPPORTED_PROFILE, encoder4)
      else
        match ensure_tier_level (ensure_bitrate encoder4) backend.limits_table with
        | (false, encoder5) => (GstVaapiEncoderStatus.ERROR_OPERATION_FAILED, encoder5)
        | (true, encoder5) =>
          if encoder5.profile ≠ profile ∨ encoder5.level ≠ level ∨ encoder5.tier ≠ tier then
            (GstVaapiEncoderStatus.SUCCESS, { encoder5 with config_changed := true })
          else (GstVaapiEncoderStatus.SUCCESS, encoder5)

/-- The function `gst_vaapi_encoder_h265_set_max_profile` for a non-NULL encoder:
the value is the boolean returned and the encoder left; `max_profile_idc` is
a `guint8`. -/
def gst_vaapi_encoder_h265_set_max_profile (encoder : Encoder) (backend : Backend)
    (profile : GstVaapiProfile) : Bool × Encoder :=
  if profile = GstVaapiProfile.UNKNOWN then (false, encoder)
  else if ¬ backend.is_h265 profile then (false, encoder)
  else
    let profile_idc := backend.get_profile_idc profile % 2 ^ 8
    if profile_idc = 0 then (false, encoder)
    else (true, { encoder with max_profile_idc := profile_idc })

/-- The function `gst_vaapi_encoder_h265_get_profile_tier_level` for a non-NULL
encoder. An output location is `none` when its pointer is NULL and holds a
value otherwise; the value is the boolean returned and the three locations
left. The tests `!encoder->profile`, `!encoder->tier` and `!encoder->level`
compare with 0, the value of `GST_VAAPI_PROFILE_UNKNOWN`. -/
def gst_vaapi_encoder_h265_get_profile_tier_level (encoder : Encoder)
    (out_profile_ptr : Option GstVaapiProfile) (out_tier_ptr : Option GstVaapiTierH265)
    (out_level_ptr : Option Nat) :
    Bool × Option GstVaapiProfile × Option GstVaapiTierH265 × Option Nat :=
  if encoder.profile = GstVaapiProfile.UNKNOWN ∨ encoder.tier.value = 0 ∨ encoder.level = 0 then
    (false, out_profile_ptr, out_tier_ptr, out_level_ptr)
  else
    (true, out_profile_ptr.map (fun _ => encoder.profile),
      out_tier_ptr.map (fun _ => encoder.tier), out_level_ptr.map (fun _ => encoder.level))

/-- The loop of `gst_vaapi_encoder_h265_flush`, which pops and releases the head
of the queue until the queue is empty: the queue left. -/
def flush_queue : List GstVaapiEncPicture → List GstVaapiEncPicture
  | [] => []
  | _ :: rest => flush_queue rest

/-- The function `gst_vaapi_encoder_h265_flush`: the value is the status returned
and the encoder left. -/
def gst_vaapi_encoder_h265_flush (encoder : Encoder) : GstVaapiEncoderStatus × Encoder :=
  (GstVaapiEncoderStatus.SUCCESS,
    { encoder with
      reorder_pool :=
        { encoder.reorder_pool with
          frame_index := 0
          cur_present_index := 0
          reorder_frame_list := flush_queue encoder.reorder_pool.reorder_frame_list } })

/-! ## Sequence parameters -/

/-- What `fill_sequence` reads of the video info of the encoder through functions
that are not in these sources: the depth of the first component of the video
format (`GST_VIDEO_FORMAT_INFO_DEPTH`), the value that
`gst_vaapi_utils_h265_get_chroma_format_idc` gives for the chroma type of the
format, and the pixel aspect ratio (`GST_VIDEO_INFO_PAR_N`,
`GST_VIDEO_INFO_PAR_D`). The defaults are those of an 8-bit 4:2:0 format with
square pixels. -/
structure GstVideoInfo where
  depth : Nat := 8
  chroma_format_idc : Nat := 1
  par_n : Nat := 1
  par_d : Nat := 1
  deriving DecidableEq, Repr

/-- The function `fill_hrd_params`: the `buffer_size` it stores, which is the
field of the HRD parameters that `bs_write_sps_data` reads. -/
def fill_hrd_params (encoder : Encoder) : Nat :=
  if encoder.bitrate_bits > 0 then encoder.cpb_length_bits else 0

/-- The function `fill_sequence`: `none` is the return value FALSE (a depth below
8), `some` the return value TRUE with the record filled in, of which the
fields that the bitstream writers read are kept. A value stored is cut to
the width of its field in `VAEncSequenceParameterBufferHEVC` (va/va_enc_hevc.h,
not in these sources): 8 bits for the profile, the tier, the level, the block
sizes, the hierarchy depths, `vui_parameters_present_flag` and
`aspect_ratio_idc`, 16 bits for the picture width and height, 2 bits for
`chroma_format_idc`, 3 bits for the bit depths, 1 bit for the flags and 32 bits
for the rest. -/
def fill_sequence (encoder : Encoder) (vip : GstVideoInfo) :
    Option VAEncSequenceParameterBufferHEVC :=
  let bits_depth_luma_minus8 := vip.depth % 2 ^ 32
  if bits_depth_luma_minus8 < 8 then none
  else
    let bits_depth_luma_minus8 := bits_depth_luma_minus8 - 8
    some
      { general_profile_idc := encoder.profile_idc % 2 ^ 8
        general_level_idc := encoder.level_idc % 2 ^ 8
        general_tier_flag := (encoder.tier.value % 2 ^ 8).toNat
        bits_per_second := encoder.bitrate_bits % 2 ^ 32
        pic_width_in_luma_samples := encoder.luma_width % 2 ^ 16
        pic_height_in_luma_samples := encoder.luma_height % 2 ^ 16
        chroma_format_idc := vip.chroma_format_idc % 2 ^ 2
        bit_depth_luma_minus8 := bits_depth_luma_minus8 % 2 ^ 3
        bit_depth_chroma_minus8 := bits_depth_luma_minus8 % 2 ^ 3
        scaling_list_enabled_flag := 0
        strong_intra_smoothing_enabled_flag := 1
        amp_enabled_flag := 1
        sample_adaptive_offset_enabled_flag := 0
        pcm_enabled_flag := 0
        sps_temporal_mvp_enabled_flag := 1
        log2_min_luma_coding_block_size_minus3 := 0
        log2_diff_max_min_luma_coding_block_size :=
          if encoder.entrypoint = GstVaapiEntrypoint.SLICE_ENCODE_LP then 3 else 2
        log2_min_transform_block_size_minus2 := 0
        log2_diff_max_min_transform_block_size := 3
        max_transform_hierarchy_depth_inter := 2
        max_transform_hierarchy_depth_intra := 2
        vui_parameters_present_flag := 1
        aspect_ratio_info_present_flag := 1
        neutral_chroma_indication_flag := 0
        field_seq_flag := 0
        vui_timing_info_present_flag := 1
        bitstream_restriction_flag := 0
        aspect_ratio_idc := 0xff
        sar_width := vip.par_n % 2 ^ 32
        sar_height := vip.par_d % 2 ^ 32
        vui_num_units_in_tick := encoder.fps_d % 2 ^ 32
        vui_time_scale := encoder.fps_n % 2 ^ 32 }

/-! ## Slice parameters -/

/-- The surface id of an entry that holds no picture (`VA_INVALID_SURFACE` of
va.h). -/
def VA_INVALID_SURFACE : Nat := 0xFFFFFFFF

/-- The flag of an entry that holds no picture (`VA_PICTURE_HEVC_INVALID` of
va_dec_hevc.h). -/
def VA_PICTURE_HEVC_INVALID : Nat := 0x00000001

/-- Slice type of a B slice (`GstH265SliceType` of the GStreamer codec parsers,
the values of H.265 Table 7-7). -/
def GST_H265_B_SLICE : Nat := 0

/-- Slice type of a P slice. -/
def GST_H265_P_SLICE : Nat := 1

/-- Slice type of an I slice. -/
def GST_H265_I_SLICE : Nat := 2

/-- An entry of a reference picture list of the slice parameters
(`VAPictureHEVC`): the surface id, the picture order count (an `int32_t`, here
its 32 bits as a number) and the flags. -/
structure VAPictureHEVC where
  picture_id : Nat := 0
  pic_order_cnt : Nat := 0
  flags : Nat := 0
  deriving DecidableEq, Repr

/-- The fields of `VAEncSliceParameterBufferHEVC` that `create_and_fill_one_slice`
sets to a value other than the 0 of its `memset`, but for the addresses, which
`add_slice_headers` sets. `slice_qp_delta` is an `int8_t`. -/
structure VAEncSliceParameterBufferHEVC where
  slice_type : Nat := 0
  num_ref_idx_active_override_flag : Nat := 0
  num_ref_idx_l0_active_minus1 : Nat := 0
  num_ref_idx_l1_active_minus1 : Nat := 0
  ref_pic_list0 : List VAPictureHEVC := []
  ref_pic_list1 : List VAPictureHEVC := []
  max_num_merge_cand : Nat := 0
  slice_qp_delta : Int := 0
  slice_loop_filter_across_slices_enabled_flag : Nat := 0
  deriving DecidableEq, Repr

/-- The function `h265_get_slice_type`, whose result is a `guint8`: -1 is 255. -/
def h265_get_slice_type (type : GstVaapiPictureType) : Nat :=
  match type with
  | GstVaapiPictureType.I => GST_H265_I_SLICE
  | GstVaapiPictureType.P => GST_H265_P_SLICE
  | GstVaapiPictureType.B => GST_H265_B_SLICE
  | GstVaapiPictureType.NONE => 255

/-- A value stored in an `int8_t`: its 8 low-order bits, read as a signed
number. -/
def int8_of (value : Int) : Int :=
  (value + 128) % 256 - 128

/-- A `guint32` read as a `gint`: its 32 bits as a signed number. -/
def gint_of (value : Int) : Int :=
  (value + 2 ^ 31) % 2 ^ 32 - 2 ^ 31

/-- The two loops of `create_and_fill_one_slice` that fill a reference list of
15 slots: the entries of the pictures handed over, `count` of them, then
entries without a picture. The lists handed over hold no more than 15
pictures. -/
def fill_ref_pic_list (reflist : List GstVaapiEncoderH265Ref) : List VAPictureHEVC :=
  (reflist.take 15).map
      (fun ref => { picture_id := ref.pic, pic_order_cnt := ref.poc % 2 ^ 32, flags := 0 })
    ++ List.replicate (15 - reflist.length)
      { picture_id := VA_INVALID_SURFACE, pic_order_cnt := 0, flags := VA_PICTURE_HEVC_INVALID }

/-- The value of `slice_qp_delta` that `create_and_fill_one_slice` computes. The
differences are taken on `guint32` values and stored in the `int8_t`; the two
comparisons are made on `gint` values. -/
def slice_qp_delta (encoder : Encoder) (picture : GstVaapiEncPicture) : Int :=
  let delta0 :=
    int8_of
      (((encoder.qp_i % 2 ^ 32 + 2 ^ 32 - encoder.init_qp % 2 ^ 32) % 2 ^ 32 : Nat) : Int)
  if encoder.rate_control = GstVaapiRateControl.CQP then
    let delta1 :=
      if picture.type = GstVaapiPictureType.P then
        int8_of (delta0 + ((encoder.qp_ip % 2 ^ 32 : Nat) : Int))
      else if picture.type = GstVaapiPictureType.B then
        int8_of (delta0 + ((encoder.qp_ib % 2 ^ 32 : Nat) : Int))
      else delta0
    let delta2 :=
      if gint_of (gint_of (encoder.init_qp : Int) + delta1) < gint_of (encoder.min_qp : Int) then
        int8_of
          (((encoder.min_qp % 2 ^ 32 + 2 ^ 32 - encoder.init_qp % 2 ^ 32) % 2 ^ 32 : Nat) : Int)
      else delta1
    if gint_of (gint_of (encoder.init_qp : Int) + delta2) > gint_of (encoder.max_qp : Int) then
      int8_of
        (((encoder.max_qp % 2 ^ 32 + 2 ^ 32 - encoder.init_qp % 2 ^ 32) % 2 ^ 32 : Nat) : Int)
    else delta2
  else delta0

/-- The function `create_and_fill_one_slice`, the allocation of the slice taken
to succeed. The two reference lists are those handed over with their counts,
`reflist_0_count` and `reflist_1_count` being the lengths; the counts are
`guint` and the two `minus1` fields are `uint8_t`. -/
def create_and_fill_one_slice (encoder : Encoder) (picture : GstVaapiEncPicture)
    (reflist_0 reflist_1 : List GstVaapiEncoderH265Ref) : VAEncSliceParameterBufferHEVC :=
  let slice_type0 := h265_get_slice_type picture.type
  let slice_type :=
    if encoder.low_delay_b ∧ slice_type0 = GST_H265_P_SLICE then GST_H265_B_SLICE
    else slice_type0
  let num_ref_idx_l0_active_minus1 :=
    if picture.type ≠ GstVaapiPictureType.I ∧ reflist_0.length > 0 then
      (reflist_0.length - 1) % 2 ^ 8
    else 0
  let num_ref_idx_l1_active_minus1 :=
    if picture.type = GstVaapiPictureType.P ∧ encoder.low_delay_b then
      num_ref_idx_l0_active_minus1
    else if picture.type = GstVaapiPictureType.B ∧ reflist_1.length > 0 then
      (reflist_1.length - 1) % 2 ^ 8
    else 0
  { slice_type := slice_type
    num_ref_idx_active_override_flag :=
      if reflist_0.length ≠ 0 ∨ reflist_1.length ≠ 0 then 1 else 0
    num_ref_idx_l0_active_minus1 := num_ref_idx_l0_active_minus1
    num_ref_idx_l1_active_minus1 := num_ref_idx_l1_active_minus1
    ref_pic_list0 :=
      if picture.type ≠ GstVaapiPictureType.I then fill_ref_pic_list reflist_0
      else fill_ref_pic_list []
    ref_pic_list1 :=
      if picture.type = GstVaapiPictureType.B then fill_ref_pic_list reflist_1
      else if picture.type = GstVaapiPictureType.P ∧ encoder.low_delay_b then
        fill_ref_pic_list reflist_0
      else fill_ref_pic_list []
    max_num_merge_cand := 5
    slice_qp_delta := slice_qp_delta encoder picture
    slice_loop_filter_across_slices_enabled_flag := 1 }

/-- The loops of `bs_write_slice` that count the entries of a reference list
of the slice parameters: the index of the first of the 15 entries whose
`picture_id` is `VA_INVALID_SURFACE`, 15 when there is none. -/
def ref_pic_list_count (list : List VAPictureHEVC) : Nat :=
  ((list.take 15).takeWhile (fun entry => entry.picture_id ≠ VA_INVALID_SURFACE)).length

/-- The `pic_order_cnt` of the entry `i` of a reference list of the slice
parameters. -/
def ref_pic_order_cnt (list : List VAPictureHEVC) (i : Nat) : Nat :=
  (list.getD i {}).pic_order_cnt

/-- One of the two loops of `bs_write_slice` that write the entries of the
short-term reference picture set: for each of the `count` entries the
`delta_poc_minus1`, which is `first_delta` for the entry 0 and
`list[i - 1].pic_order_cnt - list[i].pic_order_cnt - 1` for the others, and the
`used_by_curr_pic` flag. -/
def ref_pic_set_loop (first_delta used_by_curr_pic_flag : Nat) (list : List VAPictureHEVC)
    (count : Nat) : List SyntaxElement :=
  ((List.range count).map
    (fun i =>
      [SyntaxElement.ue
        (if i = 0 then first_delta
        else
          (ref_pic_order_cnt list (i - 1) + 2 ^ 32 - ref_pic_order_cnt list i + 2 ^ 32 - 1)
            % 2 ^ 32),
       SyntaxElement.u used_by_curr_pic_flag 1])).flatten

/-- The syntax elements that `bs_write_slice` writes for the inline
`short_term_ref_pic_set` of a picture that is not an IDR picture (the block
after `short_term_ref_pic_set_sps_flag`): the two counts, then the entries of
the negative pictures and those of the positive pictures. -/
def short_term_ref_pic_set_elements (slice_param : VAEncSliceParameterBufferHEVC)
    (picture : GstVaapiEncPicture) : List SyntaxElement :=
  let reflist_0_count :=
    if picture.type = GstVaapiPictureType.P ∨ picture.type = GstVaapiPictureType.B then
      ref_pic_list_count slice_param.ref_pic_list0
    else 0
  let reflist_1_count :=
    if picture.type = GstVaapiPictureType.B then ref_pic_list_count slice_param.ref_pic_list1
    else 0
  let delta_poc_s0_minus1 :=
    if picture.type = GstVaapiPictureType.P ∨ picture.type = GstVaapiPictureType.B then
      (picture.poc % 2 ^ 32 + 2 ^ 32 - ref_pic_order_cnt slice_param.ref_pic_list0 0
        + 2 ^ 32 - 1) % 2 ^ 32
    else 0
  let used_by_curr_pic_s0_flag :=
    if picture.type = GstVaapiPictureType.P ∨ picture.type = GstVaapiPictureType.B then 1
    else 0
  let delta_poc_s1_minus1 :=
    if picture.type = GstVaapiPictureType.B then
      (ref_pic_order_cnt slice_param.ref_pic_list1 0 + 2 ^ 32 - picture.poc % 2 ^ 32
        + 2 ^ 32 - 1) % 2 ^ 32
    else 0
  let used_by_curr_pic_s1_flag := if picture.type = GstVaapiPictureType.B then 1 else 0
  let num_negative_pics := reflist_0_count
  let num_positive_pics := reflist_1_count
  [SyntaxElement.ue num_negative_pics, SyntaxElement.ue num_positive_pics]
  ++ ref_pic_set_loop delta_poc_s0_minus1 used_by_curr_pic_s0_flag slice_param.ref_pic_list0
    num_negative_pics
  ++ ref_pic_set_loop delta_poc_s1_minus1 used_by_curr_pic_s1_flag slice_param.ref_pic_list1
    num_positive_pics

/-! ## Calls of the reorder engine in any order -/

/-- Modelled from the spec: a caller (the base encoder, which is not part of
these sources) that calls `gst_vaapi_encoder_h265_reordering` once for each
element of a list, with the frame or with NULL (`none`), whatever the calls
before returned. The run ends at the first call that aborts. -/
def reordering_calls (encoder : Encoder) : List (Option GstVideoCodecFrame) → Outcome Unit
  | [] => Outcome.ret () encoder
  | call :: calls =>
    match gst_vaapi_encoder_h265_reordering encoder call with
    | Outcome.ret _ encoder1 => reordering_calls encoder1 calls
    | Outcome.abort encoder1 => Outcome.abort encoder1

open GstVaapiEncH265ReorderState GstVaapiPictureType GstVaapiEncoderStatus

/-! ## Predicates used in the proofs -/

/-- The reorder pool between two submissions under the drain protocol: the
engine is not dumping, it waits only when B-frames are enabled, and the
buffer holds untyped pictures only (none at all before the first key frame). -/
def Ready (enc : Encoder) : Prop :=
  enc.reorder_pool.reorder_state ≠ REORD_DUMP_FRAMES ∧
  (enc.reorder_pool.reorder_state = REORD_WAIT_FRAMES → enc.num_bframes ≠ 0) ∧
  (enc.reorder_pool.reorder_state = REORD_NONE → enc.reorder_pool.reorder_frame_list = []) ∧
  ∀ p ∈ enc.reorder_pool.reorder_frame_list, p.type = NONE

/-- The four ways one submission under the drain protocol can end, as a
relation between the buffer before, the frame, the pictures received and the
buffer after. -/
inductive StepShape (q : List GstVaapiEncPicture) (f : GstVideoCodecFrame) :
    List GstVaapiEncPicture → List GstVaapiEncPicture → Prop where
  | buffer (p : GstVaapiEncPicture) (hf : p.frame = f) (ht : p.type = NONE) :
      StepShape q f [] (q ++ [p])
  | single (k : GstVaapiEncPicture) (hf : k.frame = f) (ht : k.type = I ∨ k.type = P)
      (hq : q = []) : StepShape q f [k] []
  | flush_p (p : GstVaapiEncPicture) (hf : p.frame = f) (ht : p.type = P) (hq : q ≠ []) :
      StepShape q f (p :: q.map set_b_frame) []
  | flush_key (k : GstVaapiEncPicture) (hf : k.frame = f) (ht : k.type = I) (hq : q ≠ []) :
      StepShape q f (set_p_frame (q.getLast hq) :: (q.dropLast.map set_b_frame ++ [k])) []

/-- Every I or P picture of the list comes after all pictures of earlier
frames only: what precedes it has a smaller frame number. -/
def KeyOrder (out : List GstVaapiEncPicture) : Prop :=
  out.Pairwise (fun a b => (b.type = I ∨ b.type = P) → a.frame.id < b.frame.id)

/-- Every B picture of the list is preceded by a P picture of a later frame. -/
def BHasP (out : List GstVaapiEncPicture) : Prop :=
  ∀ l1 X l2, out = l1 ++ X :: l2 → X.type = B →
    ∃ Y ∈ l1, Y.type = P ∧ X.frame.id < Y.frame.id

/-- The order invariant of a session: the pictures received so far are in
reference order, and the buffer holds later frames, in submission order. -/
def OrderInv (out q : List GstVaapiEncPicture) : Prop :=
  KeyOrder out ∧ BHasP out ∧ (∀ a ∈ out, ∀ b ∈ q, a.frame.id < b.frame.id) ∧
  q.Pairwise (fun a b => a.frame.id < b.frame.id)


/-- A picture flagged IDR has type I and POC 0. -/
def IdrOk (p : GstVaapiEncPicture) : Prop :=
  p.idr = true → p.type = I ∧ p.poc = 0

/-- Slices that follow one another from the address `start` to the address
`stop` on a grid `ctu_width` wide: each slice begins where the one before it
ends, holds at least one coding tree unit, and begins and ends on a row
boundary. -/
def SliceChain (ctu_width : Nat) : Nat → List GstVaapiEncSlice → Nat → Prop
  | start, [], stop => start = stop
  | start, slice :: rest, stop =>
    slice.slice_segment_address = start ∧ 1 ≤ slice.num_ctu_in_slice ∧
      ctu_width ∣ slice.slice_segment_address ∧ ctu_width ∣ slice.num_ctu_in_slice ∧
      SliceChain ctu_width (start + slice.num_ctu_in_slice) rest stop

/-- The data of a packed header begins with the six bytes 00 00 00 01,
`nal_unit_type << 1`, 01: the Annex-B start code and the NAL header with
`forbidden_zero_bit` 0, `nuh_layer_id` 0 and `nuh_temporal_id_plus1` 1; and
`(byte & 0x7E) >> 1` on the first header byte gives `nal_unit_type` back. -/
def BeginsWithNalHeader (data : List Nat) (nal_unit_type : Nat) : Prop :=
  data.take 6 = [0, 0, 0, 1, nal_unit_type <<< 1, 1] ∧
    (((data.drop 4).headD 0) &&& 0x7E) >>> 1 = nal_unit_type

/-- The test of `gst_vaapi_encoder_h265_reordering` for a key frame: the new frame
starts an IDR period, is flagged force-keyframe, or falls on the keyframe
period. -/
def new_frame_is_key (encoder : Encoder) (frame : GstVideoCodecFrame) : Bool :=
  (encoder.reorder_pool.frame_index == 0
      || decide (encoder.reorder_pool.frame_index ≥ encoder.idr_period))
    || frame.force_keyframe
    || encoder.reorder_pool.frame_index % encoder.keyframe_period == 0

/-- The value a call returned, `none` when the call aborted on a failed assertion. -/
def Outcome.value? {α : Type} : Outcome α → Option α
  | Outcome.ret a _ => some a
  | Outcome.abort _ => none

/-- The bits that the write of a syntax element appends to a writer. -/
def element_bits (element : SyntaxElement) : List Bool :=
  writer_of (write_element [] element)

/-- The bits that a sequence of writes, all of which succeed, appends. -/
def elements_bits (elements : List SyntaxElement) : List Bool :=
  (elements.map element_bits).flatten

/-- The conformance window written for the encoder: the offsets of an absent
window are 0. -/
def conformance_window_of (encoder : Encoder) : ConformanceWindowSpec :=
  if encoder.conformance_window_flag then
    { conformance_window_flag := 1
      conf_win_left_offset := encoder.conf_win_left_offset
      conf_win_right_offset := encoder.conf_win_right_offset
      conf_win_top_offset := encoder.conf_win_top_offset
      conf_win_bottom_offset := encoder.conf_win_bottom_offset }
  else
    { conformance_window_flag := 0
      conf_win_left_offset := 0
      conf_win_right_offset := 0
      conf_win_top_offset := 0
      conf_win_bottom_offset := 0 }

/-! ## Concrete configurations -/

/-- Frames numbered `0, 1, ..., n - 1`, none flagged force-keyframe. -/
def plain_frames (n : Nat) : List GstVideoCodecFrame :=
  (List.range n).map (fun i => { id := i, force_keyframe := false })

/-- Scenario A: no B-frames, keyframe period 4, one reference frame, a driver
with one reference frame per list. -/
def scenario_a : Encoder :=
  reset_properties
    (gst_vaapi_encoder_h265_init
      { num_bframes := 0, keyframe_period := 4, idr_period := 4, num_ref_frames := 1 }) 1 1

/-- Scenario B: two B-frames, keyframe period 4, one reference frame, a driver
with one reference frame per list. -/
def scenario_b : Encoder :=
  reset_properties
    (gst_vaapi_encoder_h265_init
      { num_bframes := 2, keyframe_period := 4, idr_period := 4, num_ref_frames := 1 }) 1 1

/-- Six frames, the frame number 2 flagged force-keyframe, for an encoder with
three B-frames and keyframe period 30. -/
def forced_frames : List GstVideoCodecFrame :=
  [{ id := 0 }, { id := 1 }, { id := 2, force_keyframe := true }, { id := 3 }, { id := 4 },
    { id := 5 }]

/-- Three B-frames, keyframe period 30. -/
def scenario_long : Encoder :=
  reset_properties
    (gst_vaapi_encoder_h265_init
      { num_bframes := 3, keyframe_period := 30, idr_period := 30, num_ref_frames := 1 }) 1 1

/-! ## Direct submission -/

/-- Modelled from the spec: frames submitted one after the other, each by one
call of `gst_vaapi_encoder_h265_reordering` with the frame and no other call
in between; the encoder state left after the last call. -/
def submit_frames (encoder : Encoder) : List GstVideoCodecFrame → Encoder
  | [] => encoder
  | frame :: frames =>
    submit_frames (gst_vaapi_encoder_h265_reordering encoder (some frame)).enc frames

/-- The encoder after `m` frames of a session without B-frames and with
`keyframe_period = idr_period = K`: nothing buffered, and the two counters at
the position of the last frame within its GOP. -/
def AtFrame (K m : Nat) (enc : Encoder) : Prop :=
  enc.num_bframes = 0 ∧ enc.keyframe_period = K ∧ enc.idr_period = K ∧
  enc.max_pic_order_cnt = 2 ^ h265_get_log2_max_pic_order_cnt K ∧
  enc.reorder_pool.reorder_state = REORD_NONE ∧ enc.reorder_pool.reorder_frame_list = [] ∧
  ((m = 0 ∧ enc.reorder_pool.frame_index = 0 ∧ enc.reorder_pool.cur_present_index = 0) ∨
   (0 < m ∧ enc.reorder_pool.frame_index = (m - 1) % K + 1 ∧
     enc.reorder_pool.cur_present_index = (m - 1) % K))

/-- Every frame a key frame: `keyframe-period = 1`; `idr_period`, which no property
sets, starts at 0 and `reset_properties` raises it to the keyframe period, 1.
No B-frames, one reference frame. -/
def scenario_all_idr : Encoder :=
  reset_properties
    (gst_vaapi_encoder_h265_init
      { num_bframes := 0, keyframe_period := 1, idr_period := 0, num_ref_frames := 1 }) 1 1

/-- One reference frame asked for, no B-frames, and a driver that reports no
reference frame for list 0: `reset_properties` lowers `num_ref_frames` to 0. -/
def scenario_no_refs : Encoder :=
  reset_properties
    (gst_vaapi_encoder_h265_init
      { num_bframes := 0, keyframe_period := 4, idr_period := 4, num_ref_frames := 1 }) 0 0

/-! ## Reference definition of the store update -/

/-- The store update in the words of the specification, on a store that is a
list of entries, oldest first: a B picture leaves the store unchanged; an IDR
picture leaves the single new entry; any other picture appends the new entry,
after dropping the oldest entry when the store has reached `max_ref_frames`. -/
def reference_store_spec (max_ref_frames : Nat) (old : List GstVaapiEncoderH265Ref)
    (picture : GstVaapiEncPicture) (surface : Nat) : List GstVaapiEncoderH265Ref :=
  match picture.type with
  | GstVaapiPictureType.B => old
  | _ =>
    if picture.idr then [{ pic := surface, poc := picture.poc }]
    else if old.length < max_ref_frames then old ++ [{ pic := surface, poc := picture.poc }]
    else old.tail ++ [{ pic := surface, poc := picture.poc }]

/-- Scenario B with a store holding one entry, of POC 5. -/
def scenario_store_poc5 : Encoder :=
  { scenario_b with ref_pool := { scenario_b.ref_pool with ref_list := [{ pic := 0, poc := 5 }] } }

/-- Scenario B with a store holding two entries, of POC 0 and 3. -/
def scenario_store_0_3 : Encoder :=
  { scenario_b with
    ref_pool :=
      { scenario_b.ref_pool with ref_list := [{ pic := 0, poc := 0 }, { pic := 3, poc := 3 }] } }

/-- Seven B-frames, keyframe period 13, one reference frame, a driver with one
reference frame per list: `reset_properties` keeps the seven B-frames (half the
keyframe period, rounded up) and sets `max_pic_order_cnt = 16`. -/
def scenario_seven_bframes : Encoder :=
  reset_properties
    (gst_vaapi_encoder_h265_init
      { num_bframes := 7, keyframe_period := 13, idr_period := 13, num_ref_frames := 1 }) 1 1

/-! ## Sample inputs for tier, level and slices -/

/-- Modelled from the spec: a level-limits table for `ensure_tier_level`, whose
own table (`gst_vaapi_utils_h265_get_level_limits_table`, gstvaapiutils_h265.c)
is not in these sources: the rows of levels 1, 2, 2.1, 3, 3.1, 4, 4.1 and 5
with the limits of H.265 Tables A.8 and A.9, the levels numbered from 1 in
the order of the rows, the bit rates in kbps; a High-tier bit rate that the
standard does not define is 0. -/
def sample_level_limits : List GstVaapiH265LevelLimits :=
  [ { level := 1, level_idc := 30, MaxLumaPs := 36864, MaxLumaSr := 552960,
      MaxTileRows := 1, MaxTileColumns := 1, MaxBRTierMain := 128, MaxBRTierHigh := 0 },
    { level := 2, level_idc := 60, MaxLumaPs := 122880, MaxLumaSr := 3686400,
      MaxTileRows := 1, MaxTileColumns := 1, MaxBRTierMain := 1500, MaxBRTierHigh := 0 },
    { level := 3, level_idc := 63, MaxLumaPs := 245760, MaxLumaSr := 7372800,
      MaxTileRows := 1, MaxTileColumns := 1, MaxBRTierMain := 3000, MaxBRTierHigh := 0 },
    { level := 4, level_idc := 90, MaxLumaPs := 552960, MaxLumaSr := 16588800,
      MaxTileRows := 2, MaxTileColumns := 2, MaxBRTierMain := 6000, MaxBRTierHigh := 0 },
    { level := 5, level_idc := 93, MaxLumaPs := 983040, MaxLumaSr := 33177600,
      MaxTileRows := 3, MaxTileColumns := 3, MaxBRTierMain := 10000, MaxBRTierHigh := 0 },
    { level := 6, level_idc := 120, MaxLumaPs := 2228224, MaxLumaSr := 66846720,
      MaxTileRows := 5, MaxTileColumns := 5, MaxBRTierMain := 12000, MaxBRTierHigh := 30000 },
    { level := 7, level_idc := 123, MaxLumaPs := 2228224, MaxLumaSr := 133693440,
      MaxTileRows := 5, MaxTileColumns := 5, MaxBRTierMain := 20000, MaxBRTierHigh := 50000 },
    { level := 8, level_idc := 150, MaxLumaPs := 8912896, MaxLumaSr := 267386880,
      MaxTileRows := 11, MaxTileColumns := 10, MaxBRTierMain := 25000, MaxBRTierHigh := 100000 } ]

/-- Scenario C: luma 1920x1080, 30/1 frames per second, 2000 kbps, one tile. -/
def scenario_c : Encoder :=
  { luma_width := 1920, luma_height := 1080, fps_n := 30, fps_d := 1, bitrate := 2000,
    num_tile_cols := 1, num_tile_rows := 1 }

/-- A CIF stream: luma 352x288, 30/1 frames per second, 1000 kbps, one tile. -/
def scenario_cif : Encoder :=
  { luma_width := 352, luma_height := 288, fps_n := 30, fps_d := 1, bitrate := 1000,
    num_tile_cols := 1, num_tile_rows := 1 }

/-- The CIF stream in two columns and two rows of tiles. -/
def scenario_cif_tiles : Encoder :=
  { scenario_cif with num_tile_cols := 2, num_tile_rows := 2 }

/-- The slice scenario: a grid of 60 by 34 coding tree units in 3 slices. -/
def scenario_slices : Encoder :=
  { ctu_width := 60, ctu_height := 34, num_slices := 3 }

/-- A grid of 4 by 4 coding tree units in 2 slices: the share of each slice, 8,
is two whole rows. -/
def scenario_slices_aligned : Encoder :=
  { ctu_width := 4, ctu_height := 4, num_slices := 2 }

/-! ## Sample inputs for the configuration -/

/-- Modelled from the spec: a display and library for the configuration, whose
own functions (`gst_vaapi_utils_h265_get_profile_idc`, `gst_vaapi_profile_get_codec`,
`gst_vaapi_encoder_get_entrypoint`, `gst_vaapi_display_get_encode_profiles`,
`gst_vaapi_utils_h265_get_level_limits_table`) are not in these sources. The
`profile_idc` is the `general_profile_idc` of H.265 Annex A: 1 for Main, 2 for
Main 10, 3 for Main Still Picture and 4 for the range extensions; the display
encodes Main and Main 10 at the slice-encode entrypoint. -/
def sample_backend : Backend :=
  { get_profile_idc := fun profile =>
      match profile with
      | GstVaapiProfile.H265_MAIN => 1
      | GstVaapiProfile.H265_MAIN10 => 2
      | GstVaapiProfile.H265_MAIN_STILL_PICTURE => 3
      | GstVaapiProfile.H265_MAIN_444 => 4
      | GstVaapiProfile.H265_MAIN_444_10 => 4
      | GstVaapiProfile.H265_MAIN_422_10 => 4
      | _ => 0
    is_h265 := fun profile =>
      match profile with
      | GstVaapiProfile.UNKNOWN => false
      | GstVaapiProfile.OTHER => false
      | _ => true
    get_entrypoint := fun _ => GstVaapiEntrypoint.SLICE_ENCODE
    encode_profiles := some [GstVaapiProfile.H265_MAIN, GstVaapiProfile.H265_MAIN10]
    limits_table := sample_level_limits }

/-- Scenario C with 10-bit input: the video format is `P010_10LE`, whose minimal
profile is Main 10. -/
def scenario_c_10bit : Encoder :=
  { scenario_c with format := GstVideoFormat.P010_10LE }

/-- The properties of a CQP encoder: `init_qp = 26`, `min_qp = 20`, `max_qp = 30`,
`qp_ip = 10` and `qp_ib = -10`, the latter as the `guint32` field holds it. -/
def scenario_cqp_properties : Encoder :=
  { rate_control := GstVaapiRateControl.CQP, init_qp := 26, min_qp := 20, max_qp := 30,
    qp_ip := 10, qp_ib := 2 ^ 32 - 10 }

/-- The CQP encoder after `reset_properties`. -/
def scenario_cqp : Encoder :=
  reset_properties scenario_cqp_properties 1 1

/-- The properties of a CBR stream of the least bit rate: CIF at 30 frames per
second, `bitrate = 10` kbps, `cpb-length = 1` ms (the least value of the
property), key frames every 30 frames, one reference frame, no B-frames. -/
def scenario_low_bitrate_properties : Encoder :=
  { scenario_cif with
    rate_control := GstVaapiRateControl.CBR, bitrate := 10, cpb_length := 1,
    keyframe_period := 30, num_ref_frames := 1, init_qp := 26, min_qp := 1, max_qp := 51 }

/-- The CBR stream configured: `gst_vaapi_encoder_h265_init`, then
`ensure_profile_tier_level` on the sample display and `reset_properties` with a
driver of one reference frame per list, as `gst_vaapi_encoder_h265_reconfigure`
calls them. -/
def scenario_low_bitrate : Encoder :=
  reset_properties
    (ensure_profile_tier_level (gst_vaapi_encoder_h265_init scenario_low_bitrate_properties)
      sample_backend).2 1 1

/-! ## Sample inputs for the parameter sets -/

/-- An encoder at the Main profile with a POC of 8 bits and two decoded pictures
buffered, as the writers of the VPS and of the SPS read it. -/
def scenario_headers : Encoder :=
  { profile := GstVaapiProfile.H265_MAIN, log2_max_pic_order_cnt := 8,
    max_dec_pic_buffering := 2 }

/-- A sequence parameter record of the Main profile: level 4 (`general_level_idc`
120), 4:2:0 chroma, 8 bits, luma 1920x1088. -/
def sample_seq_param : VAEncSequenceParameterBufferHEVC :=
  { general_profile_idc := 1, general_level_idc := 120, chroma_format_idc := 1,
    pic_width_in_luma_samples := 1920, pic_height_in_luma_samples := 1088 }

/-- The record that `fill_sequence` fills in for the CBR stream of the least bit
rate with an 8-bit 4:2:0 input of square pixels: the Main profile, level 2
(`general_level_idc` 60), `bits_per_second = 9984`, luma 352x288, 30/1 frames per
second. -/
def low_bitrate_seq_param : VAEncSequenceParameterBufferHEVC :=
  { general_profile_idc := 1, general_level_idc := 60, general_tier_flag := 0,
    bits_per_second := 9984, pic_width_in_luma_samples := 352,
    pic_height_in_luma_samples := 288, chroma_format_idc := 1,
    strong_intra_smoothing_enabled_flag := 1, amp_enabled_flag := 1,
    sps_temporal_mvp_enabled_flag := 1, log2_diff_max_min_luma_coding_block_size := 2,
    log2_diff_max_min_transform_block_size := 3, max_transform_hierarchy_depth_inter := 2,
    max_transform_hierarchy_depth_intra := 2, vui_parameters_present_flag := 1,
    aspect_ratio_info_present_flag := 1, vui_timing_info_present_flag := 1,
    aspect_ratio_idc := 255, sar_width := 1, sar_height := 1, vui_num_units_in_tick := 1,
    vui_time_scale := 30 }

/-- A body of three whole bytes standing for what `bs_write_pps` appends to the
writer of `add_packed_picture_header`. -/
def sample_pps_body : List Bool :=
  bytes_bits [0xC0, 0xF3, 0x80]

/-- The encoder after `add_packed_vps_header`, `add_packed_sequence_header` and
`add_packed_picture_header` have stored the VPS and the SPS written for
`sample_seq_param` and the sample PPS. -/
def scenario_stored : Encoder :=
  (add_packed_picture_header
    (add_packed_sequence_header
      (add_packed_vps_header scenario_headers
        (packed_vps_body scenario_headers sample_seq_param)).enc
      (packed_sps_body scenario_headers sample_seq_param 0)).enc
    sample_pps_body).enc

/-- Modelled from the spec: a stand-in for `gst_vaapi_utils_h26x_write_nal_unit`
(gstvaapiutils_h26x.c, not in these sources): the 16-bit size of the NAL unit
followed by its bytes as they are. -/
def sample_write_nal_unit (nal : List Nat) : Option (List Nat) :=
  some ([nal.length / 256 % 256, nal.length % 256] ++ nal)

/-- The slice parameters of a P picture with two reference pictures in list 0,
of the POCs 6 and 3 on the surfaces 1 and 0. -/
def sample_slice_param : VAEncSliceParameterBufferHEVC :=
  create_and_fill_one_slice {} { poc := 8, type := GstVaapiPictureType.P }
    [{ pic := 1, poc := 6 }, { pic := 0, poc := 3 }] []

/-! ## POC width -/

theorem size_succ_half (n : Nat) (hn : n ≠ 0) : Nat.size n = Nat.size (n / 2) + 1 := by
  apply le_antisymm
  · rw [Nat.size_le, pow_succ]
    have := Nat.lt_size_self (n / 2)
    omega
  · by_contra hlt
    have hle : Nat.size n ≤ Nat.size (n / 2) := by omega
    rw [Nat.size_le] at hle
    rcases Nat.eq_zero_or_pos (Nat.size (n / 2)) with h0 | hpos
    · rw [h0] at hle
      simp at hle
      exact hn hle
    · have hpred : ¬ Nat.size (n / 2) ≤ Nat.size (n / 2) - 1 := by omega
      rw [Nat.size_le] at hpred
      have hpow : 2 ^ Nat.size (n / 2) = 2 * 2 ^ (Nat.size (n / 2) - 1) := by
        conv_lhs => rw [← Nat.sub_add_cancel hpos, pow_succ]
        ring
      omega

/-- The counting loop adds the bit length of `num`, when the fuel covers it. -/
theorem h265_count_bits_eq (fuel : Nat) :
    ∀ (num ret : Nat), num < 2 ^ fuel → h265_count_bits fuel num ret = ret + Nat.size num := by
  induction fuel with
  | zero =>
    intro num ret h
    have : num = 0 := by simpa using h
    simp [h265_count_bits, this]
  | succ k ih =>
    intro num ret h
    by_cases hn : num = 0
    · simp [h265_count_bits, hn]
    · have hhalf : num >>> 1 = num / 2 := by simp [Nat.shiftRight_eq_div_pow]
      have hlt : num / 2 < 2 ^ k := by rw [pow_succ] at h; omega
      rw [h265_count_bits, if_pos hn, hhalf, ih (num / 2) (ret + 1) hlt, size_succ_half num hn]
      omega

/-- For a period below 65536 the POC range is wider than the period. -/
theorem lt_max_pic_order_cnt (K : Nat) (hK : K < 65536) :
    K < 2 ^ h265_get_log2_max_pic_order_cnt K ∧ 16 ≤ 2 ^ h265_get_log2_max_pic_order_cnt K := by
  have hsize : h265_count_bits 32 K 0 = Nat.size K := by
    rw [h265_count_bits_eq 32 K 0 (by omega)]; simp
  have h16 : Nat.size K ≤ 16 := by rw [Nat.size_le]; omega
  have hlt := Nat.lt_size_self K
  unfold h265_get_log2_max_pic_order_cnt
  simp only [hsize]
  split_ifs with h1 h2
  · constructor
    · calc K < 2 ^ Nat.size K := hlt
        _ ≤ 2 ^ 4 := Nat.pow_le_pow_right (by decide) h1
    · decide
  · omega
  · constructor
    · exact hlt
    · calc 16 = 2 ^ 4 := by decide
        _ ≤ 2 ^ Nat.size K := Nat.pow_le_pow_right (by decide) (by omega)

/-! ## The reorder engine under the drain protocol -/

theorem drain_idle (fuel : Nat) (enc : Encoder)
    (hs : enc.reorder_pool.reorder_state ≠ REORD_DUMP_FRAMES) :
    drain (fuel + 1) enc = { pictures := [], encoder := enc, complete := true } := by
  simp [drain, gst_vaapi_encoder_h265_reordering, hs]

theorem drain_dump (q : List GstVaapiEncPicture) :
    ∀ (enc : Encoder), enc.reorder_pool.reorder_frame_list = q → q ≠ [] →
      enc.reorder_pool.reorder_state = REORD_DUMP_FRAMES → enc.num_bframes ≠ 0 →
      (drain (q.length + 1) enc).pictures = q ∧ (drain (q.length + 1) enc).complete = true ∧
      (drain (q.length + 1) enc).encoder.reorder_pool.reorder_frame_list = [] ∧
      (drain (q.length + 1) enc).encoder.reorder_pool.reorder_state = REORD_WAIT_FRAMES ∧
      (drain (q.length + 1) enc).encoder.num_bframes = enc.num_bframes := by
  induction q with
  | nil => intro enc _ h; exact absurd rfl h
  | cons p r ih =>
    intro enc hq _ hs hn
    have hn' : 0 < enc.num_bframes := Nat.pos_of_ne_zero hn
    cases r with
    | nil =>
      simp [drain, gst_vaapi_encoder_h265_reordering, hs, hq, hn']
    | cons p' r' =>
      have := ih { enc with reorder_pool := { enc.reorder_pool with reorder_frame_list := p' :: r' } }
        rfl (by simp) hs hn
      simp only [List.length_cons] at this ⊢
      rw [drain]
      simp [gst_vaapi_encoder_h265_reordering, hs, hq, hn']
      simpa [hs] using this

theorem set_key_frame_fresh (f : GstVideoCodecFrame) (poc : Nat) (enc : Encoder) (b : Bool) :
    (set_key_frame { frame := f, poc := poc, type := NONE, idr := false } enc b).1.frame = f ∧
    (set_key_frame { frame := f, poc := poc, type := NONE, idr := false } enc b).1.type = I ∧
    (set_key_frame { frame := f, poc := poc, type := NONE, idr := false } enc b).2.num_bframes
      = enc.num_bframes ∧
    (set_key_frame { frame := f, poc := poc, type := NONE, idr := false } enc b).2.reorder_pool.reorder_frame_list
      = enc.reorder_pool.reorder_frame_list ∧
    (set_key_frame { frame := f, poc := poc, type := NONE, idr := false } enc b).2.reorder_pool.reorder_state
      = enc.reorder_pool.reorder_state := by
  cases b <;> simp [set_key_frame, set_idr_frame, set_i_frame, reset_gop_start]

theorem reordering_frame (enc : Encoder) (f : GstVideoCodecFrame) (h : Ready enc) :
    (∃ p e1, gst_vaapi_encoder_h265_reordering enc (some f) = Outcome.ret (NO_SURFACE, none) e1 ∧
      e1.reorder_pool.reorder_frame_list = enc.reorder_pool.reorder_frame_list ++ [p] ∧
      p.frame = f ∧ p.type = NONE ∧
      e1.reorder_pool.reorder_state = REORD_WAIT_FRAMES ∧
      e1.num_bframes = enc.num_bframes ∧ enc.num_bframes ≠ 0)
    ∨ (∃ k e1, gst_vaapi_encoder_h265_reordering enc (some f) = Outcome.ret (SUCCESS, some k) e1 ∧
      k.frame = f ∧ (k.type = I ∨ k.type = P) ∧ enc.reorder_pool.reorder_frame_list = [] ∧
      e1.reorder_pool.reorder_frame_list = [] ∧
      e1.reorder_pool.reorder_state ≠ REORD_DUMP_FRAMES ∧
      (e1.reorder_pool.reorder_state = REORD_WAIT_FRAMES → enc.num_bframes ≠ 0) ∧
      e1.num_bframes = enc.num_bframes)
    ∨ (∃ p e1, gst_vaapi_encoder_h265_reordering enc (some f) = Outcome.ret (SUCCESS, some p) e1 ∧
      p.frame = f ∧ p.type = P ∧ enc.reorder_pool.reorder_frame_list ≠ [] ∧
      e1.reorder_pool.reorder_frame_list = enc.reorder_pool.reorder_frame_list.map set_b_frame ∧
      e1.reorder_pool.reorder_state = REORD_DUMP_FRAMES ∧
      e1.num_bframes = enc.num_bframes ∧ enc.num_bframes ≠ 0)
    ∨ (∃ k e1, ∃ hq : enc.reorder_pool.reorder_frame_list ≠ [],
      gst_vaapi_encoder_h265_reordering enc (some f)
        = Outcome.ret (SUCCESS, some (set_p_frame (enc.reorder_pool.reorder_frame_list.getLast hq))) e1 ∧
      e1.reorder_pool.reorder_frame_list
        = enc.reorder_pool.reorder_frame_list.dropLast.map set_b_frame ++ [k] ∧
      e1.reorder_pool.reorder_state = REORD_DUMP_FRAMES ∧
      k.frame = f ∧ k.type = I ∧
      e1.num_bframes = enc.num_bframes ∧ enc.num_bframes ≠ 0) := by
  obtain ⟨hd, hw, hn, ht⟩ := h
  have hstate : enc.reorder_pool.reorder_state ≠ REORD_WAIT_FRAMES →
      enc.reorder_pool.reorder_frame_list = [] := by
    intro hne
    apply hn
    cases hs : enc.reorder_pool.reorder_state with
    | REORD_NONE => rfl
    | REORD_DUMP_FRAMES => exact absurd hs hd
    | REORD_WAIT_FRAMES => exact absurd hs hne
  have hzero : enc.num_bframes = 0 → enc.reorder_pool.reorder_frame_list = [] :=
    fun h0 => hstate (fun hs => hw hs h0)
  unfold gst_vaapi_encoder_h265_reordering
  simp only []
  split_ifs with h1 h2 h3 h4 h5 h6 h7
  · -- key frame, pictures buffered
    rw [List.getLast?_eq_getLast _ h2.2]
    simp only [Option.getD_some]
    exact Or.inr (Or.inr (Or.inr ⟨_, _, h2.2, rfl, rfl, rfl, (set_key_frame_fresh f _ _ _).1,
      (set_key_frame_fresh f _ _ _).2.1, (set_key_frame_fresh f _ _ _).2.2.1, h2.1⟩))
  · -- key frame, the assertion on the empty buffer
    exfalso
    apply h3
    rw [(set_key_frame_fresh f _ _ _).2.2.2.1]
    by_cases h0 : enc.num_bframes = 0
    · exact hzero h0
    · by_contra hq; exact h2 ⟨h0, hq⟩
  · -- key frame, B-frames enabled, nothing buffered
    have hq : enc.reorder_pool.reorder_frame_list = [] := by
      by_contra hq; exact h2 ⟨h4, hq⟩
    refine Or.inr (Or.inl ⟨_, _, rfl, ?_, Or.inl ?_, hq, ?_, ?_, fun _ => h4, ?_⟩)
    · exact (set_key_frame_fresh f _ _ _).1
    · exact (set_key_frame_fresh f _ _ _).2.1
    · simpa using h3
    · simp
    · exact (set_key_frame_fresh f _ _ _).2.2.1
  · -- key frame, B-frames disabled
    have h0 : enc.num_bframes = 0 := by simpa using h4
    refine Or.inr (Or.inl ⟨_, _, rfl, ?_, Or.inl ?_, hzero h0, ?_, ?_, ?_, ?_⟩)
    · exact (set_key_frame_fresh f _ _ _).1
    · exact (set_key_frame_fresh f _ _ _).2.1
    · simpa using h3
    · rw [(set_key_frame_fresh f _ _ _).2.2.2.2]; exact hd
    · rw [(set_key_frame_fresh f _ _ _).2.2.2.2]; exact hw
    · exact (set_key_frame_fresh f _ _ _).2.2.1
  · -- the frame is buffered
    exact Or.inl ⟨_, _, rfl, rfl, rfl, rfl, h5.1, rfl, hw h5.1⟩
  · -- the assertion on the non-empty buffer
    exfalso
    have hlen : ¬ enc.reorder_pool.reorder_frame_list.length < enc.num_bframes :=
      fun hl => h5 ⟨h6, hl⟩
    have hq : enc.reorder_pool.reorder_frame_list = [] := by simpa using h7
    rw [hq] at hlen
    exact hlen (Nat.pos_of_ne_zero (hw h6))
  · -- a P picture closes a full buffer
    refine Or.inr (Or.inr (Or.inl ⟨_, _, rfl, rfl, ?_, ?_, rfl, rfl, rfl, hw h6⟩))
    · simp [set_p_frame]
    · simpa using h7
  · -- a P picture without buffering
    refine Or.inr (Or.inl ⟨_, _, rfl, rfl, Or.inr ?_, hstate h6, ?_, hd, ?_, rfl⟩)
    · simp [set_p_frame]
    · exact hstate h6
    · intro hs; exact absurd hs h6

theorem put_frame_success (enc e1 : Encoder) (f : GstVideoCodecFrame) (p : GstVaapiEncPicture)
    (he : gst_vaapi_encoder_h265_reordering enc (some f) = Outcome.ret (SUCCESS, some p) e1) :
    put_frame enc f =
      { pictures := p :: (drain (e1.reorder_pool.reorder_frame_list.length + 1) e1).pictures
        encoder := (drain (e1.reorder_pool.reorder_frame_list.length + 1) e1).encoder
        complete := (drain (e1.reorder_pool.reorder_frame_list.length + 1) e1).complete } := by
  simp [put_frame, he]

/-- One submission under the drain protocol from a ready pool: the protocol
completes, the pool is ready again, and the pictures received and the
buffer left have one of the four shapes. -/
theorem put_frame_shape (enc : Encoder) (f : GstVideoCodecFrame) (h : Ready enc) :
    (put_frame enc f).complete = true ∧ Ready (put_frame enc f).encoder ∧
    (put_frame enc f).encoder.num_bframes = enc.num_bframes ∧
    StepShape enc.reorder_pool.reorder_frame_list f (put_frame enc f).pictures
      (put_frame enc f).encoder.reorder_pool.reorder_frame_list := by
  have hready := h
  obtain ⟨hd, hw, hn, ht⟩ := h
  rcases reordering_frame enc f hready with
    ⟨p, e1, he, hq1, hf, hty, hs1, hb1, hnb⟩ | ⟨k, e1, he, hf, hty, hq0, hq1, hs1, hw1, hb1⟩ |
    ⟨p, e1, he, hf, hty, hq0, hq1, hs1, hb1, hnb⟩ | ⟨k, e1, hq0, he, hq1, hs1, hf, hty, hb1, hnb⟩
  · -- buffered
    have hput : put_frame enc f = { pictures := [], encoder := e1, complete := true } := by
      simp [put_frame, he]
    rw [hput]
    refine ⟨rfl, ⟨?_, ?_, ?_, ?_⟩, hb1, ?_⟩
    · simp [hs1]
    · intro _; simp only [hb1]; exact hnb
    · simp [hs1]
    · simp only [hq1]
      intro x hx
      rcases List.mem_append.1 hx with hx | hx
      · exact ht x hx
      · simp at hx; rw [hx]; exact hty
    · simp only [hq1]
      exact StepShape.buffer p hf hty
  · -- a single picture
    rw [put_frame_success enc e1 f k he, hq1, drain_idle _ e1 hs1]
    refine ⟨rfl, ⟨hs1, ?_, ?_, ?_⟩, hb1, ?_⟩
    · intro hs; simp only [hb1]; exact hw1 hs
    · intro _; exact hq1
    · simp [hq1]
    · simp only [hq1, hq0]
      exact StepShape.single k hf hty rfl
  · -- a P picture followed by the buffered pictures
    have hne : e1.reorder_pool.reorder_frame_list ≠ [] := by simpa [hq1] using hq0
    have hnb1 : e1.num_bframes ≠ 0 := by rw [hb1]; exact hnb
    obtain ⟨d1, d2, d3, d4, d5⟩ := drain_dump _ e1 rfl hne hs1 hnb1
    rw [put_frame_success enc e1 f p he]
    refine ⟨d2, ⟨?_, ?_, ?_, ?_⟩, d5.trans hb1, ?_⟩
    · simp [d4]
    · intro _; simp only [d5]; exact hnb1
    · intro _; exact d3
    · simp [d3]
    · simp only []
      rw [d1, d3, hq1]
      exact StepShape.flush_p p hf hty hq0
  · -- a key frame after buffered pictures
    have hne : e1.reorder_pool.reorder_frame_list ≠ [] := by simp [hq1]
    have hnb1 : e1.num_bframes ≠ 0 := by rw [hb1]; exact hnb
    obtain ⟨d1, d2, d3, d4, d5⟩ := drain_dump _ e1 rfl hne hs1 hnb1
    rw [put_frame_success enc e1 f _ he]
    refine ⟨d2, ⟨?_, ?_, ?_, ?_⟩, d5.trans hb1, ?_⟩
    · simp [d4]
    · intro _; simp only [d5]; exact hnb1
    · intro _; exact d3
    · simp [d3]
    · simp only []
      rw [d1, d3, hq1]
      exact StepShape.flush_key k hf hty hq0

theorem set_b_frame_frame (p : GstVaapiEncPicture) : (set_b_frame p).frame = p.frame := by
  unfold set_b_frame; split <;> rfl

theorem set_p_frame_frame (p : GstVaapiEncPicture) : (set_p_frame p).frame = p.frame := by
  unfold set_p_frame; split <;> rfl

theorem set_b_frame_type (p : GstVaapiEncPicture) (h : p.type = NONE) :
    (set_b_frame p).type = B := by
  simp [set_b_frame, h]

theorem set_p_frame_type (p : GstVaapiEncPicture) (h : p.type = NONE) :
    (set_p_frame p).type = P := by
  simp [set_p_frame, h]

/-- Fetching the pending pictures once the iterator has reached `B`: the
buffer is handed out from its tail, every picture marked B. -/
theorem get_pending_b (q : List GstVaapiEncPicture) :
    ∀ (enc : Encoder), enc.reorder_pool.reorder_frame_list = q →
      (get_pending (q.length + 1) enc (some { pic_type := B })).pictures
        = q.reverse.map set_b_frame ∧
      (get_pending (q.length + 1) enc (some { pic_type := B })).complete = true ∧
      (get_pending (q.length + 1) enc
        (some { pic_type := B })).encoder.reorder_pool.reorder_frame_list = [] := by
  induction q using List.reverseRecOn with
  | nil =>
    intro enc hq
    simp [get_pending, gst_vaapi_encoder_h265_get_pending_reordered, hq]
  | append_singleton r a ih =>
    intro enc hq
    have := ih { enc with reorder_pool := { enc.reorder_pool with reorder_frame_list := r } } rfl
    simp only [List.length_append, List.length_singleton]
    rw [get_pending]
    simp [gst_vaapi_encoder_h265_get_pending_reordered, hq]
    simpa using this

/-- Fetching the pending pictures with a fresh iterator: nothing for an empty
buffer, else the last buffered picture as P and the others, from the tail,
as B. -/
theorem get_pending_fresh (enc : Encoder) :
    (get_pending (enc.reorder_pool.reorder_frame_list.length + 1) enc none).complete = true ∧
    (get_pending (enc.reorder_pool.reorder_frame_list.length + 1) enc
      none).encoder.reorder_pool.reorder_frame_list = [] ∧
    (get_pending (enc.reorder_pool.reorder_frame_list.length + 1) enc none).pictures
      = match enc.reorder_pool.reorder_frame_list.getLast? with
        | none => []
        | some a => set_p_frame a ::
            enc.reorder_pool.reorder_frame_list.dropLast.reverse.map set_b_frame := by
  rcases List.eq_nil_or_concat enc.reorder_pool.reorder_frame_list with hq | ⟨r, a, hq⟩
  · simp [get_pending, gst_vaapi_encoder_h265_get_pending_reordered, hq]
  · have := get_pending_b r
      { enc with reorder_pool := { enc.reorder_pool with reorder_frame_list := r } } rfl
    rw [List.concat_eq_append] at hq
    rw [hq]
    simp only [List.length_append, List.length_singleton]
    rw [get_pending]
    simp [gst_vaapi_encoder_h265_get_pending_reordered, hq]
    obtain ⟨t1, t2, t3⟩ := this
    exact ⟨t2, t3, by simpa using t1⟩

theorem ready_of_init (enc : Encoder)
    (h0 : enc.reorder_pool = (gst_vaapi_encoder_h265_init enc).reorder_pool) : Ready enc := by
  have hs : enc.reorder_pool.reorder_state = REORD_NONE := by rw [h0]; rfl
  have hq : enc.reorder_pool.reorder_frame_list = [] := by rw [h0]; rfl
  refine ⟨?_, ?_, fun _ => hq, ?_⟩
  · rw [hs]; decide
  · rw [hs]; intro h; exact absurd h (by decide)
  · rw [hq]; intro p hp; simp at hp

theorem map_frame_set_b (l : List GstVaapiEncPicture) :
    (l.map set_b_frame).map GstVaapiEncPicture.frame = l.map GstVaapiEncPicture.frame := by
  simp [List.map_map, Function.comp_def, set_b_frame_frame]

/-- The frames of the pictures received in one step, with those left in the
buffer, are the frames buffered before with the new frame. -/
theorem step_shape_perm {q : List GstVaapiEncPicture} {f : GstVideoCodecFrame}
    {batch q' : List GstVaapiEncPicture} (h : StepShape q f batch q') :
    (batch.map GstVaapiEncPicture.frame ++ q'.map GstVaapiEncPicture.frame).Perm
      (q.map GstVaapiEncPicture.frame ++ [f]) := by
  cases h with
  | buffer p hf ht => simp [hf]
  | single k hf ht hq => simp [hf, hq]
  | flush_p p hf ht hq =>
    simp only [List.map_cons, List.map_nil, List.append_nil, map_frame_set_b, hf]
    exact (List.perm_append_singleton f _).symm
  | flush_key k hf ht hq =>
    simp only [List.map_cons, List.map_nil, List.append_nil, List.map_append, map_frame_set_b, hf,
      set_p_frame_frame]
    have hsplit : q.map GstVaapiEncPicture.frame
        = q.dropLast.map GstVaapiEncPicture.frame ++ [(q.getLast hq).frame] := by
      conv_lhs => rw [← List.dropLast_append_getLast hq]
      simp
    rw [hsplit, ← List.cons_append]
    refine List.Perm.append_right [f] ?_
    exact (List.perm_append_singleton _ _).symm

/-- Frames submitted under the drain protocol from a ready pool: the protocol
completes, the pool is ready again, and no frame is lost or duplicated
between the pictures received and the buffer. -/
theorem put_frames_perm (frames : List GstVideoCodecFrame) :
    ∀ (enc : Encoder), Ready enc →
      (put_frames enc frames).complete = true ∧ Ready (put_frames enc frames).encoder ∧
      ((put_frames enc frames).pictures.map GstVaapiEncPicture.frame ++
        (put_frames enc frames).encoder.reorder_pool.reorder_frame_list.map
          GstVaapiEncPicture.frame).Perm
        (enc.reorder_pool.reorder_frame_list.map GstVaapiEncPicture.frame ++ frames) := by
  induction frames with
  | nil =>
    intro enc h
    simp [put_frames, h]
  | cons f rest ih =>
    intro enc h
    obtain ⟨hc, hr, _, hshape⟩ := put_frame_shape enc f h
    obtain ⟨ic, ir, ip⟩ := ih (put_frame enc f).encoder hr
    refine ⟨?_, ir, ?_⟩
    · simp [put_frames, hc, ic]
    · simp only [put_frames, List.map_append, List.append_assoc]
      have h1 := step_shape_perm hshape
      calc (put_frame enc f).pictures.map GstVaapiEncPicture.frame ++
            ((put_frames (put_frame enc f).encoder rest).pictures.map GstVaapiEncPicture.frame ++
              (put_frames (put_frame enc f).encoder rest).encoder.reorder_pool.reorder_frame_list.map
                GstVaapiEncPicture.frame)
          |>.Perm ((put_frame enc f).pictures.map GstVaapiEncPicture.frame ++
            ((put_frame enc f).encoder.reorder_pool.reorder_frame_list.map
              GstVaapiEncPicture.frame ++ rest)) := List.Perm.append_left _ ip
        _ |>.Perm ((enc.reorder_pool.reorder_frame_list.map GstVaapiEncPicture.frame ++ [f])
            ++ rest) := by
              rw [← List.append_assoc]; exact List.Perm.append_right rest h1
        _ = _ := by simp

theorem bhasp_append {out batch : List GstVaapiEncPicture} (h1 : BHasP out) (h2 : BHasP batch) :
    BHasP (out ++ batch) := by
  intro l1 X l2 heq hX
  rcases List.append_eq_append_iff.1 heq with ⟨a', hl1, hb⟩ | ⟨c', ho, hc⟩
  · obtain ⟨Y, hY, hp⟩ := h2 a' X l2 hb hX
    exact ⟨Y, by rw [hl1]; exact List.mem_append_right _ hY, hp⟩
  · cases c' with
    | nil =>
      simp only [List.nil_append] at hc
      obtain ⟨Y, hY, _⟩ := h2 [] X l2 (by simpa using hc.symm) hX
      simp at hY
    | cons X' ctail =>
      simp only [List.cons_append, List.cons.injEq] at hc
      obtain ⟨hXX, _⟩ := hc
      subst hXX
      exact h1 l1 X ctail ho hX

/-- A batch made of an anchor picture, then B pictures of earlier frames, then
at most one I picture of a later frame, is in reference order. -/
theorem batch_order (a : GstVaapiEncPicture) (bs t : List GstVaapiEncPicture)
    (ha : a.type ≠ B)
    (hbs : ∀ b ∈ bs, b.type = B ∧ a.type = P ∧ b.frame.id < a.frame.id)
    (ht : ∀ k ∈ t, k.type = I ∧ a.frame.id < k.frame.id ∧ ∀ b ∈ bs, b.frame.id < k.frame.id)
    (ht1 : t.length ≤ 1) :
    KeyOrder (a :: (bs ++ t)) ∧ BHasP (a :: (bs ++ t)) := by
  constructor
  · unfold KeyOrder
    rw [List.pairwise_cons, List.pairwise_append]
    refine ⟨?_, ?_, ?_, ?_⟩
    · intro b hb hty
      rcases List.mem_append.1 hb with hb | hb
      · have := (hbs b hb).1; rw [this] at hty; simp at hty
      · exact (ht b hb).2.1
    · apply List.pairwise_of_forall_mem_list
      intro x _ y hy hty
      have := (hbs y hy).1; rw [this] at hty; simp at hty
    · match t, ht1 with
      | [], _ => exact List.Pairwise.nil
      | [k], _ => exact List.pairwise_singleton _ _
    · intro x hx k hk _
      exact (ht k hk).2.2 x hx
  · intro l1 X l2 heq hX
    cases l1 with
    | nil =>
      simp only [List.nil_append, List.cons.injEq] at heq
      rw [← heq.1] at hX
      exact absurd hX ha
    | cons a' l1' =>
      simp only [List.cons_append, List.cons.injEq] at heq
      obtain ⟨haa, hrest⟩ := heq
      subst haa
      have hmem : X ∈ bs ++ t := by rw [hrest]; simp
      rcases List.mem_append.1 hmem with hb | hb
      · exact ⟨a, List.mem_cons_self _ _, (hbs X hb).2.1, (hbs X hb).2.2⟩
      · have := (ht X hb).1; rw [this] at hX; simp at hX

theorem pairwise_lt_getLast {q : List GstVaapiEncPicture} (hq : q ≠ [])
    (hs : q.Pairwise (fun a b => a.frame.id < b.frame.id)) :
    ∀ b ∈ q.dropLast, b.frame.id < (q.getLast hq).frame.id := by
  intro b hb
  rw [← List.dropLast_append_getLast hq, List.pairwise_append] at hs
  exact hs.2.2 b hb _ (List.mem_singleton_self _)

theorem key_order_append {out batch : List GstVaapiEncPicture} (h1 : KeyOrder out)
    (h2 : KeyOrder batch) (h3 : ∀ a ∈ out, ∀ b ∈ batch, a.frame.id < b.frame.id) :
    KeyOrder (out ++ batch) := by
  unfold KeyOrder at *
  rw [List.pairwise_append]
  exact ⟨h1, h2, fun a ha b hb _ => h3 a ha b hb⟩

/-- One step keeps the order invariant, and the pictures it touches are of
frames up to the submitted one. -/
theorem step_order {q : List GstVaapiEncPicture} {f : GstVideoCodecFrame}
    {batch q' out : List GstVaapiEncPicture} (h : StepShape q f batch q')
    (hty : ∀ p ∈ q, p.type = NONE)
    (hlt : ∀ x, x ∈ out ∨ x ∈ q → x.frame.id < f.id)
    (hinv : OrderInv out q) :
    OrderInv (out ++ batch) q' ∧ ∀ x, x ∈ out ++ batch ∨ x ∈ q' → x.frame.id ≤ f.id := by
  obtain ⟨hk, hb, hoq, hs⟩ := hinv
  cases h with
  | buffer p hf ht =>
    refine ⟨⟨by simpa using hk, by simpa using hb, ?_, ?_⟩, ?_⟩
    · intro a ha b hb'
      simp only [List.append_nil] at ha
      rcases List.mem_append.1 hb' with hb' | hb'
      · exact hoq a ha b hb'
      · simp at hb'; rw [hb', hf]; exact hlt a (Or.inl ha)
    · rw [List.pairwise_append]
      refine ⟨hs, List.pairwise_singleton _ _, ?_⟩
      intro a ha b hb'
      simp at hb'; rw [hb', hf]; exact hlt a (Or.inr ha)
    · intro x hx
      simp only [List.append_nil, List.mem_append, List.mem_singleton] at hx
      rcases hx with hx | hx | hx
      · exact le_of_lt (hlt x (Or.inl hx))
      · exact le_of_lt (hlt x (Or.inr hx))
      · rw [hx, hf]
  | single k hf ht hq =>
    have hbatch := batch_order k [] []
      (by rcases ht with h | h <;> rw [h] <;> decide) (by simp) (by simp) (by simp)
    simp only [List.append_nil] at hbatch
    refine ⟨⟨key_order_append hk hbatch.1 ?_, bhasp_append hb hbatch.2, by simp, List.Pairwise.nil⟩, ?_⟩
    · intro a ha b hb'
      simp at hb'; rw [hb', hf]; exact hlt a (Or.inl ha)
    · intro x hx
      simp only [List.mem_append, List.mem_singleton, List.not_mem_nil, or_false] at hx
      rcases hx with hx | hx
      · exact le_of_lt (hlt x (Or.inl hx))
      · rw [hx, hf]
  | flush_p p hf ht hq =>
    have hbatch := batch_order p (q.map set_b_frame) []
      (by rw [ht]; decide)
      (by
        intro b hb'
        obtain ⟨b0, hb0, rfl⟩ := List.mem_map.1 hb'
        refine ⟨set_b_frame_type b0 (hty b0 hb0), ht, ?_⟩
        rw [set_b_frame_frame, hf]; exact hlt b0 (Or.inr hb0))
      (by simp) (by simp)
    simp only [List.append_nil] at hbatch
    have hle : ∀ x ∈ p :: q.map set_b_frame, x.frame.id = f.id ∨ ∃ y ∈ q, y.frame.id = x.frame.id := by
      intro x hx
      rcases List.mem_cons.1 hx with hx | hx
      · left; rw [hx, hf]
      · obtain ⟨b0, hb0, rfl⟩ := List.mem_map.1 hx
        exact Or.inr ⟨b0, hb0, (set_b_frame_frame b0).symm ▸ rfl⟩
    refine ⟨⟨key_order_append hk hbatch.1 ?_, bhasp_append hb hbatch.2, by simp, List.Pairwise.nil⟩, ?_⟩
    · intro a ha b hb'
      rcases hle b hb' with h | ⟨y, hy, h⟩
      · rw [h]; exact hlt a (Or.inl ha)
      · rw [← h]; exact hoq a ha y hy
    · intro x hx
      simp only [List.mem_append, List.not_mem_nil, or_false] at hx
      rcases hx with hx | hx
      · exact le_of_lt (hlt x (Or.inl hx))
      · rcases hle x hx with h | ⟨y, hy, h⟩
        · rw [h]
        · rw [← h]; exact le_of_lt (hlt y (Or.inr hy))
  | flush_key k hf ht hq =>
    have hlast : q.getLast hq ∈ q := List.getLast_mem hq
    have hdrop : ∀ b ∈ q.dropLast, b ∈ q := fun b hb' => List.mem_of_mem_dropLast hb'
    have hbatch := batch_order (set_p_frame (q.getLast hq)) (q.dropLast.map set_b_frame) [k]
      (by rw [set_p_frame_type _ (hty _ hlast)]; decide)
      (by
        intro b hb'
        obtain ⟨b0, hb0, rfl⟩ := List.mem_map.1 hb'
        refine ⟨set_b_frame_type b0 (hty b0 (hdrop b0 hb0)), set_p_frame_type _ (hty _ hlast), ?_⟩
        rw [set_b_frame_frame, set_p_frame_frame]
        exact pairwise_lt_getLast hq hs b0 hb0)
      (by
        intro k' hk'
        simp at hk'; subst hk'
        refine ⟨ht, ?_, ?_⟩
        · rw [set_p_frame_frame, hf]; exact hlt _ (Or.inr hlast)
        · intro b hb'
          obtain ⟨b0, hb0, rfl⟩ := List.mem_map.1 hb'
          rw [set_b_frame_frame, hf]; exact hlt _ (Or.inr (hdrop b0 hb0)))
      (by simp)
    have hle : ∀ x ∈ set_p_frame (q.getLast hq) :: (q.dropLast.map set_b_frame ++ [k]),
        x.frame.id = f.id ∨ ∃ y ∈ q, y.frame.id = x.frame.id := by
      intro x hx
      rcases List.mem_cons.1 hx with hx | hx
      · right; exact ⟨_, hlast, by rw [hx, set_p_frame_frame]⟩
      · rcases List.mem_append.1 hx with hx | hx
        · obtain ⟨b0, hb0, rfl⟩ := List.mem_map.1 hx
          exact Or.inr ⟨b0, hdrop b0 hb0, (set_b_frame_frame b0).symm ▸ rfl⟩
        · simp at hx; left; rw [hx, hf]
    refine ⟨⟨key_order_append hk hbatch.1 ?_, bhasp_append hb hbatch.2, by simp, List.Pairwise.nil⟩, ?_⟩
    · intro a ha b hb'
      rcases hle b hb' with h | ⟨y, hy, h⟩
      · rw [h]; exact hlt a (Or.inl ha)
      · rw [← h]; exact hoq a ha y hy
    · intro x hx
      simp only [List.mem_append, List.not_mem_nil, or_false] at hx
      rcases hx with hx | hx
      · exact le_of_lt (hlt x (Or.inl hx))
      · rcases hle x (by simpa using hx) with h | ⟨y, hy, h⟩
        · rw [h]
        · rw [← h]; exact le_of_lt (hlt y (Or.inr hy))

/-- Frames with increasing numbers, submitted under the drain protocol from a
ready pool, keep the order invariant. -/
theorem put_frames_order (frames : List GstVideoCodecFrame) :
    ∀ (enc : Encoder) (out : List GstVaapiEncPicture), Ready enc →
      frames.Pairwise (fun a b => a.id < b.id) →
      (∀ x, x ∈ out ∨ x ∈ enc.reorder_pool.reorder_frame_list → ∀ g ∈ frames, x.frame.id < g.id) →
      OrderInv out enc.reorder_pool.reorder_frame_list →
      Ready (put_frames enc frames).encoder ∧
      OrderInv (out ++ (put_frames enc frames).pictures)
        (put_frames enc frames).encoder.reorder_pool.reorder_frame_list := by
  induction frames with
  | nil =>
    intro enc out h _ _ hinv
    simpa [put_frames, h] using hinv
  | cons f rest ih =>
    intro enc out h hsorted hlt hinv
    obtain ⟨_, hr, _, hshape⟩ := put_frame_shape enc f h
    rw [List.pairwise_cons] at hsorted
    obtain ⟨hinv', hle⟩ := step_order hshape h.2.2.2
      (fun x hx => hlt x hx f (List.mem_cons_self _ _)) hinv
    have := ih (put_frame enc f).encoder (out ++ (put_frame enc f).pictures) hr hsorted.2
      (fun x hx g hg => lt_of_le_of_lt (hle x hx) (hsorted.1 g hg)) hinv'
    simpa [put_frames, List.append_assoc] using this

/-- The pictures fetched at the end of the stream keep the reference order. -/
theorem pending_order (out q : List GstVaapiEncPicture) (hty : ∀ p ∈ q, p.type = NONE)
    (hinv : OrderInv out q) :
    KeyOrder (out ++ (match q.getLast? with
      | none => []
      | some a => set_p_frame a :: q.dropLast.reverse.map set_b_frame)) ∧
    BHasP (out ++ (match q.getLast? with
      | none => []
      | some a => set_p_frame a :: q.dropLast.reverse.map set_b_frame)) := by
  obtain ⟨hk, hb, hoq, hs⟩ := hinv
  by_cases hq : q = []
  · subst hq
    simpa using ⟨hk, hb⟩
  · rw [List.getLast?_eq_getLast _ hq]
    simp only []
    have hlast : q.getLast hq ∈ q := List.getLast_mem hq
    have hdrop : ∀ b ∈ q.dropLast, b ∈ q := fun b hb' => List.mem_of_mem_dropLast hb'
    have hbatch := batch_order (set_p_frame (q.getLast hq)) (q.dropLast.reverse.map set_b_frame) []
      (by rw [set_p_frame_type _ (hty _ hlast)]; decide)
      (by
        intro b hb'
        obtain ⟨b0, hb0, rfl⟩ := List.mem_map.1 hb'
        have hb1 : b0 ∈ q.dropLast := List.mem_reverse.1 hb0
        refine ⟨set_b_frame_type b0 (hty b0 (hdrop b0 hb1)), set_p_frame_type _ (hty _ hlast), ?_⟩
        rw [set_b_frame_frame, set_p_frame_frame]
        exact pairwise_lt_getLast hq hs b0 hb1)
      (by simp) (by simp)
    simp only [List.append_nil] at hbatch
    refine ⟨key_order_append hk hbatch.1 ?_, bhasp_append hb hbatch.2⟩
    intro a ha b hb'
    rcases List.mem_cons.1 hb' with hx | hx
    · rw [hx, set_p_frame_frame]; exact hoq a ha _ hlast
    · obtain ⟨b0, hb0, rfl⟩ := List.mem_map.1 hx
      rw [set_b_frame_frame]
      exact hoq a ha b0 (hdrop b0 (List.mem_reverse.1 hb0))

/-- A whole session from the initial pool, the frames numbered increasingly:
the pictures received are in reference order. -/
theorem encode_session_order (enc : Encoder) (frames : List GstVideoCodecFrame)
    (h0 : enc.reorder_pool = (gst_vaapi_encoder_h265_init enc).reorder_pool)
    (hsorted : frames.Pairwise (fun a b => a.id < b.id)) :
    KeyOrder (encode_session enc frames).pictures ∧ BHasP (encode_session enc frames).pictures := by
  have hq : enc.reorder_pool.reorder_frame_list = [] := by rw [h0]; rfl
  obtain ⟨hr, hinv⟩ := put_frames_order frames enc [] (ready_of_init enc h0) hsorted
    (by intro x hx; rw [hq] at hx; simp at hx)
    (by
      rw [hq]
      exact ⟨List.Pairwise.nil, by intro l1 X l2 h; simp at h, by simp, List.Pairwise.nil⟩)
  have := pending_order _ _ hr.2.2.2 hinv
  simp only [encode_session, List.nil_append] at this ⊢
  rw [(get_pending_fresh (put_frames enc frames).encoder).2.2]
  exact this

/-! ## Calls in any order: the bound of the buffer and the counters -/

/-- A call of `gst_vaapi_encoder_h265_reordering` with a frame, on a buffer within
`num_bframes` and a state other than `REORD_NONE` only with B-frames: the call
returns, the bound and the state condition hold afterwards, and without
B-frames the frame comes back as the picture of this call. -/
theorem reordering_frame_bound (enc : Encoder) (f : GstVideoCodecFrame)
    (hlen : enc.reorder_pool.reorder_frame_list.length ≤ enc.num_bframes)
    (hst : enc.reorder_pool.reorder_state ≠ REORD_NONE → enc.num_bframes ≠ 0) :
    ∃ v e1, gst_vaapi_encoder_h265_reordering enc (some f) = Outcome.ret v e1 ∧
      e1.num_bframes = enc.num_bframes ∧
      e1.reorder_pool.reorder_frame_list.length ≤ enc.num_bframes ∧
      (e1.reorder_pool.reorder_state ≠ REORD_NONE → enc.num_bframes ≠ 0) ∧
      (enc.num_bframes = 0 → ∃ p, v = (SUCCESS, some p) ∧ p.frame = f) := by
  have hzero : enc.num_bframes = 0 → enc.reorder_pool.reorder_frame_list = [] := by
    intro h0
    rw [h0] at hlen
    exact List.length_eq_zero.1 (Nat.le_zero.1 hlen)
  have hnone : enc.num_bframes = 0 → enc.reorder_pool.reorder_state = REORD_NONE := by
    intro h0
    by_contra hs
    exact hst hs h0
  unfold gst_vaapi_encoder_h265_reordering
  simp only []
  split_ifs with h1 h2 h3 h4 h5 h6 h7
  · -- key frame, pictures buffered
    refine ⟨_, _, rfl, (set_key_frame_fresh f _ _ _).2.2.1, ?_, fun _ => h2.1,
      fun h0 => absurd h0 h2.1⟩
    have hpos : 0 < enc.reorder_pool.reorder_frame_list.length :=
      List.length_pos.2 h2.2
    simp only [List.length_append, List.length_map, List.length_dropLast, List.length_cons,
      List.length_nil]
    omega
  · -- key frame, the assertion on the empty buffer
    exfalso
    apply h3
    rw [(set_key_frame_fresh f _ _ _).2.2.2.1]
    by_cases h0 : enc.num_bframes = 0
    · exact hzero h0
    · by_contra hq; exact h2 ⟨h0, hq⟩
  · -- key frame, B-frames enabled, nothing buffered
    refine ⟨_, _, rfl, (set_key_frame_fresh f _ _ _).2.2.1, ?_, fun _ => h4,
      fun h0 => absurd h0 h4⟩
    show (set_key_frame _ _ _).2.reorder_pool.reorder_frame_list.length ≤ enc.num_bframes
    rw [(set_key_frame_fresh f _ _ _).2.2.2.1]
    exact hlen
  · -- key frame, B-frames disabled
    refine ⟨_, _, rfl, (set_key_frame_fresh f _ _ _).2.2.1, ?_, ?_,
      fun _ => ⟨_, rfl, (set_key_frame_fresh f _ _ _).1⟩⟩
    · rw [(set_key_frame_fresh f _ _ _).2.2.2.1]
      exact hlen
    · rw [(set_key_frame_fresh f _ _ _).2.2.2.2]
      exact hst
  · -- the frame is buffered
    refine ⟨_, _, rfl, rfl, ?_, ?_, ?_⟩
    · simp only [List.length_append, List.length_cons, List.length_nil]
      omega
    · intro _ h0
      rw [h0] at h5
      exact Nat.not_lt_zero _ h5.2
    · intro h0
      rw [h0] at h5
      exact absurd h5.2 (Nat.not_lt_zero _)
  · -- the assertion on the non-empty buffer
    exfalso
    have hfull : ¬ enc.reorder_pool.reorder_frame_list.length < enc.num_bframes :=
      fun hl => h5 ⟨h6, hl⟩
    have hq : enc.reorder_pool.reorder_frame_list = [] := by simpa using h7
    rw [hq] at hfull
    exact hfull (Nat.pos_of_ne_zero (hst (by rw [h6]; decide)))
  · -- a P picture closes a full buffer
    have hb : enc.num_bframes ≠ 0 := hst (by rw [h6]; decide)
    refine ⟨_, _, rfl, rfl, ?_, fun _ => hb, fun h0 => absurd h0 hb⟩
    simp only [List.length_map]
    exact hlen
  · -- a P picture without buffering
    refine ⟨_, _, rfl, rfl, hlen, hst, fun _ => ⟨_, rfl, ?_⟩⟩
    simp [set_p_frame]

/-- A call of `gst_vaapi_encoder_h265_reordering` with a NULL frame, on a buffer
within `num_bframes` and a state other than `REORD_NONE` only with B-frames: the
call returns and the bound and the state condition hold afterwards. -/
theorem reordering_null_bound (enc : Encoder)
    (hlen : enc.reorder_pool.reorder_frame_list.length ≤ enc.num_bframes)
    (hst : enc.reorder_pool.reorder_state ≠ REORD_NONE → enc.num_bframes ≠ 0) :
    ∃ v e1, gst_vaapi_encoder_h265_reordering enc none = Outcome.ret v e1 ∧
      e1.num_bframes = enc.num_bframes ∧
      e1.reorder_pool.reorder_frame_list.length ≤ enc.num_bframes ∧
      (e1.reorder_pool.reorder_state ≠ REORD_NONE → enc.num_bframes ≠ 0) := by
  unfold gst_vaapi_encoder_h265_reordering
  simp only []
  split_ifs with h1 h2
  · exact ⟨_, _, rfl, rfl, hlen, hst⟩
  · have hd : enc.reorder_pool.reorder_state = REORD_DUMP_FRAMES := by simpa using h1
    have hb := hst (by rw [hd]; decide)
    cases hq : enc.reorder_pool.reorder_frame_list with
    | nil =>
      exact ⟨_, _, rfl, rfl, hlen, hst⟩
    | cons picture rest =>
      refine ⟨_, _, rfl, rfl, ?_, fun _ => hb⟩
      rw [hq] at hlen
      simp only [List.length_cons] at hlen
      show rest.length ≤ enc.num_bframes
      omega
  · exfalso
    have hd : enc.reorder_pool.reorder_state = REORD_DUMP_FRAMES := by simpa using h1
    have hb := hst (by rw [hd]; decide)
    omega

/-- Any sequence of calls of `gst_vaapi_encoder_h265_reordering`, from a buffer
within `num_bframes` and a state other than `REORD_NONE` only with B-frames: no
call aborts, and the bound and the state condition hold at the end. -/
theorem reordering_calls_bound : ∀ (calls : List (Option GstVideoCodecFrame)) (enc : Encoder),
    enc.reorder_pool.reorder_frame_list.length ≤ enc.num_bframes →
    (enc.reorder_pool.reorder_state ≠ REORD_NONE → enc.num_bframes ≠ 0) →
    (reordering_calls enc calls).returned = true ∧
    (reordering_calls enc calls).enc.num_bframes = enc.num_bframes ∧
    (reordering_calls enc calls).enc.reorder_pool.reorder_frame_list.length ≤ enc.num_bframes ∧
    ((reordering_calls enc calls).enc.reorder_pool.reorder_state ≠ REORD_NONE →
      enc.num_bframes ≠ 0)
  | [], enc, hlen, hst => ⟨rfl, rfl, hlen, hst⟩
  | call :: calls, enc, hlen, hst => by
    have hstep : ∃ v e1, gst_vaapi_encoder_h265_reordering enc call = Outcome.ret v e1 ∧
        e1.num_bframes = enc.num_bframes ∧
        e1.reorder_pool.reorder_frame_list.length ≤ enc.num_bframes ∧
        (e1.reorder_pool.reorder_state ≠ REORD_NONE → enc.num_bframes ≠ 0) := by
      cases call with
      | none => exact reordering_null_bound enc hlen hst
      | some f =>
        obtain ⟨v, e1, h1, h2, h3, h4, _⟩ := reordering_frame_bound enc f hlen hst
        exact ⟨v, e1, h1, h2, h3, h4⟩
    obtain ⟨v, e1, hcall, hnb, hlen1, hst1⟩ := hstep
    have hrest := reordering_calls_bound calls e1 (by rw [hnb]; exact hlen1)
      (by rw [hnb]; exact hst1)
    rw [hnb] at hrest
    have hrun : reordering_calls enc (call :: calls) = reordering_calls e1 calls := by
      rw [reordering_calls, hcall]
    rw [hrun]
    exact hrest

/-- A call of `gst_vaapi_encoder_h265_reordering` with a NULL frame leaves the two
counters and the configuration. -/
theorem reordering_null_counters (enc : Encoder) :
    (gst_vaapi_encoder_h265_reordering enc none).enc.reorder_pool.frame_index
      = enc.reorder_pool.frame_index ∧
    (gst_vaapi_encoder_h265_reordering enc none).enc.reorder_pool.cur_present_index
      = enc.reorder_pool.cur_present_index ∧
    (gst_vaapi_encoder_h265_reordering enc none).enc.idr_period = enc.idr_period ∧
    (gst_vaapi_encoder_h265_reordering enc none).enc.max_pic_order_cnt
      = enc.max_pic_order_cnt := by
  unfold gst_vaapi_encoder_h265_reordering
  simp only []
  split_ifs with h1 h2
  · exact ⟨rfl, rfl, rfl, rfl⟩
  · cases enc.reorder_pool.reorder_frame_list <;> exact ⟨rfl, rfl, rfl, rfl⟩
  · exact ⟨rfl, rfl, rfl, rfl⟩


/-- Calls of `gst_vaapi_encoder_h265_reordering` with a NULL frame, one after the
other, from a buffer within `num_bframes`: no call aborts, the two counters
and the configuration are left, and the bound of the buffer holds at the
end. -/
theorem reordering_nulls_counters : ∀ (n : Nat) (enc : Encoder),
    enc.reorder_pool.reorder_frame_list.length ≤ enc.num_bframes →
    (enc.reorder_pool.reorder_state ≠ REORD_NONE → enc.num_bframes ≠ 0) →
    (reordering_calls enc (List.replicate n none)).returned = true ∧
    (reordering_calls enc (List.replicate n none)).enc.reorder_pool.frame_index
      = enc.reorder_pool.frame_index ∧
    (reordering_calls enc (List.replicate n none)).enc.reorder_pool.cur_present_index
      = enc.reorder_pool.cur_present_index ∧
    (reordering_calls enc (List.replicate n none)).enc.idr_period = enc.idr_period ∧
    (reordering_calls enc (List.replicate n none)).enc.max_pic_order_cnt
      = enc.max_pic_order_cnt ∧
    (reordering_calls enc (List.replicate n none)).enc.num_bframes = enc.num_bframes ∧
    (reordering_calls enc (List.replicate n none)).enc.reorder_pool.reorder_frame_list.length
      ≤ enc.num_bframes ∧
    ((reordering_calls enc (List.replicate n none)).enc.reorder_pool.reorder_state ≠ REORD_NONE →
      enc.num_bframes ≠ 0)
  | 0, _, hlen, hst => ⟨rfl, rfl, rfl, rfl, rfl, rfl, hlen, hst⟩
  | n + 1, enc, hlen, hst => by
    obtain ⟨v, e1, hcall, hnb, hlen1, hst1⟩ := reordering_null_bound enc hlen hst
    obtain ⟨c1, c2, c3, c4⟩ := reordering_null_counters enc
    rw [hcall] at c1 c2 c3 c4
    have c1' : e1.reorder_pool.frame_index = enc.reorder_pool.frame_index := c1
    have c2' : e1.reorder_pool.cur_present_index = enc.reorder_pool.cur_present_index := c2
    have c3' : e1.idr_period = enc.idr_period := c3
    have c4' : e1.max_pic_order_cnt = enc.max_pic_order_cnt := c4
    have hrest := reordering_nulls_counters n e1 (by rw [hnb]; exact hlen1)
      (by rw [hnb]; exact hst1)
    have hrun : reordering_calls enc (List.replicate (n + 1) none) =
        reordering_calls e1 (List.replicate n none) := by
      rw [List.replicate_succ, reordering_calls, hcall]
    rw [hrun, ← c1', ← c2', ← c3', ← c4', ← hnb]
    exact hrest

/-- A call of `gst_vaapi_encoder_h265_reordering` that marks its picture as IDR
(`frame_index` is 0 or has reached `idr_period`) leaves `cur_present_index = 0`
and `frame_index = 1`, whether it returns or stops at the assertion on the
buffer; the configuration is left. -/
theorem reordering_idr_counters (enc : Encoder) (frame : GstVideoCodecFrame)
    (hkey : enc.reorder_pool.frame_index = 0 ∨ enc.idr_period ≤ enc.reorder_pool.frame_index) :
    (gst_vaapi_encoder_h265_reordering enc (some frame)).enc.reorder_pool.cur_present_index = 0 ∧
    (gst_vaapi_encoder_h265_reordering enc (some frame)).enc.reorder_pool.frame_index = 1 ∧
    (gst_vaapi_encoder_h265_reordering enc (some frame)).enc.idr_period = enc.idr_period ∧
    (gst_vaapi_encoder_h265_reordering enc (some frame)).enc.max_pic_order_cnt
      = enc.max_pic_order_cnt := by
  have hidr_b : (enc.reorder_pool.frame_index == 0
      || decide (enc.reorder_pool.frame_index ≥ enc.idr_period)) = true := by
    rcases hkey with h | h <;> simp [h]
  unfold gst_vaapi_encoder_h265_reordering
  simp only [hidr_b, Bool.true_or, if_true, set_key_frame, set_idr_frame, reset_gop_start]
  split_ifs with h2 h3 h4
  · exact ⟨rfl, rfl, rfl, rfl⟩
  · exact ⟨rfl, rfl, rfl, rfl⟩
  · exact ⟨rfl, rfl, rfl, rfl⟩
  · exact ⟨rfl, rfl, rfl, rfl⟩

/-- The frame submitted after an IDR picture (`cur_present_index = 0`,
`frame_index = 1`), on a buffer within `num_bframes` and with a POC range above
1: the call returns, and the picture of the frame is returned or buffered. When
`idr_period` is at most 1 the picture is itself marked IDR, with type I and
POC 0; otherwise it is not an IDR picture and its POC is 1. -/
theorem reordering_frame_after_idr (enc : Encoder) (f : GstVideoCodecFrame)
    (hlen : enc.reorder_pool.reorder_frame_list.length ≤ enc.num_bframes)
    (hst : enc.reorder_pool.reorder_state ≠ REORD_NONE → enc.num_bframes ≠ 0)
    (hmax : 1 < enc.max_pic_order_cnt)
    (hcur : enc.reorder_pool.cur_present_index = 0)
    (hfi : enc.reorder_pool.frame_index = 1) :
    ∃ v e1 p, gst_vaapi_encoder_h265_reordering enc (some f) = Outcome.ret v e1 ∧
      p.frame = f ∧ (v.2 = some p ∨ p ∈ e1.reorder_pool.reorder_frame_list) ∧
      ((enc.idr_period ≤ 1 ∧ p.idr = true ∧ p.type = I ∧ p.poc = 0) ∨
        (1 < enc.idr_period ∧ p.idr = false ∧ p.poc = 1)) := by
  have hzero : enc.num_bframes = 0 → enc.reorder_pool.reorder_frame_list = [] := by
    intro h0
    rw [h0] at hlen
    exact List.length_eq_zero.1 (Nat.le_zero.1 hlen)
  have hone : (0 + 1) % 2 ^ 32 % enc.max_pic_order_cnt = 1 := by
    have h1 : (0 + 1) % 2 ^ 32 = 1 := by norm_num
    rw [h1, Nat.mod_eq_of_lt hmax]
  have hcases : ((enc.reorder_pool.frame_index == 0
        || decide (enc.reorder_pool.frame_index ≥ enc.idr_period)) = true ∧
        enc.idr_period ≤ 1) ∨
      ((enc.reorder_pool.frame_index == 0
        || decide (enc.reorder_pool.frame_index ≥ enc.idr_period)) = false ∧
        1 < enc.idr_period) := by
    rw [hfi]
    by_cases hge : enc.idr_period ≤ 1
    · left
      exact ⟨by simp [hge], hge⟩
    · right
      exact ⟨by simp [hge], by omega⟩
  unfold gst_vaapi_encoder_h265_reordering
  simp only []
  rcases hcases with ⟨hi, hle⟩ | ⟨hi, hlt⟩
  · -- the frame starts a new IDR period
    rw [hi]
    simp only [Bool.true_or, if_true, set_key_frame, set_idr_frame, reset_gop_start]
    split_ifs with h2 h3 h4
    · exact ⟨_, _, _, rfl, rfl, Or.inr (List.mem_append_right _ (List.mem_singleton_self _)),
        Or.inl ⟨hle, rfl, rfl, rfl⟩⟩
    · exfalso
      apply h3
      by_cases h0 : enc.num_bframes = 0
      · exact hzero h0
      · by_contra hq; exact h2 ⟨h0, hq⟩
    · exact ⟨_, _, _, rfl, rfl, Or.inl rfl, Or.inl ⟨hle, rfl, rfl, rfl⟩⟩
    · exact ⟨_, _, _, rfl, rfl, Or.inl rfl, Or.inl ⟨hle, rfl, rfl, rfl⟩⟩
  · -- the frame continues the IDR period
    rw [hi, hcur]
    simp only [hone, Bool.false_or, set_key_frame, set_i_frame, Bool.false_eq_true,
      if_false, if_true]
    split_ifs with h1 h2 h3 h4 h5 h6 h7
    · exact ⟨_, _, _, rfl, rfl, Or.inr (List.mem_append_right _ (List.mem_singleton_self _)),
        Or.inr ⟨hlt, rfl, rfl⟩⟩
    · exfalso
      apply h3
      by_cases h0 : enc.num_bframes = 0
      · exact hzero h0
      · by_contra hq; exact h2 ⟨h0, hq⟩
    · exact ⟨_, _, _, rfl, rfl, Or.inl rfl, Or.inr ⟨hlt, rfl, rfl⟩⟩
    · exact ⟨_, _, _, rfl, rfl, Or.inl rfl, Or.inr ⟨hlt, rfl, rfl⟩⟩
    · exact ⟨_, _, _, rfl, rfl, Or.inr (List.mem_append_right _ (List.mem_singleton_self _)),
        Or.inr ⟨hlt, rfl, rfl⟩⟩
    · exfalso
      have hfull : ¬ enc.reorder_pool.reorder_frame_list.length < enc.num_bframes :=
        fun hl => h5 ⟨h6, hl⟩
      have hq : enc.reorder_pool.reorder_frame_list = [] := by simpa using h7
      rw [hq] at hfull
      exact hfull (Nat.pos_of_ne_zero (hst (by rw [h6]; decide)))
    · exact ⟨_, _, _, rfl, rfl, Or.inl rfl, Or.inr ⟨hlt, rfl, rfl⟩⟩
    · exact ⟨_, _, _, rfl, rfl, Or.inl rfl, Or.inr ⟨hlt, rfl, rfl⟩⟩

/-! ## Claims on the reorder engine -/

/-- C1: the reorder engine neither loses nor duplicates frames. For every
`num_bframes`, `keyframe_period >= 1`, `idr_period >= keyframe_period` and
every sequence of frames (any of them flagged force-keyframe) submitted from
the initial pool under the drain protocol and followed by the end-of-stream
loop, every drain loop ends on `NO_SURFACE`, the end-of-stream loop ends on
FALSE, the buffer is left empty, and the frames of the pictures received are
the submitted frames, each exactly once (a permutation of them). -/
theorem C1_reordering_emits_each_frame_once (enc : Encoder) (frames : List GstVideoCodecFrame)
    (_hk : 1 ≤ enc.keyframe_period) (_hi : enc.keyframe_period ≤ enc.idr_period)
    (h0 : enc.reorder_pool = (gst_vaapi_encoder_h265_init enc).reorder_pool) :
    (encode_session enc frames).complete = true ∧
    (encode_session enc frames).encoder.reorder_pool.reorder_frame_list = [] ∧
    ((encode_session enc frames).pictures.map GstVaapiEncPicture.frame).Perm frames := by
  have hq : enc.reorder_pool.reorder_frame_list = [] := by rw [h0]; rfl
  obtain ⟨hc, hr, hp⟩ := put_frames_perm frames enc (ready_of_init enc h0)
  obtain ⟨gc, gq, gp⟩ := get_pending_fresh (put_frames enc frames).encoder
  refine ⟨by simp [encode_session, hc, gc], by simpa [encode_session] using gq, ?_⟩
  simp only [encode_session, List.map_append, gp]
  rw [hq, List.map_nil, List.nil_append] at hp
  refine List.Perm.trans (List.Perm.append_left _ ?_) hp
  rcases List.eq_nil_or_concat (put_frames enc frames).encoder.reorder_pool.reorder_frame_list
    with hl | ⟨r, a, hl⟩
  · simp [hl]
  · rw [List.concat_eq_append] at hl
    have hlast : (r ++ [a]).getLast? = some a := by simp
    have hdrop : (r ++ [a]).dropLast = r := by simp
    rw [hl, hlast, hdrop]
    simp only [List.map_cons, List.map_append, List.map_nil, set_p_frame_frame,
      map_frame_set_b, List.map_reverse]
    rw [← List.reverse_reverse (a.frame :: (List.map GstVaapiEncPicture.frame r).reverse)]
    refine (List.reverse_perm _).trans ?_
    simp

/-- C1, witness: six frames, one of them a forced key frame, with three
B-frames and keyframe period 30. -/
theorem C1_reordering_emits_each_frame_once_witness :
    1 ≤ scenario_long.keyframe_period ∧
    scenario_long.keyframe_period ≤ scenario_long.idr_period ∧
    (encode_session scenario_long forced_frames).complete = true ∧
    (encode_session scenario_long forced_frames).encoder.reorder_pool.reorder_frame_list = [] ∧
    ((encode_session scenario_long forced_frames).pictures.map
      GstVaapiEncPicture.frame).Perm forced_frames :=
  ⟨by decide, by decide,
    C1_reordering_emits_each_frame_once scenario_long forced_frames (by decide) (by decide) rfl⟩

/-- C2: encode order respects references. In the sequence of pictures received
in a session (frames numbered increasingly, submitted from the initial pool
under the drain protocol, then the end-of-stream loop), for every picture
`X` at any position: when `X` is a P or B picture, every I or P picture of a
frame submitted before `X` stands before `X`; when `X` is a B picture, some
P picture of a frame submitted after `X` stands before `X`. -/
theorem C2_encode_order_respects_references (enc : Encoder) (frames : List GstVideoCodecFrame)
    (h0 : enc.reorder_pool = (gst_vaapi_encoder_h265_init enc).reorder_pool)
    (hsorted : frames.Pairwise (fun a b => a.id < b.id)) :
    ∀ l1 X l2, (encode_session enc frames).pictures = l1 ++ X :: l2 →
      ((X.type = P ∨ X.type = B) →
        ∀ Y ∈ (encode_session enc frames).pictures, (Y.type = I ∨ Y.type = P) →
          Y.frame.id < X.frame.id → Y ∈ l1) ∧
      (X.type = B → ∃ Y ∈ l1, Y.type = P ∧ X.frame.id < Y.frame.id) := by
  obtain ⟨hk, hb⟩ := encode_session_order enc frames h0 hsorted
  intro l1 X l2 heq
  refine ⟨?_, hb l1 X l2 heq⟩
  intro _ Y hY hty hlt
  rw [heq] at hY hk
  rcases List.mem_append.1 hY with h | h
  · exact h
  · exfalso
    unfold KeyOrder at hk
    rw [List.pairwise_append, List.pairwise_cons] at hk
    rcases List.mem_cons.1 h with h | h
    · rw [h] at hlt; exact lt_irrefl _ hlt
    · exact lt_asymm hlt (hk.2.1.1 Y h hty)

/-- C2, witness: six frames, one of them a forced key frame, with three
B-frames and keyframe period 30. -/
theorem C2_encode_order_respects_references_witness :
    forced_frames.Pairwise (fun a b => a.id < b.id) ∧
    ∀ l1 X l2, (encode_session scenario_long forced_frames).pictures = l1 ++ X :: l2 →
      ((X.type = P ∨ X.type = B) →
        ∀ Y ∈ (encode_session scenario_long forced_frames).pictures, (Y.type = I ∨ Y.type = P) →
          Y.frame.id < X.frame.id → Y ∈ l1) ∧
      (X.type = B → ∃ Y ∈ l1, Y.type = P ∧ X.frame.id < Y.frame.id) :=
  ⟨by decide, C2_encode_order_respects_references scenario_long forced_frames rfl (by decide)⟩

theorem mod_succ_cases (K m : Nat) (hK : 1 ≤ K) (hm : 0 < m) :
    ((m - 1) % K + 1 = K ∧ m % K = 0) ∨ ((m - 1) % K + 1 < K ∧ m % K = (m - 1) % K + 1) := by
  have hr : (m - 1) % K < K := Nat.mod_lt _ (by omega)
  have hm' : m % K = ((m - 1) % K + 1) % K := by
    conv_lhs => rw [show m = (m - 1) + 1 by omega]
    rw [Nat.add_mod]
    rcases Nat.lt_or_ge 1 K with h | h
    · rw [Nat.mod_eq_of_lt h]
    · have : K = 1 := by omega
      subst this; simp
  rcases Nat.lt_or_ge ((m - 1) % K + 1) K with h | h
  · right; exact ⟨h, by rw [hm', Nat.mod_eq_of_lt h]⟩
  · left
    have : (m - 1) % K + 1 = K := by omega
    exact ⟨this, by rw [hm', this, Nat.mod_self]⟩

/-- Without B-frames and with `keyframe_period = idr_period = K`, the call for
the frame number `m` returns that frame, typed by its position in the GOP,
and leaves the encoder at the next position. -/
theorem at_frame_step (K m : Nat) (hK1 : 1 ≤ K) (hK2 : K < 65536) (enc : Encoder)
    (f : GstVideoCodecFrame) (h : AtFrame K m enc) (hf : f.force_keyframe = false) :
    gst_vaapi_encoder_h265_reordering enc (some f) =
      Outcome.ret (SUCCESS, some
        { frame := f, poc := m % K, type := if m % K = 0 then I else P,
          idr := decide (m % K = 0) })
        (gst_vaapi_encoder_h265_reordering enc (some f)).enc ∧
    AtFrame K (m + 1) (gst_vaapi_encoder_h265_reordering enc (some f)).enc := by
  obtain ⟨hnb, hkp, hidr, hmax, hs, hq, hpos⟩ := h
  obtain ⟨hlt, h16⟩ := lt_max_pic_order_cnt K hK2
  rw [← hmax] at hlt h16
  have hidr_case : (enc.reorder_pool.frame_index = 0 ∨ K ≤ enc.reorder_pool.frame_index) →
      m % K = 0 := by
    rcases hpos with ⟨h0, _, _⟩ | ⟨hm, hfi, _⟩
    · intro _; rw [h0]; simp
    · intro hc
      rcases mod_succ_cases K m hK1 hm with ⟨_, h2⟩ | ⟨h1, _⟩
      · exact h2
      · omega
  by_cases hkey : enc.reorder_pool.frame_index = 0 ∨ K ≤ enc.reorder_pool.frame_index
  · -- an IDR picture
    have hm0 := hidr_case hkey
    have hidr_b : (enc.reorder_pool.frame_index == 0
        || decide (enc.reorder_pool.frame_index ≥ enc.idr_period)) = true := by
      rw [hidr]; rcases hkey with h | h <;> simp [h]
    have hres : gst_vaapi_encoder_h265_reordering enc (some f) =
        Outcome.ret (SUCCESS, some { frame := f, poc := 0, type := I, idr := true })
          (reset_gop_start
            { enc with
              reorder_pool :=
                { enc.reorder_pool with
                  cur_present_index := (enc.reorder_pool.cur_present_index + 1) % 2 ^ 32
                  frame_index := (enc.reorder_pool.frame_index + 1) % 2 ^ 32 } }) := by
      unfold gst_vaapi_encoder_h265_reordering
      simp only [hidr_b, Bool.true_or, if_true, hnb, hq, set_key_frame, set_idr_frame,
        reset_gop_start]
      simp
    rw [hres]
    refine ⟨by simp [hm0, Outcome.enc], hnb, hkp, hidr, hmax, hs, hq, Or.inr ⟨by omega, ?_, ?_⟩⟩
    · simp [Outcome.enc, reset_gop_start, hm0]
    · simp [Outcome.enc, reset_gop_start, hm0]
  · -- a P picture
    have hm : 0 < m := by
      rcases hpos with ⟨_, h0, _⟩ | ⟨hm, _, _⟩
      · exact absurd (Or.inl h0) hkey
      · exact hm
    have hfi : enc.reorder_pool.frame_index = (m - 1) % K + 1 := by
      rcases hpos with ⟨h0, _, _⟩ | ⟨_, h1, _⟩
      · omega
      · exact h1
    have hcpi : enc.reorder_pool.cur_present_index = (m - 1) % K := by
      rcases hpos with ⟨h0, _, _⟩ | ⟨_, _, h1⟩
      · omega
      · exact h1
    have hmod : (m - 1) % K + 1 < K ∧ m % K = (m - 1) % K + 1 := by
      rcases mod_succ_cases K m hK1 hm with ⟨h1, _⟩ | h
      · exact absurd (Or.inr (by omega)) hkey
      · exact h
    have hidr_b : (enc.reorder_pool.frame_index == 0
        || decide (enc.reorder_pool.frame_index ≥ enc.idr_period)) = false := by
      rw [hidr]
      simp only [Bool.or_eq_false_iff, beq_eq_false_iff_ne, decide_eq_false_iff_not]
      exact ⟨fun h => hkey (Or.inl h), fun h => hkey (Or.inr h)⟩
    have hkp_b : (enc.reorder_pool.frame_index % enc.keyframe_period == 0) = false := by
      rw [hkp, hfi, Nat.mod_eq_of_lt hmod.1]; simp
    have hpoc : (enc.reorder_pool.cur_present_index + 1) % 2 ^ 32 % enc.max_pic_order_cnt
        = m % K := by
      rw [hcpi, hmod.2, Nat.mod_eq_of_lt (by omega), Nat.mod_eq_of_lt (by omega)]
    have hm0 : m % K ≠ 0 := by omega
    have hres : gst_vaapi_encoder_h265_reordering enc (some f) =
        Outcome.ret (SUCCESS, some { frame := f, poc := m % K, type := P, idr := false })
          { enc with
            reorder_pool :=
              { enc.reorder_pool with
                cur_present_index := (enc.reorder_pool.cur_present_index + 1) % 2 ^ 32
                frame_index := (enc.reorder_pool.frame_index + 1) % 2 ^ 32 } } := by
      unfold gst_vaapi_encoder_h265_reordering
      simp only [hidr_b, hf, hkp_b, Bool.or_self, Bool.false_eq_true, if_false, hs, hpoc,
        set_p_frame]
      simp
    rw [hres]
    refine ⟨by simp [hm0, Outcome.enc], hnb, hkp, hidr, hmax, hs, hq, Or.inr ⟨by omega, ?_, ?_⟩⟩
    · simp only [Outcome.enc, Nat.add_sub_cancel, hfi, hmod.2]
      rw [Nat.mod_eq_of_lt (by omega)]
    · simp only [Outcome.enc, Nat.add_sub_cancel, hcpi, hmod.2]
      rw [Nat.mod_eq_of_lt (by omega)]

theorem submit_frames_at (K : Nat) (hK1 : 1 ≤ K) (hK2 : K < 65536)
    (frames : List GstVideoCodecFrame) :
    ∀ (enc : Encoder) (m : Nat), AtFrame K m enc →
      (∀ g ∈ frames, g.force_keyframe = false) →
      AtFrame K (m + frames.length) (submit_frames enc frames) := by
  induction frames with
  | nil => intro enc m h _; simpa [submit_frames] using h
  | cons g rest ih =>
    intro enc m h hnf
    have hstep := (at_frame_step K m hK1 hK2 enc g h (hnf g (List.mem_cons_self _ _))).2
    have := ih _ (m + 1) hstep (fun x hx => hnf x (List.mem_cons_of_mem _ hx))
    simpa [submit_frames, Nat.add_assoc, Nat.add_comm 1] using this

/-- C3: without B-frames the GOP is strictly periodic. For `num_bframes = 0`,
`keyframe_period = idr_period = K` with `1 <= K < 65536`,
`max_pic_order_cnt = 2 ^ h265_get_log2_max_pic_order_cnt (K)` and no forced
key frame, from the initial pool: after `n` frames have been submitted, the
call of `gst_vaapi_encoder_h265_reordering` with the next frame (the frame
number `n`, counting from 0) returns `SUCCESS` with that frame, as an IDR
picture (type I, IDR flag) when `n mod K = 0` and as a P picture otherwise,
with `POC = n mod K`. -/
theorem C3_gop_periodic_without_bframes (K : Nat) (hK1 : 1 ≤ K) (hK2 : K < 65536)
    (enc : Encoder) (hnb : enc.num_bframes = 0) (hkp : enc.keyframe_period = K)
    (hidr : enc.idr_period = K)
    (hmax : enc.max_pic_order_cnt = 2 ^ h265_get_log2_max_pic_order_cnt K)
    (h0 : enc.reorder_pool = (gst_vaapi_encoder_h265_init enc).reorder_pool)
    (frames : List GstVideoCodecFrame) (f : GstVideoCodecFrame)
    (hnf : ∀ g ∈ frames, g.force_keyframe = false) (hf : f.force_keyframe = false) :
    ∃ enc1, gst_vaapi_encoder_h265_reordering (submit_frames enc frames) (some f) =
      Outcome.ret (SUCCESS, some
        { frame := f, poc := frames.length % K,
          type := if frames.length % K = 0 then I else P,
          idr := decide (frames.length % K = 0) }) enc1 := by
  have hinit : AtFrame K 0 enc := by
    refine ⟨hnb, hkp, hidr, hmax, ?_, ?_, Or.inl ⟨rfl, ?_, ?_⟩⟩ <;> rw [h0] <;> rfl
  have hat := submit_frames_at K hK1 hK2 frames enc 0 hinit hnf
  rw [Nat.zero_add] at hat
  exact ⟨_, (at_frame_step K frames.length hK1 hK2 _ f hat hf).1⟩

/-- C3, witness: scenario A (`K = 4`); the frame number 4 is returned as an IDR
picture with POC 0, and the eight pictures of eight frames are
IDR, P, P, P, IDR, P, P, P with POCs 0, 1, 2, 3, 0, 1, 2, 3. -/
theorem C3_gop_periodic_without_bframes_witness :
    (∃ enc1, gst_vaapi_encoder_h265_reordering (submit_frames scenario_a (plain_frames 4))
        (some { id := 4, force_keyframe := false }) =
      Outcome.ret (SUCCESS, some
        { frame := { id := 4, force_keyframe := false }, poc := (plain_frames 4).length % 4,
          type := if (plain_frames 4).length % 4 = 0 then I else P,
          idr := decide ((plain_frames 4).length % 4 = 0) }) enc1) ∧
    (put_frames scenario_a (plain_frames 8)).pictures.map (fun p => (p.type, p.idr, p.poc)) =
      [(I, true, 0), (P, false, 1), (P, false, 2), (P, false, 3),
       (I, true, 0), (P, false, 1), (P, false, 2), (P, false, 3)] :=
  ⟨C3_gop_periodic_without_bframes 4 (by decide) (by decide) scenario_a rfl rfl rfl rfl rfl
      (plain_frames 4) { id := 4, force_keyframe := false } (by decide) rfl,
    by decide⟩

/-- C4: scenario B prefix. With `num_bframes = 2`, `keyframe_period = idr_period = 4`,
`max_pic_order_cnt = 16`, no forced key frame and 8 frames submitted under the
drain protocol, the first four pictures received are, in this order, the
frame 0 as IDR with POC 0, the frame 3 as P with POC 3, the frame 1 as B with
POC 1 and the frame 2 as B with POC 2. -/
theorem C4_scenario_b_first_four :
    scenario_b.num_bframes = 2 ∧ scenario_b.keyframe_period = 4 ∧ scenario_b.idr_period = 4 ∧
    scenario_b.max_pic_order_cnt = 16 ∧
    (put_frames scenario_b (plain_frames 8)).complete = true ∧
    (put_frames scenario_b (plain_frames 8)).pictures.take 4 =
      [{ frame := { id := 0 }, poc := 0, type := I, idr := true },
       { frame := { id := 3 }, poc := 3, type := P, idr := false },
       { frame := { id := 1 }, poc := 1, type := B, idr := false },
       { frame := { id := 2 }, poc := 2, type := B, idr := false }] := by
  decide

/-- C5: scenario B reference lists. In the pipeline of scenario B
(`num_ref_frames = 1`, so `max_ref_frames = 2` and list caps 1 and 1,
`max_pic_order_cnt = 16`; every picture received is encoded, its lists built
by `reference_list_init` and cut by `ensure_slices`, then the store updated by
`reference_list_update`), no call aborts, four B pictures are encoded, each
with a non-empty L0 and L1, and for every B picture every L0 entry `e` has
`_poc_greater_than (current.poc, e.poc)` and every L1 entry `e` has
`_poc_greater_than (e.poc, current.poc)` with `e.poc != current.poc`. -/
theorem C5_scenario_b_reference_lists :
    scenario_b.num_ref_frames = 1 ∧ scenario_b.ref_pool.max_ref_frames = 2 ∧
    scenario_b.ref_pool.max_reflist0_count = 1 ∧ scenario_b.ref_pool.max_reflist1_count = 1 ∧
    scenario_b.max_pic_order_cnt = 16 ∧
    ∃ coded,
      encode_pictures scenario_b (encode_session scenario_b (plain_frames 8)).pictures
        = some coded ∧
      (coded.filter (fun x => decide (x.1.type = B))).length = 4 ∧
      ∀ x ∈ coded, x.1.type = B →
        x.2.1 ≠ [] ∧ x.2.2 ≠ [] ∧
        (∀ e ∈ x.2.1, _poc_greater_than x.1.poc e.poc scenario_b.max_pic_order_cnt = true) ∧
        (∀ e ∈ x.2.2, _poc_greater_than e.poc x.1.poc scenario_b.max_pic_order_cnt = true ∧
          e.poc ≠ x.1.poc) := by
  refine ⟨by decide, by decide, by decide, by decide, by decide,
    [({ frame := { id := 0 }, poc := 0, type := I, idr := true }, [], []),
     ({ frame := { id := 3 }, poc := 3, type := P, idr := false }, [{ pic := 0, poc := 0 }], []),
     ({ frame := { id := 1 }, poc := 1, type := B, idr := false },
        [{ pic := 0, poc := 0 }], [{ pic := 3, poc := 3 }]),
     ({ frame := { id := 2 }, poc := 2, type := B, idr := false },
        [{ pic := 0, poc := 0 }], [{ pic := 3, poc := 3 }]),
     ({ frame := { id := 4 }, poc := 0, type := I, idr := true }, [], []),
     ({ frame := { id := 7 }, poc := 3, type := P, idr := false }, [{ pic := 4, poc := 0 }], []),
     ({ frame := { id := 5 }, poc := 1, type := B, idr := false },
        [{ pic := 4, poc := 0 }], [{ pic := 7, poc := 3 }]),
     ({ frame := { id := 6 }, poc := 2, type := B, idr := false },
        [{ pic := 4, poc := 0 }], [{ pic := 7, poc := 3 }])],
    by decide, by decide, by decide⟩

/-! ## IDR pictures -/

theorem idr_ok_set_b_frame {p : GstVaapiEncPicture} (h : IdrOk p) : IdrOk (set_b_frame p) := by
  unfold GstVaapiEncoderH265.set_b_frame
  split
  · rename_i hn
    intro hi
    have := (h hi).1
    rw [hn] at this
    exact absurd this (by decide)
  · exact h

theorem idr_ok_set_p_frame {p : GstVaapiEncPicture} (h : IdrOk p) : IdrOk (set_p_frame p) := by
  unfold GstVaapiEncoderH265.set_p_frame
  split
  · rename_i hn
    intro hi
    have := (h hi).1
    rw [hn] at this
    exact absurd this (by decide)
  · exact h

theorem set_key_frame_idr_ok (f : GstVideoCodecFrame) (poc : Nat) (enc : Encoder) (b : Bool) :
    IdrOk (set_key_frame { frame := f, poc := poc, type := NONE, idr := false } enc b).1 := by
  cases b <;> simp [set_key_frame, set_idr_frame, set_i_frame, IdrOk]

/-- Every call keeps the flagged pictures of the buffer, and the picture it
returns, of type I with POC 0. -/
theorem reordering_idr_ok (enc : Encoder) (frame : Option GstVideoCodecFrame)
    (hq : ∀ p ∈ enc.reorder_pool.reorder_frame_list, IdrOk p) :
    (∀ p ∈ (gst_vaapi_encoder_h265_reordering enc frame).enc.reorder_pool.reorder_frame_list,
      IdrOk p) ∧
    ∀ status p enc1,
      gst_vaapi_encoder_h265_reordering enc frame = Outcome.ret (status, some p) enc1 →
      IdrOk p := by
  cases frame with
  | none =>
    unfold gst_vaapi_encoder_h265_reordering
    simp only []
    split_ifs with h1 h2
    · exact ⟨hq, by intro _ _ _ h; simp at h⟩
    · cases hl : enc.reorder_pool.reorder_frame_list with
      | nil =>
        refine ⟨?_, by intro _ _ _ h; simp at h⟩
        intro p hp
        simp only [Outcome.enc] at hp
        exact hq p hp
      | cons a rest =>
        rw [hl] at hq
        refine ⟨?_, ?_⟩
        · intro p hp
          simp only [Outcome.enc] at hp
          exact hq p (List.mem_cons_of_mem _ hp)
        · intro st p e h
          simp only [Outcome.ret.injEq, Prod.mk.injEq, Option.some.injEq] at h
          rw [← h.1.2]
          exact hq a (List.mem_cons_self _ _)
    · exact ⟨hq, by intro _ _ _ h; simp at h⟩
  | some f =>
    unfold gst_vaapi_encoder_h265_reordering
    simp only []
    split_ifs with h1 h2 h3 h4 h5 h6 h7
    · refine ⟨?_, ?_⟩
      · intro p hp
        simp only [Outcome.enc] at hp
        rcases List.mem_append.1 hp with hp | hp
        · obtain ⟨p0, hp0, rfl⟩ := List.mem_map.1 hp
          exact idr_ok_set_b_frame (hq p0 (List.mem_of_mem_dropLast hp0))
        · simp only [List.mem_singleton] at hp
          rw [hp]; exact set_key_frame_idr_ok f _ _ _
      · intro st p e h
        simp only [Outcome.ret.injEq, Prod.mk.injEq, Option.some.injEq] at h
        rw [← h.1.2, List.getLast?_eq_getLast _ h2.2]
        exact idr_ok_set_p_frame (hq _ (List.getLast_mem h2.2))
    · refine ⟨?_, by intro _ _ _ h; simp at h⟩
      intro p hp
      simp only [Outcome.enc, (set_key_frame_fresh f _ _ _).2.2.2.1] at hp
      exact hq p hp
    · refine ⟨?_, ?_⟩
      · intro p hp
        simp only [Outcome.enc, (set_key_frame_fresh f _ _ _).2.2.2.1] at hp
        exact hq p hp
      · intro st p e h
        simp only [Outcome.ret.injEq, Prod.mk.injEq, Option.some.injEq] at h
        rw [← h.1.2]; exact set_key_frame_idr_ok f _ _ _
    · refine ⟨?_, ?_⟩
      · intro p hp
        simp only [Outcome.enc, (set_key_frame_fresh f _ _ _).2.2.2.1] at hp
        exact hq p hp
      · intro st p e h
        simp only [Outcome.ret.injEq, Prod.mk.injEq, Option.some.injEq] at h
        rw [← h.1.2]; exact set_key_frame_idr_ok f _ _ _
    · refine ⟨?_, by intro _ _ _ h; simp at h⟩
      intro p hp
      simp only [Outcome.enc] at hp
      rcases List.mem_append.1 hp with hp | hp
      · exact hq p hp
      · simp only [List.mem_singleton] at hp
        rw [hp]; intro hi; simp at hi
    · refine ⟨?_, by intro _ _ _ h; simp at h⟩
      intro p hp
      simp only [Outcome.enc] at hp
      obtain ⟨p0, hp0, rfl⟩ := List.mem_map.1 hp
      exact idr_ok_set_b_frame (hq p0 hp0)
    · refine ⟨?_, ?_⟩
      · intro p hp
        simp only [Outcome.enc] at hp
        obtain ⟨p0, hp0, rfl⟩ := List.mem_map.1 hp
        exact idr_ok_set_b_frame (hq p0 hp0)
      · intro st p e h
        simp only [Outcome.ret.injEq, Prod.mk.injEq, Option.some.injEq] at h
        rw [← h.1.2]; intro hi; simp [set_p_frame] at hi
    · refine ⟨?_, ?_⟩
      · intro p hp
        simp only [Outcome.enc] at hp
        exact hq p hp
      · intro st p e h
        simp only [Outcome.ret.injEq, Prod.mk.injEq, Option.some.injEq] at h
        rw [← h.1.2]; intro hi; simp [set_p_frame] at hi

/-- C6, as stated, fails: with `keyframe-period = 1` (the IDR period is then 1)
the first frame is marked IDR, with POC 0, and leaves `cur_present_index = 0`;
the frame submitted next is itself marked IDR and is assigned POC 0, not 1,
and so is the frame after it. -/
theorem C6_next_frame_counterexample :
    scenario_all_idr.idr_period = 1 ∧
    (gst_vaapi_encoder_h265_reordering scenario_all_idr (some { id := 0 })).value?
      = some (SUCCESS, some { frame := { id := 0 }, poc := 0, type := I, idr := true }) ∧
    (gst_vaapi_encoder_h265_reordering scenario_all_idr
      (some { id := 0 })).enc.reorder_pool.cur_present_index = 0 ∧
    (gst_vaapi_encoder_h265_reordering
      (gst_vaapi_encoder_h265_reordering scenario_all_idr (some { id := 0 })).enc
      (some { id := 1 })).value?
      = some (SUCCESS, some { frame := { id := 1 }, poc := 0, type := I, idr := true }) ∧
    (gst_vaapi_encoder_h265_reordering
      (gst_vaapi_encoder_h265_reordering
        (gst_vaapi_encoder_h265_reordering scenario_all_idr (some { id := 0 })).enc
        (some { id := 1 })).enc
      (some { id := 2 })).value?
      = some (SUCCESS, some { frame := { id := 2 }, poc := 0, type := I, idr := true }) := by
  decide

/-- C6, amended: every picture that `gst_vaapi_encoder_h265_reordering` marks as
IDR has type I and POC 0, and the frame submitted next is assigned POC 1
unless it is itself marked IDR. For every encoder state (every configuration
with `max_pic_order_cnt > 1`, as `reset_properties` sets it, and every pool whose
buffered pictures flagged IDR have type I and POC 0, which holds initially
and is kept by every call) and every frame: after the call, every picture
flagged IDR in the buffer and the picture returned have type I and POC 0;
and when the call marks the new picture as IDR (`frame_index` is 0 or has
reached `idr_period`), that picture, with type I, POC 0 and the IDR flag, is
the one returned or the last one of the buffer, and `cur_present_index` is 0
after the call. When the buffer is within `num_bframes` (as it is after any
calls from the initial state), the call returns, and after any number of
calls with a NULL frame the call that submits the next frame returns, with
the picture of that frame returned or buffered: it is not an IDR picture and
has POC 1 when `idr_period > 1`, and it is itself an IDR picture, of type I and
POC 0, when `idr_period <= 1`. -/
theorem C6_idr_poc_zero_and_next_frame (enc : Encoder) (frame next : GstVideoCodecFrame)
    (nulls : Nat) (hmax : 1 < enc.max_pic_order_cnt)
    (hq : ∀ p ∈ enc.reorder_pool.reorder_frame_list, IdrOk p) :
    (∀ p ∈ (gst_vaapi_encoder_h265_reordering enc
        (some frame)).enc.reorder_pool.reorder_frame_list, IdrOk p) ∧
    (∀ status p enc1,
      gst_vaapi_encoder_h265_reordering enc (some frame) = Outcome.ret (status, some p) enc1 →
      IdrOk p) ∧
    ((enc.reorder_pool.frame_index = 0 ∨ enc.idr_period ≤ enc.reorder_pool.frame_index) →
      (gst_vaapi_encoder_h265_reordering enc (some frame)).enc.reorder_pool.cur_present_index = 0 ∧
      ((gst_vaapi_encoder_h265_reordering enc (some frame)).returned = true →
        (∃ enc1, gst_vaapi_encoder_h265_reordering enc (some frame) =
          Outcome.ret (SUCCESS, some { frame := frame, poc := 0, type := I, idr := true }) enc1) ∨
        (gst_vaapi_encoder_h265_reordering enc
          (some frame)).enc.reorder_pool.reorder_frame_list.getLast? =
            some { frame := frame, poc := 0, type := I, idr := true }) ∧
      (enc.reorder_pool.reorder_frame_list.length ≤ enc.num_bframes →
        (enc.reorder_pool.reorder_state ≠ REORD_NONE → enc.num_bframes ≠ 0) →
        (gst_vaapi_encoder_h265_reordering enc (some frame)).returned = true ∧
        (reordering_calls (gst_vaapi_encoder_h265_reordering enc (some frame)).enc
          (List.replicate nulls none)).returned = true ∧
        ∃ (value : GstVaapiEncoderStatus × Option GstVaapiEncPicture) (enc2 : Encoder)
            (picture : GstVaapiEncPicture),
          gst_vaapi_encoder_h265_reordering
            (reordering_calls (gst_vaapi_encoder_h265_reordering enc (some frame)).enc
              (List.replicate nulls none)).enc (some next) = Outcome.ret value enc2 ∧
          picture.frame = next ∧
          (value.2 = some picture ∨ picture ∈ enc2.reorder_pool.reorder_frame_list) ∧
          ((enc.idr_period ≤ 1 ∧ picture.idr = true ∧ picture.type = I ∧ picture.poc = 0) ∨
            (1 < enc.idr_period ∧ picture.idr = false ∧ picture.poc = 1)))) := by
  refine ⟨(reordering_idr_ok enc (some frame) hq).1, (reordering_idr_ok enc (some frame) hq).2, ?_⟩
  intro hkey
  refine ⟨(reordering_idr_counters enc frame hkey).1, ?_, ?_⟩
  · have hidr_b : (enc.reorder_pool.frame_index == 0
        || decide (enc.reorder_pool.frame_index ≥ enc.idr_period)) = true := by
      rcases hkey with h | h <;> simp [h]
    unfold gst_vaapi_encoder_h265_reordering
    simp only [hidr_b, Bool.true_or, if_true, set_key_frame, set_idr_frame, reset_gop_start]
    split_ifs with h2 h3 h4
    · exact fun _ => Or.inr (by simp [Outcome.enc])
    · exact fun h => by simp [Outcome.returned] at h
    · exact fun _ => Or.inl ⟨_, rfl⟩
    · exact fun _ => Or.inl ⟨_, rfl⟩
  · intro hlen hst
    obtain ⟨v, e1, hcall, hnb, hlen1, hst1, _⟩ := reordering_frame_bound enc frame hlen hst
    obtain ⟨c1, c2, c3, c4⟩ := reordering_idr_counters enc frame hkey
    have he : (gst_vaapi_encoder_h265_reordering enc (some frame)).enc = e1 := by
      rw [hcall]
      rfl
    rw [he] at c1 c2 c3 c4 ⊢
    obtain ⟨n1, n2, n3, n4, n5, n6, n7, n8⟩ := reordering_nulls_counters nulls e1
      (by rw [hnb]; exact hlen1) (by rw [hnb]; exact hst1)
    refine ⟨by rw [hcall]; rfl, n1, ?_⟩
    obtain ⟨value, enc2, picture, hnext, hframe, hwhere, hpoc⟩ :=
      reordering_frame_after_idr (reordering_calls e1 (List.replicate nulls none)).enc next
        (by rw [n6]; exact n7) (by rw [n6]; exact n8) (by rw [n5, c4]; exact hmax)
        (by rw [n3]; exact c1) (by rw [n2]; exact c2)
    rw [n4, c3] at hpoc
    exact ⟨value, enc2, picture, hnext, hframe, hwhere, hpoc⟩

/-- C6, amended, witness: scenario B (IDR period 4) after four frames; the fifth
frame is marked IDR, and after a call with a NULL frame the sixth frame is
assigned POC 1. -/
theorem C6_idr_poc_zero_and_next_frame_witness :
    1 < (put_frames scenario_b (plain_frames 4)).encoder.max_pic_order_cnt ∧
    1 < (put_frames scenario_b (plain_frames 4)).encoder.idr_period ∧
    (gst_vaapi_encoder_h265_reordering (put_frames scenario_b (plain_frames 4)).encoder
        (some { id := 4 })).enc.reorder_pool.cur_present_index = 0 ∧
    ∃ (value : GstVaapiEncoderStatus × Option GstVaapiEncPicture) (enc2 : Encoder)
        (picture : GstVaapiEncPicture),
      gst_vaapi_encoder_h265_reordering
        (reordering_calls
          (gst_vaapi_encoder_h265_reordering (put_frames scenario_b (plain_frames 4)).encoder
            (some { id := 4 })).enc
          (List.replicate 1 none)).enc (some { id := 5 }) = Outcome.ret value enc2 ∧
      picture.frame = { id := 5 } ∧
      (value.2 = some picture ∨ picture ∈ enc2.reorder_pool.reorder_frame_list) ∧
      (((put_frames scenario_b (plain_frames 4)).encoder.idr_period ≤ 1 ∧ picture.idr = true ∧
          picture.type = I ∧ picture.poc = 0) ∨
        (1 < (put_frames scenario_b (plain_frames 4)).encoder.idr_period ∧
          picture.idr = false ∧ picture.poc = 1)) :=
  have hempty :
      (put_frames scenario_b (plain_frames 4)).encoder.reorder_pool.reorder_frame_list = [] := by
    decide
  have h := (C6_idr_poc_zero_and_next_frame (put_frames scenario_b (plain_frames 4)).encoder
    { id := 4 } { id := 5 } 1 (by decide)
    (by intro p hp; rw [hempty] at hp; simp at hp)).2.2 (by decide)
  ⟨by decide, by decide, h.1, (h.2.2 (by decide) (by decide)).2.2⟩

/-- With `frame_index = 0` and an empty buffer, the call with a frame returns
that frame as an IDR picture. -/
theorem reordering_first_frame (enc : Encoder) (frame : GstVideoCodecFrame)
    (hfi : enc.reorder_pool.frame_index = 0)
    (hq : enc.reorder_pool.reorder_frame_list = []) :
    ∃ enc1, gst_vaapi_encoder_h265_reordering enc (some frame) =
      Outcome.ret (SUCCESS, some { frame := frame, poc := 0, type := I, idr := true }) enc1 := by
  unfold gst_vaapi_encoder_h265_reordering
  simp only [hfi, hq, beq_self_eq_true, Bool.true_or, if_true, set_key_frame, set_idr_frame,
    reset_gop_start]
  split_ifs with h2 h3 h4
  · exact absurd rfl h2.2
  · exact absurd rfl h3
  · exact ⟨_, rfl⟩
  · exact ⟨_, rfl⟩

/-- C7: from the initial state (`gst_vaapi_encoder_h265_init` followed by
`reset_properties`), for every `num_bframes`, `keyframe_period` and
`idr_period` (every encoder record and every driver limit), the first call of
`gst_vaapi_encoder_h265_reordering` with a frame returns `SUCCESS` in that
same call, with that frame as an I picture carrying the IDR flag (POC 0); so
the first picture received in a session, under the drain protocol, is that
picture, never a P or B picture. -/
theorem C7_first_picture_is_idr (enc0 : Encoder) (max_num_ref_frames_0 max_num_ref_frames_1 : Nat)
    (frame : GstVideoCodecFrame) (frames : List GstVideoCodecFrame) :
    (∃ enc1,
      gst_vaapi_encoder_h265_reordering
        (reset_properties (gst_vaapi_encoder_h265_init enc0) max_num_ref_frames_0
          max_num_ref_frames_1) (some frame) =
      Outcome.ret (SUCCESS, some { frame := frame, poc := 0, type := I, idr := true }) enc1) ∧
    (put_frames
      (reset_properties (gst_vaapi_encoder_h265_init enc0) max_num_ref_frames_0
        max_num_ref_frames_1) (frame :: frames)).pictures.head? =
      some { frame := frame, poc := 0, type := I, idr := true } ∧
    (encode_session
      (reset_properties (gst_vaapi_encoder_h265_init enc0) max_num_ref_frames_0
        max_num_ref_frames_1) (frame :: frames)).pictures.head? =
      some { frame := frame, poc := 0, type := I, idr := true } := by
  obtain ⟨enc1, h1⟩ := reordering_first_frame
    (reset_properties (gst_vaapi_encoder_h265_init enc0) max_num_ref_frames_0
      max_num_ref_frames_1) frame rfl rfl
  have hput := put_frame_success _ enc1 frame _ h1
  refine ⟨⟨enc1, h1⟩, ?_, ?_⟩
  · simp [put_frames, hput]
  · simp [encode_session, put_frames, hput]

/-! ## Claims on the reference picture store -/

theorem pop_all_refs_nil (l : List GstVaapiEncoderH265Ref) : pop_all_refs l = [] := by
  induction l with
  | nil => rfl
  | cons a r ih => simpa [pop_all_refs] using ih

/-- The store after `reference_list_update` is the store of the reference
definition, on every input. -/
theorem reference_list_update_store (enc : Encoder) (picture : GstVaapiEncPicture)
    (surface : Nat) :
    (reference_list_update enc picture surface).enc =
      { enc with
        ref_pool :=
          { enc.ref_pool with
            ref_list :=
              reference_store_spec enc.ref_pool.max_ref_frames enc.ref_pool.ref_list picture
                surface } } := by
  unfold reference_list_update reference_store_spec reference_pic_create
  by_cases hB : picture.type = B
  · simp [hB, Outcome.enc]
  · have hmatch : ∀ (x y : List GstVaapiEncoderH265Ref),
        (match picture.type with
          | GstVaapiPictureType.B => x
          | _ => y) = y := by
      intro x y
      cases ht : picture.type <;> simp_all
    simp only [hB, if_false, hmatch, pop_all_refs_nil]
    by_cases hidr : picture.idr = true
    · simp only [hidr, if_true, List.nil_append]
      split_ifs <;> rfl
    · simp only [hidr, if_false]
      by_cases hlen : enc.ref_pool.ref_list.length < enc.ref_pool.max_ref_frames
      · have h1 : ¬ enc.ref_pool.ref_list.length ≥ enc.ref_pool.max_ref_frames := by omega
        simp only [h1, hlen, if_true, if_false]
        split_ifs <;> rfl
      · have h1 : enc.ref_pool.ref_list.length ≥ enc.ref_pool.max_ref_frames := by omega
        simp only [h1, hlen, if_true, if_false]
        split_ifs <;> rfl

theorem outcome_ite_returned (c : Prop) [Decidable c] (e : Encoder) :
    (if c then Outcome.ret true e else Outcome.abort e).returned = true ↔ c := by
  by_cases h : c <;> simp [h, Outcome.returned]

theorem outcome_ite_enc (c : Prop) [Decidable c] (e : Encoder) :
    (if c then Outcome.ret true e else Outcome.abort e).enc = e := by
  by_cases h : c <;> simp [h, Outcome.enc]

/-- The call returns exactly when the picture is a B picture or the store it
leaves is within `max_ref_frames`. -/
theorem reference_list_update_returned (enc : Encoder) (picture : GstVaapiEncPicture)
    (surface : Nat) :
    (reference_list_update enc picture surface).returned = true ↔
      (picture.type = B ∨
        (reference_store_spec enc.ref_pool.max_ref_frames enc.ref_pool.ref_list picture
          surface).length ≤ enc.ref_pool.max_ref_frames) := by
  have hstore := reference_list_update_store enc picture surface
  by_cases hB : picture.type = B
  · simp [reference_list_update, hB, Outcome.returned]
  · have hlen : (reference_list_update enc picture surface).enc.ref_pool.ref_list =
        reference_store_spec enc.ref_pool.max_ref_frames enc.ref_pool.ref_list picture surface := by
      rw [hstore]
    rw [← hlen]
    unfold reference_list_update
    simp only [hB, if_false, false_or]
    rw [outcome_ite_returned, outcome_ite_enc]

/-- C9: `reference_list_update` equals the reference definition on the store.
For every encoder, picture and surface, the store the call leaves is: the old
store for a B picture; the single entry `(picture.poc, surface)` for an IDR
picture; for any other picture `old ++ [(picture.poc, surface)]` when
`len (old) < max_ref_frames` and `tail (old) ++ [(picture.poc, surface)]` when
`len (old) >= max_ref_frames`; nothing else of the encoder changes. The
final `g_assert` is checked on that store: the call returns when the picture
is a B picture or the new length is within `max_ref_frames`. -/
theorem C9_reference_list_update_refines_spec (enc : Encoder) (picture : GstVaapiEncPicture)
    (surface : Nat) :
    (reference_list_update enc picture surface).enc.ref_pool.ref_list =
      reference_store_spec enc.ref_pool.max_ref_frames enc.ref_pool.ref_list picture surface ∧
    (reference_list_update enc picture surface).enc =
      { enc with
        ref_pool :=
          { enc.ref_pool with
            ref_list := (reference_list_update enc picture surface).enc.ref_pool.ref_list } } ∧
    ((reference_list_update enc picture surface).returned = true ↔
      (picture.type = B ∨
        (reference_store_spec enc.ref_pool.max_ref_frames enc.ref_pool.ref_list picture
          surface).length ≤ enc.ref_pool.max_ref_frames)) ∧
    (reference_store_spec enc.ref_pool.max_ref_frames enc.ref_pool.ref_list picture surface =
      if picture.type = B then enc.ref_pool.ref_list
      else if picture.idr = true then [{ pic := surface, poc := picture.poc }]
      else if enc.ref_pool.ref_list.length < enc.ref_pool.max_ref_frames then
        enc.ref_pool.ref_list ++ [{ pic := surface, poc := picture.poc }]
      else enc.ref_pool.ref_list.tail ++ [{ pic := surface, poc := picture.poc }]) := by
  have hstore := reference_list_update_store enc picture surface
  refine ⟨by rw [hstore], by rw [hstore], reference_list_update_returned enc picture surface, ?_⟩
  unfold reference_store_spec
  cases ht : picture.type <;> simp

/-- One update of a store within a capacity of at least 1 returns and leaves
the store within the capacity. -/
theorem reference_list_update_within (enc : Encoder) (picture : GstVaapiEncPicture)
    (surface : Nat) (hcap : 1 ≤ enc.ref_pool.max_ref_frames)
    (hlen : enc.ref_pool.ref_list.length ≤ enc.ref_pool.max_ref_frames) :
    ∃ enc1, reference_list_update enc picture surface = Outcome.ret true enc1 ∧
      enc1.ref_pool.ref_list.length ≤ enc1.ref_pool.max_ref_frames ∧
      enc1.ref_pool.max_ref_frames = enc.ref_pool.max_ref_frames := by
  unfold reference_list_update
  by_cases hB : picture.type = B
  · exact ⟨enc, by simp [hB], hlen, rfl⟩
  · simp only [hB, if_false, pop_all_refs_nil, reference_pic_create]
    have hkept : (if picture.idr = true then []
        else if enc.ref_pool.ref_list.length ≥ enc.ref_pool.max_ref_frames then
          enc.ref_pool.ref_list.tail
        else enc.ref_pool.ref_list).length + 1 ≤ enc.ref_pool.max_ref_frames := by
      split_ifs with h1 h2
      · simpa using hcap
      · simp only [List.length_tail]; omega
      · omega
    simp only [List.length_append, List.length_singleton, hkept, if_true]
    exact ⟨_, rfl, by simpa using hkept, rfl⟩

/-- A sequence of updates of a store within a capacity of at least 1: no call
aborts and the store stays within the capacity. -/
theorem reference_list_updates_within (updates : List (GstVaapiEncPicture × Nat)) :
    ∀ (enc : Encoder), 1 ≤ enc.ref_pool.max_ref_frames →
      enc.ref_pool.ref_list.length ≤ enc.ref_pool.max_ref_frames →
      ∃ enc1, reference_list_updates enc updates = some enc1 ∧
        enc1.ref_pool.ref_list.length ≤ enc1.ref_pool.max_ref_frames ∧
        enc1.ref_pool.max_ref_frames = enc.ref_pool.max_ref_frames := by
  induction updates with
  | nil => intro enc _ hlen; exact ⟨enc, rfl, hlen, rfl⟩
  | cons u rest ih =>
    intro enc hcap hlen
    obtain ⟨picture, surface⟩ := u
    obtain ⟨e1, h1, hl1, hm1⟩ := reference_list_update_within enc picture surface hcap hlen
    obtain ⟨e2, h2, hl2, hm2⟩ := ih e1 (by rw [hm1]; exact hcap) hl1
    exact ⟨e2, by simp [reference_list_updates, h1, h2], hl2, hm2.trans hm1⟩

/-- With a capacity of at least 1, as `reset_properties` sets it whenever the
driver allows a reference frame in list 0: starting from the empty store that
`gst_vaapi_encoder_h265_init` leaves, after every call of `reference_list_update`
(every prefix of any sequence of pictures, of any type, flagged IDR or not)
the call has returned (the `g_assert` held) and the length of
`ref_pool.ref_list` is at most
`max_ref_frames = num_ref_frames + (num_bframes > 0 ? 1 : 0)`. -/
theorem store_within_capacity (enc0 : Encoder)
    (max_num_ref_frames_0 max_num_ref_frames_1 : Nat)
    (updates : List (GstVaapiEncPicture × Nat)) (k : Nat)
    (hcap : 1 ≤ (reset_properties (gst_vaapi_encoder_h265_init enc0) max_num_ref_frames_0
      max_num_ref_frames_1).ref_pool.max_ref_frames) :
    (reset_properties (gst_vaapi_encoder_h265_init enc0) max_num_ref_frames_0
      max_num_ref_frames_1).ref_pool.max_ref_frames =
      ((reset_properties (gst_vaapi_encoder_h265_init enc0) max_num_ref_frames_0
          max_num_ref_frames_1).num_ref_frames +
        (if (reset_properties (gst_vaapi_encoder_h265_init enc0) max_num_ref_frames_0
          max_num_ref_frames_1).num_bframes > 0 then 1 else 0)) % 2 ^ 32 ∧
    (reset_properties (gst_vaapi_encoder_h265_init enc0) max_num_ref_frames_0
      max_num_ref_frames_1).ref_pool.ref_list = [] ∧
    ∃ enc1,
      reference_list_updates
        (reset_properties (gst_vaapi_encoder_h265_init enc0) max_num_ref_frames_0
          max_num_ref_frames_1) (updates.take k) = some enc1 ∧
      enc1.ref_pool.ref_list.length ≤ enc1.ref_pool.max_ref_frames ∧
      enc1.ref_pool.max_ref_frames =
        (reset_properties (gst_vaapi_encoder_h265_init enc0) max_num_ref_frames_0
          max_num_ref_frames_1).ref_pool.max_ref_frames := by
  refine ⟨rfl, rfl, ?_⟩
  exact reference_list_updates_within (updates.take k) _ hcap
    (by
      have : (reset_properties (gst_vaapi_encoder_h265_init enc0) max_num_ref_frames_0
        max_num_ref_frames_1).ref_pool.ref_list = [] := rfl
      rw [this]; exact Nat.zero_le _)

/-- One update of an empty store of capacity 0 with a picture that is not a B
picture: the entry is stored and the `g_assert` on the length fails. -/
theorem reference_list_update_no_capacity (enc : Encoder) (picture : GstVaapiEncPicture)
    (surface : Nat) (hcap : enc.ref_pool.max_ref_frames = 0)
    (hempty : enc.ref_pool.ref_list = []) (hpicture : picture.type ≠ B) :
    (reference_list_update enc picture surface).returned = false ∧
    (reference_list_update enc picture surface).enc.ref_pool.ref_list
      = [{ pic := surface, poc := picture.poc }] := by
  have hspec : reference_store_spec enc.ref_pool.max_ref_frames enc.ref_pool.ref_list picture
      surface = [{ pic := surface, poc := picture.poc }] := by
    rw [hcap, hempty]
    unfold reference_store_spec
    cases ht : picture.type with
    | B => exact absurd ht hpicture
    | NONE => by_cases hi : picture.idr = true <;> simp [hi]
    | I => by_cases hi : picture.idr = true <;> simp [hi]
    | P => by_cases hi : picture.idr = true <;> simp [hi]
  have hstore := reference_list_update_store enc picture surface
  have hret := reference_list_update_returned enc picture surface
  refine ⟨?_, by rw [hstore]; exact hspec⟩
  cases hr : (reference_list_update enc picture surface).returned with
  | false => rfl
  | true =>
    exfalso
    rcases hret.1 hr with h | h
    · exact hpicture h
    · rw [hspec, hcap] at h
      simp at h

/-- C8: `reference_list_update` fails its `g_assert` when the store has no
capacity. `reset_properties` lowers `num_ref_frames` to the number of reference
frames the driver reports for list 0 without a lower bound: when that number
is 0 and no B-frames are asked for, whatever `num_ref_frames` was set to, the
capacity `max_ref_frames = num_ref_frames + (num_bframes > 0 ? 1 : 0)` is 0 and
the store is empty; the update of any picture that is not a B picture (the
first picture of a stream is an IDR picture) then stores its entry, leaves a
store of length 1, above the capacity, and stops at
`g_assert (g_queue_get_length (&ref_pool->ref_list) <= ref_pool->max_ref_frames)`. -/
theorem C8_store_assert_fails_without_capacity (enc0 : Encoder) (max_num_ref_frames_1 : Nat)
    (picture : GstVaapiEncPicture) (surface : Nat)
    (hbframes : enc0.num_bframes = 0) (hpicture : picture.type ≠ B) :
    (reset_properties (gst_vaapi_encoder_h265_init enc0) 0 max_num_ref_frames_1).num_ref_frames
      = 0 ∧
    (reset_properties (gst_vaapi_encoder_h265_init enc0) 0 max_num_ref_frames_1).num_bframes
      = 0 ∧
    (reset_properties (gst_vaapi_encoder_h265_init enc0) 0
      max_num_ref_frames_1).ref_pool.max_ref_frames = 0 ∧
    (reset_properties (gst_vaapi_encoder_h265_init enc0) 0
      max_num_ref_frames_1).ref_pool.ref_list = [] ∧
    (reference_list_update
      (reset_properties (gst_vaapi_encoder_h265_init enc0) 0 max_num_ref_frames_1)
      picture surface).returned = false ∧
    (reference_list_update
      (reset_properties (gst_vaapi_encoder_h265_init enc0) 0 max_num_ref_frames_1)
      picture surface).enc.ref_pool.ref_list = [{ pic := surface, poc := picture.poc }] := by
  have hrefs : (reset_properties (gst_vaapi_encoder_h265_init enc0) 0
      max_num_ref_frames_1).num_ref_frames = 0 := by
    unfold reset_properties gst_vaapi_encoder_h265_init
    dsimp only
    split_ifs with h
    · rfl
    · omega
  have hb : (reset_properties (gst_vaapi_encoder_h265_init enc0) 0
      max_num_ref_frames_1).num_bframes = 0 := by
    unfold reset_properties gst_vaapi_encoder_h265_init
    dsimp only
    rw [hbframes]
    simp
  have hcap : (reset_properties (gst_vaapi_encoder_h265_init enc0) 0
      max_num_ref_frames_1).ref_pool.max_ref_frames = 0 := by
    have h : (reset_properties (gst_vaapi_encoder_h265_init enc0) 0
        max_num_ref_frames_1).ref_pool.max_ref_frames =
        ((reset_properties (gst_vaapi_encoder_h265_init enc0) 0
            max_num_ref_frames_1).num_ref_frames +
          (if (reset_properties (gst_vaapi_encoder_h265_init enc0) 0
            max_num_ref_frames_1).num_bframes > 0 then 1 else 0)) % 2 ^ 32 := rfl
    rw [h, hrefs, hb]
    rfl
  have hempty : (reset_properties (gst_vaapi_encoder_h265_init enc0) 0
      max_num_ref_frames_1).ref_pool.ref_list = [] := rfl
  obtain ⟨hret, hlist⟩ := reference_list_update_no_capacity
    (reset_properties (gst_vaapi_encoder_h265_init enc0) 0 max_num_ref_frames_1) picture surface
    hcap hempty hpicture
  exact ⟨hrefs, hb, hcap, hempty, hret, hlist⟩

/-- C8, witness: one reference frame asked for, no B-frames and a driver that
reports no reference frame: the update of the first picture of the stream, an
IDR picture, fails the assertion with one entry in a store of capacity 0. -/
theorem C8_store_assert_fails_without_capacity_witness :
    scenario_no_refs.ref_pool.max_ref_frames = 0 ∧
    (reference_list_update scenario_no_refs { poc := 0, type := I, idr := true } 7).returned
      = false ∧
    (reference_list_update scenario_no_refs
      { poc := 0, type := I, idr := true } 7).enc.ref_pool.ref_list
      = [{ pic := 7, poc := 0 }] :=
  have h := C8_store_assert_fails_without_capacity
    { num_bframes := 0, keyframe_period := 4, idr_period := 4, num_ref_frames := 1 } 0
    { poc := 0, type := I, idr := true } 7 rfl (by decide)
  ⟨h.2.2.1, h.2.2.2.2.1, h.2.2.2.2.2⟩

/-- C10, as stated, fails: `_poc_greater_than` holds between equal POCs, and for
a P picture with the POC of the most recent store entry `reference_list_init`
returns no list: the `g_assert (tmp && tmp->poc != picture->poc)` of its first
loop fails. -/
theorem C10_reference_list_init_counterexample :
    scenario_store_poc5.ref_pool.ref_list.getLast? = some { pic := 0, poc := 5 } ∧
    _poc_greater_than 5 5 scenario_store_poc5.max_pic_order_cnt = true ∧
    reference_list_init scenario_store_poc5 { poc := 5, type := P } =
      Outcome.abort scenario_store_poc5 ∧
    reference_list_init scenario_store_poc5 { poc := 5, type := P } ≠
      Outcome.ret (scenario_store_poc5.ref_pool.ref_list.reverse, []) scenario_store_poc5 := by
  decide

/-- C10, amended: for an I picture `reference_list_init` returns two empty
lists (both counts 0); for a P picture whose POC differs from the POC of the
most recently inserted store entry and is greater than it (by
`_poc_greater_than`), it returns as L0 all store entries in reverse insertion
order (most recent first) and an empty L1 (count 0). -/
theorem C10_reference_list_init_i_and_p (enc : Encoder) (picture : GstVaapiEncPicture) :
    (picture.type = I → reference_list_init enc picture = Outcome.ret ([], []) enc) ∧
    (picture.type = P → ∀ last, enc.ref_pool.ref_list.getLast? = some last →
      _poc_greater_than picture.poc last.poc enc.max_pic_order_cnt = true →
      picture.poc ≠ last.poc →
      reference_list_init enc picture = Outcome.ret (enc.ref_pool.ref_list.reverse, []) enc) := by
  constructor
  · intro hI
    simp [reference_list_init, hI]
  · intro hP last hlast hgt hne
    have hrev : enc.ref_pool.ref_list.reverse = last :: enc.ref_pool.ref_list.dropLast.reverse := by
      rcases List.eq_nil_or_concat enc.ref_pool.ref_list with hl | ⟨r, a, hl⟩
      · rw [hl] at hlast; simp at hlast
      · rw [List.concat_eq_append] at hl
        rw [hl] at hlast ⊢
        simp only [List.getLast?_append, List.getLast?_singleton, Option.some.injEq] at hlast
        simp at hlast
        simp [hlast]
    unfold reference_list_init
    rw [hrev]
    simp [hP, reference_list_scan, hgt, Ne.symm hne]

/-- C10, amended, witness: scenario B with the store of POCs 0 and 3 and a P
picture of POC 6. -/
theorem C10_reference_list_init_i_and_p_witness :
    _poc_greater_than 6 3 scenario_store_0_3.max_pic_order_cnt = true ∧
    reference_list_init scenario_store_0_3 { poc := 6, type := P } =
      Outcome.ret ([{ pic := 3, poc := 3 }, { pic := 0, poc := 0 }], []) scenario_store_0_3 :=
  ⟨by decide,
    (C10_reference_list_init_i_and_p scenario_store_0_3 { poc := 6, type := P }).2 rfl
      { pic := 3, poc := 3 } rfl (by decide) (by decide)⟩

/-! ## Reference lists of P and B pictures -/

/-- The first loop of `reference_list_init` on a queue whose most recent
entries `post` are not lower than the picture and do not have its POC, and
whose entry `e` before them is lower: it stops at `e`. -/
theorem reference_list_scan_found (poc max_poc : Nat) (e : GstVaapiEncoderH265Ref)
    (older : List GstVaapiEncoderH265Ref) (hgt : _poc_greater_than poc e.poc max_poc = true)
    (hne : e.poc ≠ poc) (post : List GstVaapiEncoderH265Ref) :
    ∀ passed : List GstVaapiEncoderH265Ref,
      (∀ x ∈ post, _poc_greater_than poc x.poc max_poc = false) →
      (∀ x ∈ post, x.poc ≠ poc) →
      reference_list_scan poc max_poc (post.reverse ++ e :: older) passed =
        RefScan.found (e :: older) (post ++ passed) := by
  induction post using List.reverseRecOn with
  | nil =>
    intro passed _ _
    simp [reference_list_scan, hgt, hne]
  | append_singleton post x ih =>
    intro passed hpost hpne
    have hx : _poc_greater_than poc x.poc max_poc = false := hpost x (by simp)
    have hxne : x.poc ≠ poc := hpne x (by simp)
    have h := ih (x :: passed) (fun y hy => hpost y (by simp [hy]))
      (fun y hy => hpne y (by simp [hy]))
    simp [reference_list_scan, hx, hxne, h]

/-- A store with an entry lower than the picture splits at the most recent
such entry. -/
theorem store_split_at_most_recent_lower (poc max_poc : Nat)
    (store : List GstVaapiEncoderH265Ref)
    (hex : ∃ x ∈ store, _poc_greater_than poc x.poc max_poc = true) :
    ∃ pre e post, store = pre ++ e :: post ∧ _poc_greater_than poc e.poc max_poc = true ∧
      ∀ x ∈ post, _poc_greater_than poc x.poc max_poc = false := by
  induction store using List.reverseRecOn with
  | nil => simp at hex
  | append_singleton store y ih =>
    by_cases hy : _poc_greater_than poc y.poc max_poc = true
    · exact ⟨store, y, [], rfl, hy, by simp⟩
    · obtain ⟨x, hx, hgt⟩ := hex
      have hxs : x ∈ store := by
        rcases List.mem_append.1 hx with h | h
        · exact h
        · simp at h
          rw [h] at hgt
          exact absurd hgt hy
      obtain ⟨pre, e, post, hs, he, hpost⟩ := ih ⟨x, hxs, hgt⟩
      refine ⟨pre, e, post ++ [y], by simp [hs], he, ?_⟩
      intro z hz
      rcases List.mem_append.1 hz with h | h
      · exact hpost z h
      · simp at h
        rw [h]
        simpa using hy

/-- C11, as stated, fails: in a store of POCs 0 and 3 within its capacity, the
entry of POC 0 is lower than a B picture of POC 3, yet `reference_list_init`
returns no counts: it meets the entry of POC 3 first and its
`g_assert (tmp && tmp->poc != picture->poc)` fails, and so `ensure_slices` does
not reach its own `g_assert`. -/
theorem C11_reference_list_init_counterexample :
    scenario_store_0_3.ref_pool.ref_list.length ≤ scenario_store_0_3.ref_pool.max_ref_frames ∧
    { pic := 0, poc := 0 } ∈ scenario_store_0_3.ref_pool.ref_list ∧
    _poc_greater_than 3 0 scenario_store_0_3.max_pic_order_cnt = true ∧
    reference_list_init scenario_store_0_3 { poc := 3, type := B } =
      Outcome.abort scenario_store_0_3 ∧
    (ensure_slices scenario_store_0_3 { poc := 3, type := B }).returned = false := by
  decide

/-- C11, amended: for every store with `len(store) <= max_ref_frames` and every P
or B picture, let `e` be the most recent store entry with
`_poc_greater_than(picture.poc, e.poc)` (the store is `pre ++ e :: post`, no
entry of `post` being lower than the picture). If neither `e` nor an entry
after it has the POC of the picture, `reference_list_init` returns, as L0, the
store prefix ending at `e`, reversed, and as L1 the remaining suffix `post` in
insertion order for a B picture, nothing for a P picture; the counts satisfy
`reflist_0_count + reflist_1_count <= max_ref_frames`, so that the `g_assert`
of `ensure_slices` holds; and for a B picture the two lists partition the store
and the counts add up to `len(store)`. -/
theorem C11_reference_lists_partition_store (enc : Encoder) (picture : GstVaapiEncPicture)
    (pre post : List GstVaapiEncoderH265Ref) (e : GstVaapiEncoderH265Ref)
    (hstore : enc.ref_pool.ref_list = pre ++ e :: post)
    (hlen : enc.ref_pool.ref_list.length ≤ enc.ref_pool.max_ref_frames)
    (htype : picture.type = P ∨ picture.type = B)
    (hgt : _poc_greater_than picture.poc e.poc enc.max_pic_order_cnt = true)
    (hpost : ∀ x ∈ post, _poc_greater_than picture.poc x.poc enc.max_pic_order_cnt = false)
    (hne : ∀ x ∈ e :: post, x.poc ≠ picture.poc) :
    ∃ reflist_0 reflist_1,
      reference_list_init enc picture = Outcome.ret (reflist_0, reflist_1) enc ∧
      reflist_0 = (pre ++ [e]).reverse ∧
      reflist_1 = (if picture.type = B then post else []) ∧
      reflist_0.length + reflist_1.length ≤ enc.ref_pool.max_ref_frames ∧
      (ensure_slices enc picture).returned = true ∧
      (picture.type = B →
        reflist_0.reverse ++ reflist_1 = enc.ref_pool.ref_list ∧
        reflist_0.length + reflist_1.length = enc.ref_pool.ref_list.length) := by
  have hscan : reference_list_scan picture.poc enc.max_pic_order_cnt
      enc.ref_pool.ref_list.reverse [] = RefScan.found (e :: pre.reverse) post := by
    have h := reference_list_scan_found picture.poc enc.max_pic_order_cnt e pre.reverse hgt
      (hne e (by simp)) post [] hpost (fun x hx => hne x (by simp [hx]))
    rw [hstore]
    simpa using h
  have hI : picture.type ≠ I := by
    rcases htype with h | h <;> rw [h] <;> decide
  have hlen2 : pre.length + 1 + post.length ≤ enc.ref_pool.max_ref_frames := by
    rw [hstore] at hlen
    simp at hlen
    omega
  have hinit : reference_list_init enc picture =
      Outcome.ret ((pre ++ [e]).reverse, if picture.type = B then post else []) enc := by
    unfold reference_list_init
    rw [hscan]
    rcases htype with h | h <;> simp [h]
  refine ⟨_, _, hinit, rfl, rfl, ?_, ?_, ?_⟩
  · split_ifs <;> simp <;> omega
  · unfold ensure_slices
    rw [hinit]
    have hle : ((pre ++ [e]).reverse.length + (if picture.type = B then post else []).length)
        % 2 ^ 32 ≤ enc.ref_pool.max_ref_frames := by
      refine le_trans (Nat.mod_le _ _) ?_
      split_ifs <;> simp <;> omega
    simp only [ne_eq, hI, not_false_eq_true, if_true, if_pos hle, Outcome.returned]
  · intro hB
    simp [hB, hstore]
    omega

/-- C11, amended, witness: scenario B with the store of POCs 0 and 3 and a B
picture of POC 1: L0 holds the entry of POC 0, L1 the entry of POC 3. -/
theorem C11_reference_lists_partition_store_witness :
    ∃ reflist_0 reflist_1,
      reference_list_init scenario_store_0_3 { poc := 1, type := B } =
        Outcome.ret (reflist_0, reflist_1) scenario_store_0_3 ∧
      reflist_0 = [{ pic := 0, poc := 0 }] ∧
      reflist_1 = [{ pic := 3, poc := 3 }] ∧
      reflist_0.length + reflist_1.length ≤ scenario_store_0_3.ref_pool.max_ref_frames ∧
      (ensure_slices scenario_store_0_3 { poc := 1, type := B }).returned = true ∧
      (({ poc := 1, type := B } : GstVaapiEncPicture).type = B →
        reflist_0.reverse ++ reflist_1 = scenario_store_0_3.ref_pool.ref_list ∧
        reflist_0.length + reflist_1.length = scenario_store_0_3.ref_pool.ref_list.length) :=
  C11_reference_lists_partition_store scenario_store_0_3 { poc := 1, type := B }
    [] [{ pic := 3, poc := 3 }] { pic := 0, poc := 0 } rfl (by decide) (Or.inr rfl) (by decide)
    (by decide) (by decide)

/-! ## Modular comparison -/

/-- The masked 32-bit difference of `_poc_greater_than` is the difference of the
two POCs modulo `2 ^ k`, taken over the integers. -/
theorem poc_masked_difference (k poc1 poc2 : Nat) (hk : k ≤ 31) :
    ((((poc1 % 2 ^ 32 + 2 ^ 32 - poc2 % 2 ^ 32) % 2 ^ 32)
        &&& (((2 ^ k) % 2 ^ 32 + 2 ^ 32 - 1) % 2 ^ 32) : Nat) : Int)
      = ((poc1 : Int) - (poc2 : Int)) % ((2 ^ k : Nat) : Int) := by
  have hpow : 2 ^ k < 2 ^ 32 := Nat.pow_lt_pow_right (by decide) (by omega)
  have hpos : 0 < 2 ^ k := Nat.pow_pos (by decide)
  have hmask : ((2 ^ k) % 2 ^ 32 + 2 ^ 32 - 1) % 2 ^ 32 = 2 ^ k - 1 := by
    rw [Nat.mod_eq_of_lt hpow]
    omega
  have hdvd : 2 ^ k ∣ 2 ^ 32 := pow_dvd_pow 2 (by omega)
  obtain ⟨c, hc⟩ := hdvd
  have hb : poc2 % 2 ^ 32 ≤ poc1 % 2 ^ 32 + 2 ^ 32 := by
    have := Nat.mod_lt poc2 (show 0 < 2 ^ 32 by decide)
    omega
  rw [hmask, Nat.and_pow_two_sub_one_eq_mod, Nat.mod_mod_of_dvd _ ⟨c, hc⟩]
  rw [Int.natCast_mod, Nat.cast_sub hb]
  apply Int.emod_eq_emod_iff_emod_sub_eq_zero.2
  apply Int.emod_eq_zero_of_dvd
  have hm : ∀ p : Nat, ∃ q : Int, ((p % 2 ^ 32 : Nat) : Int) = (p : Int) - ((2 ^ 32 : Nat) : Int) * q := by
    intro p
    refine ⟨((p / 2 ^ 32 : Nat) : Int), ?_⟩
    have h : ((p % 2 ^ 32 + 2 ^ 32 * (p / 2 ^ 32) : Nat) : Int) = (p : Int) := by
      rw [Nat.mod_add_div p (2 ^ 32)]
    rw [Nat.cast_add, Nat.cast_mul] at h
    linarith
  obtain ⟨q1, h1⟩ := hm poc1
  obtain ⟨q2, h2⟩ := hm poc2
  rw [Nat.cast_add, h1, h2, hc]
  refine ⟨(c : Int) * (1 - q1 + q2), ?_⟩
  push_cast
  ring

/-- C12: `_poc_greater_than` is the modular comparison: for `max_poc = 2 ^ k` (any
`k` up to 31, which covers 4 to 16) and any two POCs, also with `poc1 < poc2`,
where the C subtraction wraps modulo `2 ^ 32`, it is true if and only if
`(poc1 - poc2) mod max_poc < max_poc / 2`, the subtraction and the remainder
taken over the integers. -/
theorem C12_poc_greater_than_is_modular (k poc1 poc2 : Nat) (hk : k ≤ 31) :
    _poc_greater_than poc1 poc2 (2 ^ k) = true ↔
      ((poc1 : Int) - (poc2 : Int)) % ((2 ^ k : Nat) : Int) < ((2 ^ k : Nat) : Int) / 2 := by
  have hpow : 2 ^ k < 2 ^ 32 := Nat.pow_lt_pow_right (by decide) (by omega)
  rw [← poc_masked_difference k poc1 poc2 hk]
  unfold _poc_greater_than
  rw [decide_eq_true_iff, Nat.mod_eq_of_lt hpow]
  have hhalf : (((2 ^ k : Nat) : Int)) / 2 = ((2 ^ k / 2 : Nat) : Int) := by norm_cast
  rw [hhalf, Int.ofNat_lt]

/-- C12, witness: POC 1 against POC 15 with `max_poc = 16`: the C subtraction wraps
and the difference modulo 16 is 2, below 8, so the comparison is true. -/
theorem C12_poc_greater_than_is_modular_witness :
    _poc_greater_than 1 15 (2 ^ 4) = true ∧
    (_poc_greater_than 1 15 (2 ^ 4) = true ↔
      (((1 : Nat) : Int) - ((15 : Nat) : Int)) % ((2 ^ 4 : Nat) : Int)
        < ((2 ^ 4 : Nat) : Int) / 2) :=
  ⟨by decide, C12_poc_greater_than_is_modular 4 1 15 (by decide)⟩

/-! ## Tier and level -/

/-- What a scanning loop of `ensure_tier_level` leaves in `i`: an index from the
start on; every row passed fails the test; and either the index is past the
table or its row passes the test. -/
theorem level_scan_spec (test : GstVaapiH265LevelLimits → Bool) :
    ∀ (l : List GstVaapiH265LevelLimits) (i : Nat),
      i ≤ level_scan test l i ∧ level_scan test l i ≤ i + l.length ∧
      (∀ j row, j < level_scan test l i - i → l[j]? = some row → test row = false) ∧
      (level_scan test l i < i + l.length →
        ∃ row, l[level_scan test l i - i]? = some row ∧ test row = true) := by
  intro l
  induction l with
  | nil =>
    intro i
    simp [level_scan]
  | cons a l ih =>
    intro i
    by_cases ha : test a = true
    · simp [level_scan, ha]
    · obtain ⟨h1, h2, h3, h4⟩ := ih (i + 1)
      have ha2 : test a = false := by simpa using ha
      simp only [level_scan, ha, if_false, List.length_cons, Bool.false_eq_true]
      refine ⟨by omega, by omega, ?_, ?_⟩
      · intro j row hj hrow
        cases j with
        | zero =>
          simp at hrow
          rw [← hrow]
          exact ha2
        | succ j =>
          simp at hrow
          exact h3 j row (by omega) hrow
      · intro hlt
        obtain ⟨row, hrow, ht⟩ := h4 (by omega)
        refine ⟨row, ?_, ht⟩
        have hidx : level_scan test l (i + 1) - i = (level_scan test l (i + 1) - (i + 1)) + 1 := by
          omega
        rw [hidx]
        simpa using hrow

/-- A scanning loop runs past the table exactly when no row passes the test. -/
theorem level_scan_eq_length_iff (test : GstVaapiH265LevelLimits → Bool)
    (l : List GstVaapiH265LevelLimits) (i : Nat) :
    level_scan test l i = i + l.length ↔ ∀ row ∈ l, test row = false := by
  obtain ⟨h1, h2, h3, h4⟩ := level_scan_spec test l i
  constructor
  · intro h row hrow
    obtain ⟨j, hj, hget⟩ := List.getElem_of_mem hrow
    exact h3 j row (by omega) (by rw [List.getElem?_eq_getElem hj, hget])
  · intro h
    by_contra hne
    obtain ⟨row, hrow, ht⟩ := h4 (by omega)
    have hmem : row ∈ l := List.getElem?_mem hrow
    rw [h row hmem] at ht
    exact absurd ht (by decide)

/-- Without 32-bit overflow the two locals of `ensure_tier_level` are the picture
size and the sample rate themselves. -/
theorem luma_fits_iff (enc : Encoder) (row : GstVaapiH265LevelLimits)
    (hps : enc.luma_width * enc.luma_height < 2 ^ 32) (hfd : enc.fps_d ≠ 0)
    (hsr : enc.luma_width * enc.luma_height * enc.fps_n / enc.fps_d < 2 ^ 32) :
    luma_fits enc row = true ↔
      enc.luma_width * enc.luma_height ≤ row.MaxLumaPs ∧
        enc.luma_width * enc.luma_height * enc.fps_n / enc.fps_d ≤ row.MaxLumaSr := by
  have h1 : PicSizeInSamplesY enc = enc.luma_width * enc.luma_height := by
    unfold PicSizeInSamplesY
    exact Nat.mod_eq_of_lt hps
  have h2 : LumaSr enc = enc.luma_width * enc.luma_height * enc.fps_n / enc.fps_d := by
    unfold LumaSr gst_util_uint64_scale
    rw [h1, if_neg hfd]
    have h64 : enc.luma_width * enc.luma_height * enc.fps_n / enc.fps_d ≤ 2 ^ 64 - 1 := by
      have : (2 : Nat) ^ 32 ≤ 2 ^ 64 - 1 := by norm_num
      omega
    rw [Nat.min_eq_left h64]
    exact Nat.mod_eq_of_lt hsr
  unfold luma_fits
  rw [h1, h2]
  simp

/-- The value of `ensure_tier_level` when an index is selected. -/
theorem ensure_tier_level_of_index (enc : Encoder) (table : List GstVaapiH265LevelLimits)
    (i : Nat) (row : GstVaapiH265LevelLimits) (hi : tier_level_index enc table = some i)
    (hrow : table[i]? = some row) :
    ensure_tier_level enc table =
      (true, { enc with
        tier := if enc.bitrate ≤ row.MaxBRTierMain then GstVaapiTierH265.MAIN
          else GstVaapiTierH265.HIGH
        level := row.level
        level_idc := row.level_idc }) := by
  unfold ensure_tier_level
  rw [hi]
  have hget : table.getD i {} = row := by
    rw [List.getD_eq_getElem?_getD, hrow]
    rfl
  simp only [hget]

/-- The function `ensure_tier_level` returns TRUE exactly when an index is selected. -/
theorem ensure_tier_level_fst (enc : Encoder) (table : List GstVaapiH265LevelLimits) :
    (ensure_tier_level enc table).1 = (tier_level_index enc table).isSome := by
  unfold ensure_tier_level
  cases tier_level_index enc table <;> rfl

/-- Without tiles the index selected is where the first loop stops. -/
theorem tier_level_index_no_tiles (enc : Encoder) (table : List GstVaapiH265LevelLimits)
    (htile : h265_is_tile_enabled enc = false) :
    tier_level_index enc table =
      if level_scan (luma_fits enc) table 0 = table.length then none
      else some (level_scan (luma_fits enc) table 0) := by
  unfold tier_level_index
  simp [htile]

/-- C13: level selection with tiling disabled, for any level-limits table. With
`PicSizeInSamplesY = luma_width * luma_height` and
`LumaSr = PicSizeInSamplesY * fps_n / fps_d`, neither overflowing 32 bits,
`ensure_tier_level` succeeds if and only if some row has
`PicSizeInSamplesY <= MaxLumaPs` and `LumaSr <= MaxLumaSr`; on success the
level and `level_idc` of the encoder are those of the lowest-index such row. -/
theorem C13_level_is_first_fitting_row (enc : Encoder) (table : List GstVaapiH265LevelLimits)
    (htile : h265_is_tile_enabled enc = false)
    (hps : enc.luma_width * enc.luma_height < 2 ^ 32) (hfd : enc.fps_d ≠ 0)
    (hsr : enc.luma_width * enc.luma_height * enc.fps_n / enc.fps_d < 2 ^ 32) :
    ((ensure_tier_level enc table).1 = true ↔
      ∃ row ∈ table, enc.luma_width * enc.luma_height ≤ row.MaxLumaPs ∧
        enc.luma_width * enc.luma_height * enc.fps_n / enc.fps_d ≤ row.MaxLumaSr) ∧
    ((ensure_tier_level enc table).1 = true →
      ∃ (i : Nat) (row : GstVaapiH265LevelLimits), table[i]? = some row ∧
        (enc.luma_width * enc.luma_height ≤ row.MaxLumaPs ∧
          enc.luma_width * enc.luma_height * enc.fps_n / enc.fps_d ≤ row.MaxLumaSr) ∧
        (∀ (j : Nat) (r : GstVaapiH265LevelLimits), j < i → table[j]? = some r →
          ¬ (enc.luma_width * enc.luma_height ≤ r.MaxLumaPs ∧
            enc.luma_width * enc.luma_height * enc.fps_n / enc.fps_d ≤ r.MaxLumaSr)) ∧
        (ensure_tier_level enc table).2.level = row.level ∧
        (ensure_tier_level enc table).2.level_idc = row.level_idc) := by
  obtain ⟨h1, h2, h3, h4⟩ := level_scan_spec (luma_fits enc) table 0
  have hlen := level_scan_eq_length_iff (luma_fits enc) table 0
  have hidx := tier_level_index_no_tiles enc table htile
  simp only [Nat.zero_add, Nat.sub_zero] at h2 h3 h4 hlen
  constructor
  · rw [ensure_tier_level_fst, hidx]
    constructor
    · intro hs
      have hne : level_scan (luma_fits enc) table 0 ≠ table.length := by
        intro h
        rw [if_pos h] at hs
        simp at hs
      obtain ⟨row, hrow, ht⟩ := h4 (by omega)
      exact ⟨row, List.getElem?_mem hrow, (luma_fits_iff enc row hps hfd hsr).1 ht⟩
    · rintro ⟨row, hmem, hfit⟩
      have hne : level_scan (luma_fits enc) table 0 ≠ table.length := by
        intro h
        have := hlen.1 h row hmem
        rw [(luma_fits_iff enc row hps hfd hsr).2 hfit] at this
        exact absurd this (by decide)
      rw [if_neg hne]
      rfl
  · intro hs
    rw [ensure_tier_level_fst, hidx] at hs
    have hne : level_scan (luma_fits enc) table 0 ≠ table.length := by
      intro h
      rw [if_pos h] at hs
      simp at hs
    obtain ⟨row, hrow, ht⟩ := h4 (by omega)
    have hsel : tier_level_index enc table = some (level_scan (luma_fits enc) table 0) := by
      rw [hidx, if_neg hne]
    refine ⟨level_scan (luma_fits enc) table 0, row, hrow,
      (luma_fits_iff enc row hps hfd hsr).1 ht, ?_, ?_, ?_⟩
    · intro j r hj hr hfit
      have := h3 j r hj hr
      rw [(luma_fits_iff enc r hps hfd hsr).2 hfit] at this
      exact absurd this (by decide)
    · rw [ensure_tier_level_of_index enc table _ row hsel hrow]
    · rw [ensure_tier_level_of_index enc table _ row hsel hrow]

/-- C13, witness: scenario C on the sample table: the first row that fits 1920x1080
at 30 frames per second is the sixth, of level 4 (`level_idc` 120). -/
theorem C13_level_is_first_fitting_row_witness :
    (ensure_tier_level scenario_c sample_level_limits).1 = true ∧
    (ensure_tier_level scenario_c sample_level_limits).2.level_idc = 120 ∧
    ((ensure_tier_level scenario_c sample_level_limits).1 = true ↔
      ∃ row ∈ sample_level_limits,
        scenario_c.luma_width * scenario_c.luma_height ≤ row.MaxLumaPs ∧
        scenario_c.luma_width * scenario_c.luma_height * scenario_c.fps_n / scenario_c.fps_d
          ≤ row.MaxLumaSr) :=
  ⟨by decide, by decide,
    (C13_level_is_first_fitting_row scenario_c sample_level_limits (by decide) (by decide)
      (by decide) (by decide)).1⟩

/-- The first loop of `ensure_tier_level` does not read the tile counts. -/
theorem luma_fits_tiles (enc : Encoder) (cols rows : Nat) :
    luma_fits { enc with num_tile_cols := cols, num_tile_rows := rows } = luma_fits enc := rfl

/-- With tiles the index selected is where the second loop stops, which starts
where the first loop stopped. -/
theorem tier_level_index_tiles (enc : Encoder) (table : List GstVaapiH265LevelLimits)
    (htile : h265_is_tile_enabled enc = true) :
    tier_level_index enc table =
      if level_scan (luma_fits enc) table 0 = table.length then none
      else if level_scan (tiles_fit enc) (table.drop (level_scan (luma_fits enc) table 0))
          (level_scan (luma_fits enc) table 0) = table.length then none
      else some (level_scan (tiles_fit enc) (table.drop (level_scan (luma_fits enc) table 0))
          (level_scan (luma_fits enc) table 0)) := by
  unfold tier_level_index
  simp [htile]

/-- C14: tile promotion never regresses. When tiling is enabled
(`h265_is_tile_enabled`: the product of the tile counts is above 1) and `i0` is
the index that `ensure_tier_level` selects for the same stream with tiling
disabled (one tile), the function succeeds if and only if some row `j >= i0` has
`num_tile_cols <= MaxTileColumns` and `num_tile_rows <= MaxTileRows`; the index
it selects is the least such `j`, never below `i0`, and the level set is that
of row `j`. -/
theorem C14_tile_promotion_never_regresses (enc : Encoder)
    (table : List GstVaapiH265LevelLimits) (i0 : Nat)
    (htile : h265_is_tile_enabled enc = true)
    (hi0 : tier_level_index { enc with num_tile_cols := 1, num_tile_rows := 1 } table = some i0) :
    ((ensure_tier_level enc table).1 = false ↔
      ∀ (j : Nat) (row : GstVaapiH265LevelLimits), i0 ≤ j → table[j]? = some row →
        ¬ (enc.num_tile_cols ≤ row.MaxTileColumns ∧ enc.num_tile_rows ≤ row.MaxTileRows)) ∧
    ((ensure_tier_level enc table).1 = true →
      ∃ (j : Nat) (row : GstVaapiH265LevelLimits),
        tier_level_index enc table = some j ∧ i0 ≤ j ∧ table[j]? = some row ∧
        (enc.num_tile_cols ≤ row.MaxTileColumns ∧ enc.num_tile_rows ≤ row.MaxTileRows) ∧
        (∀ (k : Nat) (r : GstVaapiH265LevelLimits), i0 ≤ k → k < j → table[k]? = some r →
          ¬ (enc.num_tile_cols ≤ r.MaxTileColumns ∧ enc.num_tile_rows ≤ r.MaxTileRows)) ∧
        (ensure_tier_level enc table).2.level = row.level ∧
        (ensure_tier_level enc table).2.level_idc = row.level_idc) := by
  have hfit : ∀ r : GstVaapiH265LevelLimits, tiles_fit enc r = true ↔
      (enc.num_tile_cols ≤ r.MaxTileColumns ∧ enc.num_tile_rows ≤ r.MaxTileRows) := by
    intro r
    simp [tiles_fit]
  have hfitn : ∀ r : GstVaapiH265LevelLimits, tiles_fit enc r = false ↔
      ¬ (enc.num_tile_cols ≤ r.MaxTileColumns ∧ enc.num_tile_rows ≤ r.MaxTileRows) := by
    intro r
    rw [← hfit r]
    simp
  -- the index of the stream without tiles is where the first loop stops
  have hdis : h265_is_tile_enabled { enc with num_tile_cols := 1, num_tile_rows := 1 } = false := by
    simp [h265_is_tile_enabled]
  rw [tier_level_index_no_tiles _ table hdis, luma_fits_tiles] at hi0
  have hne : level_scan (luma_fits enc) table 0 ≠ table.length := by
    intro h
    rw [if_pos h] at hi0
    simp at hi0
  rw [if_neg hne] at hi0
  have hi0eq : level_scan (luma_fits enc) table 0 = i0 := by simpa using hi0
  have hidx := tier_level_index_tiles enc table htile
  rw [hi0eq] at hidx hne
  rw [if_neg hne] at hidx
  obtain ⟨-, hi0le⟩ := level_scan_spec (luma_fits enc) table 0
  have hi0lt : i0 < table.length := by
    have := hi0le.1
    rw [hi0eq] at this
    simp at this
    omega
  obtain ⟨h1, h2, h3, h4⟩ := level_scan_spec (tiles_fit enc) (table.drop i0) i0
  have hlen := level_scan_eq_length_iff (tiles_fit enc) (table.drop i0) i0
  have hdl : i0 + (table.drop i0).length = table.length := by
    rw [List.length_drop]
    omega
  rw [hdl] at h2 h4 hlen
  constructor
  · rw [ensure_tier_level_fst, hidx]
    constructor
    · intro hs j row hj hrow
      have hend : level_scan (tiles_fit enc) (table.drop i0) i0 = table.length := by
        by_contra h
        rw [if_neg h] at hs
        simp at hs
      have hmem : row ∈ table.drop i0 := by
        apply List.getElem?_mem (n := j - i0)
        rw [List.getElem?_drop]
        rw [← hrow]
        congr 1
        omega
      exact (hfitn row).1 (hlen.1 hend row hmem)
    · intro hall
      have hend : level_scan (tiles_fit enc) (table.drop i0) i0 = table.length := by
        apply hlen.2
        intro row hmem
        obtain ⟨n, hn⟩ := List.getElem?_of_mem hmem
        rw [List.getElem?_drop] at hn
        exact (hfitn row).2 (hall (i0 + n) row (by omega) hn)
      rw [if_pos hend]
      rfl
  · intro hs
    rw [ensure_tier_level_fst, hidx] at hs
    have hend : level_scan (tiles_fit enc) (table.drop i0) i0 ≠ table.length := by
      intro h
      rw [if_pos h] at hs
      simp at hs
    rw [if_neg hend] at hidx
    obtain ⟨row, hrow, ht⟩ := h4 (by omega)
    rw [List.getElem?_drop] at hrow
    have hjj : i0 + (level_scan (tiles_fit enc) (table.drop i0) i0 - i0) =
        level_scan (tiles_fit enc) (table.drop i0) i0 := by omega
    rw [hjj] at hrow
    refine ⟨_, row, hidx, h1, hrow, (hfit row).1 ht, ?_, ?_, ?_⟩
    · intro k r hk hkj hr
      apply (hfitn r).1
      apply h3 (k - i0) r (by omega)
      rw [List.getElem?_drop, ← hr]
      congr 1
      omega
    · rw [ensure_tier_level_of_index enc table _ row hidx hrow]
    · rw [ensure_tier_level_of_index enc table _ row hidx hrow]

/-- C14, witness: the CIF stream on the sample table. With one tile the second row
(index 1, level 2) is selected; with 2x2 tiles the rows of index 1 and 2 allow
one tile only and the row of index 3 (level 3, `level_idc` 90) is selected. -/
theorem C14_tile_promotion_never_regresses_witness :
    tier_level_index { scenario_cif_tiles with num_tile_cols := 1, num_tile_rows := 1 }
      sample_level_limits = some 1 ∧
    tier_level_index scenario_cif_tiles sample_level_limits = some 3 ∧
    (ensure_tier_level scenario_cif_tiles sample_level_limits).2.level_idc = 90 ∧
    ((ensure_tier_level scenario_cif_tiles sample_level_limits).1 = false ↔
      ∀ (j : Nat) (row : GstVaapiH265LevelLimits), 1 ≤ j → sample_level_limits[j]? = some row →
        ¬ (scenario_cif_tiles.num_tile_cols ≤ row.MaxTileColumns ∧
          scenario_cif_tiles.num_tile_rows ≤ row.MaxTileRows)) :=
  ⟨by decide, by decide, by decide,
    (C14_tile_promotion_never_regresses scenario_cif_tiles sample_level_limits 1 (by decide)
      (by decide)).1⟩

/-- The index selected does not depend on the bit rate. -/
theorem tier_level_index_bitrate (enc : Encoder) (table : List GstVaapiH265LevelLimits)
    (bitrate : Nat) :
    tier_level_index { enc with bitrate := bitrate } table = tier_level_index enc table := rfl

/-- C15, as stated, fails in its last part: a row may have `MaxBRTierHigh` below
`MaxBRTierMain` (the rows of the levels below 4 of the sample table, for which
H.265 defines no High tier), and then a bit rate above `MaxBRTierHigh` and up to
`MaxBRTierMain` gives the Main tier. For the CIF stream at 1000 kbps the row
selected has `MaxBRTierMain` 1500 and `MaxBRTierHigh` 0. -/
theorem C15_tier_counterexample :
    tier_level_index scenario_cif sample_level_limits = some 1 ∧
    sample_level_limits[1]? = some
      { level := 2, level_idc := 60, MaxLumaPs := 122880, MaxLumaSr := 3686400,
        MaxTileRows := 1, MaxTileColumns := 1, MaxBRTierMain := 1500, MaxBRTierHigh := 0 } ∧
    scenario_cif.bitrate > 0 ∧
    (ensure_tier_level scenario_cif sample_level_limits).1 = true ∧
    (ensure_tier_level scenario_cif sample_level_limits).2.tier = GstVaapiTierH265.MAIN ∧
    (ensure_tier_level scenario_cif sample_level_limits).2.tier ≠ GstVaapiTierH265.HIGH := by
  decide

/-- C15, amended: whenever `ensure_tier_level` succeeds with selected row `L`, the
tier is Main if and only if `bitrate <= L.MaxBRTierMain` (`bitrate ==
MaxBRTierMain` gives Main) and High otherwise; the row selected does not depend
on the bit rate, and a bit rate above both `L.MaxBRTierMain` and
`L.MaxBRTierHigh` still yields success with tier High and the same level. -/
theorem C15_tier_boundary (enc : Encoder) (table : List GstVaapiH265LevelLimits) (i : Nat)
    (L : GstVaapiH265LevelLimits) (hi : tier_level_index enc table = some i)
    (hrow : table[i]? = some L) :
    (ensure_tier_level enc table).1 = true ∧
    (ensure_tier_level enc table).2.level = L.level ∧
    (ensure_tier_level enc table).2.level_idc = L.level_idc ∧
    ((ensure_tier_level enc table).2.tier = GstVaapiTierH265.MAIN ↔
      enc.bitrate ≤ L.MaxBRTierMain) ∧
    ((ensure_tier_level enc table).2.tier = GstVaapiTierH265.HIGH ↔
      ¬ enc.bitrate ≤ L.MaxBRTierMain) ∧
    (ensure_tier_level { enc with bitrate := L.MaxBRTierMain } table).2.tier
      = GstVaapiTierH265.MAIN ∧
    (∀ bitrate : Nat, L.MaxBRTierMain < bitrate → L.MaxBRTierHigh < bitrate →
      (ensure_tier_level { enc with bitrate := bitrate } table).1 = true ∧
      (ensure_tier_level { enc with bitrate := bitrate } table).2.tier
        = GstVaapiTierH265.HIGH ∧
      (ensure_tier_level { enc with bitrate := bitrate } table).2.level = L.level ∧
      (ensure_tier_level { enc with bitrate := bitrate } table).2.level_idc = L.level_idc) := by
  have hval := ensure_tier_level_of_index enc table i L hi hrow
  have hb : ∀ bitrate : Nat,
      tier_level_index { enc with bitrate := bitrate } table = some i := by
    intro bitrate
    rw [tier_level_index_bitrate]
    exact hi
  refine ⟨by rw [hval], by rw [hval], by rw [hval], ?_, ?_, ?_, ?_⟩
  · rw [hval]
    by_cases h : enc.bitrate ≤ L.MaxBRTierMain <;> simp [h]
  · rw [hval]
    by_cases h : enc.bitrate ≤ L.MaxBRTierMain <;> simp [h]
  · rw [ensure_tier_level_of_index _ table i L (hb _) hrow]
    simp
  · intro bitrate h1 h2
    rw [ensure_tier_level_of_index _ table i L (hb bitrate) hrow]
    have : ¬ bitrate ≤ L.MaxBRTierMain := by omega
    simp [this]

/-- C15, amended, witness: scenario C (1920x1080, 30/1 frames per second, 2000 kbps)
on the sample table: the row of level 4 is selected, whose `MaxBRTierMain` is
12000, and the tier is Main. -/
theorem C15_tier_boundary_witness :
    (ensure_tier_level scenario_c sample_level_limits).1 = true ∧
    (ensure_tier_level scenario_c sample_level_limits).2.level_idc = 120 ∧
    ((ensure_tier_level scenario_c sample_level_limits).2.tier = GstVaapiTierH265.MAIN ↔
      scenario_c.bitrate ≤ 12000) ∧
    (ensure_tier_level scenario_c sample_level_limits).2.tier = GstVaapiTierH265.MAIN :=
  have h := C15_tier_boundary scenario_c sample_level_limits 5
    { level := 6, level_idc := 120, MaxLumaPs := 2228224, MaxLumaSr := 66846720,
      MaxTileRows := 5, MaxTileColumns := 5, MaxBRTierMain := 12000, MaxBRTierHigh := 30000 }
    (by decide) (by decide)
  ⟨h.1, h.2.2.1, h.2.2.2.1, by decide⟩

/-! ## Slice partition -/

/-- Without 32-bit overflow a round of the loop of `add_slice_headers` gives its
slice a whole number of rows, at least one coding tree unit and at least its
share, or all that is left of the picture. -/
theorem cur_slice_ctus_spec (enc : Encoder) (S q m last : Nat) (hW : 1 ≤ enc.ctu_width)
    (hS : enc.ctu_width ∣ S) (hl : enc.ctu_width ∣ last) (hlt : last < S)
    (hb : S + q + enc.ctu_width < 2 ^ 32) :
    1 ≤ cur_slice_ctus enc S q m last ∧
    enc.ctu_width ∣ cur_slice_ctus enc S q m last ∧
    last + cur_slice_ctus enc S q m last ≤ S ∧
    (last + cur_slice_ctus enc S q m last = S ∨
      (q + (if m ≠ 0 then 1 else 0) ≤ cur_slice_ctus enc S q m last)) := by
  obtain ⟨a, ha⟩ := hS
  obtain ⟨b, hbl⟩ := hl
  have hab : b < a := by
    by_contra h
    have : enc.ctu_width * a ≤ enc.ctu_width * b := Nat.mul_le_mul_left _ (by omega)
    omega
  have hWS : last + enc.ctu_width ≤ S := by
    have : enc.ctu_width * (b + 1) ≤ enc.ctu_width * a := Nat.mul_le_mul_left _ (by omega)
    rw [Nat.mul_add, Nat.mul_one] at this
    omega
  have hdiff : enc.ctu_width ∣ S - last := by
    refine ⟨a - b, ?_⟩
    rw [Nat.mul_sub, ← ha, ← hbl]
  generalize hc0 : (if m ≠ 0 then (q + 1) % 2 ^ 32 else q) = c0
  have hc0v : c0 = q + (if m ≠ 0 then 1 else 0) := by
    rw [← hc0]
    split_ifs
    · rw [Nat.mod_eq_of_lt (by omega)]
    · rfl
  have hc0le : c0 ≤ q + 1 := by
    rw [hc0v]
    split_ifs <;> omega
  have hmod : c0 % enc.ctu_width < enc.ctu_width := Nat.mod_lt _ (by omega)
  have hdm := Nat.div_add_mod c0 enc.ctu_width
  have hround : (enc.ctu_width + 2 ^ 32 - c0 % enc.ctu_width) % 2 ^ 32 =
      enc.ctu_width - c0 % enc.ctu_width := by
    have h : enc.ctu_width + 2 ^ 32 - c0 % enc.ctu_width =
        (enc.ctu_width - c0 % enc.ctu_width) + 2 ^ 32 := by omega
    rw [h, Nat.add_mod_right, Nat.mod_eq_of_lt (by omega)]
  have hc1 : (c0 + (enc.ctu_width - c0 % enc.ctu_width)) % 2 ^ 32 =
      enc.ctu_width * (c0 / enc.ctu_width + 1) := by
    rw [Nat.mod_eq_of_lt (by omega), Nat.mul_add, Nat.mul_one]
    omega
  have hc1lo : c0 < enc.ctu_width * (c0 / enc.ctu_width + 1) := by
    rw [Nat.mul_add, Nat.mul_one]
    omega
  have hc1hi : enc.ctu_width * (c0 / enc.ctu_width + 1) ≤ c0 + enc.ctu_width := by
    rw [Nat.mul_add, Nat.mul_one]
    omega
  have hval : cur_slice_ctus enc S q m last =
      if last + enc.ctu_width * (c0 / enc.ctu_width + 1) > S then S - last
      else enc.ctu_width * (c0 / enc.ctu_width + 1) := by
    unfold cur_slice_ctus
    simp only [hc0, hround, hc1]
    rw [Nat.mod_eq_of_lt (show last + enc.ctu_width * (c0 / enc.ctu_width + 1) < 2 ^ 32 by omega)]
    have h : (S + 2 ^ 32 - last) % 2 ^ 32 = S - last := by
      have h2 : S + 2 ^ 32 - last = (S - last) + 2 ^ 32 := by omega
      rw [h2, Nat.add_mod_right, Nat.mod_eq_of_lt (by omega)]
    rw [h]
  rw [hval]
  by_cases hcap : last + enc.ctu_width * (c0 / enc.ctu_width + 1) > S
  · rw [if_pos hcap]
    exact ⟨by omega, hdiff, by omega, Or.inl (by omega)⟩
  · rw [if_neg hcap]
    refine ⟨by omega, ⟨_, rfl⟩, by omega, Or.inr ?_⟩
    rw [← hc0v]
    omega

/-- The loop of `add_slice_headers`, without 32-bit overflow and with every slice
header written: from a row boundary `last_ctu_index`, with shares left that
cover the rest of the picture, it is not left by the error label, it ends
with `last_ctu_index == ctu_size`, adds at most one slice a round, and its
slices follow one another up to the end of the picture; only a slice built
with `i_slice == 0` has `first_slice_segment_in_pic_flag` set. -/
theorem add_slice_headers_loop_spec (enc : Encoder) (S q : Nat) (hW : 1 ≤ enc.ctu_width)
    (hS : enc.ctu_width ∣ S) (hb : S + q + enc.ctu_width < 2 ^ 32) :
    ∀ (n i m last : Nat) (flag : Bool), enc.ctu_width ∣ last → last ≤ S → m ≤ n →
      S ≤ n * q + m + last → (i = 0 → last = 0) →
      (add_slice_headers_loop enc S q true n i m last flag).failed = false ∧
      (add_slice_headers_loop enc S q true n i m last flag).last_ctu_index = S ∧
      (add_slice_headers_loop enc S q true n i m last flag).slices.length ≤ n ∧
      SliceChain enc.ctu_width last
        (add_slice_headers_loop enc S q true n i m last flag).slices S ∧
      (∀ (k : Nat) (s : GstVaapiEncSlice),
        (add_slice_headers_loop enc S q true n i m last flag).slices[k]? = some s →
        s.first_slice_segment_in_pic_flag = decide (i + k = 0)) := by
  intro n
  induction n with
  | zero =>
    intro i m last flag _ hle hm hcover _
    have : last = S := by omega
    simp [add_slice_headers_loop, SliceChain, this]
  | succ n ih =>
    intro i m last flag hl hle hm hcover hi
    by_cases hlt : last < S
    · obtain ⟨c1, c2, c3, c4⟩ := cur_slice_ctus_spec enc S q m last hW hS hl hlt hb
      have hlast1 : (last + cur_slice_ctus enc S q m last) % 2 ^ 32 =
          last + cur_slice_ctus enc S q m last := Nat.mod_eq_of_lt (by omega)
      have hcover1 : S ≤ n * q + (if m ≠ 0 then m - 1 else m) +
          (last + cur_slice_ctus enc S q m last) := by
        rcases c4 with h | h
        · omega
        · rw [Nat.succ_mul] at hcover
          by_cases hm0 : m ≠ 0
          · rw [if_pos hm0] at h ⊢
            omega
          · rw [if_neg hm0] at h ⊢
            omega
      have hm1 : (if m ≠ 0 then m - 1 else m) ≤ n := by
        split_ifs <;> omega
      obtain ⟨r1, r2, r3, r4, r5⟩ := ih (i + 1) (if m ≠ 0 then m - 1 else m)
        (last + cur_slice_ctus enc S q m last) (decide (i = 0)) (Dvd.dvd.add hl c2) c3 hm1 hcover1
        (by omega)
      have haddr : (if i = 0 then 0 else last) = last := by
        split_ifs with h0
        · exact (hi h0).symm
        · rfl
      simp only [add_slice_headers_loop, if_pos hlt, hlast1, if_true, haddr]
      refine ⟨r1, r2, ?_, ?_, ?_⟩
      · simp only [List.length_cons]
        omega
      · exact ⟨rfl, c1, hl, c2, r4⟩
      · intro k s hk
        cases k with
        | zero =>
          simp only [List.getElem?_cons_zero, Option.some.injEq] at hk
          rw [← hk]
          simp
        | succ k =>
          simp only [List.getElem?_cons_succ] at hk
          rw [r5 k s hk]
          simp
    · have : last = S := by omega
      simp [add_slice_headers_loop, SliceChain, this]

/-- The slices of a chain add up to its length. -/
theorem slice_chain_sum (W : Nat) : ∀ (l : List GstVaapiEncSlice) (a b : Nat),
    SliceChain W a l b →
      a + (l.map (fun (s : GstVaapiEncSlice) => s.num_ctu_in_slice)).sum = b := by
  intro l
  induction l with
  | nil =>
    intro a b h
    simpa [SliceChain] using h
  | cons s l ih =>
    intro a b h
    obtain ⟨_, _, _, _, h5⟩ := h
    have := ih _ _ h5
    simp only [List.map_cons, List.sum_cons]
    omega

/-- Every slice of a chain holds at least one coding tree unit and begins and
ends on a row boundary. -/
theorem slice_chain_mem (W : Nat) : ∀ (l : List GstVaapiEncSlice) (a b : Nat),
    SliceChain W a l b → ∀ s ∈ l, 1 ≤ s.num_ctu_in_slice ∧
      W ∣ s.slice_segment_address ∧ W ∣ s.num_ctu_in_slice := by
  intro l
  induction l with
  | nil =>
    intro a b _ s hs
    simp at hs
  | cons x l ih =>
    intro a b h s hs
    obtain ⟨_, h2, h3, h4, h5⟩ := h
    rcases List.mem_cons.1 hs with hx | hl
    · rw [hx]
      exact ⟨h2, h3, h4⟩
    · exact ih _ _ h5 s hl

/-- In a chain every slice begins where the slice before it ends. -/
theorem slice_chain_next (W : Nat) : ∀ (l : List GstVaapiEncSlice) (a b : Nat),
    SliceChain W a l b → ∀ (k : Nat) (s t : GstVaapiEncSlice), l[k]? = some s →
      l[k + 1]? = some t →
      t.slice_segment_address = s.slice_segment_address + s.num_ctu_in_slice := by
  intro l
  induction l with
  | nil =>
    intro a b _ k s t hs
    simp at hs
  | cons x l ih =>
    intro a b h k s t hs ht
    obtain ⟨h1, _, _, _, h5⟩ := h
    cases k with
    | zero =>
      simp only [List.getElem?_cons_zero, Option.some.injEq] at hs
      simp only [List.getElem?_cons_succ] at ht
      cases l with
      | nil => simp at ht
      | cons y l =>
        simp only [List.getElem?_cons_zero, Option.some.injEq] at ht
        obtain ⟨g1, _⟩ := h5
        rw [← hs, ← ht, g1, h1]
    | succ k =>
      simp only [List.getElem?_cons_succ] at hs ht
      exact ih _ _ h5 k s t hs ht

/-- Without 32-bit overflow, and when the slice headers can be written (no packed
slice header is asked for, or the picture has a type), `add_slice_headers`
returns TRUE with a chain of slices from address 0 to the end of the picture. -/
theorem add_slice_headers_chain (enc : Encoder) (picture : GstVaapiEncPicture)
    (packed_headers_slice : Bool) (hN : 1 ≤ enc.num_slices)
    (hNS : enc.num_slices < enc.ctu_width * enc.ctu_height)
    (hb : enc.ctu_width * enc.ctu_height + enc.ctu_width * enc.ctu_height / enc.num_slices
      + enc.ctu_width < 2 ^ 32)
    (hhdr : packed_headers_slice = false ∨ picture.type ≠ NONE) :
    ∃ (slices : List GstVaapiEncSlice) (encoder1 : Encoder),
      add_slice_headers enc picture packed_headers_slice = Outcome.ret (true, slices) encoder1 ∧
      slices.length ≤ enc.num_slices ∧
      SliceChain enc.ctu_width 0 slices (enc.ctu_width * enc.ctu_height) ∧
      (∀ (k : Nat) (s : GstVaapiEncSlice), slices[k]? = some s →
        s.first_slice_segment_in_pic_flag = decide (k = 0)) := by
  have hS : (enc.ctu_width * enc.ctu_height) % 2 ^ 32 = enc.ctu_width * enc.ctu_height :=
    Nat.mod_eq_of_lt
      (lt_of_le_of_lt (Nat.le_add_right _ _) (lt_of_le_of_lt (Nat.le_add_right _ _) hb))
  have hW : 1 ≤ enc.ctu_width := by
    rcases Nat.eq_zero_or_pos enc.ctu_width with h | h
    · rw [h] at hNS
      simp at hNS
    · exact h
  have hok : (!packed_headers_slice || (get_nal_unit_type picture).isSome) = true := by
    rcases hhdr with h | h
    · simp [h]
    · have : (get_nal_unit_type picture).isSome = true := by
        unfold get_nal_unit_type
        cases hty : picture.type
        · exact absurd hty h
        · simp only
          split_ifs <;> rfl
        · rfl
        · rfl
      simp [this]
  have hcover : enc.ctu_width * enc.ctu_height ≤
      enc.num_slices * (enc.ctu_width * enc.ctu_height / enc.num_slices) +
        (enc.ctu_width * enc.ctu_height) % enc.num_slices + 0 := by
    have := Nat.div_add_mod (enc.ctu_width * enc.ctu_height) enc.num_slices
    omega
  obtain ⟨r1, r2, r3, r4, r5⟩ := add_slice_headers_loop_spec enc
    (enc.ctu_width * enc.ctu_height) (enc.ctu_width * enc.ctu_height / enc.num_slices) hW
    ⟨_, rfl⟩ hb enc.num_slices 0 ((enc.ctu_width * enc.ctu_height) % enc.num_slices) 0
    enc.first_slice_segment_in_pic_flag ⟨0, rfl⟩ (by omega)
    (le_of_lt (Nat.mod_lt _ (by omega))) hcover (fun _ => rfl)
  refine ⟨_, { enc with first_slice_segment_in_pic_flag :=
    (add_slice_headers_loop enc (enc.ctu_width * enc.ctu_height)
      (enc.ctu_width * enc.ctu_height / enc.num_slices) true enc.num_slices 0
      ((enc.ctu_width * enc.ctu_height) % enc.num_slices) 0
      enc.first_slice_segment_in_pic_flag).first_slice_segment_in_pic_flag }, ?_, r3, r4, ?_⟩
  · unfold add_slice_headers
    simp only [hS, hok]
    have hasrt : enc.num_slices ≠ 0 ∧ enc.num_slices < enc.ctu_width * enc.ctu_height :=
      ⟨by omega, hNS⟩
    rw [if_neg (not_not.2 hasrt)]
    simp only [r1, r2, if_true, Bool.false_eq_true, if_false]
  · intro k s hk
    have := r5 k s hk
    simpa using this

/-- A grid of at most `2 ^ 30` coding tree units is within what the `guint` loop
variables of `add_slice_headers` hold. -/
theorem slice_grid_within_guint (enc : Encoder) (hN : 1 ≤ enc.num_slices)
    (hNS : enc.num_slices < enc.ctu_width * enc.ctu_height)
    (hgrid : enc.ctu_width * enc.ctu_height ≤ 2 ^ 30) :
    enc.ctu_width * enc.ctu_height + enc.ctu_width * enc.ctu_height / enc.num_slices
      + enc.ctu_width < 2 ^ 32 := by
  have hdiv : enc.ctu_width * enc.ctu_height / enc.num_slices
      ≤ enc.ctu_width * enc.ctu_height := Nat.div_le_self _ _
  have hheight : 1 ≤ enc.ctu_height := by
    rcases Nat.eq_zero_or_pos enc.ctu_height with h0 | hpos
    · rw [h0, Nat.mul_zero] at hNS
      omega
    · exact hpos
  have hwidth : enc.ctu_width ≤ enc.ctu_width * enc.ctu_height :=
    Nat.le_mul_of_pos_right _ hheight
  have hpow : (2 : Nat) ^ 32 = 4 * 2 ^ 30 := by norm_num
  omega

/-- C16: slice partitioning by `add_slice_headers` is exhaustive and
non-overlapping: for every `ctu_width`, `ctu_height` (both at least 1) and
`num_slices` with `1 <= num_slices < ctu_width * ctu_height`, on a grid whose
count of coding tree units the `guint` loop variables hold
(`ctu_width * ctu_height + ctu_width * ctu_height / num_slices + ctu_width < 2 ^ 32`,
which every grid of at most `2 ^ 30` coding tree units satisfies, see
`slice_grid_within_guint`), and a
picture whose slice headers can be written (no packed slice header is asked
for, or the picture has a type, as every picture of the reorder engine has),
the function returns TRUE and the emitted slices satisfy: the address of
slice 0 is 0; the address of slice `i + 1` is the address of slice `i` plus its
`num_ctu_in_slice`; every `num_ctu_in_slice` is at least 1; the sum of
`num_ctu_in_slice` is `ctu_width * ctu_height` (the final `g_assert` holds); at
most `num_slices` slices are emitted; and `first_slice_segment_in_pic_flag` is
set for exactly one slice, the first. -/
theorem C16_slices_partition_grid (enc : Encoder) (picture : GstVaapiEncPicture)
    (packed_headers_slice : Bool) (hN : 1 ≤ enc.num_slices)
    (hNS : enc.num_slices < enc.ctu_width * enc.ctu_height)
    (hb : enc.ctu_width * enc.ctu_height + enc.ctu_width * enc.ctu_height / enc.num_slices
      + enc.ctu_width < 2 ^ 32)
    (hhdr : packed_headers_slice = false ∨ picture.type ≠ NONE) :
    ∃ (first : GstVaapiEncSlice) (rest : List GstVaapiEncSlice) (encoder1 : Encoder),
      add_slice_headers enc picture packed_headers_slice
        = Outcome.ret (true, first :: rest) encoder1 ∧
      first.slice_segment_address = 0 ∧
      (∀ (k : Nat) (s t : GstVaapiEncSlice), (first :: rest)[k]? = some s →
        (first :: rest)[k + 1]? = some t →
        t.slice_segment_address = s.slice_segment_address + s.num_ctu_in_slice) ∧
      (∀ s ∈ first :: rest, 1 ≤ s.num_ctu_in_slice) ∧
      ((first :: rest).map (fun (s : GstVaapiEncSlice) => s.num_ctu_in_slice)).sum
        = enc.ctu_width * enc.ctu_height ∧
      (first :: rest).length ≤ enc.num_slices ∧
      first.first_slice_segment_in_pic_flag = true ∧
      (∀ s ∈ rest, s.first_slice_segment_in_pic_flag = false) := by
  obtain ⟨slices, encoder1, hret, hlen, hchain, hflag⟩ :=
    add_slice_headers_chain enc picture packed_headers_slice hN hNS hb hhdr
  cases slices with
  | nil =>
    have : 0 = enc.ctu_width * enc.ctu_height := hchain
    omega
  | cons first rest =>
    refine ⟨first, rest, encoder1, hret, hchain.1, slice_chain_next _ _ _ _ hchain,
      fun s hs => (slice_chain_mem _ _ _ _ hchain s hs).1, ?_, hlen, ?_, ?_⟩
    · have := slice_chain_sum _ _ _ _ hchain
      omega
    · have := hflag 0 first (by simp)
      simpa using this
    · intro s hs
      obtain ⟨n, hn⟩ := List.getElem?_of_mem hs
      have := hflag (n + 1) s (by simpa using hn)
      simpa using this

/-- C16, witness: 60 by 34 coding tree units in 3 slices: slices of 720,
720 and 600 coding tree units at the addresses 0, 720 and 1440; the sum is
2040. -/
theorem C16_slices_partition_grid_witness :
    (add_slice_headers scenario_slices { type := P } true).returned = true ∧
    ∃ (first : GstVaapiEncSlice) (rest : List GstVaapiEncSlice) (encoder1 : Encoder),
      add_slice_headers scenario_slices { type := P } true
        = Outcome.ret (true, first :: rest) encoder1 ∧
      first.slice_segment_address = 0 ∧
      (∀ (k : Nat) (s t : GstVaapiEncSlice), (first :: rest)[k]? = some s →
        (first :: rest)[k + 1]? = some t →
        t.slice_segment_address = s.slice_segment_address + s.num_ctu_in_slice) ∧
      (∀ s ∈ first :: rest, 1 ≤ s.num_ctu_in_slice) ∧
      ((first :: rest).map (fun (s : GstVaapiEncSlice) => s.num_ctu_in_slice)).sum
        = scenario_slices.ctu_width * scenario_slices.ctu_height ∧
      (first :: rest).length ≤ scenario_slices.num_slices ∧
      first.first_slice_segment_in_pic_flag = true ∧
      (∀ s ∈ rest, s.first_slice_segment_in_pic_flag = false) :=
  ⟨by decide,
    C16_slices_partition_grid scenario_slices { type := P } true (by decide) (by decide)
      (by decide) (Or.inr (by decide))⟩

/-- C17: every slice starts and ends on a row boundary: for every `ctu_width`,
`ctu_height` (both at least 1) and `num_slices` with
`1 <= num_slices < ctu_width * ctu_height`, on a grid whose count of coding tree
units the `guint` loop variables hold
(`ctu_width * ctu_height + ctu_width * ctu_height / num_slices + ctu_width < 2 ^ 32`,
which every grid of at most `2 ^ 30` coding tree units satisfies, see
`slice_grid_within_guint`), and a
picture whose slice headers can be written, `add_slice_headers` returns TRUE,
and the `slice_segment_address` and the `num_ctu_in_slice` of every slice
emitted are multiples of `ctu_width`. -/
theorem C17_slices_on_row_boundaries (enc : Encoder) (picture : GstVaapiEncPicture)
    (packed_headers_slice : Bool) (hN : 1 ≤ enc.num_slices)
    (hNS : enc.num_slices < enc.ctu_width * enc.ctu_height)
    (hb : enc.ctu_width * enc.ctu_height + enc.ctu_width * enc.ctu_height / enc.num_slices
      + enc.ctu_width < 2 ^ 32)
    (hhdr : packed_headers_slice = false ∨ picture.type ≠ NONE) :
    ∃ (slices : List GstVaapiEncSlice) (encoder1 : Encoder),
      add_slice_headers enc picture packed_headers_slice = Outcome.ret (true, slices) encoder1 ∧
      ∀ s ∈ slices, enc.ctu_width ∣ s.slice_segment_address ∧
        enc.ctu_width ∣ s.num_ctu_in_slice := by
  obtain ⟨slices, encoder1, hret, _, hchain, _⟩ :=
    add_slice_headers_chain enc picture packed_headers_slice hN hNS hb hhdr
  exact ⟨slices, encoder1, hret, fun s hs => (slice_chain_mem _ _ _ _ hchain s hs).2⟩

/-- C17, witness: 4 by 4 coding tree units in 5 slices: the shares of 4,
3, 3, 3 and 3 are rounded to 8, 4 and 4, all multiples of 4. -/
theorem C17_slices_on_row_boundaries_witness :
    (∃ (encoder1 : Encoder),
      add_slice_headers { ctu_width := 4, ctu_height := 4, num_slices := 5 } { type := B } true =
        Outcome.ret (true,
          [{ slice_segment_address := 0, num_ctu_in_slice := 8, last_slice_of_pic_flag := false,
             first_slice_segment_in_pic_flag := true },
           { slice_segment_address := 8, num_ctu_in_slice := 4, last_slice_of_pic_flag := false,
             first_slice_segment_in_pic_flag := false },
           { slice_segment_address := 12, num_ctu_in_slice := 4, last_slice_of_pic_flag := true,
             first_slice_segment_in_pic_flag := false }]) encoder1) ∧
    ∃ (slices : List GstVaapiEncSlice) (encoder1 : Encoder),
      add_slice_headers { ctu_width := 4, ctu_height := 4, num_slices := 5 } { type := B } true
        = Outcome.ret (true, slices) encoder1 ∧
      ∀ s ∈ slices, 4 ∣ s.slice_segment_address ∧ 4 ∣ s.num_ctu_in_slice :=
  ⟨⟨_, rfl⟩,
    C17_slices_on_row_boundaries { ctu_width := 4, ctu_height := 4, num_slices := 5 }
      { type := B } true (by decide) (by decide) (by decide) (Or.inr (by decide))⟩

/-! ## Packed headers -/

/-- A checked write of 1 to 32 bits succeeds and appends the bits. -/
theorem WRITE_UINT32_ok (bs : List Bool) (val nbits : Nat) (h1 : 1 ≤ nbits) (h2 : nbits ≤ 32) :
    WRITE_UINT32 bs val nbits = Except.ok (bs ++ uint_bits val nbits) := by
  have h : ¬ (nbits = 0 ∨ 32 < nbits) := by omega
  simp [WRITE_UINT32, gst_bit_writer_put_bits_uint32, h]

/-- A write of `nbits` bits appends `nbits` bits. -/
theorem uint_bits_length (value : Nat) : ∀ nbits : Nat, (uint_bits value nbits).length = nbits := by
  intro nbits
  induction nbits with
  | zero => rfl
  | succ n ih => simp [uint_bits, ih]

/-- The function `bs_write_nal_header` appends the 16 bits of the NAL header. -/
theorem bs_write_nal_header_ok (bs : List Bool) (nal_unit_type : Nat) :
    bs_write_nal_header bs nal_unit_type =
      Except.ok (bs ++ (false :: uint_bits nal_unit_type 6 ++ uint_bits 0 6 ++ uint_bits 1 3)) := by
  unfold bs_write_nal_header
  rw [WRITE_UINT32_ok _ _ _ (by decide) (by decide)]
  simp only [bind, Except.bind]
  rw [WRITE_UINT32_ok _ _ _ (by decide) (by decide)]
  simp only [bind, Except.bind]
  rw [WRITE_UINT32_ok _ _ _ (by decide) (by decide)]
  simp only [bind, Except.bind]
  rw [WRITE_UINT32_ok _ _ _ (by decide) (by decide)]
  simp [uint_bits]

/-- The six bytes of a start code and a NAL header. -/
theorem start_code_nal_header_bytes : ∀ nal_unit_type < 64,
    bit_writer_bytes 6
        (uint_bits 1 32 ++ (false :: uint_bits nal_unit_type 6 ++ uint_bits 0 6 ++ uint_bits 1 3))
      = [0, 0, 0, 1, nal_unit_type <<< 1, 1] ∧
    ((nal_unit_type <<< 1) &&& 0x7E) >>> 1 = nal_unit_type := by
  decide

/-- The bytes of a writer are those of its first whole bytes, followed by those
of the rest. -/
theorem bit_writer_bytes_append (b : List Bool) (n : Nat) : ∀ (m : Nat) (a : List Bool),
    a.length = 8 * m →
    bit_writer_bytes (m + n) (a ++ b) = bit_writer_bytes m a ++ bit_writer_bytes n b := by
  intro m
  induction m with
  | zero =>
    intro a ha
    have : a = [] := List.length_eq_zero.1 (by omega)
    simp [this, bit_writer_bytes]
  | succ m ih =>
    intro a ha
    have h8 : 8 ≤ a.length := by omega
    have hsucc : m + 1 + n = (m + n) + 1 := by omega
    rw [hsucc]
    simp only [bit_writer_bytes]
    have hb : byte_of_bits (a ++ b) = byte_of_bits a := by
      unfold byte_of_bits
      rw [List.append_assoc, List.take_append_of_le_length h8, List.take_append_of_le_length h8]
    have hd : (a ++ b).drop 8 = a.drop 8 ++ b := List.drop_append_of_le_length h8
    rw [hb, hd, ih (a.drop 8) (by rw [List.length_drop]; omega)]
    rfl

/-- The number of bytes asked for is the number of bytes got. -/
theorem bit_writer_bytes_length : ∀ (n : Nat) (bits : List Bool),
    (bit_writer_bytes n bits).length = n := by
  intro n
  induction n with
  | zero => intro bits; rfl
  | succ n ih => intro bits; simp [bit_writer_bytes, ih]

/-- The bytes of a packed header: a start code and a NAL header, then the bytes
of what the body writer appended. -/
theorem packed_header_bytes (nal_unit_type : Nat) (hnal : nal_unit_type < 64) (body : List Bool)
    (n : Nat) :
    bit_writer_bytes (6 + n)
        (uint_bits 1 32 ++
          (false :: uint_bits nal_unit_type 6 ++ uint_bits 0 6 ++ uint_bits 1 3) ++ body)
      = [0, 0, 0, 1, nal_unit_type <<< 1, 1] ++ bit_writer_bytes n body := by
  rw [bit_writer_bytes_append body n 6 _ (by simp [uint_bits_length]),
    (start_code_nal_header_bytes nal_unit_type hnal).1]

/-- The writer left by a successful write. -/
theorem writer_of_ok (bs : List Bool) : writer_of (Except.ok bs) = bs := rfl

/-- The common body of the three parameter-set headers: with a body of whole
bytes it returns TRUE and the packed header is the start code, the NAL header
and the bytes of the body; the bytes from the NAL header on are handed to
`_check_vps_sps_pps_status`. With a body that does not end on a byte boundary
the call aborts. -/
theorem add_packed_parameter_set_header_spec (enc : Encoder) (nal_unit_type : Nat)
    (hnal : nal_unit_type < 64) (body : List Bool) (hsize : 48 + body.length < 2 ^ 32) :
    (body.length % 8 = 0 →
      add_packed_parameter_set_header enc nal_unit_type body =
        Outcome.ret
          (true, some ([0, 0, 0, 1, nal_unit_type <<< 1, 1]
            ++ bit_writer_bytes (body.length / 8) body))
          (_check_vps_sps_pps_status enc
            ([nal_unit_type <<< 1, 1] ++ bit_writer_bytes (body.length / 8) body)).enc ∧
      (_check_vps_sps_pps_status enc
        ([nal_unit_type <<< 1, 1] ++ bit_writer_bytes (body.length / 8) body)).returned = true) ∧
    (body.length % 8 ≠ 0 →
      add_packed_parameter_set_header enc nal_unit_type body = Outcome.abort enc) := by
  have hstart : WRITE_UINT32 [] 0x00000001 32 = Except.ok (uint_bits 1 32) := by
    rw [WRITE_UINT32_ok _ _ _ (by decide) (by decide)]
    rfl
  have hlen : (uint_bits 1 32 ++
      (false :: uint_bits nal_unit_type 6 ++ uint_bits 0 6 ++ uint_bits 1 3) ++ body).length
      = 48 + body.length := by
    simp [uint_bits_length]
    omega
  constructor
  · intro h8
    have hbytes : (48 + body.length + 7) / 8 = 6 + body.length / 8 := by omega
    have hsz : ((48 + body.length) / 8 + 2 ^ 32 - 4) % 2 ^ 32 = 2 + body.length / 8 := by omega
    have hnal_data : (List.drop 4 ([0, 0, 0, 1, nal_unit_type <<< 1, 1]
        ++ bit_writer_bytes (body.length / 8) body)).take (2 + body.length / 8)
        = [nal_unit_type <<< 1, 1] ++ bit_writer_bytes (body.length / 8) body := by
      simp only [List.cons_append, List.drop_succ_cons, List.drop_zero, List.nil_append]
      apply List.take_of_length_le
      simp [bit_writer_bytes_length]
      omega
    have hret : (_check_vps_sps_pps_status enc
        ([nal_unit_type <<< 1, 1] ++ bit_writer_bytes (body.length / 8) body)).returned = true := by
      unfold _check_vps_sps_pps_status
      simp only [List.cons_append, List.length_cons, Nat.add_one_ne_zero, if_false]
      split_ifs <;> rfl
    refine ⟨?_, hret⟩
    unfold add_packed_parameter_set_header
    rw [hstart]
    dsimp only
    rw [bs_write_nal_header_ok]
    rw [writer_of_ok]
    rw [hlen]
    have h8b : ¬ (48 + body.length) % 8 ≠ 0 := by omega
    rw [if_neg h8b, Nat.mod_eq_of_lt hsize, hbytes, hsz,
      packed_header_bytes nal_unit_type hnal body, hnal_data]
    revert hret
    cases _check_vps_sps_pps_status enc
        ([nal_unit_type <<< 1, 1] ++ bit_writer_bytes (body.length / 8) body) with
    | ret v e => intro _; rfl
    | abort e =>
      intro h
      simp [Outcome.returned] at h
  · intro h8
    unfold add_packed_parameter_set_header
    rw [hstart]
    dsimp only
    rw [bs_write_nal_header_ok]
    rw [writer_of_ok]
    rw [hlen]
    have h8b : (48 + body.length) % 8 ≠ 0 := by omega
    rw [if_pos h8b]

/-- The NAL unit type of a slice is below 64. -/
theorem get_nal_unit_type_lt (picture : GstVaapiEncPicture) (nal_unit_type : Nat)
    (h : get_nal_unit_type picture = some nal_unit_type) : nal_unit_type < 64 := by
  unfold get_nal_unit_type at h
  cases hty : picture.type <;> rw [hty] at h <;> simp only at h
  · exact absurd h (by simp)
  · split_ifs at h <;> simp at h <;> rw [← h] <;> decide
  · simp at h
    rw [← h]
    decide
  · simp at h
    rw [← h]
    decide

/-- What `add_packed_slice_header` returns: with a NAL unit type, TRUE and a
packed header made of the start code, the NAL header and the bytes of the
body; without one, FALSE and no packed header. -/
theorem add_packed_slice_header_spec (enc : Encoder) (picture : GstVaapiEncPicture)
    (body : List Bool) (hsize : 48 + body.length < 2 ^ 32) :
    (∀ nal_unit_type, get_nal_unit_type picture = some nal_unit_type →
      add_packed_slice_header enc picture body =
        Outcome.ret
          (true, some ([0, 0, 0, 1, nal_unit_type <<< 1, 1]
            ++ bit_writer_bytes ((body.length + 7) / 8) body)) enc) ∧
    (get_nal_unit_type picture = none →
      add_packed_slice_header enc picture body = Outcome.ret (false, none) enc) := by
  have hstart : WRITE_UINT32 [] 0x00000001 32 = Except.ok (uint_bits 1 32) := by
    rw [WRITE_UINT32_ok _ _ _ (by decide) (by decide)]
    rfl
  constructor
  · intro nal_unit_type hnal
    have hlt := get_nal_unit_type_lt picture nal_unit_type hnal
    have hlen : (uint_bits 1 32 ++
        (false :: uint_bits nal_unit_type 6 ++ uint_bits 0 6 ++ uint_bits 1 3) ++ body).length
        = 48 + body.length := by
      simp [uint_bits_length]
      omega
    have hbytes : (48 + body.length + 7) / 8 = 6 + (body.length + 7) / 8 := by omega
    unfold add_packed_slice_header
    rw [hstart]
    dsimp only
    rw [hnal]
    dsimp only
    rw [bs_write_nal_header_ok]
    rw [writer_of_ok]
    rw [hlen, Nat.mod_eq_of_lt hsize, hbytes, packed_header_bytes nal_unit_type hlt body]
  · intro hnone
    unfold add_packed_slice_header
    rw [hstart]
    dsimp only
    rw [hnone]

/-- Data that begins with the six bytes begins with the NAL header. -/
theorem begins_with_nal_header (nal_unit_type : Nat) (hnal : nal_unit_type < 64)
    (rest : List Nat) :
    BeginsWithNalHeader ([0, 0, 0, 1, nal_unit_type <<< 1, 1] ++ rest) nal_unit_type := by
  refine ⟨by simp, ?_⟩
  simpa using (start_code_nal_header_bytes nal_unit_type hnal).2

/-- C18: every packed header built by `add_packed_vps_header`,
`add_packed_sequence_header`, `add_packed_picture_header` and
`add_packed_slice_header` begins with the six bytes 00 00 00 01,
`nal_unit_type << 1`, 01 (the Annex-B start code, then the NAL header with
`forbidden_zero_bit` 0, the 6-bit `nal_unit_type`, `nuh_layer_id` 0 and
`nuh_temporal_id_plus1` 1), where `nal_unit_type` is VPS, SPS, PPS, or the
value of `get_nal_unit_type` for a slice; and `(byte & 0x7E) >> 1` on the first
header byte gives that `nal_unit_type`, by which `_check_vps_sps_pps_status`
stores the parameter set under its own kind. A parameter-set header is built
whenever the body ends on a byte boundary (the call aborts otherwise), a slice
header whenever the picture has a NAL unit type (the function returns FALSE
otherwise). `body` is the bits the body writer appends; the header fits the
32-bit `bit_size` of a writer. -/
theorem C18_packed_headers_begin_with_nal_header (enc : Encoder) (picture : GstVaapiEncPicture)
    (body : List Bool) (hsize : 48 + body.length < 2 ^ 32) :
    (body.length % 8 = 0 →
      (∃ (data : List Nat) (encoder1 : Encoder),
        add_packed_vps_header enc body = Outcome.ret (true, some data) encoder1 ∧
        BeginsWithNalHeader data GST_H265_NAL_VPS ∧
        (¬ (enc.vps_data.isSome ∧ enc.sps_data.isSome ∧ enc.pps_data.isSome) →
          encoder1.vps_data = some (data.drop 4))) ∧
      (∃ (data : List Nat) (encoder1 : Encoder),
        add_packed_sequence_header enc body = Outcome.ret (true, some data) encoder1 ∧
        BeginsWithNalHeader data GST_H265_NAL_SPS ∧
        (¬ (enc.vps_data.isSome ∧ enc.sps_data.isSome ∧ enc.pps_data.isSome) →
          encoder1.sps_data = some (data.drop 4))) ∧
      (∃ (data : List Nat) (encoder1 : Encoder),
        add_packed_picture_header enc body = Outcome.ret (true, some data) encoder1 ∧
        BeginsWithNalHeader data GST_H265_NAL_PPS ∧
        (¬ (enc.vps_data.isSome ∧ enc.sps_data.isSome ∧ enc.pps_data.isSome) →
          encoder1.pps_data = some (data.drop 4)))) ∧
    (body.length % 8 ≠ 0 →
      add_packed_vps_header enc body = Outcome.abort enc ∧
      add_packed_sequence_header enc body = Outcome.abort enc ∧
      add_packed_picture_header enc body = Outcome.abort enc) ∧
    (∀ nal_unit_type, get_nal_unit_type picture = some nal_unit_type →
      ∃ (data : List Nat),
        add_packed_slice_header enc picture body = Outcome.ret (true, some data) enc ∧
        BeginsWithNalHeader data nal_unit_type) ∧
    (get_nal_unit_type picture = none →
      add_packed_slice_header enc picture body = Outcome.ret (false, none) enc) := by
  have hstore : ∀ (nal_unit_type : Nat) (rest : List Nat),
      ¬ (enc.vps_data.isSome ∧ enc.sps_data.isSome ∧ enc.pps_data.isSome) →
      _check_vps_sps_pps_status enc ([nal_unit_type <<< 1, 1] ++ rest) =
        (let nal_type := ((nal_unit_type <<< 1) &&& 0x7E) >>> 1
        if nal_type = GST_H265_NAL_VPS then
          Outcome.ret () { enc with vps_data := some ([nal_unit_type <<< 1, 1] ++ rest) }
        else if nal_type = GST_H265_NAL_SPS then
          Outcome.ret () { enc with sps_data := some ([nal_unit_type <<< 1, 1] ++ rest) }
        else if nal_type = GST_H265_NAL_PPS then
          Outcome.ret () { enc with pps_data := some ([nal_unit_type <<< 1, 1] ++ rest) }
        else Outcome.ret () enc) := by
    intro nal_unit_type rest hnot
    unfold _check_vps_sps_pps_status
    simp only [List.cons_append, List.length_cons, Nat.add_one_ne_zero, if_false]
    rw [if_neg hnot]
    rfl
  refine ⟨?_, ?_, ?_, (add_packed_slice_header_spec enc picture body hsize).2⟩
  · intro h8
    refine ⟨?_, ?_, ?_⟩
    · obtain ⟨h, _⟩ := (add_packed_parameter_set_header_spec enc GST_H265_NAL_VPS (by decide)
        body hsize).1 h8
      refine ⟨_, _, h, begins_with_nal_header _ (by decide) _, ?_⟩
      intro hnot
      rw [hstore _ _ hnot]
      rfl
    · obtain ⟨h, _⟩ := (add_packed_parameter_set_header_spec enc GST_H265_NAL_SPS (by decide)
        body hsize).1 h8
      refine ⟨_, _, h, begins_with_nal_header _ (by decide) _, ?_⟩
      intro hnot
      rw [hstore _ _ hnot]
      rfl
    · obtain ⟨h, _⟩ := (add_packed_parameter_set_header_spec enc GST_H265_NAL_PPS (by decide)
        body hsize).1 h8
      refine ⟨_, _, h, begins_with_nal_header _ (by decide) _, ?_⟩
      intro hnot
      rw [hstore _ _ hnot]
      rfl
  · intro h8
    exact ⟨(add_packed_parameter_set_header_spec enc GST_H265_NAL_VPS (by decide) body hsize).2 h8,
      (add_packed_parameter_set_header_spec enc GST_H265_NAL_SPS (by decide) body hsize).2 h8,
      (add_packed_parameter_set_header_spec enc GST_H265_NAL_PPS (by decide) body hsize).2 h8⟩
  · intro nal_unit_type hnal
    exact ⟨_, (add_packed_slice_header_spec enc picture body hsize).1 nal_unit_type hnal,
      begins_with_nal_header _ (get_nal_unit_type_lt picture nal_unit_type hnal) _⟩

/-- C18, witness: a fresh encoder, an IDR picture and a body of the two bytes AB
CD: the VPS header is 00 00 00 01 40 01 AB CD and the slice header
00 00 00 01 26 01 AB CD (NAL unit types 32 and 19). -/
theorem C18_packed_headers_begin_with_nal_header_witness :
    add_packed_vps_header {} (uint_bits 0xABCD 16) =
      Outcome.ret (true, some [0, 0, 0, 1, 0x40, 1, 0xAB, 0xCD])
        { vps_data := some [0x40, 1, 0xAB, 0xCD] } ∧
    add_packed_slice_header {} { type := I, idr := true } (uint_bits 0xABCD 16) =
      Outcome.ret (true, some [0, 0, 0, 1, 0x26, 1, 0xAB, 0xCD]) {} ∧
    (∀ nal_unit_type,
      get_nal_unit_type { type := I, idr := true } = some nal_unit_type →
      ∃ (data : List Nat),
        add_packed_slice_header {} { type := I, idr := true } (uint_bits 0xABCD 16)
          = Outcome.ret (true, some data) {} ∧
        BeginsWithNalHeader data nal_unit_type) :=
  ⟨by decide, by decide,
    (C18_packed_headers_begin_with_nal_header {} { type := I, idr := true }
      (uint_bits 0xABCD 16) (by decide)).2.2.1⟩

/-! ## Profile, tier and level -/

/-- A one-bit flag written as 1 under a condition and as 0 otherwise. -/
theorem WRITE_UINT32_flag (c : Prop) [Decidable c] (bs : List Bool) :
    (if c then WRITE_UINT32 bs 1 1 else WRITE_UINT32 bs 0 1) = Except.ok (bs ++ [decide c]) := by
  by_cases h : c
  · rw [if_pos h, WRITE_UINT32_ok _ _ _ (by decide) (by decide)]
    simp [h, uint_bits]
  · rw [if_neg h, WRITE_UINT32_ok _ _ _ (by decide) (by decide)]
    simp [h, uint_bits]

/-- A loop of `n` zero bits appends `n` zero bits. -/
theorem write_zero_bits_ok : ∀ (n : Nat) (bs : List Bool),
    write_zero_bits n bs = Except.ok (bs ++ List.replicate n false) := by
  intro n
  induction n with
  | zero => intro bs; simp [write_zero_bits]
  | succ n ih =>
    intro bs
    rw [write_zero_bits, WRITE_UINT32_ok _ _ _ (by decide) (by decide)]
    simp only [bind, Except.bind]
    rw [ih]
    simp [uint_bits, List.replicate_succ]

/-- A sequence of one-bit writes appends the low bit of each value. -/
theorem write_flags_ok : ∀ (flags : List Nat) (bs : List Bool),
    write_flags flags bs = Except.ok (bs ++ flags.map (fun v => v.testBit 0)) := by
  intro flags
  induction flags with
  | nil => intro bs; simp [write_flags]
  | cons v rest ih =>
    intro bs
    rw [write_flags, WRITE_UINT32_ok _ _ _ (by decide) (by decide)]
    simp only [bind, Except.bind]
    rw [ih]
    simp [uint_bits]

/-- What `bs_write_profile_tier_level` does: it writes 44 bits (profile space,
tier flag, profile, 32 compatibility flags, 4 source and constraint flags);
then, for `general_profile_idc == 4` and a profile the switch does not know,
it fails; otherwise it writes 43 bits, the `general_inbld_flag` and the level. -/
theorem bs_write_profile_tier_level_eq (bs : List Bool)
    (seq_param : VAEncSequenceParameterBufferHEVC) (profile : GstVaapiProfile) :
    bs_write_profile_tier_level bs seq_param profile =
      if seq_param.general_profile_idc = 4 then
        match range_extension_flags profile with
        | some flags =>
          Except.ok (bs ++ ([false, false] ++ uint_bits seq_param.general_tier_flag 1
            ++ uint_bits seq_param.general_profile_idc 5
            ++ ([false,
                decide (seq_param.general_profile_idc = 1 ∨ seq_param.general_profile_idc = 3),
                decide (seq_param.general_profile_idc = 1 ∨ seq_param.general_profile_idc = 2
                  ∨ seq_param.general_profile_idc = 3),
                decide (seq_param.general_profile_idc = 3),
                decide (seq_param.general_profile_idc = 4)] ++ List.replicate 27 false)
            ++ [true, false, false, true]
            ++ (flags.map (fun v => v.testBit 0) ++ List.replicate 34 false)
            ++ [false] ++ uint_bits seq_param.general_level_idc 8))
        | none =>
          Except.error (bs ++ ([false, false] ++ uint_bits seq_param.general_tier_flag 1
            ++ uint_bits seq_param.general_profile_idc 5
            ++ ([false,
                decide (seq_param.general_profile_idc = 1 ∨ seq_param.general_profile_idc = 3),
                decide (seq_param.general_profile_idc = 1 ∨ seq_param.general_profile_idc = 2
                  ∨ seq_param.general_profile_idc = 3),
                decide (seq_param.general_profile_idc = 3),
                decide (seq_param.general_profile_idc = 4)] ++ List.replicate 27 false)
            ++ [true, false, false, true]))
      else
        Except.ok (bs ++ ([false, false] ++ uint_bits seq_param.general_tier_flag 1
          ++ uint_bits seq_param.general_profile_idc 5
          ++ ([false,
              decide (seq_param.general_profile_idc = 1 ∨ seq_param.general_profile_idc = 3),
              decide (seq_param.general_profile_idc = 1 ∨ seq_param.general_profile_idc = 2
                ∨ seq_param.general_profile_idc = 3),
              decide (seq_param.general_profile_idc = 3),
              decide (seq_param.general_profile_idc = 4)] ++ List.replicate 27 false)
          ++ [true, false, false, true]
          ++ List.replicate 43 false
          ++ [false] ++ uint_bits seq_param.general_level_idc 8)) := by
  have h27 : uint_bits 0 27 = List.replicate 27 false := by decide
  have h2 : uint_bits 0 2 = [false, false] := by decide
  have h1 : uint_bits 1 1 = [true] := by decide
  have h0 : uint_bits 0 1 = [false] := by decide
  unfold bs_write_profile_tier_level
  rw [WRITE_UINT32_ok bs 0 2 (by decide) (by decide)]
  dsimp only [bind, Except.bind]
  rw [WRITE_UINT32_ok _ seq_param.general_tier_flag 1 (by decide) (by decide)]
  dsimp only
  rw [WRITE_UINT32_ok _ seq_param.general_profile_idc 5 (by decide) (by decide)]
  dsimp only
  rw [WRITE_UINT32_ok _ 0 1 (by decide) (by decide)]
  dsimp only
  rw [WRITE_UINT32_flag]
  dsimp only
  rw [WRITE_UINT32_flag]
  dsimp only
  rw [WRITE_UINT32_flag]
  dsimp only
  rw [WRITE_UINT32_flag]
  dsimp only
  rw [WRITE_UINT32_ok _ 0 27 (by decide) (by decide)]
  dsimp only
  rw [WRITE_UINT32_ok _ 1 1 (by decide) (by decide)]
  dsimp only
  rw [WRITE_UINT32_ok _ 0 1 (by decide) (by decide)]
  dsimp only
  rw [WRITE_UINT32_ok _ 0 1 (by decide) (by decide)]
  dsimp only
  rw [WRITE_UINT32_ok _ 1 1 (by decide) (by decide)]
  dsimp only
  rw [h27, h2, h1, h0]
  by_cases h4 : seq_param.general_profile_idc = 4
  · rw [if_pos h4, if_pos h4]
    cases range_extension_flags profile with
    | none =>
      dsimp only
      simp only [List.append_assoc, List.cons_append, List.nil_append]
    | some flags =>
      dsimp only [bind, Except.bind]
      rw [write_flags_ok]
      dsimp only
      rw [write_zero_bits_ok]
      dsimp only
      rw [WRITE_UINT32_ok _ 0 1 (by decide) (by decide)]
      dsimp only
      rw [WRITE_UINT32_ok _ seq_param.general_level_idc 8 (by decide) (by decide), h0]
      dsimp only
      simp only [List.append_assoc, List.cons_append, List.nil_append]
  · rw [if_neg h4, if_neg h4, write_zero_bits_ok]
    dsimp only
    rw [WRITE_UINT32_ok _ 0 1 (by decide) (by decide)]
    dsimp only
    rw [WRITE_UINT32_ok _ seq_param.general_level_idc 8 (by decide) (by decide), h0]
    dsimp only
    simp only [List.append_assoc, List.cons_append, List.nil_append]

/-- The bits written for a value, read back with a value already read. -/
theorem foldl_uint_bits (value : Nat) : ∀ (nbits acc : Nat),
    (uint_bits value nbits).foldl (fun acc b => 2 * acc + (if b then 1 else 0)) acc
      = acc * 2 ^ nbits + value % 2 ^ nbits := by
  intro nbits
  induction nbits with
  | zero =>
    intro acc
    simp [uint_bits, Nat.mod_one]
  | succ n ih =>
    intro acc
    have hmod : value % 2 ^ (n + 1) = value % 2 ^ n + 2 ^ n * (value / 2 ^ n % 2) := by
      rw [pow_succ, Nat.mod_mul]
    have hbit : (if value.testBit n then 1 else 0) = value / 2 ^ n % 2 := by
      rw [Nat.testBit_to_div_mod]
      have := Nat.mod_lt (value / 2 ^ n) (show 0 < 2 by decide)
      by_cases h : value / 2 ^ n % 2 = 1
      · simp [h]
      · have h0 : value / 2 ^ n % 2 = 0 := by omega
        simp [h0]
    simp only [uint_bits, List.foldl_cons]
    rw [ih, hmod, hbit, pow_succ]
    ring

/-- The bits written for a value read back as the value modulo `2 ^ nbits`. -/
theorem bits_value_uint_bits (value nbits : Nat) :
    bits_value (uint_bits value nbits) = value % 2 ^ nbits := by
  unfold bits_value
  rw [foldl_uint_bits]
  simp

/-- C19: `bs_write_profile_tier_level` has a fixed 96-bit layout. For every
`seq_param` with `general_tier_flag <= 1` and `general_profile_idc < 32` that is
either not 4, or 4 with a profile among MAIN_444, MAIN_444_10 and MAIN_422_10,
it succeeds and appends exactly 96 bits: `general_profile_space` 0 (2 bits),
`general_tier_flag` (1), `general_profile_idc` (5), 32 compatibility flags,
progressive source 1, interlaced source 0, non-packed constraint 0, frame-only
constraint 1, then 43 bits (the 9 range-extension constraint flags of the
profile followed by 34 zero bits when `general_profile_idc` is 4, else 43 zero
bits), `general_inbld_flag` 0, and the 8 bits of `general_level_idc`, which are
the last byte. The tier flag and the profile read back as written, and so
does a level below 256. -/
theorem C19_profile_tier_level_layout (bs : List Bool)
    (seq_param : VAEncSequenceParameterBufferHEVC) (profile : GstVaapiProfile)
    (htier : seq_param.general_tier_flag ≤ 1) (hidc : seq_param.general_profile_idc < 32)
    (hprofile : seq_param.general_profile_idc ≠ 4 ∨
      profile = GstVaapiProfile.H265_MAIN_444 ∨ profile = GstVaapiProfile.H265_MAIN_444_10 ∨
      profile = GstVaapiProfile.H265_MAIN_422_10) :
    ∃ (flags : List Bool) (extension : List Bool),
      bs_write_profile_tier_level bs seq_param profile =
        Except.ok (bs ++ ([false, false] ++ uint_bits seq_param.general_tier_flag 1
          ++ uint_bits seq_param.general_profile_idc 5 ++ flags ++ [true, false, false, true]
          ++ extension ++ [false] ++ uint_bits seq_param.general_level_idc 8)) ∧
      ([false, false] ++ uint_bits seq_param.general_tier_flag 1
        ++ uint_bits seq_param.general_profile_idc 5 ++ flags ++ [true, false, false, true]
        ++ extension ++ [false] ++ uint_bits seq_param.general_level_idc 8).length = 96 ∧
      flags.length = 32 ∧ extension.length = 43 ∧
      (seq_param.general_profile_idc ≠ 4 → extension = List.replicate 43 false) ∧
      (seq_param.general_profile_idc = 4 →
        (profile = GstVaapiProfile.H265_MAIN_444 → extension =
          [true, true, true, false, false, false, false, false, true]
            ++ List.replicate 34 false) ∧
        (profile = GstVaapiProfile.H265_MAIN_444_10 → extension =
          [true, true, false, false, false, false, false, false, true]
            ++ List.replicate 34 false) ∧
        (profile = GstVaapiProfile.H265_MAIN_422_10 → extension =
          [true, true, false, true, false, false, false, false, true]
            ++ List.replicate 34 false)) ∧
      bits_value (uint_bits seq_param.general_tier_flag 1) = seq_param.general_tier_flag ∧
      bits_value (uint_bits seq_param.general_profile_idc 5) = seq_param.general_profile_idc ∧
      (seq_param.general_level_idc < 256 →
        bits_value (uint_bits seq_param.general_level_idc 8) = seq_param.general_level_idc) := by
  have hread : bits_value (uint_bits seq_param.general_tier_flag 1) = seq_param.general_tier_flag ∧
      bits_value (uint_bits seq_param.general_profile_idc 5) = seq_param.general_profile_idc ∧
      (seq_param.general_level_idc < 256 →
        bits_value (uint_bits seq_param.general_level_idc 8) = seq_param.general_level_idc) := by
    refine ⟨?_, ?_, ?_⟩
    · rw [bits_value_uint_bits]
      exact Nat.mod_eq_of_lt (by omega)
    · rw [bits_value_uint_bits]
      exact Nat.mod_eq_of_lt (by omega)
    · intro h
      rw [bits_value_uint_bits]
      exact Nat.mod_eq_of_lt (by omega)
  rw [bs_write_profile_tier_level_eq]
  by_cases h4 : seq_param.general_profile_idc = 4
  · rw [if_pos h4]
    have hp : profile = GstVaapiProfile.H265_MAIN_444 ∨
        profile = GstVaapiProfile.H265_MAIN_444_10 ∨
        profile = GstVaapiProfile.H265_MAIN_422_10 := by
      rcases hprofile with h | h
      · exact absurd h4 h
      · exact h
    rcases hp with h | h | h <;> rw [h] <;>
      exact ⟨_, _, rfl, by simp [uint_bits_length], by simp, by simp [range_extension_flags],
        fun hne => absurd h4 hne,
        fun _ => by simp [range_extension_flags, Nat.testBit], hread⟩
  · rw [if_neg h4]
    exact ⟨_, _, rfl, by simp [uint_bits_length], by simp, by simp, fun _ => rfl,
      fun h => absurd h h4, hread⟩

/-- C19, witness: the Main 4:2:2 10 profile (`general_profile_idc` 4) in the High
tier at level 4 (`general_level_idc` 120): 96 bits, the bytes
24 08 00 00 00 9D 08 00 00 00 00 78. -/
theorem C19_profile_tier_level_layout_witness :
    GST_BIT_WRITER_DATA (writer_of (bs_write_profile_tier_level []
      { general_profile_idc := 4, general_level_idc := 120, general_tier_flag := 1 }
      GstVaapiProfile.H265_MAIN_422_10)) =
        [0x24, 0x08, 0, 0, 0, 0x9D, 0x08, 0, 0, 0, 0, 0x78] ∧
    ∃ bits : List Bool,
      bs_write_profile_tier_level []
        { general_profile_idc := 4, general_level_idc := 120, general_tier_flag := 1 }
        GstVaapiProfile.H265_MAIN_422_10 = Except.ok bits ∧ bits.length = 96 :=
  ⟨by decide,
    match C19_profile_tier_level_layout []
      { general_profile_idc := 4, general_level_idc := 120, general_tier_flag := 1 }
      GstVaapiProfile.H265_MAIN_422_10 (by decide) (by decide)
      (Or.inr (Or.inr (Or.inr rfl))) with
    | ⟨_, _, h, hlen, _⟩ => ⟨_, h, by simpa using hlen⟩⟩

/-- The bits in the middle of a writer. -/
theorem drop_take_middle (bs pre mid tail : List Bool) (h1 : pre.length = 8)
    (h2 : mid.length = 32) :
    ((bs ++ (pre ++ (mid ++ tail))).drop (bs.length + 8)).take 32 = mid := by
  rw [← List.append_assoc bs pre, List.drop_left' (by simp [h1]), List.take_left' h2]

/-- The compatibility flags that `bs_write_profile_tier_level` writes, whether it
succeeds or fails afterwards. -/
theorem compatibility_flags_written (bs : List Bool)
    (seq_param : VAEncSequenceParameterBufferHEVC) (profile : GstVaapiProfile) :
    general_profile_compatibility_flags bs.length
        (writer_of (bs_write_profile_tier_level bs seq_param profile)) =
      [false,
        decide (seq_param.general_profile_idc = 1 ∨ seq_param.general_profile_idc = 3),
        decide (seq_param.general_profile_idc = 1 ∨ seq_param.general_profile_idc = 2
          ∨ seq_param.general_profile_idc = 3),
        decide (seq_param.general_profile_idc = 3),
        decide (seq_param.general_profile_idc = 4)] ++ List.replicate 27 false := by
  have hpre : ([false, false] ++ uint_bits seq_param.general_tier_flag 1
      ++ uint_bits seq_param.general_profile_idc 5).length = 8 := by
    simp [uint_bits_length]
  have hmid : ([false,
      decide (seq_param.general_profile_idc = 1 ∨ seq_param.general_profile_idc = 3),
      decide (seq_param.general_profile_idc = 1 ∨ seq_param.general_profile_idc = 2
        ∨ seq_param.general_profile_idc = 3),
      decide (seq_param.general_profile_idc = 3),
      decide (seq_param.general_profile_idc = 4)] ++ List.replicate 27 false).length = 32 := by
    simp
  have htail : ∃ tail, writer_of (bs_write_profile_tier_level bs seq_param profile) =
      bs ++ (([false, false] ++ uint_bits seq_param.general_tier_flag 1
        ++ uint_bits seq_param.general_profile_idc 5) ++ (([false,
        decide (seq_param.general_profile_idc = 1 ∨ seq_param.general_profile_idc = 3),
        decide (seq_param.general_profile_idc = 1 ∨ seq_param.general_profile_idc = 2
          ∨ seq_param.general_profile_idc = 3),
        decide (seq_param.general_profile_idc = 3),
        decide (seq_param.general_profile_idc = 4)] ++ List.replicate 27 false) ++ tail)) := by
    rw [bs_write_profile_tier_level_eq]
    by_cases h4 : seq_param.general_profile_idc = 4
    · rw [if_pos h4]
      cases range_extension_flags profile with
      | none =>
        exact ⟨[true, false, false, true],
          by dsimp only [writer_of]; simp only [List.append_assoc]⟩
      | some flags =>
        exact ⟨[true, false, false, true]
          ++ (flags.map (fun v => v.testBit 0) ++ List.replicate 34 false)
          ++ [false] ++ uint_bits seq_param.general_level_idc 8,
          by dsimp only [writer_of]; simp only [List.append_assoc]⟩
    · rw [if_neg h4]
      exact ⟨[true, false, false, true] ++ List.replicate 43 false
        ++ [false] ++ uint_bits seq_param.general_level_idc 8,
        by dsimp only [writer_of]; simp only [List.append_assoc]⟩
  obtain ⟨tail, ht⟩ := htail
  unfold general_profile_compatibility_flags
  rw [ht]
  exact drop_take_middle _ _ _ _ hpre hmid

/-- C20: the compatibility flags that `bs_write_profile_tier_level` writes (also
when it fails afterwards): flag 0 and the flags 5 to 31 are 0; flag 1 is 1 if
and only if `general_profile_idc` is 1 or 3; flag 2 if and only if it is 1, 2
or 3; flag 3 if and only if it is 3; flag 4 if and only if it is 4. So for
`general_profile_idc` from 1 to 4 the flag of that index is 1, flag 3 set
implies flags 1 and 2 set, and flag 1 set implies flag 2 set. -/
theorem C20_compatibility_flags (bs : List Bool) (seq_param : VAEncSequenceParameterBufferHEVC)
    (profile : GstVaapiProfile) :
    ∃ flags : List Bool,
      general_profile_compatibility_flags bs.length
        (writer_of (bs_write_profile_tier_level bs seq_param profile)) = flags ∧
      flags.length = 32 ∧
      flags[0]? = some false ∧
      (∀ j : Nat, 5 ≤ j → j < 32 → flags[j]? = some false) ∧
      (flags[1]? = some true ↔
        seq_param.general_profile_idc = 1 ∨ seq_param.general_profile_idc = 3) ∧
      (flags[2]? = some true ↔
        seq_param.general_profile_idc = 1 ∨ seq_param.general_profile_idc = 2
          ∨ seq_param.general_profile_idc = 3) ∧
      (flags[3]? = some true ↔ seq_param.general_profile_idc = 3) ∧
      (flags[4]? = some true ↔ seq_param.general_profile_idc = 4) ∧
      (1 ≤ seq_param.general_profile_idc → seq_param.general_profile_idc ≤ 4 →
        flags[seq_param.general_profile_idc]? = some true) ∧
      (flags[3]? = some true → flags[1]? = some true ∧ flags[2]? = some true) ∧
      (flags[1]? = some true → flags[2]? = some true) := by
  refine ⟨_, compatibility_flags_written bs seq_param profile, by simp, by simp, ?_, by simp,
    by simp, by simp, by simp, ?_, ?_, ?_⟩
  · intro j h5 h32
    have hj : j = (j - 5) + 5 := by omega
    rw [hj]
    simp only [List.cons_append, List.nil_append, List.getElem?_cons_succ]
    rw [List.getElem?_replicate]
    simp
    omega
  · intro h1 h4
    have : seq_param.general_profile_idc = 1 ∨ seq_param.general_profile_idc = 2 ∨
        seq_param.general_profile_idc = 3 ∨ seq_param.general_profile_idc = 4 := by omega
    rcases this with h | h | h | h <;> simp [h]
  · intro h
    have h3 : seq_param.general_profile_idc = 3 := by simpa using h
    simp [h3]
  · intro h
    have h13 : seq_param.general_profile_idc = 1 ∨ seq_param.general_profile_idc = 3 := by
      simpa using h
    rcases h13 with h | h <;> simp [h]

/-! ## Syntax elements and their bits -/

/-- The bits of the value 0 are zero bits. -/
theorem uint_bits_zero : ∀ n : Nat, uint_bits 0 n = List.replicate n false
  | 0 => rfl
  | n + 1 => by
    rw [uint_bits, uint_bits_zero n, List.replicate_succ]
    simp

/-- Bits above the width of a value are zero bits. -/
theorem uint_bits_high (value n : Nat) (h : value < 2 ^ n) :
    ∀ k : Nat, uint_bits value (n + k) = List.replicate k false ++ uint_bits value n
  | 0 => by simp
  | k + 1 => by
    have hlt : value < 2 ^ (n + k) :=
      lt_of_lt_of_le h (Nat.pow_le_pow_right (by decide) (Nat.le_add_right n k))
    rw [← Nat.add_assoc, uint_bits, uint_bits_high value n h k, Nat.testBit_lt_two_pow hlt,
      List.replicate_succ]
    simp

/-- The function `bs_write_ue` appends to the writer what it writes to an empty
writer. -/
theorem bs_write_ue_eq (bs : List Bool) (value : Nat) :
    bs_write_ue bs value = (bs_write_ue [] value).map (fun bits => bs ++ bits) := by
  unfold bs_write_ue gst_bit_writer_put_bits_uint32
  dsimp only
  split_ifs <;> simp

/-- The write of a syntax element either fails, leaving the writer, or appends
the bits of the element. -/
theorem write_element_eq (bs : List Bool) (element : SyntaxElement) :
    write_element bs element =
      if write_ok (write_element [] element) then Except.ok (bs ++ element_bits element)
      else Except.error bs := by
  cases element with
  | u value nbits =>
    unfold element_bits write_element WRITE_UINT32 gst_bit_writer_put_bits_uint32
    by_cases h : nbits = 0 ∨ 32 < nbits
    · simp [h, write_ok]
    · simp [h, write_ok, writer_of]
  | ue value =>
    simp only [element_bits, write_element, WRITE_UE]
    rw [bs_write_ue_eq bs value]
    cases bs_write_ue [] value with
    | none => simp [write_ok]
    | some bits => simp [write_ok, writer_of]

/-- A sequence of writes that returns TRUE appended the bits of its elements. -/
theorem write_elements_eq : ∀ (elements : List SyntaxElement) (bs : List Bool),
    write_ok (write_elements elements bs) = true →
      write_elements elements bs = Except.ok (bs ++ elements_bits elements)
  | [], bs, _ => by simp [write_elements, elements_bits]
  | element :: rest, bs, h => by
    unfold write_elements at h ⊢
    rw [write_element_eq bs element] at h ⊢
    by_cases hok : write_ok (write_element [] element) = true
    · rw [if_pos hok] at h ⊢
      dsimp only at h ⊢
      rw [write_elements_eq rest _ h]
      simp [elements_bits]
    · rw [if_neg hok] at h
      simp [write_ok] at h

/-- Every write of a sequence that returns TRUE succeeds. -/
theorem write_elements_mem : ∀ (elements : List SyntaxElement) (bs : List Bool),
    write_ok (write_elements elements bs) = true →
      ∀ element ∈ elements, write_ok (write_element [] element) = true
  | [], _, _ => by simp
  | first :: rest, bs, h => by
    unfold write_elements at h
    rw [write_element_eq bs first] at h
    by_cases hok : write_ok (write_element [] first) = true
    · rw [if_pos hok] at h
      dsimp only at h
      intro element hmem
      rcases List.mem_cons.1 hmem with rfl | hrest
      · exact hok
      · exact write_elements_mem rest _ h element hrest
    · rw [if_neg hok] at h
      simp [write_ok] at h

/-- A sequence of writes of 1 to 32 bits each returns TRUE. -/
theorem write_elements_u_ok : ∀ (elements : List SyntaxElement) (bs : List Bool),
    (∀ element ∈ elements, ∃ value nbits, element = SyntaxElement.u value nbits
      ∧ 1 ≤ nbits ∧ nbits ≤ 32) →
      write_elements elements bs = Except.ok (bs ++ elements_bits elements)
  | [], bs, _ => by simp [write_elements, elements_bits]
  | first :: rest, bs, h => by
    obtain ⟨value, nbits, rfl, h1, h2⟩ := h first (List.mem_cons_self _ _)
    unfold write_elements
    have hw : write_element bs (SyntaxElement.u value nbits)
        = Except.ok (bs ++ uint_bits value nbits) := WRITE_UINT32_ok bs value nbits h1 h2
    have hb : element_bits (SyntaxElement.u value nbits) = uint_bits value nbits := by
      unfold element_bits
      rw [show write_element [] (SyntaxElement.u value nbits)
        = Except.ok ([] ++ uint_bits value nbits) from WRITE_UINT32_ok [] value nbits h1 h2]
      rfl
    rw [hw]
    dsimp only
    rw [write_elements_u_ok rest _ (fun element hmem => h element (List.mem_cons_of_mem _ hmem))]
    simp [elements_bits, hb]

/-- The bits of a write of 1 to 32 bits. -/
theorem element_bits_u (value nbits : Nat) (h1 : 1 ≤ nbits) (h2 : nbits ≤ 32) :
    element_bits (SyntaxElement.u value nbits) = uint_bits value nbits := by
  unfold element_bits
  rw [show write_element [] (SyntaxElement.u value nbits)
    = Except.ok ([] ++ uint_bits value nbits) from WRITE_UINT32_ok [] value nbits h1 h2]
  rfl

/-- No element, no bits. -/
theorem elements_bits_nil : elements_bits [] = [] := rfl

/-- The bits of the first element of a sequence come first. -/
theorem elements_bits_cons (element : SyntaxElement) (rest : List SyntaxElement) :
    elements_bits (element :: rest) = element_bits element ++ elements_bits rest := by
  simp [elements_bits]

/-- The bits of two sequences in a row. -/
theorem elements_bits_append (first second : List SyntaxElement) :
    elements_bits (first ++ second) = elements_bits first ++ elements_bits second := by
  simp [elements_bits]

/-- The Exp-Golomb code written for a value below `2 ^ 32 - 1`: as many zero bits
as `value + 1` has bits after its first, then the bits of `value + 1`. -/
theorem bs_write_ue_bits (value : Nat) (hv : value + 1 < 2 ^ 32) :
    bs_write_ue [] value =
      some (List.replicate (Nat.size (value + 1) - 1) false
        ++ uint_bits (value + 1) (Nat.size (value + 1))) := by
  have hsize : Nat.size (value + 1) ≤ 32 := Nat.size_le.2 hv
  have hpos : 1 ≤ Nat.size (value + 1) := by
    have := (Nat.lt_size (m := 0) (n := value + 1)).2 (by simp)
    omega
  unfold bs_write_ue gst_bit_writer_put_bits_uint32
  dsimp only
  rw [Nat.mod_eq_of_lt hv, h265_count_bits_eq 32 (value + 1) 0 hv, Nat.zero_add]
  by_cases h1 : Nat.size (value + 1) > 1
  · rw [if_pos h1]
    have hc1 : ¬ (Nat.size (value + 1) - 1 = 0 ∨ 32 < Nat.size (value + 1) - 1) := by omega
    have hc2 : ¬ (Nat.size (value + 1) = 0 ∨ 32 < Nat.size (value + 1)) := by omega
    rw [if_neg hc1]
    dsimp only
    rw [if_neg hc2, uint_bits_zero]
    simp
  · rw [if_neg h1]
    have hc2 : ¬ (Nat.size (value + 1) = 0 ∨ 32 < Nat.size (value + 1)) := by omega
    have h0 : Nat.size (value + 1) - 1 = 0 := by omega
    dsimp only
    rw [if_neg hc2, h0]
    simp

/-- A value whose Exp-Golomb write succeeds is below `2 ^ 32 - 1`, for a 32-bit
value. -/
theorem bs_write_ue_ok (value : Nat) (hv : value < 2 ^ 32)
    (h : write_ok (write_element [] (SyntaxElement.ue value)) = true) : value + 1 < 2 ^ 32 := by
  by_contra hnot
  have hval : value + 1 = 2 ^ 32 := by omega
  have hfail : bs_write_ue [] value = none := by
    unfold bs_write_ue gst_bit_writer_put_bits_uint32
    dsimp only
    rw [hval, Nat.mod_self]
    simp [h265_count_bits]
  simp [write_element, WRITE_UE, hfail, write_ok] at h

/-! ## The reference reader on written bits -/

/-- The reader of u(n) takes back what a write of `nbits` bits appended. -/
theorem read_u_spec_uint_bits (value nbits : Nat) (rest : List Bool) :
    read_u_spec nbits (uint_bits value nbits ++ rest) = some (value % 2 ^ nbits, rest) := by
  unfold read_u_spec
  have hlen := uint_bits_length value nbits
  rw [if_pos (by simp [hlen]), List.take_left' hlen, List.drop_left' hlen, bits_value_uint_bits]

/-- The reader of u(n) on `n` bits followed by more. -/
theorem read_u_spec_append (n : Nat) (bits rest : List Bool) (h : bits.length = n) :
    read_u_spec n (bits ++ rest) = some (bits_value bits, rest) := by
  unfold read_u_spec
  rw [if_pos (by simp [h]), List.take_left' h, List.drop_left' h]

/-- The reader of ue(v) over leading zero bits. -/
theorem read_ue_zeros_replicate : ∀ (m k : Nat) (tail : List Bool),
    read_ue_zeros_spec k (List.replicate m false ++ true :: tail) =
      match read_u_spec (k + m) tail with
      | some (value, rest1) => some (2 ^ (k + m) - 1 + value, rest1)
      | none => none
  | 0, k, tail => by simp [read_ue_zeros_spec]
  | m + 1, k, tail => by
    rw [List.replicate_succ, List.cons_append, read_ue_zeros_spec,
      read_ue_zeros_replicate m (k + 1) tail]
    rw [show k + 1 + m = k + (m + 1) by omega]

/-- The reference reader of ue(v) takes back the value that `bs_write_ue` wrote. -/
theorem read_ue_spec_written (value : Nat) (hv : value + 1 < 2 ^ 32) (rest : List Bool) :
    read_ue_spec (element_bits (SyntaxElement.ue value) ++ rest) = some (value, rest) := by
  have hbits : element_bits (SyntaxElement.ue value) =
      List.replicate (Nat.size (value + 1) - 1) false
        ++ uint_bits (value + 1) (Nat.size (value + 1)) := by
    simp only [element_bits, write_element, WRITE_UE]
    rw [bs_write_ue_bits value hv]
    rfl
  have hpos : 1 ≤ Nat.size (value + 1) := by
    have := (Nat.lt_size (m := 0) (n := value + 1)).2 (by simp)
    omega
  obtain ⟨s, hs⟩ : ∃ s, Nat.size (value + 1) = s + 1 := ⟨Nat.size (value + 1) - 1, by omega⟩
  have hlow : 2 ^ s ≤ value + 1 := (Nat.lt_size (m := s) (n := value + 1)).1 (by omega)
  have hhigh : value + 1 < 2 ^ (s + 1) := by
    rw [← hs]
    exact Nat.lt_size_self _
  have hdiv : (value + 1) / 2 ^ s = 1 := by
    apply Nat.div_eq_of_lt_le
    · omega
    · rw [pow_succ] at hhigh
      omega
  have htop : (value + 1).testBit s = true := by
    rw [Nat.testBit_to_div_mod, hdiv]
    rfl
  have hmod : 2 ^ s - 1 + (value + 1) % 2 ^ s = value := by
    have h := Nat.div_add_mod (value + 1) (2 ^ s)
    rw [hdiv] at h
    omega
  rw [hbits, hs, Nat.add_sub_cancel, uint_bits, htop, read_ue_spec, List.append_assoc,
    List.cons_append, read_ue_zeros_replicate s 0, Nat.zero_add, read_u_spec_uint_bits]
  dsimp only
  rw [hmod]

/-! ## Configuration of profile, tier and level -/

/-- The function `ensure_hw_profile_limits` writes `hw_max_profile_idc` only. -/
theorem ensure_hw_profile_limits_snd (enc : Encoder) (backend : Backend) :
    ∃ hw, (ensure_hw_profile_limits enc backend).2 = { enc with hw_max_profile_idc := hw } := by
  unfold ensure_hw_profile_limits
  split_ifs
  · exact ⟨enc.hw_max_profile_idc, rfl⟩
  · cases backend.encode_profiles with
    | none => exact ⟨enc.hw_max_profile_idc, rfl⟩
    | some profiles => exact ⟨_, rfl⟩

/-- The function `ensure_hw_profile_limits` fails only when the display gives no
encode profiles. -/
theorem ensure_hw_profile_limits_false (enc : Encoder) (backend : Backend)
    (h : (ensure_hw_profile_limits enc backend).1 = false) : backend.encode_profiles = none := by
  by_cases h0 : enc.hw_max_profile_idc ≠ 0
  · simp [ensure_hw_profile_limits, h0] at h
  · cases hp : backend.encode_profiles with
    | none => rfl
    | some profiles => simp [ensure_hw_profile_limits, h0, hp] at h

/-- The function `ensure_tuning` leaves the format and the profile ceiling. -/
theorem ensure_tuning_snd (enc : Encoder) (backend : Backend) :
    (ensure_tuning enc backend).2.format = enc.format ∧
    (ensure_tuning enc backend).2.max_profile_idc = enc.max_profile_idc := by
  unfold ensure_tuning
  cases enc.tune with
  | OTHER => exact ⟨rfl, rfl⟩
  | HIGH_COMPRESSION =>
    dsimp only
    unfold ensure_tuning_high_compression
    obtain ⟨hw, hhw⟩ := ensure_hw_profile_limits_snd enc backend
    rcases hres : ensure_hw_profile_limits enc backend with ⟨ok, enc1⟩
    rw [hres] at hhw
    dsimp only at hhw
    subst hhw
    cases ok
    · exact ⟨rfl, rfl⟩
    · dsimp only
      split_ifs <;> exact ⟨rfl, rfl⟩

/-- The function `ensure_bitrate` leaves the profile and the hardware limit. -/
theorem ensure_bitrate_profile (enc : Encoder) :
    (ensure_bitrate enc).profile = enc.profile ∧
    (ensure_bitrate enc).profile_idc = enc.profile_idc ∧
    (ensure_bitrate enc).hw_max_profile_idc = enc.hw_max_profile_idc ∧
    (ensure_bitrate enc).entrypoint = enc.entrypoint := by
  unfold ensure_bitrate ensure_bitrate_hrd
  dsimp only
  split_ifs <;> exact ⟨rfl, rfl, rfl, rfl⟩

/-- The function `ensure_tier_level` leaves the profile and the hardware limit. -/
theorem ensure_tier_level_profile (enc : Encoder) (table : List GstVaapiH265LevelLimits) :
    (ensure_tier_level enc table).2.profile = enc.profile ∧
    (ensure_tier_level enc table).2.profile_idc = enc.profile_idc ∧
    (ensure_tier_level enc table).2.hw_max_profile_idc = enc.hw_max_profile_idc ∧
    (ensure_tier_level enc table).2.entrypoint = enc.entrypoint := by
  unfold ensure_tier_level
  cases tier_level_index enc table <;> exact ⟨rfl, rfl, rfl, rfl⟩

/-- What `ensure_profile_tier_level` leaves of the profile chosen by
`ensure_profile` and `ensure_profile_limits`, and when it reports an
unsupported profile. -/
theorem ensure_profile_tier_level_profile (enc : Encoder) (backend : Backend) :
    (ensure_profile_tier_level enc backend).2.profile =
      (ensure_profile_limits (ensure_profile (ensure_tuning enc backend).2 backend)
        backend).profile ∧
    (ensure_profile_tier_level enc backend).2.profile_idc =
      (ensure_profile_limits (ensure_profile (ensure_tuning enc backend).2 backend)
        backend).profile_idc ∧
    ((ensure_profile_tier_level enc backend).1 = GstVaapiEncoderStatus.ERROR_UNSUPPORTED_PROFILE →
      (ensure_profile_tier_level enc backend).2.entrypoint = GstVaapiEntrypoint.INVALID ∨
      backend.encode_profiles = none ∨
      (ensure_profile_tier_level enc backend).2.hw_max_profile_idc <
        (ensure_profile_tier_level enc backend).2.profile_idc) := by
  unfold ensure_profile_tier_level
  dsimp only
  generalize ensure_profile_limits (ensure_profile (ensure_tuning enc backend).2 backend)
    backend = enc2
  by_cases hentry : backend.get_entrypoint enc2.profile = GstVaapiEntrypoint.INVALID
  · rw [if_pos hentry]
    exact ⟨rfl, rfl, fun _ => Or.inl hentry⟩
  · rw [if_neg hentry]
    obtain ⟨hw, hhw⟩ := ensure_hw_profile_limits_snd
      { enc2 with entrypoint := backend.get_entrypoint enc2.profile } backend
    have hfalse := ensure_hw_profile_limits_false
      { enc2 with entrypoint := backend.get_entrypoint enc2.profile } backend
    rcases hres : ensure_hw_profile_limits
      { enc2 with entrypoint := backend.get_entrypoint enc2.profile } backend with ⟨ok, enc4⟩
    rw [hres] at hhw hfalse
    dsimp only at hhw hfalse
    subst hhw
    cases ok
    · dsimp only
      exact ⟨rfl, rfl, fun _ => Or.inr (Or.inl (hfalse rfl))⟩
    · dsimp only
      by_cases hgt : enc2.profile_idc > hw
      · rw [if_pos hgt]
        exact ⟨rfl, rfl, fun _ => Or.inr (Or.inr hgt)⟩
      · rw [if_neg hgt]
        obtain ⟨t1, t2, _, _⟩ := ensure_tier_level_profile
          (ensure_bitrate { enc2 with entrypoint := backend.get_entrypoint enc2.profile,
                                      hw_max_profile_idc := hw }) backend.limits_table
        obtain ⟨b1, b2, _, _⟩ := ensure_bitrate_profile
          { enc2 with entrypoint := backend.get_entrypoint enc2.profile,
                      hw_max_profile_idc := hw }
        rcases hres5 : ensure_tier_level
          (ensure_bitrate { enc2 with entrypoint := backend.get_entrypoint enc2.profile,
                                      hw_max_profile_idc := hw }) backend.limits_table
          with ⟨ok5, enc5⟩
        rw [hres5] at t1 t2
        dsimp only at t1 t2
        rw [b1] at t1
        rw [b2] at t2
        cases ok5
        · dsimp only
          exact ⟨t1, t2, fun h => by simp at h⟩
        · dsimp only
          split_ifs
          · exact ⟨t1, t2, fun h => by simp at h⟩
          · exact ⟨t1, t2, fun h => by simp at h⟩

/-- A ceiling stored by `gst_vaapi_encoder_h265_set_max_profile` is not 0. -/
theorem set_max_profile_ceiling (enc : Encoder) (backend : Backend) (profile : GstVaapiProfile)
    (h : (gst_vaapi_encoder_h265_set_max_profile enc backend profile).1 = true) :
    (gst_vaapi_encoder_h265_set_max_profile enc backend profile).2.max_profile_idc ≠ 0 := by
  unfold gst_vaapi_encoder_h265_set_max_profile at h ⊢
  by_cases h1 : profile = GstVaapiProfile.UNKNOWN
  · simp [h1] at h
  · by_cases h2 : backend.is_h265 profile
    · rw [if_neg h1, if_neg (not_not.2 h2)] at h ⊢
      dsimp only at h ⊢
      by_cases h3 : backend.get_profile_idc profile % 2 ^ 8 = 0
      · rw [if_pos h3] at h
        simp at h
      · rw [if_neg h3]
        exact h3
    · simp [h1, h2] at h


/-- The function `bs_write_trailing_bits` returns TRUE, appends a 1 bit and zero
bits up to the next byte boundary, and leaves a writer of whole bytes. -/
theorem bs_write_trailing_bits_spec (bs : List Bool) :
    bs_write_trailing_bits bs
      = (true, bs ++ [true] ++ List.replicate ((8 - (bs.length + 1) % 8) % 8) false) ∧
    (bs_write_trailing_bits bs).2.length % 8 = 0 := by
  have h : bs_write_trailing_bits bs
      = (true, bs ++ [true] ++ List.replicate ((8 - (bs.length + 1) % 8) % 8) false) := by
    unfold bs_write_trailing_bits gst_bit_writer_put_bits_uint32
    simp [uint_bits]
  refine ⟨h, ?_⟩
  rw [h]
  simp only [List.length_append, List.length_cons, List.length_nil, List.length_replicate]
  omega

/-- The writer of a packed header holds 48 bits when the body writer is called. -/
theorem packed_header_writer_length (nal_unit_type : Nat) :
    (packed_header_writer nal_unit_type).length = 48 := by
  unfold packed_header_writer
  rw [WRITE_UINT32_ok _ _ _ (by decide) (by decide), writer_of_ok, bs_write_nal_header_ok,
    writer_of_ok]
  simp [uint_bits_length]


/-- A parameter-set header with a body of whole bytes is returned with TRUE and
holds whole bytes: the start code, the NAL header and the bytes of the body. -/
theorem packed_header_whole_bytes (enc : Encoder) (nal_unit_type : Nat)
    (hnal : nal_unit_type < 64) (body : List Bool) (hsize : 48 + body.length < 2 ^ 32)
    (h8 : body.length % 8 = 0) :
    ∃ (data : List Nat) (encoder1 : Encoder),
      add_packed_parameter_set_header enc nal_unit_type body
        = Outcome.ret (true, some data) encoder1 ∧
      data = [0, 0, 0, 1, nal_unit_type <<< 1, 1] ++ bit_writer_bytes (body.length / 8) body ∧
      8 * data.length = 48 + body.length := by
  obtain ⟨h, _⟩ := (add_packed_parameter_set_header_spec enc nal_unit_type hnal body hsize).1 h8
  refine ⟨_, _, h, rfl, ?_⟩
  rw [List.length_append, bit_writer_bytes_length]
  have h6 : [0, 0, 0, 1, nal_unit_type <<< 1, 1].length = 6 := rfl
  rw [h6]
  omega

/-- The function `bs_write_vps` returns FALSE; after field writes that all
succeeded it has appended the trailing bits and leaves whole bytes. -/
theorem bs_write_vps_spec (writer : List Bool) (enc : Encoder)
    (seq_param : VAEncSequenceParameterBufferHEVC) (profile : GstVaapiProfile) :
    (bs_write_vps writer enc seq_param profile).1 = false ∧
    ∀ (data : List Bool), bs_write_vps_data writer enc seq_param profile = Except.ok data →
      bs_write_vps writer enc seq_param profile
        = (false, data ++ [true] ++ List.replicate ((8 - (data.length + 1) % 8) % 8) false) ∧
      (bs_write_vps writer enc seq_param profile).2.length % 8 = 0 := by
  constructor
  · unfold bs_write_vps
    split_ifs <;> rfl
  · intro data hdata
    have h : bs_write_vps writer enc seq_param profile
        = (false, (bs_write_trailing_bits data).2) := by
      unfold bs_write_vps
      rw [hdata]
      rfl
    rw [h]
    exact ⟨by rw [(bs_write_trailing_bits_spec data).1], (bs_write_trailing_bits_spec data).2⟩

/-- The function `bs_write_sps` returns FALSE; after field writes that all
succeeded it has appended the trailing bits and leaves whole bytes. -/
theorem bs_write_sps_spec (writer : List Bool) (enc : Encoder)
    (seq_param : VAEncSequenceParameterBufferHEVC) (profile : GstVaapiProfile)
    (rate_control : GstVaapiRateControl) (buffer_size : Nat) :
    (bs_write_sps writer enc seq_param profile rate_control buffer_size).1 = false ∧
    ∀ (data : List Bool),
      bs_write_sps_data writer enc seq_param profile rate_control buffer_size = Except.ok data →
      bs_write_sps writer enc seq_param profile rate_control buffer_size
        = (false, data ++ [true] ++ List.replicate ((8 - (data.length + 1) % 8) % 8) false) ∧
      (bs_write_sps writer enc seq_param profile rate_control buffer_size).2.length % 8 = 0 := by
  constructor
  · unfold bs_write_sps
    split_ifs <;> rfl
  · intro data hdata
    have h : bs_write_sps writer enc seq_param profile rate_control buffer_size
        = (false, (bs_write_trailing_bits data).2) := by
      unfold bs_write_sps
      rw [hdata]
      rfl
    rw [h]
    exact ⟨by rw [(bs_write_trailing_bits_spec data).1], (bs_write_trailing_bits_spec data).2⟩

/-- The body that `bs_write_vps` appends in `add_packed_vps_header` holds whole
bytes when every field write succeeded. -/
theorem packed_vps_body_length (enc : Encoder) (seq_param : VAEncSequenceParameterBufferHEVC)
    (hok : write_ok (bs_write_vps_data (packed_header_writer GST_H265_NAL_VPS) enc seq_param
      enc.profile) = true) :
    (packed_vps_body enc seq_param).length % 8 = 0 := by
  unfold packed_vps_body
  rw [List.length_drop, packed_header_writer_length]
  cases hdata : bs_write_vps_data (packed_header_writer GST_H265_NAL_VPS) enc seq_param
      enc.profile with
  | error e =>
    rw [hdata] at hok
    simp [write_ok] at hok
  | ok data =>
    have hlen := ((bs_write_vps_spec _ enc seq_param enc.profile).2 data hdata).2
    generalize (bs_write_vps (packed_header_writer GST_H265_NAL_VPS) enc seq_param
      enc.profile).2.length = n at hlen
    omega

/-- The body that `bs_write_sps` appends in `add_packed_sequence_header` holds
whole bytes when every field write succeeded. -/
theorem packed_sps_body_length (enc : Encoder) (seq_param : VAEncSequenceParameterBufferHEVC)
    (buffer_size : Nat)
    (hok : write_ok (bs_write_sps_data (packed_header_writer GST_H265_NAL_SPS) enc seq_param
      enc.profile enc.rate_control buffer_size) = true) :
    (packed_sps_body enc seq_param buffer_size).length % 8 = 0 := by
  unfold packed_sps_body
  rw [List.length_drop, packed_header_writer_length]
  cases hdata : bs_write_sps_data (packed_header_writer GST_H265_NAL_SPS) enc seq_param
      enc.profile enc.rate_control buffer_size with
  | error e =>
    rw [hdata] at hok
    simp [write_ok] at hok
  | ok data =>
    have hlen := ((bs_write_sps_spec _ enc seq_param enc.profile enc.rate_control
      buffer_size).2 data hdata).2
    generalize (bs_write_sps (packed_header_writer GST_H265_NAL_SPS) enc seq_param
      enc.profile enc.rate_control buffer_size).2.length = n at hlen
    omega

/-- The functions `bs_write_vps` and `bs_write_sps` return FALSE on every input; when every
field write succeeded (`bs_write_vps_data`, `bs_write_sps_data` returned TRUE with
the writer `data`) they first append `rbsp_trailing_bits`, a 1 bit and zero bits
up to the byte boundary, so the writer they leave holds whole bytes; and
`add_packed_vps_header` and `add_packed_sequence_header`, which do not look at
that result, then return TRUE with a packed header of whole bytes (the start
code, the NAL header and the bytes of the body) attached to the picture. The
header fits the 32-bit `bit_size` of a writer. -/
theorem vps_sps_writers_return_false (bs : List Bool) (enc : Encoder)
    (seq_param : VAEncSequenceParameterBufferHEVC) (profile : GstVaapiProfile)
    (rate_control : GstVaapiRateControl) (buffer_size : Nat) :
    (bs_write_vps bs enc seq_param profile).1 = false ∧
    (bs_write_sps bs enc seq_param profile rate_control buffer_size).1 = false ∧
    (∀ (data : List Bool), bs_write_vps_data bs enc seq_param profile = Except.ok data →
      bs_write_vps bs enc seq_param profile
        = (false, data ++ [true] ++ List.replicate ((8 - (data.length + 1) % 8) % 8) false) ∧
      (bs_write_vps bs enc seq_param profile).2.length % 8 = 0) ∧
    (∀ (data : List Bool),
      bs_write_sps_data bs enc seq_param profile rate_control buffer_size = Except.ok data →
      bs_write_sps bs enc seq_param profile rate_control buffer_size
        = (false, data ++ [true] ++ List.replicate ((8 - (data.length + 1) % 8) % 8) false) ∧
      (bs_write_sps bs enc seq_param profile rate_control buffer_size).2.length % 8 = 0) ∧
    (write_ok (bs_write_vps_data (packed_header_writer GST_H265_NAL_VPS) enc seq_param
        enc.profile) = true →
      48 + (packed_vps_body enc seq_param).length < 2 ^ 32 →
      ∃ (data : List Nat) (encoder1 : Encoder),
        add_packed_vps_header enc (packed_vps_body enc seq_param)
          = Outcome.ret (true, some data) encoder1 ∧
        data = [0, 0, 0, 1, GST_H265_NAL_VPS <<< 1, 1]
          ++ bit_writer_bytes ((packed_vps_body enc seq_param).length / 8)
            (packed_vps_body enc seq_param) ∧
        8 * data.length = 48 + (packed_vps_body enc seq_param).length) ∧
    (write_ok (bs_write_sps_data (packed_header_writer GST_H265_NAL_SPS) enc seq_param
        enc.profile enc.rate_control buffer_size) = true →
      48 + (packed_sps_body enc seq_param buffer_size).length < 2 ^ 32 →
      ∃ (data : List Nat) (encoder1 : Encoder),
        add_packed_sequence_header enc (packed_sps_body enc seq_param buffer_size)
          = Outcome.ret (true, some data) encoder1 ∧
        data = [0, 0, 0, 1, GST_H265_NAL_SPS <<< 1, 1]
          ++ bit_writer_bytes ((packed_sps_body enc seq_param buffer_size).length / 8)
            (packed_sps_body enc seq_param buffer_size) ∧
        8 * data.length = 48 + (packed_sps_body enc seq_param buffer_size).length) := by
  exact ⟨(bs_write_vps_spec bs enc seq_param profile).1,
    (bs_write_sps_spec bs enc seq_param profile rate_control buffer_size).1,
    (bs_write_vps_spec bs enc seq_param profile).2,
    (bs_write_sps_spec bs enc seq_param profile rate_control buffer_size).2,
    fun hok hsize => packed_header_whole_bytes enc GST_H265_NAL_VPS (by decide) _ hsize
      (packed_vps_body_length enc seq_param hok),
    fun hok hsize => packed_header_whole_bytes enc GST_H265_NAL_SPS (by decide) _ hsize
      (packed_sps_body_length enc seq_param buffer_size hok)⟩


/-! ## Round trip of the SPS -/

/-- A `profile_tier_level` that is written in full is 88 bits followed by the 8
bits of `general_level_idc`. -/
theorem bs_write_profile_tier_level_full (bs : List Bool)
    (seq_param : VAEncSequenceParameterBufferHEVC) (profile : GstVaapiProfile)
    (hptl : seq_param.general_profile_idc = 4 → (range_extension_flags profile).isSome = true) :
    ∃ head level, bs_write_profile_tier_level bs seq_param profile
        = Except.ok (bs ++ (head ++ level)) ∧ head.length = 88 ∧ level.length = 8 := by
  rw [bs_write_profile_tier_level_eq]
  by_cases hidc : seq_param.general_profile_idc = 4
  · rw [if_pos hidc]
    have hsome := hptl hidc
    rcases hflags : range_extension_flags profile with _ | flags
    · rw [hflags] at hsome
      simp at hsome
    · have hlen : flags.length = 9 := by
        cases profile <;> simp [range_extension_flags] at hflags <;> subst hflags <;> rfl
      refine ⟨[false, false] ++ uint_bits seq_param.general_tier_flag 1
          ++ uint_bits seq_param.general_profile_idc 5
          ++ ([false,
              decide (seq_param.general_profile_idc = 1 ∨ seq_param.general_profile_idc = 3),
              decide (seq_param.general_profile_idc = 1 ∨ seq_param.general_profile_idc = 2
                ∨ seq_param.general_profile_idc = 3),
              decide (seq_param.general_profile_idc = 3),
              decide (seq_param.general_profile_idc = 4)] ++ List.replicate 27 false)
          ++ [true, false, false, true]
          ++ (flags.map (fun v => v.testBit 0) ++ List.replicate 34 false)
          ++ [false], uint_bits seq_param.general_level_idc 8, rfl, ?_, uint_bits_length _ _⟩
      simp [uint_bits_length, hlen]
  · rw [if_neg hidc]
    refine ⟨[false, false] ++ uint_bits seq_param.general_tier_flag 1
          ++ uint_bits seq_param.general_profile_idc 5
          ++ ([false,
              decide (seq_param.general_profile_idc = 1 ∨ seq_param.general_profile_idc = 3),
              decide (seq_param.general_profile_idc = 1 ∨ seq_param.general_profile_idc = 2
                ∨ seq_param.general_profile_idc = 3),
              decide (seq_param.general_profile_idc = 3),
              decide (seq_param.general_profile_idc = 4)] ++ List.replicate 27 false)
          ++ [true, false, false, true]
          ++ List.replicate 43 false
          ++ [false], uint_bits seq_param.general_level_idc 8, rfl, ?_, uint_bits_length _ _⟩
    simp [uint_bits_length]

/-- What `bs_write_sps_data` leaves when it returns TRUE after a
`profile_tier_level` written in full: the 8 bits before `profile_tier_level`,
its 96 bits and the bits of the syntax elements that follow, every one of
which was written. -/
theorem bs_write_sps_data_bits (bs : List Bool) (encoder : Encoder)
    (seq_param : VAEncSequenceParameterBufferHEVC) (profile : GstVaapiProfile)
    (rate_control : GstVaapiRateControl) (buffer_size : Nat)
    (haccept : write_ok (bs_write_sps_data bs encoder seq_param profile rate_control
      buffer_size) = true)
    (hptl : seq_param.general_profile_idc = 4 → (range_extension_flags profile).isSome = true) :
    ∃ head level,
      writer_of (bs_write_sps_data bs encoder seq_param profile rate_control buffer_size) =
        bs ++ (uint_bits 0 4 ++ (uint_bits 0 3 ++ (uint_bits 1 1 ++ (head ++ (level ++
          elements_bits (sps_elements encoder seq_param rate_control buffer_size)))))) ∧
      head.length = 88 ∧ level.length = 8 ∧
      ∀ element ∈ sps_elements encoder seq_param rate_control buffer_size,
        write_ok (write_element [] element) = true := by
  have hfirst : write_elements
      [SyntaxElement.u 0 4, SyntaxElement.u 0 3, SyntaxElement.u 1 1] bs =
      Except.ok (bs ++ (uint_bits 0 4 ++ (uint_bits 0 3 ++ uint_bits 1 1))) := by
    rw [write_elements_u_ok]
    · rw [elements_bits_cons, elements_bits_cons, elements_bits_cons,
        element_bits_u 0 4 (by decide) (by decide), element_bits_u 0 3 (by decide) (by decide),
        element_bits_u 1 1 (by decide) (by decide)]
      simp [elements_bits]
    · intro element hmem
      simp only [List.mem_cons, List.mem_singleton, List.not_mem_nil, or_false] at hmem
      rcases hmem with rfl | rfl | rfl
      · exact ⟨_, _, rfl, by decide, by decide⟩
      · exact ⟨_, _, rfl, by decide, by decide⟩
      · exact ⟨_, _, rfl, by decide, by decide⟩
  obtain ⟨head, level, hwritten, hhead, hlevel⟩ := bs_write_profile_tier_level_full
    (bs ++ (uint_bits 0 4 ++ (uint_bits 0 3 ++ uint_bits 1 1))) seq_param profile hptl
  have hdata : bs_write_sps_data bs encoder seq_param profile rate_control buffer_size =
      write_elements (sps_elements encoder seq_param rate_control buffer_size)
        (bs ++ (uint_bits 0 4 ++ (uint_bits 0 3 ++ uint_bits 1 1)) ++ (head ++ level)) := by
    unfold bs_write_sps_data
    dsimp only
    rw [hfirst]
    dsimp only
    rw [hwritten, writer_of_ok]
  rw [hdata] at haccept ⊢
  refine ⟨head, level, ?_, hhead, hlevel, write_elements_mem _ _ haccept⟩
  rw [write_elements_eq _ _ haccept, writer_of_ok]
  simp only [List.append_assoc]

/-- The syntax elements of the SPS after `profile_tier_level`, up to
`log2_max_pic_order_cnt_lsb_minus4`. -/
theorem sps_elements_start (encoder : Encoder) (seq_param : VAEncSequenceParameterBufferHEVC)
    (rate_control : GstVaapiRateControl) (buffer_size : Nat) :
    ∃ tail, sps_elements encoder seq_param rate_control buffer_size =
      [SyntaxElement.ue 0, SyntaxElement.ue seq_param.chroma_format_idc]
      ++ ((if seq_param.chroma_format_idc = 3 then [SyntaxElement.u 0 1] else [])
      ++ ([SyntaxElement.ue seq_param.pic_width_in_luma_samples,
          SyntaxElement.ue seq_param.pic_height_in_luma_samples,
          SyntaxElement.u (if encoder.conformance_window_flag then 1 else 0) 1]
      ++ ((if encoder.conformance_window_flag then
          [SyntaxElement.ue encoder.conf_win_left_offset,
           SyntaxElement.ue encoder.conf_win_right_offset,
           SyntaxElement.ue encoder.conf_win_top_offset,
           SyntaxElement.ue encoder.conf_win_bottom_offset]
        else [])
      ++ ([SyntaxElement.ue seq_param.bit_depth_luma_minus8,
          SyntaxElement.ue seq_param.bit_depth_chroma_minus8,
          SyntaxElement.ue ((encoder.log2_max_pic_order_cnt + 2 ^ 32 - 4) % 2 ^ 32)]
      ++ tail)))) := by
  refine Exists.intro ?tail ?h
  case h =>
    unfold sps_elements
    dsimp only
    simp only [List.append_assoc, List.cons_append, List.nil_append]
    exact rfl

/-- The reference reader passes the 8 bits before `profile_tier_level` and the 96
bits of a `profile_tier_level` written in full. -/
theorem read_sps_profile_tier_level_written (a b c head level rest : List Bool)
    (ha : a.length = 4) (hb : b.length = 3) (hb0 : bits_value b = 0) (hc : c.length = 1)
    (hhead : head.length = 88) (hlevel : level.length = 8) :
    read_sps_profile_tier_level_spec (a ++ (b ++ (c ++ (head ++ (level ++ rest))))) =
      some rest := by
  unfold read_sps_profile_tier_level_spec
  rw [read_u_spec_append 4 a _ ha]
  dsimp only
  rw [read_u_spec_append 3 b _ hb]
  dsimp only
  rw [if_neg (not_not.2 hb0), read_u_spec_append 1 c _ hc]
  dsimp only
  rw [read_u_spec_append 88 head _ hhead]
  dsimp only
  rw [read_u_spec_append 8 level _ hlevel]

/-- The reference reader takes back `chroma_format_idc` and passes the
`separate_colour_plane_flag` written for the value 3. -/
theorem read_chroma_format_written (chroma_format_idc : Nat)
    (hchroma : chroma_format_idc + 1 < 2 ^ 32) (rest : List Bool) :
    read_chroma_format_spec
      (element_bits (SyntaxElement.ue chroma_format_idc)
        ++ (elements_bits (if chroma_format_idc = 3 then [SyntaxElement.u 0 1] else [])
        ++ rest)) = some (chroma_format_idc, rest) := by
  unfold read_chroma_format_spec
  rw [read_ue_spec_written chroma_format_idc hchroma]
  dsimp only
  by_cases h3 : chroma_format_idc = 3
  · rw [if_pos h3, if_pos h3, elements_bits_cons, elements_bits_nil,
      element_bits_u 0 1 (by decide) (by decide), List.append_nil, read_u_spec_uint_bits]
  · rw [if_neg h3, if_neg h3, elements_bits_nil, List.nil_append]

/-- The reference reader takes back the conformance window. -/
theorem read_conformance_window_written (encoder : Encoder) (rest : List Bool)
    (hleft : encoder.conformance_window_flag = true → encoder.conf_win_left_offset + 1 < 2 ^ 32)
    (hright : encoder.conformance_window_flag = true → encoder.conf_win_right_offset + 1 < 2 ^ 32)
    (htop : encoder.conformance_window_flag = true → encoder.conf_win_top_offset + 1 < 2 ^ 32)
    (hbottom : encoder.conformance_window_flag = true →
      encoder.conf_win_bottom_offset + 1 < 2 ^ 32) :
    read_conformance_window_spec
      (element_bits (SyntaxElement.u (if encoder.conformance_window_flag then 1 else 0) 1)
        ++ (elements_bits
          (if encoder.conformance_window_flag then
            [SyntaxElement.ue encoder.conf_win_left_offset,
             SyntaxElement.ue encoder.conf_win_right_offset,
             SyntaxElement.ue encoder.conf_win_top_offset,
             SyntaxElement.ue encoder.conf_win_bottom_offset]
          else [])
        ++ rest)) = some (conformance_window_of encoder, rest) := by
  unfold read_conformance_window_spec conformance_window_of
  rw [element_bits_u _ 1 (by decide) (by decide), read_u_spec_uint_bits]
  dsimp only
  by_cases hflag : encoder.conformance_window_flag = true
  · rw [if_pos hflag, if_pos hflag, if_pos hflag, if_pos (by decide)]
    unfold read_conf_win_offsets_spec
    rw [elements_bits_cons, elements_bits_cons, elements_bits_cons, elements_bits_cons,
      elements_bits_nil, List.append_nil]
    simp only [List.append_assoc]
    rw [read_ue_spec_written _ (hleft hflag)]
    dsimp only
    rw [read_ue_spec_written _ (hright hflag)]
    dsimp only
    rw [read_ue_spec_written _ (htop hflag)]
    dsimp only
    rw [read_ue_spec_written _ (hbottom hflag)]
  · rw [if_neg hflag, if_neg hflag, if_neg hflag, if_neg (by decide), elements_bits_nil,
      List.nil_append]

/-- The reference reader takes back the two bit depths and the POC width. -/
theorem read_bit_depths_written (luma chroma poc : Nat) (hluma : luma + 1 < 2 ^ 32)
    (hchroma : chroma + 1 < 2 ^ 32) (hpoc : poc + 1 < 2 ^ 32) (rest : List Bool) :
    read_bit_depths_spec
      (element_bits (SyntaxElement.ue luma) ++ (element_bits (SyntaxElement.ue chroma)
        ++ (element_bits (SyntaxElement.ue poc) ++ rest))) = some (luma, chroma, poc) := by
  unfold read_bit_depths_spec
  rw [read_ue_spec_written _ hluma]
  dsimp only
  rw [read_ue_spec_written _ hchroma]
  dsimp only
  rw [read_ue_spec_written _ hpoc]

/-- The reference reader on the bits of an SPS whose writes all succeed. -/
theorem read_sps_spec_written (a b c head level : List Bool)
    (ha : a.length = 4) (hb : b.length = 3) (hb0 : bits_value b = 0) (hc : c.length = 1)
    (hhead : head.length = 88) (hlevel : level.length = 8)
    (encoder : Encoder) (seq_param : VAEncSequenceParameterBufferHEVC)
    (rate_control : GstVaapiRateControl) (buffer_size : Nat)
    (hok : ∀ element ∈ sps_elements encoder seq_param rate_control buffer_size,
      write_ok (write_element [] element) = true)
    (hchroma : seq_param.chroma_format_idc ≤ 3)
    (hluma_depth : seq_param.bit_depth_luma_minus8 ≤ 8)
    (hchroma_depth : seq_param.bit_depth_chroma_minus8 ≤ 8)
    (hwidth : seq_param.pic_width_in_luma_samples < 2 ^ 31)
    (hheight : seq_param.pic_height_in_luma_samples < 2 ^ 31)
    (hpoc : 4 ≤ encoder.log2_max_pic_order_cnt ∧ encoder.log2_max_pic_order_cnt ≤ 16)
    (hoffsets : encoder.conf_win_left_offset < 2 ^ 32 ∧ encoder.conf_win_right_offset < 2 ^ 32
      ∧ encoder.conf_win_top_offset < 2 ^ 32 ∧ encoder.conf_win_bottom_offset < 2 ^ 32) :
    read_sps_spec
      (a ++ (b ++ (c ++ (head ++ (level ++
        elements_bits (sps_elements encoder seq_param rate_control buffer_size)))))) =
      some
        { chroma_format_idc := seq_param.chroma_format_idc
          pic_width_in_luma_samples := seq_param.pic_width_in_luma_samples
          pic_height_in_luma_samples := seq_param.pic_height_in_luma_samples
          conformance_window := conformance_window_of encoder
          bit_depth_luma_minus8 := seq_param.bit_depth_luma_minus8
          bit_depth_chroma_minus8 := seq_param.bit_depth_chroma_minus8
          log2_max_pic_order_cnt_lsb_minus4 := encoder.log2_max_pic_order_cnt - 4 } := by
  obtain ⟨tail, htail⟩ := sps_elements_start encoder seq_param rate_control buffer_size
  have hmem : ∀ value, encoder.conformance_window_flag = true →
      (value = encoder.conf_win_left_offset ∨ value = encoder.conf_win_right_offset
        ∨ value = encoder.conf_win_top_offset ∨ value = encoder.conf_win_bottom_offset) →
      SyntaxElement.ue value ∈ sps_elements encoder seq_param rate_control buffer_size := by
    intro value hflag hvalue
    rw [htail]
    simp only [if_pos hflag, List.mem_append, List.mem_cons]
    right; right; right; left
    rcases hvalue with h | h | h | h <;> simp [h]
  have hleft : encoder.conformance_window_flag = true →
      encoder.conf_win_left_offset + 1 < 2 ^ 32 := fun hflag =>
    bs_write_ue_ok _ hoffsets.1 (hok _ (hmem _ hflag (Or.inl rfl)))
  have hright : encoder.conformance_window_flag = true →
      encoder.conf_win_right_offset + 1 < 2 ^ 32 := fun hflag =>
    bs_write_ue_ok _ hoffsets.2.1 (hok _ (hmem _ hflag (Or.inr (Or.inl rfl))))
  have htop : encoder.conformance_window_flag = true →
      encoder.conf_win_top_offset + 1 < 2 ^ 32 := fun hflag =>
    bs_write_ue_ok _ hoffsets.2.2.1 (hok _ (hmem _ hflag (Or.inr (Or.inr (Or.inl rfl)))))
  have hbottom : encoder.conformance_window_flag = true →
      encoder.conf_win_bottom_offset + 1 < 2 ^ 32 := fun hflag =>
    bs_write_ue_ok _ hoffsets.2.2.2 (hok _ (hmem _ hflag (Or.inr (Or.inr (Or.inr rfl)))))
  have hpoc4 : (encoder.log2_max_pic_order_cnt + 2 ^ 32 - 4) % 2 ^ 32
      = encoder.log2_max_pic_order_cnt - 4 := by
    obtain ⟨h4, h16⟩ := hpoc
    omega
  rw [htail, hpoc4]
  unfold read_sps_spec
  rw [read_sps_profile_tier_level_written a b c head level _ ha hb hb0 hc hhead hlevel]
  dsimp only
  rw [elements_bits_append, elements_bits_append, elements_bits_append, elements_bits_append,
    elements_bits_append]
  rw [elements_bits_cons, elements_bits_cons, elements_bits_nil,
    elements_bits_cons, elements_bits_cons, elements_bits_cons, elements_bits_nil,
    elements_bits_cons, elements_bits_cons, elements_bits_cons, elements_bits_nil]
  simp only [List.append_assoc, List.append_nil]
  rw [read_ue_spec_written 0 (by decide)]
  dsimp only
  rw [read_chroma_format_written _ (by omega)]
  dsimp only
  rw [read_ue_spec_written _ (by omega)]
  dsimp only
  rw [read_ue_spec_written _ (by omega)]
  dsimp only
  rw [read_conformance_window_written encoder _ hleft hright htop hbottom]
  dsimp only
  rw [read_bit_depths_written _ _ _ (by omega) (by omega) (by omega)]

set_option maxRecDepth 1000000 in
/-- C21: SPS round trip. For every sequence parameter record accepted by
`bs_write_sps_data`, with a `profile_tier_level` written in full (a
`general_profile_idc` of 4 comes with one of the profiles MAIN_444, MAIN_444_10
and MAIN_422_10, as it does for every record that `fill_sequence` fills in on
a configured encoder, see `configured_profile_tier_level_full`), with
`chroma_format_idc` in 0..3, bit depths minus 8 in 0..8, picture dimensions
below `2 ^ 31`, `log2_max_pic_order_cnt` in 4..16 and 32-bit window offsets, the
reference reader of the SPS recovers from the bits written the same
`chroma_format_idc`, picture width and height, conformance window flag and
offsets, bit depths, and
`log2_max_pic_order_cnt_lsb_minus4 = log2_max_pic_order_cnt - 4`. -/
theorem C21_sps_round_trip (bs : List Bool) (encoder : Encoder)
    (seq_param : VAEncSequenceParameterBufferHEVC) (profile : GstVaapiProfile)
    (rate_control : GstVaapiRateControl) (buffer_size : Nat)
    (haccept : write_ok (bs_write_sps_data bs encoder seq_param profile rate_control
      buffer_size) = true)
    (hptl : seq_param.general_profile_idc = 4 → (range_extension_flags profile).isSome = true)
    (hchroma : seq_param.chroma_format_idc ≤ 3)
    (hluma_depth : seq_param.bit_depth_luma_minus8 ≤ 8)
    (hchroma_depth : seq_param.bit_depth_chroma_minus8 ≤ 8)
    (hwidth : seq_param.pic_width_in_luma_samples < 2 ^ 31)
    (hheight : seq_param.pic_height_in_luma_samples < 2 ^ 31)
    (hpoc : 4 ≤ encoder.log2_max_pic_order_cnt ∧ encoder.log2_max_pic_order_cnt ≤ 16)
    (hoffsets : encoder.conf_win_left_offset < 2 ^ 32 ∧ encoder.conf_win_right_offset < 2 ^ 32
      ∧ encoder.conf_win_top_offset < 2 ^ 32 ∧ encoder.conf_win_bottom_offset < 2 ^ 32) :
    read_sps_spec
      ((writer_of (bs_write_sps_data bs encoder seq_param profile rate_control
        buffer_size)).drop bs.length) =
      some
        { chroma_format_idc := seq_param.chroma_format_idc
          pic_width_in_luma_samples := seq_param.pic_width_in_luma_samples
          pic_height_in_luma_samples := seq_param.pic_height_in_luma_samples
          conformance_window := conformance_window_of encoder
          bit_depth_luma_minus8 := seq_param.bit_depth_luma_minus8
          bit_depth_chroma_minus8 := seq_param.bit_depth_chroma_minus8
          log2_max_pic_order_cnt_lsb_minus4 := encoder.log2_max_pic_order_cnt - 4 } := by
  obtain ⟨head, level, hbits, hhead, hlevel, hok⟩ :=
    bs_write_sps_data_bits bs encoder seq_param profile rate_control buffer_size haccept hptl
  rw [hbits, List.drop_left]
  exact read_sps_spec_written _ _ _ head level (uint_bits_length 0 4) (uint_bits_length 0 3)
    (by rw [bits_value_uint_bits]; rfl) (uint_bits_length 1 1) hhead hlevel encoder seq_param
    rate_control buffer_size hok hchroma hluma_depth hchroma_depth hwidth hheight hpoc hoffsets

/-- C21, witness: the record of the Main profile with width 1920,
`chroma_format_idc` 1 and `bit_depth_luma_minus8` 0. -/
theorem C21_sps_round_trip_witness :
    read_sps_spec
      ((writer_of (bs_write_sps_data [] scenario_headers sample_seq_param
        GstVaapiProfile.H265_MAIN GstVaapiRateControl.CQP 0)).drop ([] : List Bool).length) =
      some
        { chroma_format_idc := sample_seq_param.chroma_format_idc
          pic_width_in_luma_samples := sample_seq_param.pic_width_in_luma_samples
          pic_height_in_luma_samples := sample_seq_param.pic_height_in_luma_samples
          conformance_window := conformance_window_of scenario_headers
          bit_depth_luma_minus8 := sample_seq_param.bit_depth_luma_minus8
          bit_depth_chroma_minus8 := sample_seq_param.bit_depth_chroma_minus8
          log2_max_pic_order_cnt_lsb_minus4 := scenario_headers.log2_max_pic_order_cnt - 4 } :=
  C21_sps_round_trip [] scenario_headers sample_seq_param GstVaapiProfile.H265_MAIN
    GstVaapiRateControl.CQP 0 (by decide) (by decide) (by decide) (by decide) (by decide)
    (by decide) (by decide) (by decide) (by decide)

/-! ## Codec configuration record -/

/-- The bits of a first byte come first. -/
theorem bytes_bits_cons (byte : Nat) (bytes : List Nat) :
    bytes_bits (byte :: bytes) = uint_bits byte 8 ++ bytes_bits bytes := by
  simp [bytes_bits]

/-- The bits of two runs of bytes in a row. -/
theorem bytes_bits_append (first second : List Nat) :
    bytes_bits (first ++ second) = bytes_bits first ++ bytes_bits second := by
  simp [bytes_bits]

/-- Eight bits a byte. -/
theorem bytes_bits_length : ∀ bytes : List Nat, (bytes_bits bytes).length = 8 * bytes.length
  | [] => rfl
  | byte :: bytes => by
    rw [bytes_bits_cons, List.length_append, uint_bits_length, bytes_bits_length bytes,
      List.length_cons]
    omega

/-- The memory of a writer that holds whole bytes is these bytes. -/
theorem bit_writer_bytes_bytes_bits : ∀ bytes : List Nat, (∀ byte ∈ bytes, byte < 256) →
    bit_writer_bytes bytes.length (bytes_bits bytes) = bytes
  | [], _ => rfl
  | byte :: bytes, h => by
    have hbyte : byte < 256 := h byte (List.mem_cons_self _ _)
    have hlen := uint_bits_length byte 8
    rw [List.length_cons, bit_writer_bytes, bytes_bits_cons, List.drop_left' hlen,
      bit_writer_bytes_bytes_bits bytes (fun b hb => h b (List.mem_cons_of_mem _ hb))]
    unfold byte_of_bits
    rw [List.append_assoc, List.take_left' hlen, bits_value_uint_bits]
    congr 1
    exact Nat.mod_eq_of_lt hbyte

/-- The data of a writer that holds whole bytes is these bytes. -/
theorem writer_data_bytes_bits (bytes : List Nat) (h : ∀ byte ∈ bytes, byte < 256) :
    GST_BIT_WRITER_DATA (bytes_bits bytes) = bytes := by
  unfold GST_BIT_WRITER_DATA
  rw [bytes_bits_length]
  have hn : (8 * bytes.length + 7) / 8 = bytes.length := by omega
  rw [hn]
  exact bit_writer_bytes_bytes_bits bytes h

/-- A byte read from a buffer of bytes is a byte. -/
theorem buffer_byte_lt (data : List Nat) (h : ∀ byte ∈ data, byte < 256) (i : Nat) :
    buffer_byte data i < 256 := by
  unfold buffer_byte
  rw [List.getD_eq_getElem?_getD]
  cases hget : data[i]? with
  | none => simp
  | some byte =>
    simp only [Option.getD_some]
    exact h byte (List.getElem?_mem hget)

/-- A byte written in 32 bits is three zero bytes and the byte. -/
theorem uint_bits_byte_32 (byte : Nat) (h : byte < 256) :
    uint_bits byte 32 = bytes_bits [0, 0, 0, byte] := by
  have h24 := uint_bits_high byte 8 (by simpa using h) 24
  rw [show 8 + 24 = 32 from rfl] at h24
  rw [h24]
  simp only [bytes_bits, List.map_cons, List.map_nil, List.flatten_cons, List.flatten_nil,
    List.append_nil, uint_bits_zero]
  simp [List.replicate]

/-- A byte written in 16 bits is a zero byte and the byte. -/
theorem uint_bits_byte_16 (byte : Nat) (h : byte < 256) :
    uint_bits byte 16 = bytes_bits [0, byte] := by
  have h8 := uint_bits_high byte 8 (by simpa using h) 8
  rw [show 8 + 8 = 16 from rfl] at h8
  rw [h8]
  simp only [bytes_bits, List.map_cons, List.map_nil, List.flatten_cons, List.flatten_nil,
    List.append_nil, uint_bits_zero]

/-- The writes of the header of the codec configuration record succeed. -/
theorem codec_data_header_elements_u (sps : List Nat) (nal_unit_type : Nat) :
    ∀ element ∈ codec_data_header_elements sps ++ codec_data_array_head_elements nal_unit_type,
      ∃ value nbits, element = SyntaxElement.u value nbits ∧ 1 ≤ nbits ∧ nbits ≤ 32 := by
  intro element hmem
  unfold codec_data_header_elements codec_data_array_head_elements at hmem
  simp only [List.mem_append, List.mem_cons, List.mem_singleton, List.not_mem_nil,
    or_false] at hmem
  rcases hmem with (h | h | h | h | h | h | h | h | h | h | h | h | h | h | h | h | h | h | h
    | h | h | h | h) | (h | h | h | h) <;>
    exact ⟨_, _, h, by decide, by decide⟩

/-- The writes of an array head of the codec configuration record succeed. -/
theorem codec_data_array_head_elements_u (nal_unit_type : Nat) :
    ∀ element ∈ codec_data_array_head_elements nal_unit_type,
      ∃ value nbits, element = SyntaxElement.u value nbits ∧ 1 ≤ nbits ∧ nbits ≤ 32 := by
  intro element hmem
  unfold codec_data_array_head_elements at hmem
  simp only [List.mem_cons, List.mem_singleton, List.not_mem_nil, or_false] at hmem
  rcases hmem with h | h | h | h <;> exact ⟨_, _, h, by decide, by decide⟩

/-- The bytes of the header of the codec configuration record: 24 bytes, of
which byte 0 is the version, bytes 1 to 12 come from the bytes 4, 5, 9, 13 and
15 of the SPS buffer, bytes 19 and 20 are the average frame rate, and byte 23
is `numOfArrays`. -/
theorem codec_data_header_bytes (sps : List Nat) (hbytes : ∀ byte ∈ sps, byte < 256) :
    elements_bits (codec_data_header_elements sps) =
      bytes_bits
        [0x01, buffer_byte sps 4, 0, 0, 0, buffer_byte sps 5, 0, 0, 0, buffer_byte sps 9,
         0, buffer_byte sps 13, buffer_byte sps 15,
         0xf0, 0x00, 0xfc, 0xfd, 0xf9, 0xf9, 0x00, 0x00, 0x03, 0x00, 0x03] := by
  have hconst : elements_bits
      [SyntaxElement.u 0x0f 4, SyntaxElement.u 0 12, SyntaxElement.u 0x3f 6,
       SyntaxElement.u 0x00 2, SyntaxElement.u 0x3f 6, SyntaxElement.u 0x01 2,
       SyntaxElement.u 0x1f 5, SyntaxElement.u 0x01 3, SyntaxElement.u 0x1f 5,
       SyntaxElement.u 0x01 3, SyntaxElement.u 0x00 16, SyntaxElement.u 0x00 2,
       SyntaxElement.u 0x00 3, SyntaxElement.u 0x00 1, SyntaxElement.u (4 - 1) 2,
       SyntaxElement.u 0x00 8, SyntaxElement.u 3 8] =
      bytes_bits [0xf0, 0x00, 0xfc, 0xfd, 0xf9, 0xf9, 0x00, 0x00, 0x03, 0x00, 0x03] := by
    decide
  have hsplit : codec_data_header_elements sps =
      [SyntaxElement.u 0x01 8, SyntaxElement.u (buffer_byte sps 4) 8,
       SyntaxElement.u (buffer_byte sps 5) 32, SyntaxElement.u (buffer_byte sps 9) 32,
       SyntaxElement.u (buffer_byte sps 13) 16, SyntaxElement.u (buffer_byte sps 15) 8] ++
      [SyntaxElement.u 0x0f 4, SyntaxElement.u 0 12, SyntaxElement.u 0x3f 6,
       SyntaxElement.u 0x00 2, SyntaxElement.u 0x3f 6, SyntaxElement.u 0x01 2,
       SyntaxElement.u 0x1f 5, SyntaxElement.u 0x01 3, SyntaxElement.u 0x1f 5,
       SyntaxElement.u 0x01 3, SyntaxElement.u 0x00 16, SyntaxElement.u 0x00 2,
       SyntaxElement.u 0x00 3, SyntaxElement.u 0x00 1, SyntaxElement.u (4 - 1) 2,
       SyntaxElement.u 0x00 8, SyntaxElement.u 3 8] := rfl
  rw [hsplit, elements_bits_append, hconst]
  rw [elements_bits_cons, elements_bits_cons, elements_bits_cons, elements_bits_cons,
    elements_bits_cons, elements_bits_cons, elements_bits_nil,
    element_bits_u _ 8 (by decide) (by decide), element_bits_u _ 8 (by decide) (by decide),
    element_bits_u _ 32 (by decide) (by decide), element_bits_u _ 32 (by decide) (by decide),
    element_bits_u _ 16 (by decide) (by decide), element_bits_u _ 8 (by decide) (by decide),
    uint_bits_byte_32 _ (buffer_byte_lt sps hbytes 5),
    uint_bits_byte_32 _ (buffer_byte_lt sps hbytes 9),
    uint_bits_byte_16 _ (buffer_byte_lt sps hbytes 13)]
  simp only [bytes_bits, List.map_cons, List.map_nil, List.flatten_cons, List.flatten_nil,
    List.append_nil, List.append_assoc]

/-- The bytes of an array head of the codec configuration record: a byte that
is the NAL unit type, its two top bits 0, and the count 1 in two bytes. -/
theorem codec_data_array_head_bytes (nal_unit_type : Nat) (hnal : nal_unit_type < 64) :
    elements_bits (codec_data_array_head_elements nal_unit_type) =
      bytes_bits [nal_unit_type, 0x00, 0x01] := by
  have h2 := uint_bits_high nal_unit_type 6 (by simpa using hnal) 2
  rw [show 6 + 2 = 8 from rfl] at h2
  have h16 : uint_bits 1 16 = uint_bits 0 8 ++ uint_bits 1 8 := by decide
  have h01 : uint_bits 0 1 = [false] := rfl
  unfold codec_data_array_head_elements
  rw [elements_bits_cons, elements_bits_cons, elements_bits_cons, elements_bits_cons,
    elements_bits_nil, element_bits_u _ 1 (by decide) (by decide),
    element_bits_u _ 6 (by decide) (by decide), element_bits_u _ 16 (by decide) (by decide),
    h16, h01]
  simp only [bytes_bits, List.map_cons, List.map_nil, List.flatten_cons, List.flatten_nil,
    List.append_nil, h2]
  simp [List.replicate]

/-- The codec configuration record of an encoder that stored its three
parameter sets: the header of 24 bytes, then the arrays of the VPS, the SPS
and the PPS, each an array head followed by what
`gst_vaapi_utils_h26x_write_nal_unit` writes for the stored NAL unit. -/
theorem get_codec_data_record (encoder : Encoder)
    (write_nal_unit : List Nat → Option (List Nat))
    (vps sps pps vps_bytes sps_bytes pps_bytes : List Nat)
    (hvps : encoder.vps_data = some vps) (hsps : encoder.sps_data = some sps)
    (hpps : encoder.pps_data = some pps) (hsize : 4 ≤ sps.length)
    (hbytes : ∀ byte ∈ sps, byte < 256)
    (hv : write_nal_unit vps = some vps_bytes) (hs : write_nal_unit sps = some sps_bytes)
    (hp : write_nal_unit pps = some pps_bytes)
    (hvb : ∀ byte ∈ vps_bytes, byte < 256) (hsb : ∀ byte ∈ sps_bytes, byte < 256)
    (hpb : ∀ byte ∈ pps_bytes, byte < 256) :
    gst_vaapi_encoder_h265_get_codec_data encoder write_nal_unit =
      Outcome.ret
        (SUCCESS,
          some ([0x01, buffer_byte sps 4, 0, 0, 0, buffer_byte sps 5, 0, 0, 0,
              buffer_byte sps 9, 0, buffer_byte sps 13, buffer_byte sps 15,
              0xf0, 0x00, 0xfc, 0xfd, 0xf9, 0xf9, 0x00, 0x00, 0x03, 0x00, 0x03]
            ++ ([GST_H265_NAL_VPS, 0x00, 0x01] ++ (vps_bytes
            ++ ([GST_H265_NAL_SPS, 0x00, 0x01] ++ (sps_bytes
            ++ ([GST_H265_NAL_PPS, 0x00, 0x01] ++ pps_bytes))))))) encoder := by
  have h4 := buffer_byte_lt sps hbytes 4
  have h5 := buffer_byte_lt sps hbytes 5
  have h9 := buffer_byte_lt sps hbytes 9
  have h13 := buffer_byte_lt sps hbytes 13
  have h15 := buffer_byte_lt sps hbytes 15
  have hhead : ∀ (nal_unit_type : Nat) (bs : List Bool), nal_unit_type < 64 →
      write_elements (codec_data_array_head_elements nal_unit_type) bs =
        Except.ok (bs ++ bytes_bits [nal_unit_type, 0x00, 0x01]) := by
    intro nal_unit_type bs hnal
    rw [write_elements_u_ok _ _ (codec_data_array_head_elements_u nal_unit_type),
      codec_data_array_head_bytes nal_unit_type hnal]
  have hfirst : write_elements
      (codec_data_header_elements sps ++ codec_data_array_head_elements GST_H265_NAL_VPS) [] =
      Except.ok (bytes_bits
        ([0x01, buffer_byte sps 4, 0, 0, 0, buffer_byte sps 5, 0, 0, 0,
          buffer_byte sps 9, 0, buffer_byte sps 13, buffer_byte sps 15,
          0xf0, 0x00, 0xfc, 0xfd, 0xf9, 0xf9, 0x00, 0x00, 0x03, 0x00, 0x03]
          ++ [GST_H265_NAL_VPS, 0x00, 0x01])) := by
    rw [write_elements_u_ok _ _ (codec_data_header_elements_u sps GST_H265_NAL_VPS),
      elements_bits_append, codec_data_header_bytes sps hbytes,
      codec_data_array_head_bytes GST_H265_NAL_VPS (by decide), List.nil_append,
      bytes_bits_append]
  have haligned : ∀ bytes : List Nat, ¬ ((bytes_bits bytes).length % 8 ≠ 0) := by
    intro bytes
    rw [bytes_bits_length]
    omega
  unfold gst_vaapi_encoder_h265_get_codec_data
  rw [hvps, hsps, hpps]
  dsimp only
  rw [if_neg (by omega), hfirst]
  dsimp only
  rw [if_neg (haligned _), hv]
  dsimp only
  rw [← bytes_bits_append, hhead GST_H265_NAL_SPS _ (by decide)]
  dsimp only
  rw [← bytes_bits_append, if_neg (haligned _), hs]
  dsimp only
  rw [← bytes_bits_append, hhead GST_H265_NAL_PPS _ (by decide)]
  dsimp only
  rw [hp]
  dsimp only
  rw [← bytes_bits_append, ← bytes_bits_append, writer_data_bytes_bits]
  · simp only [List.append_assoc]
  · intro byte hmem
    simp only [List.mem_append, List.mem_cons, List.mem_singleton, List.not_mem_nil,
      or_false, GST_H265_NAL_VPS, GST_H265_NAL_SPS, GST_H265_NAL_PPS] at hmem
    have hv1 := hvb byte
    have hs1 := hsb byte
    have hp1 := hpb byte
    rcases hmem with ((((h | h) | h) | h) | h) | h
    · omega
    · exact hv1 h
    · omega
    · exact hs1 h
    · omega
    · exact hp1 h

/-- C22: the codec configuration record does not mirror the
`profile_tier_level` of the stored SPS. For an encoder that stored its three
parameter sets, with an SPS of at least 16 bytes,
`gst_vaapi_encoder_h265_get_codec_data` puts the byte 4 of the stored SPS in
byte 1 of the record, three zero bytes and the byte 5 of the SPS in bytes 2 to
5, and the byte 15 of the SPS in byte 12. In the SPS stored by
`add_packed_sequence_header`, which begins with the two bytes of the NAL header
and the byte of `sps_video_parameter_set_id`, the first byte of
`profile_tier_level` is byte 3, the compatibility flags are bytes 4 to 7 and
`general_level_idc` is byte 14. -/
theorem C22_codec_data_reads_shifted_bytes (encoder : Encoder)
    (write_nal_unit : List Nat → Option (List Nat))
    (vps sps pps vps_bytes sps_bytes pps_bytes : List Nat)
    (hvps : encoder.vps_data = some vps) (hsps : encoder.sps_data = some sps)
    (hpps : encoder.pps_data = some pps) (hsize : 16 ≤ sps.length)
    (hbytes : ∀ byte ∈ sps, byte < 256)
    (hv : write_nal_unit vps = some vps_bytes) (hs : write_nal_unit sps = some sps_bytes)
    (hp : write_nal_unit pps = some pps_bytes)
    (hvb : ∀ byte ∈ vps_bytes, byte < 256) (hsb : ∀ byte ∈ sps_bytes, byte < 256)
    (hpb : ∀ byte ∈ pps_bytes, byte < 256) :
    ∃ record, gst_vaapi_encoder_h265_get_codec_data encoder write_nal_unit =
        Outcome.ret (SUCCESS, some record) encoder ∧
      record[1]? = sps[4]? ∧
      (record.drop 2).take 4 = [0, 0, 0, buffer_byte sps 5] ∧
      sps[5]? = some (buffer_byte sps 5) ∧
      record[12]? = sps[15]? := by
  have hget : ∀ i, i < 16 → sps[i]? = some (buffer_byte sps i) := by
    intro i hi
    unfold buffer_byte
    rw [List.getD_eq_getElem?_getD, List.getElem?_eq_getElem (by omega)]
    rfl
  refine ⟨_, get_codec_data_record encoder write_nal_unit vps sps pps vps_bytes sps_bytes
    pps_bytes hvps hsps hpps (by omega) hbytes hv hs hp hvb hsb hpb, ?_, ?_, ?_, ?_⟩
  · rw [hget 4 (by decide)]
    rfl
  · rfl
  · exact hget 5 (by decide)
  · rw [hget 15 (by decide)]
    rfl

set_option maxRecDepth 1000000 in
/-- C22, witness: the encoder that stored the VPS and the SPS written for the
Main-profile record (`general_profile_idc` 1, `general_level_idc` 120). The 12
bytes of `profile_tier_level` are the bytes 3 to 14 of the stored SPS: 0x01,
then the compatibility flags 0x60 0 0 0, and last the level 120. The record
has 0x60, not 0x01, in byte 1, four zero bytes, not the compatibility flags,
in bytes 2 to 5, and 160, not the level 120, in byte 12. -/
theorem C22_codec_data_reads_shifted_bytes_witness :
    (∃ record, gst_vaapi_encoder_h265_get_codec_data scenario_stored sample_write_nal_unit =
        Outcome.ret (SUCCESS, some record) scenario_stored ∧
      record[1]? = [66, 1, 1, 1, 96, 0, 0, 0, 144, 0, 0, 0, 0, 0, 120, 160, 3, 192, 128,
        17, 5, 148, 191, 194, 8][4]? ∧
      (record.drop 2).take 4 = [0, 0, 0, buffer_byte
        [66, 1, 1, 1, 96, 0, 0, 0, 144, 0, 0, 0, 0, 0, 120, 160, 3, 192, 128,
          17, 5, 148, 191, 194, 8] 5] ∧
      [66, 1, 1, 1, 96, 0, 0, 0, 144, 0, 0, 0, 0, 0, 120, 160, 3, 192, 128,
        17, 5, 148, 191, 194, 8][5]? = some (buffer_byte
          [66, 1, 1, 1, 96, 0, 0, 0, 144, 0, 0, 0, 0, 0, 120, 160, 3, 192, 128,
            17, 5, 148, 191, 194, 8] 5) ∧
      record[12]? = [66, 1, 1, 1, 96, 0, 0, 0, 144, 0, 0, 0, 0, 0, 120, 160, 3, 192, 128,
        17, 5, 148, 191, 194, 8][15]?) ∧
    GST_BIT_WRITER_DATA (writer_of (bs_write_profile_tier_level [] sample_seq_param
      GstVaapiProfile.H265_MAIN)) = [1, 96, 0, 0, 0, 144, 0, 0, 0, 0, 0, 120] ∧
    scenario_stored.sps_data.map (fun sps => (sps.drop 3).take 12) =
      some [1, 96, 0, 0, 0, 144, 0, 0, 0, 0, 0, 120] ∧
    (gst_vaapi_encoder_h265_get_codec_data scenario_stored sample_write_nal_unit).value?.map
      (fun result => result.2.map (fun record => (record.drop 1).take 12)) =
      some (some [96, 0, 0, 0, 0, 0, 0, 0, 0, 0, 0, 160]) :=
  ⟨C22_codec_data_reads_shifted_bytes scenario_stored sample_write_nal_unit
      [64, 1, 12, 1, 255, 255, 1, 96, 0, 0, 0, 144, 0, 0, 0, 0, 0, 120, 44, 9]
      [66, 1, 1, 1, 96, 0, 0, 0, 144, 0, 0, 0, 0, 0, 120, 160, 3, 192, 128,
        17, 5, 148, 191, 194, 8]
      [68, 1, 192, 243, 128] _ _ _
      (by decide) (by decide) (by decide) (by decide) (by decide) rfl rfl rfl
      (by decide) (by decide) (by decide),
    by decide, by decide, by decide⟩

/-- C23: structure of the codec configuration record. When the VPS, the SPS (of
at least 16 bytes) and the PPS are stored, `gst_vaapi_encoder_h265_get_codec_data`
returns `SUCCESS` with a buffer made of a fixed part of 24 bytes, whose byte 0 is
the version 0x01, whose bytes 19 and 20, the average frame rate, are 0 and
whose last byte is `numOfArrays` = 3, followed by exactly three arrays in the
order VPS, SPS, PPS: each is one byte that is the NAL unit type of the
parameter set, below 64 so that its two top bits are 0, then the two bytes
0x00 0x01 of the NAL count, then what `gst_vaapi_utils_h26x_write_nal_unit`
writes for the stored parameter set. When one of the three parameter sets is
missing, the function returns `ERROR_INVALID_HEADER` and no buffer. -/
theorem C23_codec_data_structure (encoder : Encoder)
    (write_nal_unit : List Nat → Option (List Nat))
    (vps sps pps vps_bytes sps_bytes pps_bytes : List Nat)
    (hvps : encoder.vps_data = some vps) (hsps : encoder.sps_data = some sps)
    (hpps : encoder.pps_data = some pps) (hsize : 16 ≤ sps.length)
    (hbytes : ∀ byte ∈ sps, byte < 256)
    (hv : write_nal_unit vps = some vps_bytes) (hs : write_nal_unit sps = some sps_bytes)
    (hp : write_nal_unit pps = some pps_bytes)
    (hvb : ∀ byte ∈ vps_bytes, byte < 256) (hsb : ∀ byte ∈ sps_bytes, byte < 256)
    (hpb : ∀ byte ∈ pps_bytes, byte < 256) :
    (∃ fixed : List Nat, fixed.length = 24 ∧ fixed[0]? = some 0x01 ∧
      fixed[19]? = some 0 ∧ fixed[20]? = some 0 ∧ fixed[23]? = some 3 ∧
      gst_vaapi_encoder_h265_get_codec_data encoder write_nal_unit =
        Outcome.ret
          (SUCCESS,
            some (fixed
              ++ ([GST_H265_NAL_VPS, 0x00, 0x01] ++ (vps_bytes
              ++ ([GST_H265_NAL_SPS, 0x00, 0x01] ++ (sps_bytes
              ++ ([GST_H265_NAL_PPS, 0x00, 0x01] ++ pps_bytes))))))) encoder) ∧
    (GST_H265_NAL_VPS < 64 ∧ GST_H265_NAL_SPS < 64 ∧ GST_H265_NAL_PPS < 64) ∧
    (∀ other : Encoder,
      other.vps_data = none ∨ other.sps_data = none ∨ other.pps_data = none →
      gst_vaapi_encoder_h265_get_codec_data other write_nal_unit =
        Outcome.ret (ERROR_INVALID_HEADER, none) other) := by
  refine ⟨⟨_, ?_, ?_, ?_, ?_, ?_, get_codec_data_record encoder write_nal_unit vps sps pps
    vps_bytes sps_bytes pps_bytes hvps hsps hpps (by omega) hbytes hv hs hp hvb hsb hpb⟩,
    ⟨by decide, by decide, by decide⟩, ?_⟩
  · rfl
  · rfl
  · rfl
  · rfl
  · rfl
  · intro other hmissing
    unfold gst_vaapi_encoder_h265_get_codec_data
    cases h1 : other.vps_data <;> cases h2 : other.sps_data <;> cases h3 : other.pps_data <;>
      first
      | rfl
      | (rw [h1, h2, h3] at hmissing; simp at hmissing)

set_option maxRecDepth 1000000 in
/-- C23, witness: the encoder that stored the VPS and the SPS written for the
Main-profile record and the sample PPS gives a record of 24 + 3 + 22 + 3 + 27 +
3 + 7 bytes; the encoder that stored nothing gives `ERROR_INVALID_HEADER`. -/
theorem C23_codec_data_structure_witness :
    scenario_stored.vps_data =
      some [64, 1, 12, 1, 255, 255, 1, 96, 0, 0, 0, 144, 0, 0, 0, 0, 0, 120, 44, 9] ∧
    (∃ fixed : List Nat, fixed.length = 24 ∧ fixed[0]? = some 0x01 ∧
      fixed[19]? = some 0 ∧ fixed[20]? = some 0 ∧ fixed[23]? = some 3 ∧
      gst_vaapi_encoder_h265_get_codec_data scenario_stored sample_write_nal_unit =
        Outcome.ret
          (SUCCESS,
            some (fixed
              ++ ([GST_H265_NAL_VPS, 0x00, 0x01]
              ++ (([0, 20] ++
                [64, 1, 12, 1, 255, 255, 1, 96, 0, 0, 0, 144, 0, 0, 0, 0, 0, 120, 44, 9])
              ++ ([GST_H265_NAL_SPS, 0x00, 0x01]
              ++ (([0, 25] ++
                [66, 1, 1, 1, 96, 0, 0, 0, 144, 0, 0, 0, 0, 0, 120, 160, 3, 192, 128,
                  17, 5, 148, 191, 194, 8])
              ++ ([GST_H265_NAL_PPS, 0x00, 0x01]
              ++ ([0, 5] ++ [68, 1, 192, 243, 128])))))))) scenario_stored) ∧
    gst_vaapi_encoder_h265_get_codec_data scenario_headers sample_write_nal_unit =
      Outcome.ret (ERROR_INVALID_HEADER, none) scenario_headers :=
  have h := C23_codec_data_structure scenario_stored sample_write_nal_unit
    [64, 1, 12, 1, 255, 255, 1, 96, 0, 0, 0, 144, 0, 0, 0, 0, 0, 120, 44, 9]
    [66, 1, 1, 1, 96, 0, 0, 0, 144, 0, 0, 0, 0, 0, 120, 160, 3, 192, 128,
      17, 5, 148, 191, 194, 8]
    [68, 1, 192, 243, 128] _ _ _
    (by decide) (by decide) (by decide) (by decide) (by decide) rfl rfl rfl
    (by decide) (by decide) (by decide)
  ⟨by decide, h.1, h.2.2 scenario_headers (Or.inl rfl)⟩

/-! ## Failed writes -/

/-- What the two data writers do with a `profile_tier_level` that fails, a case
that no configured encoder reaches (see `configured_profile_tier_level_full`):
with `general_profile_idc = 4` and a profile other than MAIN_444, MAIN_444_10
and MAIN_422_10, `bs_write_profile_tier_level` returns FALSE after 44 bits, on
every writer; `bs_write_vps_data` and `bs_write_sps_data`, which call it without
looking at its result, go on writing their further syntax elements after the
44 bits and return what those writes return. -/
theorem profile_tier_level_result_not_looked_at (bs : List Bool) (encoder : Encoder)
    (seq_param : VAEncSequenceParameterBufferHEVC) (profile : GstVaapiProfile)
    (rate_control : GstVaapiRateControl) (buffer_size : Nat)
    (hidc : seq_param.general_profile_idc = 4)
    (hprofile : range_extension_flags profile = none) :
    ∃ written : List Bool, written.length = 44 ∧
      (∀ bs0, bs_write_profile_tier_level bs0 seq_param profile
        = Except.error (bs0 ++ written)) ∧
      bs_write_vps_data bs encoder seq_param profile =
        write_elements
          [SyntaxElement.u 0 1,
           SyntaxElement.ue ((encoder.max_dec_pic_buffering + 2 ^ 32 - 1) % 2 ^ 32),
           SyntaxElement.ue encoder.max_num_reorder_pics,
           SyntaxElement.ue 0,
           SyntaxElement.u 0 6,
           SyntaxElement.ue 0,
           SyntaxElement.u 0 1,
           SyntaxElement.u 0 1]
          (bs ++ elements_bits
            [SyntaxElement.u 0 4, SyntaxElement.u 1 1, SyntaxElement.u 1 1, SyntaxElement.u 0 6,
             SyntaxElement.u 0 3, SyntaxElement.u 1 1, SyntaxElement.u 0xffff 16] ++ written) ∧
      bs_write_sps_data bs encoder seq_param profile rate_control buffer_size =
        write_elements (sps_elements encoder seq_param rate_control buffer_size)
          (bs ++ elements_bits
            [SyntaxElement.u 0 4, SyntaxElement.u 0 3, SyntaxElement.u 1 1] ++ written) := by
  have hfail : ∀ bs0, bs_write_profile_tier_level bs0 seq_param profile =
      Except.error (bs0 ++ ([false, false] ++ uint_bits seq_param.general_tier_flag 1
        ++ uint_bits seq_param.general_profile_idc 5
        ++ ([false,
            decide (seq_param.general_profile_idc = 1 ∨ seq_param.general_profile_idc = 3),
            decide (seq_param.general_profile_idc = 1 ∨ seq_param.general_profile_idc = 2
              ∨ seq_param.general_profile_idc = 3),
            decide (seq_param.general_profile_idc = 3),
            decide (seq_param.general_profile_idc = 4)] ++ List.replicate 27 false)
        ++ [true, false, false, true])) := by
    intro bs0
    rw [bs_write_profile_tier_level_eq, if_pos hidc, hprofile]
  refine ⟨_, ?_, hfail, ?_, ?_⟩
  · simp [uint_bits_length]
  · unfold bs_write_vps_data
    dsimp only
    rw [write_elements_u_ok]
    · dsimp only
      rw [hfail]
      rfl
    · intro element hmem
      simp only [List.mem_cons, List.mem_singleton, List.not_mem_nil, or_false] at hmem
      rcases hmem with rfl | rfl | rfl | rfl | rfl | rfl | rfl <;>
        exact ⟨_, _, rfl, by decide, by decide⟩
  · unfold bs_write_sps_data
    dsimp only
    rw [write_elements_u_ok]
    · dsimp only
      rw [hfail]
      rfl
    · intro element hmem
      simp only [List.mem_cons, List.mem_singleton, List.not_mem_nil, or_false] at hmem
      rcases hmem with rfl | rfl | rfl <;> exact ⟨_, _, rfl, by decide, by decide⟩


/-- C25: a profile ceiling that the input exceeds is not reported. The comment
of `gst_vaapi_encoder_h265_set_max_profile` promises that an error is returned
when the encoder is configured with a minimal profile above the ceiling. What
the code does: if `gst_vaapi_encoder_h265_set_max_profile` succeeded and the
minimal profile that `ensure_profile` derives from the input video format has
a `profile_idc` above the ceiling stored, then `ensure_profile_tier_level`
leaves the encoder at the Main profile with the `profile_idc` of Main, and it
returns `ERROR_UNSUPPORTED_PROFILE` only when the entrypoint is invalid, the
display gives no encode profiles, or the `profile_idc` of Main is above the
hardware maximum: the ceiling alone gives no error. -/
theorem C25_profile_ceiling_resets_to_main (enc : Encoder) (backend : Backend)
    (profile : GstVaapiProfile)
    (hset : (gst_vaapi_encoder_h265_set_max_profile enc backend profile).1 = true)
    (habove :
      (ensure_profile (gst_vaapi_encoder_h265_set_max_profile enc backend profile).2
        backend).profile_idc >
      (gst_vaapi_encoder_h265_set_max_profile enc backend profile).2.max_profile_idc) :
    (ensure_profile_tier_level (gst_vaapi_encoder_h265_set_max_profile enc backend profile).2
      backend).2.profile = GstVaapiProfile.H265_MAIN ∧
    (ensure_profile_tier_level (gst_vaapi_encoder_h265_set_max_profile enc backend profile).2
      backend).2.profile_idc = backend.get_profile_idc GstVaapiProfile.H265_MAIN % 2 ^ 8 ∧
    ((ensure_profile_tier_level (gst_vaapi_encoder_h265_set_max_profile enc backend profile).2
        backend).1 = ERROR_UNSUPPORTED_PROFILE →
      (ensure_profile_tier_level (gst_vaapi_encoder_h265_set_max_profile enc backend profile).2
        backend).2.entrypoint = GstVaapiEntrypoint.INVALID ∨
      backend.encode_profiles = none ∨
      (ensure_profile_tier_level (gst_vaapi_encoder_h265_set_max_profile enc backend profile).2
        backend).2.hw_max_profile_idc <
        backend.get_profile_idc GstVaapiProfile.H265_MAIN % 2 ^ 8) := by
  generalize hs : gst_vaapi_encoder_h265_set_max_profile enc backend profile = res at hset habove
  have hmax : res.2.max_profile_idc ≠ 0 := by
    rw [← hs]
    rw [← hs] at hset
    exact set_max_profile_ceiling enc backend profile hset
  obtain ⟨hfmt, hceil⟩ := ensure_tuning_snd res.2 backend
  have hlim : ensure_profile_limits (ensure_profile (ensure_tuning res.2 backend).2 backend)
        backend =
      { ensure_profile (ensure_tuning res.2 backend).2 backend with
        profile := GstVaapiProfile.H265_MAIN
        profile_idc := backend.get_profile_idc GstVaapiProfile.H265_MAIN % 2 ^ 8 } := by
    have hidc : (ensure_profile (ensure_tuning res.2 backend).2 backend).profile_idc =
        (ensure_profile res.2 backend).profile_idc := by
      simp only [ensure_profile, hfmt]
    have hmax2 : (ensure_profile (ensure_tuning res.2 backend).2 backend).max_profile_idc =
        res.2.max_profile_idc := by
      simp only [ensure_profile, hceil]
    unfold ensure_profile_limits
    rw [if_neg]
    rw [hidc, hmax2]
    intro h
    rcases h with h | h
    · exact hmax h
    · omega
  obtain ⟨h1, h2, h3⟩ := ensure_profile_tier_level_profile res.2 backend
  have h1m : (ensure_profile_tier_level res.2 backend).2.profile
      = GstVaapiProfile.H265_MAIN := by
    rw [h1, hlim]
  have h2m : (ensure_profile_tier_level res.2 backend).2.profile_idc
      = backend.get_profile_idc GstVaapiProfile.H265_MAIN % 2 ^ 8 := by
    rw [h2, hlim]
  refine ⟨h1m, h2m, fun herr => ?_⟩
  have h := h3 herr
  rw [h2m] at h
  exact h

/-- C25, witness: the ceiling Main (`profile_idc` 1) with a `P010_10LE` input,
whose minimal profile Main 10 has `profile_idc` 2, on the sample display. The
ceiling is stored, the minimal profile is above it, and the configuration
returns `SUCCESS` with the encoder at the Main profile. -/
theorem C25_profile_ceiling_resets_to_main_witness :
    (gst_vaapi_encoder_h265_set_max_profile scenario_c_10bit sample_backend
      GstVaapiProfile.H265_MAIN).2.max_profile_idc = 1 ∧
    (ensure_profile
      (gst_vaapi_encoder_h265_set_max_profile scenario_c_10bit sample_backend
        GstVaapiProfile.H265_MAIN).2
      sample_backend).profile = GstVaapiProfile.H265_MAIN10 ∧
    (ensure_profile
      (gst_vaapi_encoder_h265_set_max_profile scenario_c_10bit sample_backend
        GstVaapiProfile.H265_MAIN).2
      sample_backend).profile_idc = 2 ∧
    (ensure_profile_tier_level
      (gst_vaapi_encoder_h265_set_max_profile scenario_c_10bit sample_backend
        GstVaapiProfile.H265_MAIN).2
      sample_backend).1 = SUCCESS ∧
    (ensure_profile_tier_level
      (gst_vaapi_encoder_h265_set_max_profile scenario_c_10bit sample_backend
        GstVaapiProfile.H265_MAIN).2
      sample_backend).2.profile = GstVaapiProfile.H265_MAIN ∧
    (ensure_profile_tier_level
      (gst_vaapi_encoder_h265_set_max_profile scenario_c_10bit sample_backend
        GstVaapiProfile.H265_MAIN).2
      sample_backend).2.profile_idc = 1 :=
  have h := C25_profile_ceiling_resets_to_main scenario_c_10bit sample_backend
    GstVaapiProfile.H265_MAIN
    (by decide) (by decide)
  ⟨by decide, by decide, by decide, by decide, h.1, h.2.1⟩

/-- C26: `gst_vaapi_encoder_h265_get_profile_tier_level` fails for the tier Main.
After a configuration that returned `SUCCESS` and resolved the tier Main, whose
enum value is 0, the test `!encoder->tier` holds: the function returns FALSE
and stores nothing in the output locations. -/
theorem C26_main_tier_is_reported_as_failure (enc : Encoder) (backend : Backend)
    (out_profile_ptr : Option GstVaapiProfile) (out_tier_ptr : Option GstVaapiTierH265)
    (out_level_ptr : Option Nat)
    (_hcfg : (ensure_profile_tier_level enc backend).1 = SUCCESS)
    (htier : (ensure_profile_tier_level enc backend).2.tier = GstVaapiTierH265.MAIN) :
    gst_vaapi_encoder_h265_get_profile_tier_level (ensure_profile_tier_level enc backend).2
        out_profile_ptr out_tier_ptr out_level_ptr =
      (false, out_profile_ptr, out_tier_ptr, out_level_ptr) := by
  unfold gst_vaapi_encoder_h265_get_profile_tier_level
  rw [if_pos]
  right; left
  rw [htier]
  rfl

/-- C26, witness: scenario C on the sample display is configured with `SUCCESS`
at the Main profile, the tier Main and the level numbered 6; the query with
three output locations returns FALSE and leaves the locations as they were. -/
theorem C26_main_tier_is_reported_as_failure_witness :
    (ensure_profile_tier_level scenario_c sample_backend).1 = SUCCESS ∧
    (ensure_profile_tier_level scenario_c sample_backend).2.profile = GstVaapiProfile.H265_MAIN ∧
    (ensure_profile_tier_level scenario_c sample_backend).2.tier = GstVaapiTierH265.MAIN ∧
    (ensure_profile_tier_level scenario_c sample_backend).2.level = 6 ∧
    gst_vaapi_encoder_h265_get_profile_tier_level
        (ensure_profile_tier_level scenario_c sample_backend).2
        (some GstVaapiProfile.UNKNOWN) (some GstVaapiTierH265.UNKNOWN) (some 0) =
      (false, some GstVaapiProfile.UNKNOWN, some GstVaapiTierH265.UNKNOWN, some 0) :=
  ⟨by decide, by decide, by decide, by decide,
    C26_main_tier_is_reported_as_failure scenario_c sample_backend _ _ _
      (by decide) (by decide)⟩

/-! ## Flush and the resolution of the buffer -/

/-- The loop of `gst_vaapi_encoder_h265_flush` leaves an empty queue. -/
theorem flush_queue_nil (q : List GstVaapiEncPicture) : flush_queue q = [] := by
  induction q with
  | nil => rfl
  | cons p q ih => simpa [flush_queue] using ih

/-- C27: after `gst_vaapi_encoder_h265_flush`, for every prior state of a
configured encoder (`max_pic_order_cnt` is not 0), the reorder buffer is empty
and `frame_index = cur_present_index = 0`, so the next frame submitted to
`gst_vaapi_encoder_h265_reordering` is returned by that call, with `SUCCESS`, as
an IDR picture (type I) with POC 0. -/
theorem C27_flush_then_idr (enc : Encoder) (frame : GstVideoCodecFrame)
    (_hmax : enc.max_pic_order_cnt ≠ 0) :
    (gst_vaapi_encoder_h265_flush enc).1 = SUCCESS ∧
    (gst_vaapi_encoder_h265_flush enc).2.reorder_pool.reorder_frame_list = [] ∧
    (gst_vaapi_encoder_h265_flush enc).2.reorder_pool.frame_index = 0 ∧
    (gst_vaapi_encoder_h265_flush enc).2.reorder_pool.cur_present_index = 0 ∧
    ∃ enc1, gst_vaapi_encoder_h265_reordering (gst_vaapi_encoder_h265_flush enc).2 (some frame) =
      Outcome.ret (SUCCESS, some { frame := frame, poc := 0, type := I, idr := true }) enc1 := by
  have hq : (gst_vaapi_encoder_h265_flush enc).2.reorder_pool.reorder_frame_list = [] := by
    simp [gst_vaapi_encoder_h265_flush, flush_queue_nil]
  exact ⟨rfl, hq, rfl, rfl, reordering_first_frame _ frame rfl hq⟩

/-- C27, witness: scenario B after three frames, when two frames wait in the
buffer for their P picture: after the flush the buffer is empty and the frame
9 comes back as an IDR picture with POC 0. -/
theorem C27_flush_then_idr_witness :
    (put_frames scenario_b (plain_frames 3)).encoder.reorder_pool.reorder_frame_list.length = 2 ∧
    (gst_vaapi_encoder_h265_flush
      (put_frames scenario_b (plain_frames 3)).encoder).2.reorder_pool.reorder_frame_list = [] ∧
    ∃ enc1, gst_vaapi_encoder_h265_reordering
        (gst_vaapi_encoder_h265_flush (put_frames scenario_b (plain_frames 3)).encoder).2
        (some { id := 9 }) =
      Outcome.ret (SUCCESS, some { frame := { id := 9 }, poc := 0, type := I, idr := true }) enc1 :=
  have h := C27_flush_then_idr (put_frames scenario_b (plain_frames 3)).encoder { id := 9 }
    (by decide)
  ⟨by decide, h.2.1, h.2.2.2.2⟩

/-- C28, as stated, fails: in scenario B (`num_bframes = 2`,
`keyframe_period = idr_period = 4`) with 8 frames submitted under the drain
protocol, the fifth picture emitted is not a P picture: it is the frame 4,
which meets `frame_index >= idr_period` and is returned as an IDR picture. -/
theorem C28_fifth_picture_counterexample :
    scenario_b.num_bframes = 2 ∧ scenario_b.keyframe_period = 4 ∧ scenario_b.idr_period = 4 ∧
    (put_frames scenario_b (plain_frames 8)).complete = true ∧
    ((put_frames scenario_b (plain_frames 8)).pictures[4]?).map GstVaapiEncPicture.type
      = some I ∧
    ((put_frames scenario_b (plain_frames 8)).pictures[4]?).map GstVaapiEncPicture.type
      ≠ some P := by
  decide

/-- C28, amended: in scenario B (`num_bframes = 2`, `keyframe_period = idr_period = 4`,
the `idr_period` that `reset_properties` derives) with 8 frames submitted under
the drain protocol, the fifth picture emitted by
`gst_vaapi_encoder_h265_reordering` is the frame 4 as an IDR picture (type I,
POC 0); the eight pictures are the frames 0, 3, 1, 2, 4, 7, 5, 6 as IDR, P, B,
B, IDR, P, B, B with the POCs 0, 3, 1, 2, 0, 3, 1, 2. -/
theorem C28_scenario_b_fifth_picture_is_idr :
    (reset_properties
      (gst_vaapi_encoder_h265_init
        { num_bframes := 2, keyframe_period := 4, idr_period := 4, num_ref_frames := 1 })
      1 1).idr_period = 4 ∧
    (put_frames scenario_b (plain_frames 8)).pictures[4]? =
      some { frame := { id := 4 }, poc := 0, type := I, idr := true } ∧
    (put_frames scenario_b (plain_frames 8)).pictures =
      [{ frame := { id := 0 }, poc := 0, type := I, idr := true },
       { frame := { id := 3 }, poc := 3, type := P, idr := false },
       { frame := { id := 1 }, poc := 1, type := B, idr := false },
       { frame := { id := 2 }, poc := 2, type := B, idr := false },
       { frame := { id := 4 }, poc := 0, type := I, idr := true },
       { frame := { id := 7 }, poc := 3, type := P, idr := false },
       { frame := { id := 5 }, poc := 1, type := B, idr := false },
       { frame := { id := 6 }, poc := 2, type := B, idr := false }] := by
  decide

/-! ## Resolution of buffered frames -/

/-- Marking an untyped picture as P or B sets its type and nothing else. -/
theorem set_p_frame_untyped (p : GstVaapiEncPicture) (h : p.type = NONE) :
    set_p_frame p = { p with type := P } := by
  simp [set_p_frame, h]

/-- Marking untyped pictures as B sets their type and nothing else. -/
theorem map_set_b_frame_untyped (q : List GstVaapiEncPicture) (h : ∀ p ∈ q, p.type = NONE) :
    q.map set_b_frame = q.map (fun p => { p with type := B }) := by
  apply List.map_congr_left
  intro p hp
  simp [set_b_frame, h p hp]

/-- C29, as stated, fails: in scenario B after three frames the engine is in
`WAIT_FRAMES` with `num_bframes = 2` frames buffered, the frames 1 and 2. The
frame 3, not a key frame, is itself typed P and returned by the call; the
oldest buffered frame, the frame 1, is typed B and stays in the buffer. -/
theorem C29_full_buffer_counterexample :
    (put_frames scenario_b (plain_frames 3)).encoder.reorder_pool.reorder_state
      = REORD_WAIT_FRAMES ∧
    (put_frames scenario_b (plain_frames 3)).encoder.num_bframes = 2 ∧
    (put_frames scenario_b (plain_frames 3)).encoder.reorder_pool.reorder_frame_list =
      [{ frame := { id := 1 }, poc := 1 }, { frame := { id := 2 }, poc := 2 }] ∧
    new_frame_is_key (put_frames scenario_b (plain_frames 3)).encoder { id := 3 } = false ∧
    (gst_vaapi_encoder_h265_reordering (put_frames scenario_b (plain_frames 3)).encoder
        (some { id := 3 })).value? =
      some (SUCCESS, some { frame := { id := 3 }, poc := 3, type := P }) ∧
    (gst_vaapi_encoder_h265_reordering (put_frames scenario_b (plain_frames 3)).encoder
        (some { id := 3 })).enc.reorder_pool.reorder_frame_list =
      [{ frame := { id := 1 }, poc := 1, type := B },
       { frame := { id := 2 }, poc := 2, type := B }] := by
  decide

/-- C29, amended: when `gst_vaapi_encoder_h265_reordering` is in `WAIT_FRAMES` with
`num_bframes >= 2` untyped frames buffered and a further frame is submitted,
the call returns `SUCCESS` and the state becomes `DUMP_FRAMES`. If the new
frame is not a key frame, the new frame itself is the one typed P and
returned, and all the buffered frames are typed B. If the new frame is a key
frame, the most recently buffered frame is the one typed P and returned, all
the other buffered frames are typed B, and the new frame is appended to the
buffer as an I picture. -/
theorem C29_full_buffer_resolution (enc : Encoder) (frame : GstVideoCodecFrame)
    (older : List GstVaapiEncPicture) (newest : GstVaapiEncPicture)
    (hstate : enc.reorder_pool.reorder_state = REORD_WAIT_FRAMES)
    (hnb : 2 ≤ enc.num_bframes)
    (hq : enc.reorder_pool.reorder_frame_list = older ++ [newest])
    (hlen : enc.reorder_pool.reorder_frame_list.length = enc.num_bframes)
    (huntyped : ∀ p ∈ enc.reorder_pool.reorder_frame_list, p.type = NONE) :
    (new_frame_is_key enc frame = false →
      ∃ enc1, gst_vaapi_encoder_h265_reordering enc (some frame) =
        Outcome.ret
          (SUCCESS,
            some { frame := frame,
                   poc := (enc.reorder_pool.cur_present_index + 1) % 2 ^ 32
                     % enc.max_pic_order_cnt,
                   type := P, idr := false }) enc1 ∧
        enc1.reorder_pool.reorder_frame_list =
          (older ++ [newest]).map (fun p => { p with type := B }) ∧
        enc1.reorder_pool.reorder_state = REORD_DUMP_FRAMES) ∧
    (new_frame_is_key enc frame = true →
      ∃ enc1 key, gst_vaapi_encoder_h265_reordering enc (some frame) =
        Outcome.ret (SUCCESS, some { newest with type := P }) enc1 ∧
        enc1.reorder_pool.reorder_frame_list =
          older.map (fun p => { p with type := B }) ++ [key] ∧
        key.frame = frame ∧ key.type = I ∧
        enc1.reorder_pool.reorder_state = REORD_DUMP_FRAMES) := by
  have hnb0 : enc.num_bframes ≠ 0 := by omega
  have hne : enc.reorder_pool.reorder_frame_list ≠ [] := by rw [hq]; simp
  have hnotlt : ¬ (enc.reorder_pool.reorder_frame_list.length < enc.num_bframes) := by omega
  have hnewest : newest.type = NONE := huntyped newest (by rw [hq]; simp)
  have holder : ∀ p ∈ older, p.type = NONE := fun p hp => huntyped p (by rw [hq]; simp [hp])
  constructor
  · intro hkey
    have hkey2 : ((enc.reorder_pool.frame_index == 0
        || decide (enc.reorder_pool.frame_index ≥ enc.idr_period))
        || frame.force_keyframe
        || enc.reorder_pool.frame_index % enc.keyframe_period == 0) = false := hkey
    unfold gst_vaapi_encoder_h265_reordering
    simp only [hkey2, Bool.false_eq_true, if_false, hstate, true_and, hnotlt]
    have hmap : enc.reorder_pool.reorder_frame_list.map set_b_frame ≠ [] := by
      rw [hq]; simp
    rw [if_neg hmap]
    refine ⟨_, congrArg₂ Outcome.ret ?_ rfl, ?_, rfl⟩
    · simp [set_p_frame]
    · rw [← hq]
      exact map_set_b_frame_untyped _ huntyped
  · intro hkey
    have hkey2 : ((enc.reorder_pool.frame_index == 0
        || decide (enc.reorder_pool.frame_index ≥ enc.idr_period))
        || frame.force_keyframe
        || enc.reorder_pool.frame_index % enc.keyframe_period == 0) = true := hkey
    unfold gst_vaapi_encoder_h265_reordering
    simp only [hkey2, if_true]
    rw [if_pos ⟨hnb0, hne⟩]
    have hlast : enc.reorder_pool.reorder_frame_list.getLast? = some newest := by
      rw [hq]; simp
    have hdrop : enc.reorder_pool.reorder_frame_list.dropLast = older := by
      rw [hq]; simp
    refine ⟨_, (set_key_frame
      { frame := frame,
        poc := (enc.reorder_pool.cur_present_index + 1) % 2 ^ 32 % enc.max_pic_order_cnt,
        type := NONE, idr := false }
      { enc with
        reorder_pool :=
          { enc.reorder_pool with
            cur_present_index := (enc.reorder_pool.cur_present_index + 1) % 2 ^ 32
            frame_index := (enc.reorder_pool.frame_index + 1) % 2 ^ 32 } }
      (enc.reorder_pool.frame_index == 0
        || decide (enc.reorder_pool.frame_index ≥ enc.idr_period))).1,
      congrArg₂ Outcome.ret ?_ rfl, ?_, ?_, ?_, rfl⟩
    · rw [hlast]
      simp [set_p_frame_untyped newest hnewest]
    · simp only [hdrop]
      rw [map_set_b_frame_untyped older holder]
    · unfold set_key_frame
      split_ifs <;> simp [set_idr_frame, set_i_frame]
    · unfold set_key_frame
      split_ifs <;> simp [set_idr_frame, set_i_frame]

/-- C29, amended, witness: scenario B after three frames, with the frames 1 and 2
buffered; the frame 3 is not a key frame and comes back as the P picture. -/
theorem C29_full_buffer_resolution_witness :
    new_frame_is_key (put_frames scenario_b (plain_frames 3)).encoder { id := 3 } = false ∧
    ∃ enc1, gst_vaapi_encoder_h265_reordering (put_frames scenario_b (plain_frames 3)).encoder
        (some { id := 3 }) =
      Outcome.ret
        (SUCCESS,
          some { frame := { id := 3 },
                 poc := ((put_frames scenario_b
                   (plain_frames 3)).encoder.reorder_pool.cur_present_index + 1) % 2 ^ 32
                   % (put_frames scenario_b (plain_frames 3)).encoder.max_pic_order_cnt,
                 type := P, idr := false }) enc1 ∧
      enc1.reorder_pool.reorder_frame_list =
        List.map (fun p : GstVaapiEncPicture => { p with type := B })
          ([{ frame := { id := 1 }, poc := 1 }] ++ [{ frame := { id := 2 }, poc := 2 }]) ∧
      enc1.reorder_pool.reorder_state = REORD_DUMP_FRAMES :=
  ⟨by decide,
    (C29_full_buffer_resolution (put_frames scenario_b (plain_frames 3)).encoder { id := 3 }
      [{ frame := { id := 1 }, poc := 1 }] { frame := { id := 2 }, poc := 2 }
      (by decide) (by decide) (by decide) (by decide) (by decide)).1 (by decide)⟩

/-- C30, as stated, fails: in scenario B after three frames the buffer holds the
untyped frames 1 and 2. Iterating `gst_vaapi_encoder_h265_get_pending_reordered`
returns first the frame 2, the most recent one, typed P, then the frame 1, the
oldest one, typed B. -/
theorem C30_pending_counterexample :
    (put_frames scenario_b (plain_frames 3)).encoder.reorder_pool.reorder_frame_list =
      [{ frame := { id := 1 }, poc := 1 }, { frame := { id := 2 }, poc := 2 }] ∧
    (get_pending 3 (put_frames scenario_b (plain_frames 3)).encoder none).pictures =
      [{ frame := { id := 2 }, poc := 2, type := P },
       { frame := { id := 1 }, poc := 1, type := B }] := by
  decide

/-- C30, amended: when `gst_vaapi_encoder_h265_get_pending_reordered` is iterated
with one iterator state over a reorder buffer holding `k >= 2` untyped frames,
the frames are returned from the most recent to the oldest; the most recent
buffered frame is the one typed P and every other buffered frame is typed B;
after `k` calls the buffer is empty and the next call returns FALSE. -/
theorem C30_pending_resolution (enc : Encoder) (older : List GstVaapiEncPicture)
    (newest : GstVaapiEncPicture)
    (hq : enc.reorder_pool.reorder_frame_list = older ++ [newest])
    (_hk : 2 ≤ enc.reorder_pool.reorder_frame_list.length)
    (huntyped : ∀ p ∈ enc.reorder_pool.reorder_frame_list, p.type = NONE) :
    (get_pending (enc.reorder_pool.reorder_frame_list.length + 1) enc none).pictures =
      { newest with type := P } :: older.reverse.map (fun p => { p with type := B }) ∧
    (get_pending (enc.reorder_pool.reorder_frame_list.length + 1) enc none).pictures.length =
      enc.reorder_pool.reorder_frame_list.length ∧
    (get_pending (enc.reorder_pool.reorder_frame_list.length + 1) enc none).complete = true ∧
    (get_pending (enc.reorder_pool.reorder_frame_list.length + 1) enc
      none).encoder.reorder_pool.reorder_frame_list = [] ∧
    (gst_vaapi_encoder_h265_get_pending_reordered
      (get_pending (enc.reorder_pool.reorder_frame_list.length + 1) enc none).encoder
      (some { pic_type := B })).1 = false := by
  obtain ⟨h1, h2, h3⟩ := get_pending_fresh enc
  have hnewest : newest.type = NONE := huntyped newest (by rw [hq]; simp)
  have holder : ∀ p ∈ older.reverse, p.type = NONE :=
    fun p hp => huntyped p (by rw [hq]; simp [List.mem_reverse.1 hp])
  have hpics : (get_pending (enc.reorder_pool.reorder_frame_list.length + 1) enc none).pictures =
      { newest with type := P } :: older.reverse.map (fun p => { p with type := B }) := by
    have hlast : enc.reorder_pool.reorder_frame_list.getLast? = some newest := by
      rw [hq]; simp
    have hdrop : enc.reorder_pool.reorder_frame_list.dropLast = older := by
      rw [hq]; simp
    rw [h3, hlast, hdrop]
    dsimp only
    rw [set_p_frame_untyped newest hnewest, map_set_b_frame_untyped _ holder]
  refine ⟨hpics, ?_, h1, h2, ?_⟩
  · rw [hpics, hq]
    simp
  · simp [gst_vaapi_encoder_h265_get_pending_reordered, h2]

/-- C30, amended, witness: scenario B after three frames, with the untyped frames
1 and 2 in the buffer. -/
theorem C30_pending_resolution_witness :
    (get_pending
      ((put_frames scenario_b (plain_frames 3)).encoder.reorder_pool.reorder_frame_list.length + 1)
      (put_frames scenario_b (plain_frames 3)).encoder none).pictures =
      { ({ frame := { id := 2 }, poc := 2 } : GstVaapiEncPicture) with type := P } ::
        [({ frame := { id := 1 }, poc := 1 } : GstVaapiEncPicture)].reverse.map
          (fun p => { p with type := B }) :=
  (C30_pending_resolution (put_frames scenario_b (plain_frames 3)).encoder
    [{ frame := { id := 1 }, poc := 1 }] { frame := { id := 2 }, poc := 2 }
    (by decide) (by decide) (by decide)).1

/-! ## Row rounding of the slices -/

/-- A round of the loop of `add_slice_headers` stays within the picture, and a
round that does not end the picture fills its slice with the share rounded
down to whole rows plus one row. -/
theorem cur_slice_ctus_not_last (enc : Encoder) (S q m last : Nat) (hW : 1 ≤ enc.ctu_width)
    (hlast : last < S) (hb : S + q + enc.ctu_width < 2 ^ 32) :
    last + cur_slice_ctus enc S q m last ≤ S ∧
    (last + cur_slice_ctus enc S q m last ≠ S →
      cur_slice_ctus enc S q m last =
        ((q + if m ≠ 0 then 1 else 0) / enc.ctu_width + 1) * enc.ctu_width) := by
  generalize hc0 : (if m ≠ 0 then (q + 1) % 2 ^ 32 else q) = c0
  have hc0v : c0 = q + (if m ≠ 0 then 1 else 0) := by
    rw [← hc0]
    split_ifs
    · exact Nat.mod_eq_of_lt (by omega)
    · rfl
  have hmod : c0 % enc.ctu_width < enc.ctu_width := Nat.mod_lt _ hW
  have hle : c0 ≤ q + 1 := by
    rw [hc0v]
    split_ifs <;> omega
  have hfactor : (enc.ctu_width + 2 ^ 32 - c0 % enc.ctu_width) % 2 ^ 32
      = enc.ctu_width - c0 % enc.ctu_width := by
    have h1 : enc.ctu_width + 2 ^ 32 - c0 % enc.ctu_width
        = enc.ctu_width - c0 % enc.ctu_width + 2 ^ 32 := by omega
    rw [h1, Nat.add_mod_right]
    exact Nat.mod_eq_of_lt (by omega)
  have hround : c0 + (enc.ctu_width - c0 % enc.ctu_width)
      = (c0 / enc.ctu_width + 1) * enc.ctu_width := by
    have h := Nat.div_add_mod c0 enc.ctu_width
    rw [Nat.add_mul, Nat.one_mul, Nat.mul_comm]
    omega
  have hc1 : (c0 + (enc.ctu_width - c0 % enc.ctu_width)) % 2 ^ 32
      = c0 + (enc.ctu_width - c0 % enc.ctu_width) := Nat.mod_eq_of_lt (by omega)
  have hsum : (last + (c0 + (enc.ctu_width - c0 % enc.ctu_width))) % 2 ^ 32
      = last + (c0 + (enc.ctu_width - c0 % enc.ctu_width)) := Nat.mod_eq_of_lt (by omega)
  have hcapped : (S + 2 ^ 32 - last) % 2 ^ 32 = S - last := by
    have h1 : S + 2 ^ 32 - last = S - last + 2 ^ 32 := by omega
    rw [h1, Nat.add_mod_right]
    exact Nat.mod_eq_of_lt (by omega)
  unfold cur_slice_ctus
  simp only [hc0, hfactor, hc1, hsum]
  by_cases hcap : last + (c0 + (enc.ctu_width - c0 % enc.ctu_width)) > S
  · rw [if_pos hcap, hcapped]
    refine ⟨by omega, fun hnot => ?_⟩
    exfalso
    apply hnot
    omega
  · rw [if_neg hcap]
    refine ⟨by omega, fun _ => ?_⟩
    rw [hround, hc0v]

/-- Every slice that the loop of `add_slice_headers` adds before its last one
holds its share rounded down to whole rows plus one row; the share of the
slice `k` of the loop is `slice_of_ctus`, one more while `slice_mod_ctus` lasts. -/
theorem add_slice_headers_loop_sizes (enc : Encoder) (S q : Nat) (hW : 1 ≤ enc.ctu_width)
    (hb : S + q + enc.ctu_width < 2 ^ 32) :
    ∀ (n i m last : Nat) (flag : Bool), last ≤ S →
      ∀ (k : Nat) (s : GstVaapiEncSlice),
        (add_slice_headers_loop enc S q true n i m last flag).slices[k]? = some s →
        k + 1 < (add_slice_headers_loop enc S q true n i m last flag).slices.length →
        s.num_ctu_in_slice =
          ((q + if k < m then 1 else 0) / enc.ctu_width + 1) * enc.ctu_width := by
  intro n
  induction n with
  | zero =>
    intro i m last flag _ k s hk
    simp [add_slice_headers_loop] at hk
  | succ n ih =>
    intro i m last flag hle k s hk hlen
    by_cases hlt : last < S
    · obtain ⟨hin, hsize⟩ := cur_slice_ctus_not_last enc S q m last hW hlt hb
      have hlast1 : (last + cur_slice_ctus enc S q m last) % 2 ^ 32 =
          last + cur_slice_ctus enc S q m last := Nat.mod_eq_of_lt (by omega)
      generalize hcur : cur_slice_ctus enc S q m last = cur at hin hsize hlast1
      rw [add_slice_headers_loop, if_pos hlt] at hk hlen
      simp only [if_true, hcur, hlast1] at hk hlen
      cases k with
      | zero =>
        simp only [List.getElem?_cons_zero, Option.some.injEq] at hk
        rw [← hk]
        have hnot : last + cur ≠ S := by
          intro heq
          rw [heq] at hlen
          cases n with
          | zero => simp [add_slice_headers_loop] at hlen
          | succ n => simp [add_slice_headers_loop] at hlen
        show cur = _
        rw [hsize hnot]
        by_cases hm : m ≠ 0
        · rw [if_pos hm, if_pos (by omega)]
        · rw [if_neg hm, if_neg (by omega)]
      | succ k =>
        simp only [List.getElem?_cons_succ] at hk
        simp only [List.length_cons] at hlen
        have hrest := ih (i + 1) (if m ≠ 0 then m - 1 else m) (last + cur)
          (decide (i = 0)) hin k s hk (by omega)
        rw [hrest]
        by_cases hm : m ≠ 0
        · rw [if_pos hm]
          by_cases hkm : k < m - 1
          · rw [if_pos hkm, if_pos (by omega)]
          · rw [if_neg hkm, if_neg (by omega)]
        · rw [if_neg hm]
          have hm0 : m = 0 := by omega
          rw [hm0]
          simp
    · rw [add_slice_headers_loop, if_neg hlt] at hk
      simp at hk

/-- When the loop does not overflow, `add_slice_headers` returns TRUE with the
slices of its loop. -/
theorem add_slice_headers_eq_loop (enc : Encoder) (picture : GstVaapiEncPicture)
    (packed_headers_slice : Bool) (hN : 1 ≤ enc.num_slices)
    (hNS : enc.num_slices < enc.ctu_width * enc.ctu_height)
    (hb : enc.ctu_width * enc.ctu_height + enc.ctu_width * enc.ctu_height / enc.num_slices
      + enc.ctu_width < 2 ^ 32)
    (hhdr : packed_headers_slice = false ∨ picture.type ≠ NONE) :
    ∃ (encoder1 : Encoder),
      add_slice_headers enc picture packed_headers_slice = Outcome.ret (true,
        (add_slice_headers_loop enc (enc.ctu_width * enc.ctu_height)
          (enc.ctu_width * enc.ctu_height / enc.num_slices) true enc.num_slices 0
          ((enc.ctu_width * enc.ctu_height) % enc.num_slices) 0
          enc.first_slice_segment_in_pic_flag).slices) encoder1 := by
  have hS : (enc.ctu_width * enc.ctu_height) % 2 ^ 32 = enc.ctu_width * enc.ctu_height :=
    Nat.mod_eq_of_lt
      (lt_of_le_of_lt (Nat.le_add_right _ _) (lt_of_le_of_lt (Nat.le_add_right _ _) hb))
  have hW : 1 ≤ enc.ctu_width := by
    rcases Nat.eq_zero_or_pos enc.ctu_width with h | h
    · rw [h] at hNS
      simp at hNS
    · exact h
  have hok : (!packed_headers_slice || (get_nal_unit_type picture).isSome) = true := by
    rcases hhdr with h | h
    · simp [h]
    · have : (get_nal_unit_type picture).isSome = true := by
        unfold get_nal_unit_type
        cases hty : picture.type
        · exact absurd hty h
        · simp only
          split_ifs <;> rfl
        · rfl
        · rfl
      simp [this]
  have hcover : enc.ctu_width * enc.ctu_height ≤
      enc.num_slices * (enc.ctu_width * enc.ctu_height / enc.num_slices) +
        (enc.ctu_width * enc.ctu_height) % enc.num_slices + 0 := by
    have := Nat.div_add_mod (enc.ctu_width * enc.ctu_height) enc.num_slices
    omega
  obtain ⟨r1, r2, _, _, _⟩ := add_slice_headers_loop_spec enc
    (enc.ctu_width * enc.ctu_height) (enc.ctu_width * enc.ctu_height / enc.num_slices) hW
    ⟨_, rfl⟩ hb enc.num_slices 0 ((enc.ctu_width * enc.ctu_height) % enc.num_slices) 0
    enc.first_slice_segment_in_pic_flag ⟨0, rfl⟩ (by omega)
    (le_of_lt (Nat.mod_lt _ (by omega))) hcover (fun _ => rfl)
  refine ⟨{ enc with first_slice_segment_in_pic_flag :=
    (add_slice_headers_loop enc (enc.ctu_width * enc.ctu_height)
      (enc.ctu_width * enc.ctu_height / enc.num_slices) true enc.num_slices 0
      ((enc.ctu_width * enc.ctu_height) % enc.num_slices) 0
      enc.first_slice_segment_in_pic_flag).first_slice_segment_in_pic_flag }, ?_⟩
  unfold add_slice_headers
  simp only [hS, hok]
  have hasrt : enc.num_slices ≠ 0 ∧ enc.num_slices < enc.ctu_width * enc.ctu_height :=
    ⟨by omega, hNS⟩
  rw [if_neg (not_not.2 hasrt)]
  simp only [r1, r2, if_true, Bool.false_eq_true, if_false]

/-- C31, as stated, fails: on a grid of 4 by 4 coding tree units in 2 slices the
even share of each slice is 8, already a multiple of `ctu_width = 4`, yet
`add_slice_headers` emits slices of 12 and 4 coding tree units: the share of the
first slice is not left unchanged, it gets a whole extra row. -/
theorem C31_row_rounding_counterexample :
    1 ≤ scenario_slices_aligned.num_slices ∧
    scenario_slices_aligned.num_slices
      < scenario_slices_aligned.ctu_width * scenario_slices_aligned.ctu_height ∧
    scenario_slices_aligned.ctu_width * scenario_slices_aligned.ctu_height
      / scenario_slices_aligned.num_slices = 8 ∧
    scenario_slices_aligned.ctu_width * scenario_slices_aligned.ctu_height
      % scenario_slices_aligned.num_slices = 0 ∧
    8 % scenario_slices_aligned.ctu_width = 0 ∧
    add_slice_headers scenario_slices_aligned { type := P } false =
      Outcome.ret (true,
        [{ slice_segment_address := 0, num_ctu_in_slice := 12, last_slice_of_pic_flag := false,
           first_slice_segment_in_pic_flag := true },
         { slice_segment_address := 12, num_ctu_in_slice := 4, last_slice_of_pic_flag := true,
           first_slice_segment_in_pic_flag := false }])
        { scenario_slices_aligned with first_slice_segment_in_pic_flag := false } := by
  decide

/-- C31, amended: row rounding of the even split when the loop does not overflow
32 bits: for every `ctu_width`, `ctu_height` and `num_slices` with
`1 <= num_slices < ctu_width * ctu_height` and
`ctu_width * ctu_height + ctu_width * ctu_height / num_slices + ctu_width < 2 ^ 32`,
and a picture whose slice headers can be written, `add_slice_headers` returns
TRUE and every slice emitted other than the last has `num_ctu_in_slice` equal to
`(share / ctu_width + 1) * ctu_width`, the smallest multiple of `ctu_width` that
is strictly greater than its even share, where the share of slice `i` is
`ctu_size / num_slices` plus 1 when `i < ctu_size % num_slices`; so a share that
is not a multiple of `ctu_width` is rounded up to the next multiple, and a share
that is already a multiple of `ctu_width` gets one more whole row. -/
theorem C31_slices_round_to_next_row (enc : Encoder) (picture : GstVaapiEncPicture)
    (packed_headers_slice : Bool) (hN : 1 ≤ enc.num_slices)
    (hNS : enc.num_slices < enc.ctu_width * enc.ctu_height)
    (hb : enc.ctu_width * enc.ctu_height + enc.ctu_width * enc.ctu_height / enc.num_slices
      + enc.ctu_width < 2 ^ 32)
    (hhdr : packed_headers_slice = false ∨ picture.type ≠ NONE) :
    ∃ (slices : List GstVaapiEncSlice) (encoder1 : Encoder),
      add_slice_headers enc picture packed_headers_slice = Outcome.ret (true, slices) encoder1 ∧
      ∀ (i : Nat) (s : GstVaapiEncSlice), slices[i]? = some s → i + 1 < slices.length →
        ∀ (share : Nat),
          share = enc.ctu_width * enc.ctu_height / enc.num_slices
            + (if i < enc.ctu_width * enc.ctu_height % enc.num_slices then 1 else 0) →
          s.num_ctu_in_slice = (share / enc.ctu_width + 1) * enc.ctu_width ∧
          enc.ctu_width ∣ s.num_ctu_in_slice ∧
          share < s.num_ctu_in_slice ∧
          (∀ (multiple : Nat), enc.ctu_width ∣ multiple → share < multiple →
            s.num_ctu_in_slice ≤ multiple) ∧
          (share % enc.ctu_width ≠ 0 →
            ∀ (multiple : Nat), enc.ctu_width ∣ multiple → share ≤ multiple →
              s.num_ctu_in_slice ≤ multiple) ∧
          (share % enc.ctu_width = 0 → s.num_ctu_in_slice = share + enc.ctu_width) := by
  have hW : 1 ≤ enc.ctu_width := by
    rcases Nat.eq_zero_or_pos enc.ctu_width with h | h
    · rw [h] at hNS
      simp at hNS
    · exact h
  obtain ⟨encoder1, hret⟩ :=
    add_slice_headers_eq_loop enc picture packed_headers_slice hN hNS hb hhdr
  refine ⟨_, encoder1, hret, ?_⟩
  intro i s hi hlen share hshare
  have hsize := add_slice_headers_loop_sizes enc (enc.ctu_width * enc.ctu_height)
    (enc.ctu_width * enc.ctu_height / enc.num_slices) hW hb enc.num_slices 0
    ((enc.ctu_width * enc.ctu_height) % enc.num_slices) 0
    enc.first_slice_segment_in_pic_flag (Nat.zero_le _) i s hi hlen
  rw [← hshare] at hsize
  have hdm := Nat.div_add_mod share enc.ctu_width
  have hmod : share % enc.ctu_width < enc.ctu_width := Nat.mod_lt _ hW
  have hexp : (share / enc.ctu_width + 1) * enc.ctu_width
      = enc.ctu_width * (share / enc.ctu_width) + enc.ctu_width := by
    rw [Nat.add_mul, Nat.one_mul, Nat.mul_comm]
  have hnext : ∀ (multiple : Nat), enc.ctu_width ∣ multiple → share < multiple →
      (share / enc.ctu_width + 1) * enc.ctu_width ≤ multiple := by
    intro multiple hdvd hlt
    obtain ⟨c, hc⟩ := hdvd
    rw [hc, Nat.mul_comm enc.ctu_width c]
    apply Nat.mul_le_mul_right
    rw [hc] at hlt
    have : share / enc.ctu_width < c := by
      apply Nat.div_lt_of_lt_mul
      exact hlt
    omega
  rw [hsize]
  refine ⟨rfl, Dvd.intro_left _ rfl, by omega, hnext, ?_, ?_⟩
  · intro hne multiple hdvd hle
    apply hnext multiple hdvd
    rcases Nat.lt_or_ge share multiple with h | h
    · exact h
    · exfalso
      have heq : share = multiple := by omega
      rw [heq] at hne
      exact hne (Nat.mod_eq_zero_of_dvd hdvd)
  · intro h0
    omega

/-- C31, amended, witness: 60 by 34 coding tree units in 3 slices: every share is
680, and the slices before the last hold `(680 / 60 + 1) * 60 = 720` coding tree
units. -/
theorem C31_slices_round_to_next_row_witness :
    (add_slice_headers scenario_slices { type := P } true).returned = true ∧
    ((add_slice_headers scenario_slices { type := P } true).value?.map
      (fun r => r.2.map (fun (s : GstVaapiEncSlice) => s.num_ctu_in_slice)))
      = some [720, 720, 600] ∧
    ∃ (slices : List GstVaapiEncSlice) (encoder1 : Encoder),
      add_slice_headers scenario_slices { type := P } true
        = Outcome.ret (true, slices) encoder1 ∧
      ∀ (i : Nat) (s : GstVaapiEncSlice), slices[i]? = some s → i + 1 < slices.length →
        ∀ (share : Nat),
          share = scenario_slices.ctu_width * scenario_slices.ctu_height
              / scenario_slices.num_slices
            + (if i < scenario_slices.ctu_width * scenario_slices.ctu_height
                % scenario_slices.num_slices then 1 else 0) →
          s.num_ctu_in_slice = (share / scenario_slices.ctu_width + 1)
            * scenario_slices.ctu_width ∧
          scenario_slices.ctu_width ∣ s.num_ctu_in_slice ∧
          share < s.num_ctu_in_slice ∧
          (∀ (multiple : Nat), scenario_slices.ctu_width ∣ multiple → share < multiple →
            s.num_ctu_in_slice ≤ multiple) ∧
          (share % scenario_slices.ctu_width ≠ 0 →
            ∀ (multiple : Nat), scenario_slices.ctu_width ∣ multiple → share ≤ multiple →
              s.num_ctu_in_slice ≤ multiple) ∧
          (share % scenario_slices.ctu_width = 0 →
            s.num_ctu_in_slice = share + scenario_slices.ctu_width) :=
  ⟨by decide, by decide,
    C31_slices_round_to_next_row scenario_slices { type := P } true (by decide) (by decide)
      (by decide) (Or.inr (by decide))⟩

/-! ## The parameter sets of a stream of the least bit rate -/

set_option maxRecDepth 1000000 in
/-- C32: `bs_write_sps` does not append `rbsp_trailing_bits` on every input, and
`add_packed_sequence_header` then stops at its own assertion. For a CBR stream
configured with `bitrate = 10` kbps and `cpb-length = 1` ms the configuration
succeeds and `ensure_bitrate_hrd` rounds the bit rate to 9984 bits per second
and the CPB size to 0 bits; `fill_hrd_params` gives `buffer_size = 0`, and in
`bs_write_sps_data` the write `WRITE_UE (bs, (buffer_size >> SX_CPB_SIZE) - 1)`,
of the value `2 ^ 32 - 1`, fails. `bs_write_sps` returns FALSE with the writer as
the failed write left it, 386 bits, without trailing bits, and
`add_packed_sequence_header`, which does not look at the result, fails
`g_assert (GST_BIT_WRITER_BIT_SIZE (&bs) % 8 == 0)`: no packed header is
attached and no value is returned. -/
theorem C32_sps_without_trailing_bits :
    (ensure_profile_tier_level (gst_vaapi_encoder_h265_init scenario_low_bitrate_properties)
      sample_backend).1 = SUCCESS ∧
    scenario_low_bitrate.bitrate_bits = 9984 ∧
    scenario_low_bitrate.cpb_length_bits = 0 ∧
    fill_hrd_params scenario_low_bitrate = 0 ∧
    fill_sequence scenario_low_bitrate {} = some low_bitrate_seq_param ∧
    ((fill_hrd_params scenario_low_bitrate >>> SX_CPB_SIZE) + 2 ^ 32 - 1) % 2 ^ 32 = 2 ^ 32 - 1 ∧
    write_ok (WRITE_UE [] (2 ^ 32 - 1)) = false ∧
    write_ok (bs_write_sps_data (packed_header_writer GST_H265_NAL_SPS) scenario_low_bitrate
      low_bitrate_seq_param scenario_low_bitrate.profile scenario_low_bitrate.rate_control
      (fill_hrd_params scenario_low_bitrate)) = false ∧
    bs_write_sps (packed_header_writer GST_H265_NAL_SPS) scenario_low_bitrate
        low_bitrate_seq_param scenario_low_bitrate.profile scenario_low_bitrate.rate_control
        (fill_hrd_params scenario_low_bitrate) =
      (false,
        writer_of (bs_write_sps_data (packed_header_writer GST_H265_NAL_SPS)
          scenario_low_bitrate low_bitrate_seq_param scenario_low_bitrate.profile
          scenario_low_bitrate.rate_control (fill_hrd_params scenario_low_bitrate))) ∧
    (bs_write_sps (packed_header_writer GST_H265_NAL_SPS) scenario_low_bitrate
      low_bitrate_seq_param scenario_low_bitrate.profile scenario_low_bitrate.rate_control
      (fill_hrd_params scenario_low_bitrate)).2.length = 386 ∧
    (add_packed_sequence_header scenario_low_bitrate
      (packed_sps_body scenario_low_bitrate low_bitrate_seq_param
        (fill_hrd_params scenario_low_bitrate))).returned = false ∧
    (add_packed_sequence_header scenario_low_bitrate
      (packed_sps_body scenario_low_bitrate low_bitrate_seq_param
        (fill_hrd_params scenario_low_bitrate))).value? = none := by
  refine ⟨by decide, by decide, by decide, by decide, by decide, by decide, by decide, by decide,
    by decide, by decide, by decide, by decide⟩

/-! ## The assertions of the reference lists -/

set_option maxRecDepth 1000000 in
/-- C33 fails on a configuration `reset_properties` produces: seven B-frames with
keyframe period and IDR period 13 and one reference frame give
`num_ref_frames = 1`, `idr_period = 13 < 65536` and `max_pic_order_cnt = 16`. Nine
frames submitted under the drain protocol are received as IDR(0), P(8),
B(1), ..., B(7). After the IDR picture is encoded the store holds the single
entry of POC 0, and for the P picture of POC 8 `_poc_greater_than (8, 0, 16)` is
false (`8 < 16 / 2` fails), so the first loop of `reference_list_init` finds no
`list_0_start`, `g_assert (list_0_start)` fails although the store holds an
entry of lower POC, and the encode of the second picture aborts. -/
theorem C33_list_0_start_assertion_fires :
    scenario_seven_bframes.num_ref_frames = 1 ∧
    scenario_seven_bframes.num_bframes = 7 ∧
    scenario_seven_bframes.idr_period = 13 ∧
    scenario_seven_bframes.max_pic_order_cnt = 16 ∧
    (put_frames scenario_seven_bframes (plain_frames 9)).complete = true ∧
    (put_frames scenario_seven_bframes (plain_frames 9)).pictures.map
        (fun p => (p.frame.id, p.poc, p.type, p.idr))
      = [(0, 0, I, true), (8, 8, P, false), (1, 1, B, false), (2, 2, B, false),
          (3, 3, B, false), (4, 4, B, false), (5, 5, B, false), (6, 6, B, false),
          (7, 7, B, false)] ∧
    (gst_vaapi_encoder_h265_encode scenario_seven_bframes
        { frame := { id := 0 }, poc := 0, type := I, idr := true } 0).returned = true ∧
    (gst_vaapi_encoder_h265_encode scenario_seven_bframes
        { frame := { id := 0 }, poc := 0, type := I, idr := true } 0).enc.ref_pool.ref_list
      = [{ pic := 0, poc := 0 }] ∧
    _poc_greater_than 8 0 16 = false ∧
    reference_list_scan 8 16 [{ pic := 0, poc := 0 }] [] = RefScan.not_found ∧
    (reference_list_init
        (gst_vaapi_encoder_h265_encode scenario_seven_bframes
          { frame := { id := 0 }, poc := 0, type := I, idr := true } 0).enc
        { frame := { id := 8 }, poc := 8, type := P, idr := false }).returned = false ∧
    (ensure_slices
        (gst_vaapi_encoder_h265_encode scenario_seven_bframes
          { frame := { id := 0 }, poc := 0, type := I, idr := true } 0).enc
        { frame := { id := 8 }, poc := 8, type := P, idr := false }).returned = false ∧
    encode_pictures scenario_seven_bframes
      (put_frames scenario_seven_bframes (plain_frames 9)).pictures = none := by
  decide

/-! ## The inline short-term reference picture set -/

/-- C34: the inline short-term reference picture set that `bs_write_slice` writes
for a picture that is not an IDR picture reconstructs the POCs of list 0. For
a P or B picture with the POC `c` (a 32-bit value) and the POCs
`p0 > p1 > ... > p(n-1)` of the `n` valid entries of `ref_pic_list0`, all below `c`:
`num_negative_pics = n`; the `delta_poc_s0_minus1` values written are
`d0 = c - p0 - 1` and `di = p(i-1) - pi - 1`, each followed by
`used_by_curr_pic_s0_flag = 1`; `c` minus the sum over `j <= i` of `dj + 1` is `pi` for
every `i < n`; and `num_positive_pics` is the number of valid entries of
`ref_pic_list1` for a B picture and 0 for a P picture. The entries of the
positive pictures follow as the second loop writes them. -/
theorem C34_short_term_ref_pic_set (slice_param : VAEncSliceParameterBufferHEVC)
    (picture : GstVaapiEncPicture) (htype : picture.type = P ∨ picture.type = B)
    (hpoc : picture.poc < 2 ^ 32)
    (hdec : ∀ i, i < ref_pic_list_count slice_param.ref_pic_list0 →
      ref_pic_order_cnt slice_param.ref_pic_list0 i
        < (if i = 0 then picture.poc
          else ref_pic_order_cnt slice_param.ref_pic_list0 (i - 1))) :
    short_term_ref_pic_set_elements slice_param picture
      = [SyntaxElement.ue (ref_pic_list_count slice_param.ref_pic_list0),
          SyntaxElement.ue
            (if picture.type = B then ref_pic_list_count slice_param.ref_pic_list1 else 0)]
        ++ ((List.range (ref_pic_list_count slice_param.ref_pic_list0)).map
          (fun i =>
            [SyntaxElement.ue
              ((if i = 0 then picture.poc
                else ref_pic_order_cnt slice_param.ref_pic_list0 (i - 1))
                - ref_pic_order_cnt slice_param.ref_pic_list0 i - 1),
             SyntaxElement.u 1 1])).flatten
        ++ ref_pic_set_loop
          (if picture.type = B then
            (ref_pic_order_cnt slice_param.ref_pic_list1 0 + 2 ^ 32 - picture.poc % 2 ^ 32
              + 2 ^ 32 - 1) % 2 ^ 32
          else 0)
          (if picture.type = B then 1 else 0) slice_param.ref_pic_list1
          (if picture.type = B then ref_pic_list_count slice_param.ref_pic_list1 else 0) ∧
    ∀ i, i < ref_pic_list_count slice_param.ref_pic_list0 →
      ref_pic_order_cnt slice_param.ref_pic_list0 i
        + ∑ j in Finset.range (i + 1),
          ((if j = 0 then picture.poc
            else ref_pic_order_cnt slice_param.ref_pic_list0 (j - 1))
            - ref_pic_order_cnt slice_param.ref_pic_list0 j - 1 + 1)
        = picture.poc := by
  have hbelow : ∀ i, i < ref_pic_list_count slice_param.ref_pic_list0 →
      ref_pic_order_cnt slice_param.ref_pic_list0 i < picture.poc := by
    intro i
    induction i with
    | zero =>
      intro h0
      have := hdec 0 h0
      simpa using this
    | succ k ih =>
      intro hk
      have h1 := hdec (k + 1) hk
      have h2 := ih (by omega)
      rw [if_neg (Nat.succ_ne_zero k), Nat.add_sub_cancel] at h1
      omega
  constructor
  · unfold short_term_ref_pic_set_elements
    simp only [if_pos htype]
    congr 2
    unfold ref_pic_set_loop
    congr 1
    apply List.map_congr_left
    intro i hi
    have hlt : i < ref_pic_list_count slice_param.ref_pic_list0 := List.mem_range.1 hi
    have hstep := hdec i hlt
    by_cases h0 : i = 0
    · rw [if_pos h0, if_pos h0]
      rw [if_pos h0] at hstep
      rw [h0] at hstep ⊢
      rw [Nat.mod_eq_of_lt hpoc]
      have : (picture.poc + 2 ^ 32 - ref_pic_order_cnt slice_param.ref_pic_list0 0
          + 2 ^ 32 - 1) % 2 ^ 32
          = picture.poc - ref_pic_order_cnt slice_param.ref_pic_list0 0 - 1 := by
        omega
      rw [this]
    · rw [if_neg h0, if_neg h0]
      rw [if_neg h0] at hstep
      have hprev := hbelow (i - 1) (by omega)
      have : (ref_pic_order_cnt slice_param.ref_pic_list0 (i - 1) + 2 ^ 32
          - ref_pic_order_cnt slice_param.ref_pic_list0 i + 2 ^ 32 - 1) % 2 ^ 32
          = ref_pic_order_cnt slice_param.ref_pic_list0 (i - 1)
            - ref_pic_order_cnt slice_param.ref_pic_list0 i - 1 := by
        omega
      rw [this]
  · intro i
    induction i with
    | zero =>
      intro h0
      have := hdec 0 h0
      rw [if_pos rfl] at this
      rw [Finset.sum_range_one, if_pos rfl]
      omega
    | succ k ih =>
      intro hk
      have h1 := hdec (k + 1) hk
      rw [if_neg (Nat.succ_ne_zero k), Nat.add_sub_cancel] at h1
      have h2 := ih (by omega)
      rw [Finset.sum_range_succ, if_neg (Nat.succ_ne_zero k), Nat.add_sub_cancel]
      omega

/-- C34, witness: a P picture of POC 8 with the references of POC 6 and 3 in list
0: `num_negative_pics = 2`, `num_positive_pics = 0`, `delta_poc_s0_minus1` is 1 and then
2, each with the flag 1; `8 - (1 + 1) = 6` and `8 - (1 + 1) - (2 + 1) = 3`. -/
theorem C34_short_term_ref_pic_set_witness :
    ref_pic_list_count sample_slice_param.ref_pic_list0 = 2 ∧
    short_term_ref_pic_set_elements sample_slice_param { poc := 8, type := P }
      = [SyntaxElement.ue 2, SyntaxElement.ue 0, SyntaxElement.ue 1, SyntaxElement.u 1 1,
          SyntaxElement.ue 2, SyntaxElement.u 1 1] ∧
    ∀ i, i < ref_pic_list_count sample_slice_param.ref_pic_list0 →
      ref_pic_order_cnt sample_slice_param.ref_pic_list0 i
        + ∑ j in Finset.range (i + 1),
          ((if j = 0 then 8 else ref_pic_order_cnt sample_slice_param.ref_pic_list0 (j - 1))
            - ref_pic_order_cnt sample_slice_param.ref_pic_list0 j - 1 + 1)
        = 8 :=
  ⟨by decide, by decide,
    (C34_short_term_ref_pic_set sample_slice_param { poc := 8, type := P } (Or.inl rfl)
      (by decide) (by decide)).2⟩

/-! ## Rounding of the HRD parameters -/

/-- Clearing the `n` low-order bits of a 32-bit value with the mask
`~((1U << n) - 1)` rounds it down to a multiple of `2 ^ n`. -/
theorem and_clear_low_bits (x n : Nat) (hn : n ≤ 32) (hx : x < 2 ^ 32) :
    x &&& (2 ^ 32 - 1 - (2 ^ n - 1)) = x / 2 ^ n * 2 ^ n := by
  have hmask : 2 ^ 32 - 1 - (2 ^ n - 1) = 2 ^ n * (2 ^ (32 - n) - 1) := by
    have h1 : 2 ^ n * 2 ^ (32 - n) = 2 ^ 32 := by
      rw [← pow_add]
      congr 1
      omega
    have h2 : 1 ≤ 2 ^ n := Nat.pow_pos (by decide)
    rw [Nat.mul_sub, Nat.mul_one, h1]
    omega
  apply Nat.eq_of_testBit_eq
  intro i
  rw [Nat.testBit_and, hmask, Nat.mul_comm (x / 2 ^ n), Nat.testBit_mul_pow_two,
    Nat.testBit_mul_pow_two, Nat.testBit_two_pow_sub_one, ← Nat.shiftRight_eq_div_pow,
    Nat.testBit_shiftRight]
  by_cases hi : n ≤ i
  · have hcancel : n + (i - n) = i := by omega
    rw [hcancel]
    by_cases h32 : i < 32
    · have : i - n < 32 - n := by omega
      simp [hi, this]
    · have hbit : x.testBit i = false :=
        Nat.testBit_lt_two_pow
          (lt_of_lt_of_le hx (Nat.pow_le_pow_right (by decide) (by omega)))
      simp [hbit]
  · simp [hi]

/-- The bit rate that `ensure_bitrate_hrd` stores for a non-zero base bit rate. -/
theorem ensure_bitrate_hrd_bitrate_bits (enc : Encoder) (hb : enc.bitrate ≠ 0) :
    (ensure_bitrate_hrd enc).bitrate_bits =
      ((enc.bitrate * 1000) % 2 ^ 32) &&& (2 ^ 32 - 1 - (2 ^ SX_BITRATE - 1)) := by
  unfold ensure_bitrate_hrd
  rw [if_neg hb]
  dsimp only
  split_ifs with h1 h2 h2
  · rfl
  · rfl
  · simp only [not_not] at h1
    exact h1.symm
  · simp only [not_not] at h1
    exact h1.symm

/-- The CPB size that `ensure_bitrate_hrd` stores for a non-zero base bit rate. -/
theorem ensure_bitrate_hrd_cpb_length_bits (enc : Encoder) (hb : enc.bitrate ≠ 0) :
    (ensure_bitrate_hrd enc).cpb_length_bits =
      gst_util_uint64_scale
          (((enc.bitrate * 1000) % 2 ^ 32) &&& (2 ^ 32 - 1 - (2 ^ SX_BITRATE - 1)))
          enc.cpb_length 1000
        &&& (2 ^ 32 - 1 - (2 ^ SX_CPB_SIZE - 1)) := by
  unfold ensure_bitrate_hrd
  rw [if_neg hb]
  dsimp only
  split_ifs with h1 h2 h2
  · rfl
  · simp only [not_not] at h2
    exact h2.symm
  · rfl
  · simp only [not_not] at h2
    exact h2.symm

/-- C35: HRD bit rate rounding. For every base bit rate `b` in kbps with
`0 < b * 1000 < 2 ^ 32`, `ensure_bitrate_hrd` sets `bitrate_bits` to the largest
multiple of `2 ^ SX_BITRATE` that is at most `b * 1000`: it is a multiple, it is
not above `b * 1000`, and every multiple that is not above `b * 1000` is not
above it. For `b = 0` it sets `bitrate_bits = 0`. -/
theorem C35_hrd_bitrate_rounds_down (enc : Encoder) :
    (0 < enc.bitrate * 1000 → enc.bitrate * 1000 < 2 ^ 32 →
      (ensure_bitrate_hrd enc).bitrate_bits
        = enc.bitrate * 1000 / 2 ^ SX_BITRATE * 2 ^ SX_BITRATE ∧
      2 ^ SX_BITRATE ∣ (ensure_bitrate_hrd enc).bitrate_bits ∧
      (ensure_bitrate_hrd enc).bitrate_bits ≤ enc.bitrate * 1000 ∧
      ∀ m, 2 ^ SX_BITRATE ∣ m → m ≤ enc.bitrate * 1000 →
        m ≤ (ensure_bitrate_hrd enc).bitrate_bits) ∧
    (enc.bitrate = 0 → (ensure_bitrate_hrd enc).bitrate_bits = 0) := by
  constructor
  · intro hpos hlt
    have hb : enc.bitrate ≠ 0 := by
      intro h0
      rw [h0] at hpos
      simp at hpos
    have hval : (ensure_bitrate_hrd enc).bitrate_bits
        = enc.bitrate * 1000 / 2 ^ SX_BITRATE * 2 ^ SX_BITRATE := by
      rw [ensure_bitrate_hrd_bitrate_bits enc hb, Nat.mod_eq_of_lt hlt,
        and_clear_low_bits _ SX_BITRATE (by decide) hlt]
    rw [hval]
    refine ⟨rfl, Dvd.intro_left _ rfl, Nat.div_mul_le_self _ _, ?_⟩
    intro m hdvd hle
    obtain ⟨c, hc⟩ := hdvd
    rw [hc, Nat.mul_comm]
    apply Nat.mul_le_mul_right
    rw [Nat.le_div_iff_mul_le (Nat.pow_pos (by decide))]
    rw [hc, Nat.mul_comm] at hle
    exact hle
  · intro h0
    unfold ensure_bitrate_hrd
    rw [if_pos h0]

/-- C35, witness: 1234 kbps: 1234000 is rounded down to 1233984 = 19281 * 64. -/
theorem C35_hrd_bitrate_rounds_down_witness :
    (ensure_bitrate_hrd { bitrate := 1234, cpb_length := 1500 }).bitrate_bits = 1233984 ∧
    (ensure_bitrate_hrd { bitrate := 1234, cpb_length := 1500 }).bitrate_bits
      = ({ bitrate := 1234, cpb_length := 1500 } : Encoder).bitrate * 1000
        / 2 ^ SX_BITRATE * 2 ^ SX_BITRATE :=
  ⟨by decide,
    ((C35_hrd_bitrate_rounds_down { bitrate := 1234, cpb_length := 1500 }).1
      (by decide) (by decide)).1⟩

/-- C36: `ensure_bitrate_hrd` rounds the CPB size down, not up. For every
non-zero bit rate and a CPB size `floor (bitrate_bits * cpb_length / 1000)`
below `2 ^ 32`, it sets
`cpb_length_bits` to the largest multiple of `2 ^ SX_CPB_SIZE` that is at most
that size, the mask `~((1U << SX_CPB_SIZE) - 1)` clearing the low bits. -/
theorem C36_hrd_cpb_size_rounds_down (enc : Encoder) (hb : enc.bitrate ≠ 0)
    (hsize : (ensure_bitrate_hrd enc).bitrate_bits * enc.cpb_length / 1000 < 2 ^ 32) :
    (ensure_bitrate_hrd enc).cpb_length_bits =
      (ensure_bitrate_hrd enc).bitrate_bits * enc.cpb_length / 1000
        / 2 ^ SX_CPB_SIZE * 2 ^ SX_CPB_SIZE ∧
    (ensure_bitrate_hrd enc).cpb_length_bits
      ≤ (ensure_bitrate_hrd enc).bitrate_bits * enc.cpb_length / 1000 := by
  have hval : (ensure_bitrate_hrd enc).cpb_length_bits =
      (ensure_bitrate_hrd enc).bitrate_bits * enc.cpb_length / 1000
        / 2 ^ SX_CPB_SIZE * 2 ^ SX_CPB_SIZE := by
    rw [ensure_bitrate_hrd_cpb_length_bits enc hb, ← ensure_bitrate_hrd_bitrate_bits enc hb]
    have hscale : gst_util_uint64_scale (ensure_bitrate_hrd enc).bitrate_bits enc.cpb_length
        1000 = (ensure_bitrate_hrd enc).bitrate_bits * enc.cpb_length / 1000 := by
      unfold gst_util_uint64_scale
      rw [if_neg (by decide)]
      apply Nat.min_eq_left
      have : (2 : Nat) ^ 32 ≤ 2 ^ 64 - 1 := by decide
      omega
    rw [hscale, and_clear_low_bits _ SX_CPB_SIZE (by decide) hsize]
  rw [hval]
  exact ⟨rfl, Nat.div_mul_le_self _ _⟩

/-- C36, witness: 1000 kbps with a CPB of 1001 ms: the size 1001000 is not a
multiple of 16; `cpb_length_bits` is 1000992, below it, and not 1001008, the
smallest multiple of 16 that is at least 1001000. -/
theorem C36_hrd_cpb_size_rounds_down_witness :
    (ensure_bitrate_hrd { bitrate := 1000, cpb_length := 1001 }).bitrate_bits = 1000000 ∧
    (ensure_bitrate_hrd { bitrate := 1000, cpb_length := 1001 }).bitrate_bits * 1001 / 1000
      = 1001000 ∧
    (ensure_bitrate_hrd { bitrate := 1000, cpb_length := 1001 }).cpb_length_bits = 1000992 ∧
    (ensure_bitrate_hrd { bitrate := 1000, cpb_length := 1001 }).cpb_length_bits
      ≤ (ensure_bitrate_hrd { bitrate := 1000, cpb_length := 1001 }).bitrate_bits
        * ({ bitrate := 1000, cpb_length := 1001 } : Encoder).cpb_length / 1000 :=
  ⟨by decide, by decide, by decide,
    (C36_hrd_cpb_size_rounds_down { bitrate := 1000, cpb_length := 1001 } (by decide)
      (by decide)).2⟩

/-! ## The bound of the reorder buffer -/

/-- C37: the reorder buffer is bounded by the lookahead: for every `num_bframes`
and every sequence of calls of `gst_vaapi_encoder_h265_reordering` (frames or NULL,
in any interleaving) that starts from the initial state (the buffer empty, the
state `REORD_NONE`, as `gst_vaapi_encoder_h265_init` leaves them), no call stops at
an assertion and after the calls the length of `reorder_frame_list` is at most
`num_bframes`; as the sequence is arbitrary this holds after every call. With
`num_bframes = 0` the buffer is empty and the state `REORD_NONE` after the calls,
and a frame submitted next is returned by the call that submits it, with
`SUCCESS`. -/
theorem C37_reorder_buffer_bounded (enc : Encoder) (calls : List (Option GstVideoCodecFrame))
    (hq : enc.reorder_pool.reorder_frame_list = [])
    (hs : enc.reorder_pool.reorder_state = REORD_NONE) :
    (reordering_calls enc calls).returned = true ∧
    (reordering_calls enc calls).enc.num_bframes = enc.num_bframes ∧
    (reordering_calls enc calls).enc.reorder_pool.reorder_frame_list.length ≤ enc.num_bframes ∧
    (enc.num_bframes = 0 →
      (reordering_calls enc calls).enc.reorder_pool.reorder_frame_list = [] ∧
      (reordering_calls enc calls).enc.reorder_pool.reorder_state = REORD_NONE ∧
      ∀ (frame : GstVideoCodecFrame), ∃ (picture : GstVaapiEncPicture) (encoder1 : Encoder),
        gst_vaapi_encoder_h265_reordering (reordering_calls enc calls).enc (some frame)
          = Outcome.ret (SUCCESS, some picture) encoder1 ∧
        picture.frame = frame) := by
  obtain ⟨h1, h2, h3, h4⟩ := reordering_calls_bound calls enc (by rw [hq]; exact Nat.zero_le _)
    (fun hne => absurd hs hne)
  refine ⟨h1, h2, h3, fun h0 => ?_⟩
  have hempty : (reordering_calls enc calls).enc.reorder_pool.reorder_frame_list = [] := by
    rw [h0] at h3
    exact List.length_eq_zero.1 (Nat.le_zero.1 h3)
  have hnone : (reordering_calls enc calls).enc.reorder_pool.reorder_state = REORD_NONE := by
    by_contra hne
    exact h4 hne h0
  refine ⟨hempty, hnone, fun frame => ?_⟩
  obtain ⟨v, e1, hcall, _, _, _, hret⟩ :=
    reordering_frame_bound (reordering_calls enc calls).enc frame (by rw [h2]; exact h3)
      (by rw [h2]; exact h4)
  obtain ⟨p, hv, hp⟩ := hret (by rw [h2]; exact h0)
  exact ⟨p, e1, by rw [hcall, hv], hp⟩

/-- C37, witness: scenario B (two B-frames) after the calls frame 0, NULL, frame 1,
frame 2, frame 3, NULL: no call aborted and one picture is left in the buffer,
within the bound of two. -/
theorem C37_reorder_buffer_bounded_witness :
    (reordering_calls scenario_b
      [some { id := 0 }, none, some { id := 1 }, some { id := 2 }, some { id := 3 },
        none]).enc.reorder_pool.reorder_frame_list.length = 1 ∧
    ((reordering_calls scenario_b
        [some { id := 0 }, none, some { id := 1 }, some { id := 2 }, some { id := 3 },
          none]).returned = true ∧
      (reordering_calls scenario_b
        [some { id := 0 }, none, some { id := 1 }, some { id := 2 }, some { id := 3 },
          none]).enc.num_bframes = scenario_b.num_bframes ∧
      (reordering_calls scenario_b
        [some { id := 0 }, none, some { id := 1 }, some { id := 2 }, some { id := 3 },
          none]).enc.reorder_pool.reorder_frame_list.length ≤ scenario_b.num_bframes ∧
      (scenario_b.num_bframes = 0 →
        (reordering_calls scenario_b
          [some { id := 0 }, none, some { id := 1 }, some { id := 2 }, some { id := 3 },
            none]).enc.reorder_pool.reorder_frame_list = [] ∧
        (reordering_calls scenario_b
          [some { id := 0 }, none, some { id := 1 }, some { id := 2 }, some { id := 3 },
            none]).enc.reorder_pool.reorder_state = REORD_NONE ∧
        ∀ (frame : GstVideoCodecFrame), ∃ (picture : GstVaapiEncPicture) (encoder1 : Encoder),
          gst_vaapi_encoder_h265_reordering
              (reordering_calls scenario_b
                [some { id := 0 }, none, some { id := 1 }, some { id := 2 }, some { id := 3 },
                  none]).enc (some frame)
            = Outcome.ret (SUCCESS, some picture) encoder1 ∧
          picture.frame = frame)) :=
  ⟨by decide,
    C37_reorder_buffer_bounded scenario_b
      [some { id := 0 }, none, some { id := 1 }, some { id := 2 }, some { id := 3 }, none]
      (by decide) (by decide)⟩

/-! ## The width of the picture order count -/

/-- The bit length that `h265_get_log2_max_pic_order_cnt` computes, clamped to
4..16. -/
theorem h265_get_log2_max_pic_order_cnt_eq (n : Nat) (hn : n < 2 ^ 32) :
    h265_get_log2_max_pic_order_cnt n = min 16 (max 4 (Nat.size n)) := by
  have hsize : h265_count_bits 32 n 0 = Nat.size n := by
    rw [h265_count_bits_eq 32 n 0 hn]
    simp
  unfold h265_get_log2_max_pic_order_cnt
  simp only [hsize]
  split_ifs with h1 h2
  · omega
  · omega
  · omega

/-- The value of `h265_get_log2_max_pic_order_cnt` lies in 4..16. -/
theorem h265_get_log2_max_pic_order_cnt_range (n : Nat) :
    4 ≤ h265_get_log2_max_pic_order_cnt n ∧ h265_get_log2_max_pic_order_cnt n ≤ 16 := by
  unfold h265_get_log2_max_pic_order_cnt
  simp only []
  split_ifs with h1 h2
  · exact ⟨le_refl _, by decide⟩
  · exact ⟨by decide, le_refl _⟩
  · omega

/-- The picture that a call of `gst_vaapi_encoder_h265_reordering` creates for its
frame, when the POC range is wider than the IDR period and `frame_index` is 0
or one more than `cur_present_index`: the picture is returned or buffered; it
is an IDR picture of POC 0, or its POC is `cur_present_index + 1`, below the IDR
period; and afterwards `cur_present_index` is that POC and `frame_index` one
more. -/
theorem reordering_frame_poc (enc : Encoder) (f : GstVideoCodecFrame)
    (hlen : enc.reorder_pool.reorder_frame_list.length ≤ enc.num_bframes)
    (hst : enc.reorder_pool.reorder_state ≠ REORD_NONE → enc.num_bframes ≠ 0)
    (hidr : enc.idr_period < 65536) (hmax : enc.idr_period < enc.max_pic_order_cnt)
    (hcount : enc.reorder_pool.frame_index = 0 ∨
      enc.reorder_pool.frame_index = enc.reorder_pool.cur_present_index + 1) :
    ∃ v e1 p, gst_vaapi_encoder_h265_reordering enc (some f) = Outcome.ret v e1 ∧
      p.frame = f ∧ (v.2 = some p ∨ p ∈ e1.reorder_pool.reorder_frame_list) ∧
      ((p.idr = true ∧ p.type = I ∧ p.poc = 0) ∨
        (p.idr = false ∧ p.poc = enc.reorder_pool.cur_present_index + 1 ∧
          enc.reorder_pool.cur_present_index + 1 < enc.idr_period)) ∧
      e1.reorder_pool.cur_present_index = p.poc ∧
      e1.reorder_pool.frame_index = p.poc + 1 ∧
      e1.idr_period = enc.idr_period ∧ e1.max_pic_order_cnt = enc.max_pic_order_cnt := by
  have hzero : enc.num_bframes = 0 → enc.reorder_pool.reorder_frame_list = [] := by
    intro h0
    rw [h0] at hlen
    exact List.length_eq_zero.1 (Nat.le_zero.1 hlen)
  have hcases : (enc.reorder_pool.frame_index == 0
        || decide (enc.reorder_pool.frame_index ≥ enc.idr_period)) = true ∨
      ((enc.reorder_pool.frame_index == 0
        || decide (enc.reorder_pool.frame_index ≥ enc.idr_period)) = false ∧
        enc.reorder_pool.frame_index = enc.reorder_pool.cur_present_index + 1 ∧
        enc.reorder_pool.cur_present_index + 1 < enc.idr_period) := by
    rcases hcount with h0 | h1
    · left
      simp [h0]
    · by_cases hge : enc.reorder_pool.frame_index ≥ enc.idr_period
      · left
        simp [hge]
      · right
        refine ⟨?_, h1, by omega⟩
        have hne : enc.reorder_pool.frame_index ≠ 0 := by omega
        simp [hne, hge]
  unfold gst_vaapi_encoder_h265_reordering
  simp only []
  rcases hcases with hi | ⟨hi, hfi, hlt⟩
  · -- the frame starts a new IDR period
    rw [hi]
    simp only [Bool.true_or, if_true, set_key_frame, set_idr_frame, reset_gop_start]
    split_ifs with h2 h3 h4
    · exact ⟨_, _, _, rfl, rfl, Or.inr (List.mem_append_right _ (List.mem_singleton_self _)),
        Or.inl ⟨rfl, rfl, rfl⟩, rfl, rfl, rfl, rfl⟩
    · exfalso
      apply h3
      by_cases h0 : enc.num_bframes = 0
      · exact hzero h0
      · by_contra hq; exact h2 ⟨h0, hq⟩
    · exact ⟨_, _, _, rfl, rfl, Or.inl rfl, Or.inl ⟨rfl, rfl, rfl⟩, rfl, rfl, rfl, rfl⟩
    · exact ⟨_, _, _, rfl, rfl, Or.inl rfl, Or.inl ⟨rfl, rfl, rfl⟩, rfl, rfl, rfl, rfl⟩
  · -- the frame continues the IDR period
    have hcur : (enc.reorder_pool.cur_present_index + 1) % 2 ^ 32
        = enc.reorder_pool.cur_present_index + 1 := Nat.mod_eq_of_lt (by omega)
    have hpoc : (enc.reorder_pool.cur_present_index + 1) % enc.max_pic_order_cnt
        = enc.reorder_pool.cur_present_index + 1 := Nat.mod_eq_of_lt (by omega)
    have hnext : (enc.reorder_pool.frame_index + 1) % 2 ^ 32
        = enc.reorder_pool.cur_present_index + 1 + 1 := by
      rw [hfi]
      exact Nat.mod_eq_of_lt (by omega)
    rw [hi]
    simp only [hcur, hpoc, hnext, Bool.false_or, set_key_frame, set_i_frame, Bool.false_eq_true,
      if_false, if_true]
    split_ifs with h1 h2 h3 h4 h5 h6 h7
    · exact ⟨_, _, _, rfl, rfl, Or.inr (List.mem_append_right _ (List.mem_singleton_self _)),
        Or.inr ⟨rfl, rfl, hlt⟩, rfl, rfl, rfl, rfl⟩
    · exfalso
      apply h3
      by_cases h0 : enc.num_bframes = 0
      · exact hzero h0
      · by_contra hq; exact h2 ⟨h0, hq⟩
    · exact ⟨_, _, _, rfl, rfl, Or.inl rfl, Or.inr ⟨rfl, rfl, hlt⟩, rfl, rfl, rfl, rfl⟩
    · exact ⟨_, _, _, rfl, rfl, Or.inl rfl, Or.inr ⟨rfl, rfl, hlt⟩, rfl, rfl, rfl, rfl⟩
    · exact ⟨_, _, _, rfl, rfl, Or.inr (List.mem_append_right _ (List.mem_singleton_self _)),
        Or.inr ⟨rfl, rfl, hlt⟩, rfl, rfl, rfl, rfl⟩
    · exfalso
      have hfull : ¬ enc.reorder_pool.reorder_frame_list.length < enc.num_bframes :=
        fun hl => h5 ⟨h6, hl⟩
      have hq : enc.reorder_pool.reorder_frame_list = [] := by simpa using h7
      rw [hq] at hfull
      exact hfull (Nat.pos_of_ne_zero (hst (by rw [h6]; decide)))
    · exact ⟨_, _, _, rfl, rfl, Or.inl rfl, Or.inr ⟨rfl, rfl, hlt⟩, rfl, rfl, rfl, rfl⟩
    · exact ⟨_, _, _, rfl, rfl, Or.inl rfl, Or.inr ⟨rfl, rfl, hlt⟩, rfl, rfl, rfl, rfl⟩

/-- Any sequence of calls of `gst_vaapi_encoder_h265_reordering` keeps the relation
of the two counters, with the bound of the buffer and the configuration. -/
theorem reordering_calls_counters : ∀ (calls : List (Option GstVideoCodecFrame)) (enc : Encoder),
    enc.reorder_pool.reorder_frame_list.length ≤ enc.num_bframes →
    (enc.reorder_pool.reorder_state ≠ REORD_NONE → enc.num_bframes ≠ 0) →
    enc.idr_period < 65536 → enc.idr_period < enc.max_pic_order_cnt →
    (enc.reorder_pool.frame_index = 0 ∨
      enc.reorder_pool.frame_index = enc.reorder_pool.cur_present_index + 1) →
    (reordering_calls enc calls).enc.idr_period = enc.idr_period ∧
    (reordering_calls enc calls).enc.max_pic_order_cnt = enc.max_pic_order_cnt ∧
    ((reordering_calls enc calls).enc.reorder_pool.frame_index = 0 ∨
      (reordering_calls enc calls).enc.reorder_pool.frame_index
        = (reordering_calls enc calls).enc.reorder_pool.cur_present_index + 1)
  | [], _, _, _, _, _, hcount => ⟨rfl, rfl, hcount⟩
  | none :: calls, enc, hlen, hst, hidr, hmax, hcount => by
    obtain ⟨v, e1, hcall, hnb, hlen1, hst1⟩ := reordering_null_bound enc hlen hst
    obtain ⟨c1, c2, c3, c4⟩ := reordering_null_counters enc
    rw [hcall] at c1 c2 c3 c4
    have c1' : e1.reorder_pool.frame_index = enc.reorder_pool.frame_index := c1
    have c2' : e1.reorder_pool.cur_present_index = enc.reorder_pool.cur_present_index := c2
    have c3' : e1.idr_period = enc.idr_period := c3
    have c4' : e1.max_pic_order_cnt = enc.max_pic_order_cnt := c4
    have hrest := reordering_calls_counters calls e1 (by rw [hnb]; exact hlen1)
      (by rw [hnb]; exact hst1) (by rw [c3']; exact hidr) (by rw [c3', c4']; exact hmax)
      (by rw [c1', c2']; exact hcount)
    have hrun : reordering_calls enc (none :: calls) = reordering_calls e1 calls := by
      rw [reordering_calls, hcall]
    rw [hrun, ← c3', ← c4']
    exact hrest
  | some f :: calls, enc, hlen, hst, hidr, hmax, hcount => by
    obtain ⟨v, e1, hcall, hnb, hlen1, hst1, _⟩ := reordering_frame_bound enc f hlen hst
    obtain ⟨v2, e2, p, hcall2, _, _, _, hcur, hfi, c3, c4⟩ :=
      reordering_frame_poc enc f hlen hst hidr hmax hcount
    rw [hcall] at hcall2
    have he : e1 = e2 := by
      injection hcall2
    rw [← he] at hcur hfi c3 c4
    have hrest := reordering_calls_counters calls e1 (by rw [hnb]; exact hlen1)
      (by rw [hnb]; exact hst1) (by rw [c3]; exact hidr) (by rw [c3, c4]; exact hmax)
      (Or.inr (by rw [hfi, hcur]))
    have hrun : reordering_calls enc (some f :: calls) = reordering_calls e1 calls := by
      rw [reordering_calls, hcall]
    rw [hrun, ← c3, ← c4]
    exact hrest

/-- After `reset_properties` the POC width is that of the IDR period and
`max_pic_order_cnt` is its power of two; `frame_index` is 0. -/
theorem reset_properties_poc (enc : Encoder) (max_num_ref_frames_0 max_num_ref_frames_1 : Nat) :
    (reset_properties enc max_num_ref_frames_0 max_num_ref_frames_1).log2_max_pic_order_cnt
      = h265_get_log2_max_pic_order_cnt
        (reset_properties enc max_num_ref_frames_0 max_num_ref_frames_1).idr_period ∧
    (reset_properties enc max_num_ref_frames_0 max_num_ref_frames_1).max_pic_order_cnt
      = 2 ^ h265_get_log2_max_pic_order_cnt
        (reset_properties enc max_num_ref_frames_0 max_num_ref_frames_1).idr_period ∧
    (reset_properties enc max_num_ref_frames_0 max_num_ref_frames_1).reorder_pool.frame_index
      = 0 ∧
    (reset_properties enc max_num_ref_frames_0 max_num_ref_frames_1).reorder_pool.reorder_frame_list
      = enc.reorder_pool.reorder_frame_list ∧
    (reset_properties enc max_num_ref_frames_0 max_num_ref_frames_1).reorder_pool.reorder_state
      = enc.reorder_pool.reorder_state := by
  refine ⟨rfl, ?_, rfl, rfl, rfl⟩
  show 1 <<< _ = 2 ^ _
  rw [Nat.shiftLeft_eq, Nat.one_mul]
  rfl

/-- C38: the width of the POC. `h265_get_log2_max_pic_order_cnt (n)` is the bit
length of `n` clamped to 4..16, `min (16, max (4, bitlength (n)))`, for every
32-bit `n`. For an encoder configured by `gst_vaapi_encoder_h265_init` and
`reset_properties`: `log2_max_pic_order_cnt` is that value for `idr_period`, so the
element `log2_max_pic_order_cnt_lsb_minus4` of the SPS, written as
`log2_max_pic_order_cnt - 4`, lies in 0..12; `max_pic_order_cnt` is
`2 ^ h265_get_log2_max_pic_order_cnt (idr_period)`; and with `idr_period < 65536`
it is above `idr_period`, and after any sequence of calls of
`gst_vaapi_encoder_h265_reordering` (frames or NULL) the picture created for the
next frame is returned or buffered and is either an IDR picture of POC 0 or has
the POC `cur_present_index + 1`, one more than the POC of the picture created
before it, without reduction modulo `max_pic_order_cnt` (the POC is below
`idr_period`); `cur_present_index` is then the POC of the new picture. -/
theorem C38_poc_width (enc0 enc : Encoder) (max_num_ref_frames_0 max_num_ref_frames_1 : Nat)
    (calls : List (Option GstVideoCodecFrame)) (frame : GstVideoCodecFrame)
    (seq_param : VAEncSequenceParameterBufferHEVC) (rate_control : GstVaapiRateControl)
    (buffer_size : Nat)
    (henc : enc = reset_properties (gst_vaapi_encoder_h265_init enc0) max_num_ref_frames_0
      max_num_ref_frames_1) :
    (∀ (n : Nat), n < 2 ^ 32 →
      h265_get_log2_max_pic_order_cnt n = min 16 (max 4 (Nat.size n))) ∧
    enc.log2_max_pic_order_cnt = h265_get_log2_max_pic_order_cnt enc.idr_period ∧
    SyntaxElement.ue ((enc.log2_max_pic_order_cnt + 2 ^ 32 - 4) % 2 ^ 32)
      ∈ sps_elements enc seq_param rate_control buffer_size ∧
    (enc.log2_max_pic_order_cnt + 2 ^ 32 - 4) % 2 ^ 32 = enc.log2_max_pic_order_cnt - 4 ∧
    4 ≤ enc.log2_max_pic_order_cnt ∧ enc.log2_max_pic_order_cnt - 4 ≤ 12 ∧
    enc.max_pic_order_cnt = 2 ^ h265_get_log2_max_pic_order_cnt enc.idr_period ∧
    (enc.idr_period < 65536 →
      enc.idr_period < enc.max_pic_order_cnt ∧
      ∃ (v : GstVaapiEncoderStatus × Option GstVaapiEncPicture) (encoder1 : Encoder)
        (picture : GstVaapiEncPicture),
        gst_vaapi_encoder_h265_reordering (reordering_calls enc calls).enc (some frame)
          = Outcome.ret v encoder1 ∧
        picture.frame = frame ∧
        (v.2 = some picture ∨ picture ∈ encoder1.reorder_pool.reorder_frame_list) ∧
        ((picture.idr = true ∧ picture.type = I ∧ picture.poc = 0) ∨
          (picture.idr = false ∧
            picture.poc
              = (reordering_calls enc calls).enc.reorder_pool.cur_present_index + 1 ∧
            picture.poc < enc.idr_period ∧ picture.poc < enc.max_pic_order_cnt)) ∧
        encoder1.reorder_pool.cur_present_index = picture.poc ∧
        encoder1.reorder_pool.frame_index = picture.poc + 1) := by
  obtain ⟨hlog, hmaxv, hfi, hq, hs⟩ := reset_properties_poc (gst_vaapi_encoder_h265_init enc0)
    max_num_ref_frames_0 max_num_ref_frames_1
  rw [← henc] at hlog hmaxv hfi hq hs
  have hq0 : enc.reorder_pool.reorder_frame_list = [] := hq
  have hs0 : enc.reorder_pool.reorder_state = REORD_NONE := hs
  have hrange := h265_get_log2_max_pic_order_cnt_range enc.idr_period
  rw [← hlog] at hrange
  refine ⟨h265_get_log2_max_pic_order_cnt_eq, hlog, ?_, ?_, hrange.1, by omega, hmaxv, ?_⟩
  · simp [sps_elements]
  · omega
  · intro hidr
    have hmax : enc.idr_period < enc.max_pic_order_cnt := by
      rw [hmaxv]
      exact (lt_max_pic_order_cnt enc.idr_period hidr).1
    refine ⟨hmax, ?_⟩
    have hlen0 : enc.reorder_pool.reorder_frame_list.length ≤ enc.num_bframes := by
      rw [hq0]
      exact Nat.zero_le _
    have hst0 : enc.reorder_pool.reorder_state ≠ REORD_NONE → enc.num_bframes ≠ 0 :=
      fun hne => absurd hs0 hne
    obtain ⟨_, b2, b3, b4⟩ := reordering_calls_bound calls enc hlen0 hst0
    obtain ⟨c1, c2, c3⟩ := reordering_calls_counters calls enc hlen0 hst0 hidr hmax (Or.inl hfi)
    obtain ⟨v, e1, p, hcall, hp, hwhere, hpoc, hcur, hnext, _, _⟩ :=
      reordering_frame_poc (reordering_calls enc calls).enc frame (by rw [b2]; exact b3)
        (by rw [b2]; exact b4) (by rw [c1]; exact hidr) (by rw [c1, c2]; exact hmax) c3
    refine ⟨v, e1, p, hcall, hp, hwhere, ?_, hcur, hnext⟩
    rcases hpoc with h | ⟨h1, h2, h3⟩
    · exact Or.inl h
    · rw [c1] at h3
      exact Or.inr ⟨h1, h2, by omega, by omega⟩

/-- C38, witness: scenario B (IDR period 4, POC width 4, `max_pic_order_cnt = 16`)
after the frames 0, 1 and 2: the picture of the frame 3 is returned with the
POC 3. -/
theorem C38_poc_width_witness :
    scenario_b.idr_period = 4 ∧ scenario_b.log2_max_pic_order_cnt = 4 ∧
    scenario_b.max_pic_order_cnt = 16 ∧
    ((gst_vaapi_encoder_h265_reordering
      (reordering_calls scenario_b [some { id := 0 }, none, some { id := 1 },
        some { id := 2 }]).enc (some { id := 3 })).value?.map
        (fun v => v.2.map (fun (p : GstVaapiEncPicture) => (p.frame.id, p.poc))))
      = some (some (3, 3)) ∧
    (scenario_b.idr_period < 65536 →
      scenario_b.idr_period < scenario_b.max_pic_order_cnt ∧
      ∃ (v : GstVaapiEncoderStatus × Option GstVaapiEncPicture) (encoder1 : Encoder)
        (picture : GstVaapiEncPicture),
        gst_vaapi_encoder_h265_reordering
            (reordering_calls scenario_b [some { id := 0 }, none, some { id := 1 },
              some { id := 2 }]).enc (some { id := 3 })
          = Outcome.ret v encoder1 ∧
        picture.frame = { id := 3 } ∧
        (v.2 = some picture ∨ picture ∈ encoder1.reorder_pool.reorder_frame_list) ∧
        ((picture.idr = true ∧ picture.type = I ∧ picture.poc = 0) ∨
          (picture.idr = false ∧
            picture.poc
              = (reordering_calls scenario_b [some { id := 0 }, none, some { id := 1 },
                some { id := 2 }]).enc.reorder_pool.cur_present_index + 1 ∧
            picture.poc < scenario_b.idr_period ∧
            picture.poc < scenario_b.max_pic_order_cnt)) ∧
        encoder1.reorder_pool.cur_present_index = picture.poc ∧
        encoder1.reorder_pool.frame_index = picture.poc + 1) :=
  ⟨by decide, by decide, by decide, by decide,
    (C38_poc_width
      { num_bframes := 2, keyframe_period := 4, idr_period := 4, num_ref_frames := 1 }
      scenario_b 1 1 [some { id := 0 }, none, some { id := 1 }, some { id := 2 }] { id := 3 }
      sample_seq_param GstVaapiRateControl.CQP 0 rfl).2.2.2.2.2.2.2⟩

/-! ## The range of the slice QP -/

/-- What `reset_properties` establishes for the quantizers, leaving `init_qp`,
`qp_ip`, `qp_ib` and the rate control. -/
theorem reset_properties_qp (enc : Encoder) (max_num_ref_frames_0 max_num_ref_frames_1 : Nat) :
    (reset_properties enc max_num_ref_frames_0 max_num_ref_frames_1).min_qp
      ≤ (reset_properties enc max_num_ref_frames_0 max_num_ref_frames_1).init_qp ∧
    (reset_properties enc max_num_ref_frames_0 max_num_ref_frames_1).init_qp
      ≤ (reset_properties enc max_num_ref_frames_0 max_num_ref_frames_1).max_qp ∧
    (reset_properties enc max_num_ref_frames_0 max_num_ref_frames_1).qp_i
      = (reset_properties enc max_num_ref_frames_0 max_num_ref_frames_1).init_qp ∧
    (reset_properties enc max_num_ref_frames_0 max_num_ref_frames_1).init_qp = enc.init_qp ∧
    (reset_properties enc max_num_ref_frames_0 max_num_ref_frames_1).max_qp
      = max enc.max_qp enc.init_qp ∧
    (reset_properties enc max_num_ref_frames_0 max_num_ref_frames_1).qp_ip = enc.qp_ip ∧
    (reset_properties enc max_num_ref_frames_0 max_num_ref_frames_1).qp_ib = enc.qp_ib ∧
    (reset_properties enc max_num_ref_frames_0 max_num_ref_frames_1).rate_control
      = enc.rate_control := by
  have hmin : (reset_properties enc max_num_ref_frames_0 max_num_ref_frames_1).min_qp
      = if enc.min_qp > enc.init_qp then enc.init_qp else enc.min_qp := rfl
  have hmax : (reset_properties enc max_num_ref_frames_0 max_num_ref_frames_1).max_qp
      = if enc.max_qp < enc.init_qp then enc.init_qp else enc.max_qp := rfl
  have hinit : (reset_properties enc max_num_ref_frames_0 max_num_ref_frames_1).init_qp
      = enc.init_qp := rfl
  refine ⟨?_, ?_, rfl, rfl, ?_, rfl, rfl, rfl⟩
  · rw [hmin, hinit]
    split_ifs <;> omega
  · rw [hmax, hinit]
    split_ifs <;> omega
  · rw [hmax]
    split_ifs <;> omega

/-- A value of -128..127 is kept by the conversion to `int8_t`. -/
theorem int8_of_eq (value : Int) (h1 : -128 ≤ value) (h2 : value < 128) :
    int8_of value = value := by
  unfold int8_of
  omega

/-- A `guint32` below `2 ^ 31` read as a `gint` keeps its value. -/
theorem gint_of_eq (value : Int) (h1 : -2 ^ 31 ≤ value) (h2 : value < 2 ^ 31) :
    gint_of value = value := by
  unfold gint_of
  omega

/-- The `guint32` difference of two quantizers, stored in an `int8_t`, is their
signed difference when that lies in -128..127. -/
theorem int8_of_difference (a b : Nat) (ha : a < 2 ^ 32) (hb : b < 2 ^ 32)
    (h1 : -128 ≤ (a : Int) - b) (h2 : (a : Int) - b < 128) :
    int8_of (((a % 2 ^ 32 + 2 ^ 32 - b % 2 ^ 32) % 2 ^ 32 : Nat) : Int) = (a : Int) - b := by
  rw [Nat.mod_eq_of_lt ha, Nat.mod_eq_of_lt hb]
  unfold int8_of
  omega

/-- The value of a `guint32` field that holds a number of -51..51, added to 0 and
stored in an `int8_t`, is that number. -/
theorem int8_of_stored (qp : Nat) (h : qp ≤ 51 ∨ (2 ^ 32 - 51 ≤ qp ∧ qp < 2 ^ 32)) :
    -51 ≤ int8_of (0 + ((qp % 2 ^ 32 : Nat) : Int)) ∧
    int8_of (0 + ((qp % 2 ^ 32 : Nat) : Int)) ≤ 51 := by
  unfold int8_of
  omega

/-- The two clamps of `create_and_fill_one_slice` on a difference of -51..51. -/
theorem slice_qp_clamps (init lo hi : Nat) (delta : Int) (hmin : lo ≤ init) (hmax : init ≤ hi)
    (hinit : init + 51 < 2 ^ 31) (hbound : hi < 2 ^ 31) (h1 : -51 ≤ delta) (h2 : delta ≤ 51) :
    (lo : Int) ≤ (init : Int) +
      (if gint_of (gint_of (init : Int) +
          (if gint_of (gint_of (init : Int) + delta) < gint_of (lo : Int) then
            int8_of (((lo % 2 ^ 32 + 2 ^ 32 - init % 2 ^ 32) % 2 ^ 32 : Nat) : Int)
          else delta)) > gint_of (hi : Int) then
        int8_of (((hi % 2 ^ 32 + 2 ^ 32 - init % 2 ^ 32) % 2 ^ 32 : Nat) : Int)
      else
        (if gint_of (gint_of (init : Int) + delta) < gint_of (lo : Int) then
          int8_of (((lo % 2 ^ 32 + 2 ^ 32 - init % 2 ^ 32) % 2 ^ 32 : Nat) : Int)
        else delta)) ∧
    (init : Int) +
      (if gint_of (gint_of (init : Int) +
          (if gint_of (gint_of (init : Int) + delta) < gint_of (lo : Int) then
            int8_of (((lo % 2 ^ 32 + 2 ^ 32 - init % 2 ^ 32) % 2 ^ 32 : Nat) : Int)
          else delta)) > gint_of (hi : Int) then
        int8_of (((hi % 2 ^ 32 + 2 ^ 32 - init % 2 ^ 32) % 2 ^ 32 : Nat) : Int)
      else
        (if gint_of (gint_of (init : Int) + delta) < gint_of (lo : Int) then
          int8_of (((lo % 2 ^ 32 + 2 ^ 32 - init % 2 ^ 32) % 2 ^ 32 : Nat) : Int)
        else delta)) ≤ (hi : Int) ∧
    (delta = 0 →
      (if gint_of (gint_of (init : Int) +
          (if gint_of (gint_of (init : Int) + delta) < gint_of (lo : Int) then
            int8_of (((lo % 2 ^ 32 + 2 ^ 32 - init % 2 ^ 32) % 2 ^ 32 : Nat) : Int)
          else delta)) > gint_of (hi : Int) then
        int8_of (((hi % 2 ^ 32 + 2 ^ 32 - init % 2 ^ 32) % 2 ^ 32 : Nat) : Int)
      else
        (if gint_of (gint_of (init : Int) + delta) < gint_of (lo : Int) then
          int8_of (((lo % 2 ^ 32 + 2 ^ 32 - init % 2 ^ 32) % 2 ^ 32 : Nat) : Int)
        else delta)) = 0) := by
  have g1 : gint_of (init : Int) = init := gint_of_eq _ (by omega) (by omega)
  have g2 : gint_of (lo : Int) = lo := gint_of_eq _ (by omega) (by omega)
  have g3 : gint_of (hi : Int) = hi := gint_of_eq _ (by omega) (by omega)
  have g4 : gint_of ((init : Int) + delta) = init + delta := gint_of_eq _ (by omega) (by omega)
  rw [g1, g2, g3, g4]
  by_cases hlow : (init : Int) + delta < lo
  · have hd : int8_of (((lo % 2 ^ 32 + 2 ^ 32 - init % 2 ^ 32) % 2 ^ 32 : Nat) : Int)
        = (lo : Int) - init :=
      int8_of_difference lo init (by omega) (by omega) (by omega) (by omega)
    rw [if_pos hlow, hd]
    have g5 : gint_of ((init : Int) + ((lo : Int) - init)) = lo := by
      rw [gint_of_eq _ (by omega) (by omega)]
      omega
    rw [g5]
    have hnot : ¬ ((lo : Int) > hi) := by omega
    rw [if_neg hnot]
    exact ⟨by omega, by omega, fun h0 => by omega⟩
  · rw [if_neg hlow, g4]
    by_cases hhigh : (init : Int) + delta > hi
    · have hd : int8_of (((hi % 2 ^ 32 + 2 ^ 32 - init % 2 ^ 32) % 2 ^ 32 : Nat) : Int)
          = (hi : Int) - init :=
        int8_of_difference hi init (by omega) (by omega) (by omega) (by omega)
      rw [if_pos hhigh, hd]
      exact ⟨by omega, by omega, fun h0 => by omega⟩
    · rw [if_neg hhigh]
      exact ⟨by omega, by omega, fun h0 => h0⟩

/-- The value of `slice_qp_delta` for quantizers in order: in CQP mode the slice
QP lies between `min_qp` and `max_qp`; for an I picture, and in every other mode,
the difference is 0. -/
theorem slice_qp_delta_range (enc : Encoder) (picture : GstVaapiEncPicture)
    (hmin : enc.min_qp ≤ enc.init_qp) (hmax : enc.init_qp ≤ enc.max_qp)
    (hqp : enc.qp_i = enc.init_qp) (hinit : enc.init_qp + 51 < 2 ^ 31)
    (hbound : enc.max_qp < 2 ^ 31)
    (hip : enc.qp_ip ≤ 51 ∨ (2 ^ 32 - 51 ≤ enc.qp_ip ∧ enc.qp_ip < 2 ^ 32))
    (hib : enc.qp_ib ≤ 51 ∨ (2 ^ 32 - 51 ≤ enc.qp_ib ∧ enc.qp_ib < 2 ^ 32)) :
    (enc.rate_control = GstVaapiRateControl.CQP →
      (enc.min_qp : Int) ≤ (enc.init_qp : Int) + slice_qp_delta enc picture ∧
      (enc.init_qp : Int) + slice_qp_delta enc picture ≤ (enc.max_qp : Int)) ∧
    (picture.type = I → slice_qp_delta enc picture = 0) ∧
    (enc.rate_control ≠ GstVaapiRateControl.CQP → slice_qp_delta enc picture = 0) := by
  have h0 : (enc.qp_i % 2 ^ 32 + 2 ^ 32 - enc.init_qp % 2 ^ 32) % 2 ^ 32 = 0 := by
    rw [hqp]
    omega
  have hz : int8_of ((0 : Nat) : Int) = 0 := by decide
  have hclamp := slice_qp_clamps enc.init_qp enc.min_qp enc.max_qp
  unfold slice_qp_delta
  simp only [h0, hz]
  refine ⟨?_, ?_, ?_⟩
  · intro hcqp
    rw [if_pos hcqp]
    by_cases hP : picture.type = P
    · simp only [if_pos hP]
      have h := hclamp _ hmin hmax hinit hbound (int8_of_stored enc.qp_ip hip).1
        (int8_of_stored enc.qp_ip hip).2
      exact ⟨h.1, h.2.1⟩
    · by_cases hB : picture.type = B
      · simp only [if_neg hP, if_pos hB]
        have h := hclamp _ hmin hmax hinit hbound (int8_of_stored enc.qp_ib hib).1
          (int8_of_stored enc.qp_ib hib).2
        exact ⟨h.1, h.2.1⟩
      · simp only [if_neg hP, if_neg hB]
        have h := hclamp 0 hmin hmax hinit hbound (by decide) (by decide)
        exact ⟨h.1, h.2.1⟩
  · intro hI
    have hP : ¬ picture.type = P := by rw [hI]; decide
    have hB : ¬ picture.type = B := by rw [hI]; decide
    simp only [if_neg hP, if_neg hB]
    have h := hclamp 0 hmin hmax hinit hbound (by decide) (by decide)
    by_cases hcqp : enc.rate_control = GstVaapiRateControl.CQP
    · rw [if_pos hcqp]
      exact h.2.2 rfl
    · rw [if_neg hcqp]
  · intro hcqp
    rw [if_neg hcqp]

/-- C39: the slice QP stays within the configured range. After `reset_properties`
(which establishes `min_qp <= init_qp <= max_qp` and `qp_i = init_qp`), for every
picture type and every `qp_ip`, `qp_ib` in -51..51 (stored in the `guint32` fields,
a negative value `-v` as `2 ^ 32 - v`), with quantizers that are non-negative as
`gint` (`init_qp + 51 < 2 ^ 31`, `max_qp < 2 ^ 31`; the properties allow 0..51), the
`slice_qp_delta` that `create_and_fill_one_slice` stores satisfies in CQP mode
`min_qp <= init_qp + slice_qp_delta <= max_qp`; for an I picture, and for every
picture in a mode other than CQP, `slice_qp_delta = 0`. -/
theorem C39_slice_qp_within_range (enc0 enc : Encoder)
    (max_num_ref_frames_0 max_num_ref_frames_1 : Nat) (picture : GstVaapiEncPicture)
    (reflist_0 reflist_1 : List GstVaapiEncoderH265Ref)
    (henc : enc = reset_properties enc0 max_num_ref_frames_0 max_num_ref_frames_1)
    (hinit : enc0.init_qp + 51 < 2 ^ 31) (hbound : enc0.max_qp < 2 ^ 31)
    (hip : enc0.qp_ip ≤ 51 ∨ (2 ^ 32 - 51 ≤ enc0.qp_ip ∧ enc0.qp_ip < 2 ^ 32))
    (hib : enc0.qp_ib ≤ 51 ∨ (2 ^ 32 - 51 ≤ enc0.qp_ib ∧ enc0.qp_ib < 2 ^ 32)) :
    enc.min_qp ≤ enc.init_qp ∧ enc.init_qp ≤ enc.max_qp ∧ enc.qp_i = enc.init_qp ∧
    (create_and_fill_one_slice enc picture reflist_0 reflist_1).slice_qp_delta
      = slice_qp_delta enc picture ∧
    (enc.rate_control = GstVaapiRateControl.CQP →
      (enc.min_qp : Int) ≤ (enc.init_qp : Int) + slice_qp_delta enc picture ∧
      (enc.init_qp : Int) + slice_qp_delta enc picture ≤ (enc.max_qp : Int)) ∧
    (picture.type = I → slice_qp_delta enc picture = 0) ∧
    (enc.rate_control ≠ GstVaapiRateControl.CQP → slice_qp_delta enc picture = 0) := by
  obtain ⟨q1, q2, q3, q4, q5, q6, q7, _⟩ :=
    reset_properties_qp enc0 max_num_ref_frames_0 max_num_ref_frames_1
  rw [← henc] at q1 q2 q3 q4 q5 q6 q7
  have hrange := slice_qp_delta_range enc picture q1 q2 q3 (by rw [q4]; exact hinit)
    (by rw [q5]; exact max_lt hbound (by omega)) (by rw [q6]; exact hip) (by rw [q7]; exact hib)
  exact ⟨q1, q2, q3, rfl, hrange.1, hrange.2.1, hrange.2.2⟩

/-- C39, witness: CQP with `init_qp = 26`, `min_qp = 20`, `max_qp = 30`, `qp_ip = 10` and
`qp_ib = -10`: a P picture gets `slice_qp_delta = 4` (QP 30, the maximum), a B picture
`-6` (QP 20, the minimum), an I picture 0. -/
theorem C39_slice_qp_within_range_witness :
    slice_qp_delta scenario_cqp { type := P } = 4 ∧
    slice_qp_delta scenario_cqp { type := B } = -6 ∧
    slice_qp_delta scenario_cqp { type := I } = 0 ∧
    (scenario_cqp.min_qp : Int)
      ≤ (scenario_cqp.init_qp : Int) + slice_qp_delta scenario_cqp { type := B } ∧
    (scenario_cqp.init_qp : Int) + slice_qp_delta scenario_cqp { type := B }
      ≤ (scenario_cqp.max_qp : Int) :=
  ⟨by decide, by decide, by decide,
    (C39_slice_qp_within_range scenario_cqp_properties scenario_cqp 1 1 { type := B } [] [] rfl
      (by decide) (by decide) (by decide) (by decide)).2.2.2.2.1 (by decide)⟩

/-! ## Order properties of the modular comparison -/

/-- C40: order properties of `_poc_greater_than` for `max_poc = 2 ^ k` with
`1 <= k <= 31` (a `guint` power of two). It is reflexive; for `a` and `b` whose
difference modulo `max_poc` is neither 0 nor `max_poc / 2` exactly one of
`_poc_greater_than (a, b, max_poc)` and `_poc_greater_than (b, a, max_poc)`
holds; and when the difference modulo `max_poc` is `max_poc / 2` both are
false. -/
theorem C40_poc_greater_than_order (k a b : Nat) (hk1 : 1 ≤ k) (hk : k ≤ 31) :
    _poc_greater_than a a (2 ^ k) = true ∧
    (((a : Int) - (b : Int)) % ((2 ^ k : Nat) : Int) ≠ 0 →
      ((a : Int) - (b : Int)) % ((2 ^ k : Nat) : Int) ≠ ((2 ^ k : Nat) : Int) / 2 →
      (_poc_greater_than a b (2 ^ k) = true ∧ _poc_greater_than b a (2 ^ k) = false) ∨
      (_poc_greater_than a b (2 ^ k) = false ∧ _poc_greater_than b a (2 ^ k) = true)) ∧
    (((a : Int) - (b : Int)) % ((2 ^ k : Nat) : Int) = ((2 ^ k : Nat) : Int) / 2 →
      _poc_greater_than a b (2 ^ k) = false ∧ _poc_greater_than b a (2 ^ k) = false) := by
  have hpow : 2 ^ k < 2 ^ 32 := Nat.pow_lt_pow_right (by decide) (by omega)
  have hiff : ∀ x y : Nat, _poc_greater_than x y (2 ^ k) = true ↔
      ((x : Int) - (y : Int)) % ((2 ^ k : Nat) : Int) < ((2 ^ k : Nat) : Int) / 2 := by
    intro x y
    rw [← poc_masked_difference k x y hk]
    unfold _poc_greater_than
    rw [decide_eq_true_iff, Nat.mod_eq_of_lt hpow]
    have hhalf : (((2 ^ k : Nat) : Int)) / 2 = ((2 ^ k / 2 : Nat) : Int) := by norm_cast
    rw [hhalf, Int.ofNat_lt]
  have hfalse : ∀ x y : Nat, _poc_greater_than x y (2 ^ k) = false ↔
      ¬ (((x : Int) - (y : Int)) % ((2 ^ k : Nat) : Int) < ((2 ^ k : Nat) : Int) / 2) := by
    intro x y
    rw [← hiff x y]
    simp
  obtain ⟨j, hj⟩ : ∃ j, k = j + 1 := ⟨k - 1, by omega⟩
  have hM : ((2 ^ k : Nat) : Int) = 2 * ((2 ^ j : Nat) : Int) := by
    rw [hj, pow_succ]
    push_cast
    ring
  have hH : (0 : Int) < ((2 ^ j : Nat) : Int) := by
    exact_mod_cast Nat.pow_pos (by decide)
  generalize hMdef : ((2 ^ k : Nat) : Int) = M at hiff hfalse hM ⊢
  generalize hHdef : ((2 ^ j : Nat) : Int) = H at hM hH
  have hhalf : M / 2 = H := by omega
  have hMpos : 0 < M := by omega
  have hd1 := Int.emod_nonneg ((a : Int) - (b : Int)) (ne_of_gt hMpos)
  have hd2 := Int.emod_lt_of_pos ((a : Int) - (b : Int)) hMpos
  have he1 := Int.emod_nonneg ((b : Int) - (a : Int)) (ne_of_gt hMpos)
  have he2 := Int.emod_lt_of_pos ((b : Int) - (a : Int)) hMpos
  have hsum : (((a : Int) - (b : Int)) % M + ((b : Int) - (a : Int)) % M) % M = 0 := by
    rw [← Int.add_emod]
    have : (a : Int) - (b : Int) + ((b : Int) - (a : Int)) = 0 := by ring
    rw [this]
    simp
  obtain ⟨q, hq⟩ := Int.dvd_of_emod_eq_zero hsum
  have hq0 : 0 ≤ q := by
    by_contra hneg
    have hq1 : q ≤ -1 := by omega
    have : M * q ≤ M * (-1) := Int.mul_le_mul_of_nonneg_left hq1 (le_of_lt hMpos)
    omega
  have hq2 : q ≤ 1 := by
    by_contra hbig
    have hq1 : 2 ≤ q := by omega
    have : M * 2 ≤ M * q := Int.mul_le_mul_of_nonneg_left hq1 (le_of_lt hMpos)
    omega
  have hcases : ((a : Int) - (b : Int)) % M + ((b : Int) - (a : Int)) % M = 0 ∨
      ((a : Int) - (b : Int)) % M + ((b : Int) - (a : Int)) % M = M := by
    rcases (show q = 0 ∨ q = 1 by omega) with h | h
    · left; rw [hq, h]; simp
    · right; rw [hq, h]; simp
  have hab := hiff a b
  have hba := hiff b a
  have fab := hfalse a b
  have fba := hfalse b a
  have haa := hiff a a
  clear hiff hfalse
  generalize ((a : Int) - (b : Int)) % M = d at *
  generalize ((b : Int) - (a : Int)) % M = e at *
  refine ⟨?_, ?_, ?_⟩
  · rw [haa]
    simp only [sub_self, Int.zero_emod]
    omega
  · intro h0 hne
    by_cases hlt : d < M / 2
    · left
      exact ⟨hab.2 hlt, fba.2 (by omega)⟩
    · right
      exact ⟨fab.2 hlt, hba.2 (by omega)⟩
  · intro heq
    exact ⟨fab.2 (by omega), fba.2 (by omega)⟩

/-- C40, witness: `max_poc = 16`: 3 against 1 is greater and 1 against 3 is not;
9 against 1, at the distance 8, is not greater either way. -/
theorem C40_poc_greater_than_order_witness :
    (_poc_greater_than 3 3 (2 ^ 4) = true ∧
      (((3 : Nat) : Int) - ((1 : Nat) : Int)) % ((2 ^ 4 : Nat) : Int) ≠ 0 ∧
      (_poc_greater_than 3 1 (2 ^ 4) = true ∧ _poc_greater_than 1 3 (2 ^ 4) = false)) ∧
    (((9 : Nat) : Int) - ((1 : Nat) : Int)) % ((2 ^ 4 : Nat) : Int) = ((2 ^ 4 : Nat) : Int) / 2 ∧
    _poc_greater_than 9 1 (2 ^ 4) = false ∧ _poc_greater_than 1 9 (2 ^ 4) = false :=
  ⟨⟨(C40_poc_greater_than_order 4 3 1 (by decide) (by decide)).1, by decide, by decide⟩,
    by decide, (C40_poc_greater_than_order 4 9 1 (by decide) (by decide)).2.2 (by decide)⟩

end GstVaapiEncoderH265
